import Mathlib

/-!
Tiling parameters of the padded-GEMM weight-gradient XDLOPS solver.

A shallow embedding of
`src/solver/conv_hip_implicit_gemm_wrw_v4r4_xdlops_padded_gemm.cpp`.

Conventions of the embedding.

* A C++ `int` is an `Int`. Where the source adds or multiplies `int`s and then widens
  or divides the result (`CalculateLdsNumberOfByte`, the grid size of
  `IsFastToBeUsedForTuning` and `GetWorkspaceSize`), the result is reduced to 32 bits in
  two's complement by `to_int`, as the compiled code does. Elsewhere `int` arithmetic is
  exact, so the statements there speak about executions without signed overflow.
* An `int` division by zero does not return. `CalculateGemmSizeAndGemmKBlock_checked`
  and `IsFastToBeUsedForTuning_checked` test every divisor and give `none` for a zero
  divisor; the plain functions use the total division of `Int`, which gives the value of
  every execution that does not divide by zero.
* `/` and `%` on `int` truncate towards zero: they are `Int.tdiv` and `Int.tmod`.
* A `std::size_t` is a `Nat` below `2 ^ 64`; the conversion of an `int` to
  `std::size_t` and the arithmetic on `std::size_t` are taken modulo `2 ^ 64`.
* `MIOPEN_THROW` inside `try { ... } catch(...) { return failure; }` is an early
  return of the failure tuple.
* A `std::tuple` result is a structure whose fields carry the names of the local
  variables the source packs into the tuple.
* The helpers `gcd`, `lcm`, `IsTwoPower`, `NextTwoPower`, `PreviousTwoPower` and
  `NextFlag` of the utility header are not part of the source file; they are
  modelled from the specification.
* The retry loop of `HeuristicInit` carries an iteration budget and returns an
  `Option`; the theorems show that a budget of 21168 iterations always suffices.
* The `float` comparison of `IsFastToBeUsedForTuning` is a parameter of the
  embedding; `ieeeRatioTest` evaluates it as IEEE 754 prescribes, on rationals with
  explicit rounding to 24 and 53 bits.
* `heuristicDescentEvaluated` and `get_euristic_config_evaluated` follow the descent loop
  of `HeuristicInit` and collect the candidates it passes to its predicate.
-/

namespace miopen
namespace solver

/-- The datatype classes a convolution context distinguishes through `IsFp32`,
`IsFp16` and `IsBfp16`; `other` stands for every remaining datatype. -/
inductive DataType where
  | fp32
  | fp16
  | bfp16
  | other
  deriving DecidableEq, Repr

/-- Modelled from the spec: the read-only workload descriptor (`ConvolutionContext`
with the accessors of `ConvolutionContextInterpreter`), whose declaration is not
part of the source file. Each field is the value the accessor of the same name
returns; the last five fields are the hardware limits the source reads through
`GetMaxComputeUnits`, `amd_buffer_load_max_length<T>`, `amd_lds_write_max_length<T>`
and `get_lds_max_number_of_byte`. -/
structure ConvolutionContext where
  dataType : DataType
  GetGroupCountG : Int
  GetBatchN : Int
  GetOutputChannelK : Int
  GetInputChannelC : Int
  GetOutputHeightHo : Int
  GetOutputWidthWo : Int
  GetFilterHeightY : Int
  GetFilterWidthX : Int
  GetAdjustedConvolutionStrideH : Int
  GetAdjustedConvolutionStrideW : Int
  GetAdjustedConvolutionDilationW : Int
  GetInputLeftPadH : Int
  GetInputLeftPadW : Int
  GetAdjustedInputRightPadH : Int
  GetAdjustedInputRightPadW : Int
  GetMaxComputeUnits : Nat
  amd_buffer_load_max_length_float : Int
  amd_buffer_load_max_length_half : Int
  amd_lds_write_max_length_float : Int
  amd_lds_write_max_length_half : Int
  get_lds_max_number_of_byte : Nat

/-- The test `ctx.IsFp32()`. -/
def ConvolutionContext.IsFp32 (ctx : ConvolutionContext) : Bool :=
  ctx.dataType == DataType.fp32

/-- The test `ctx.IsFp16()`. -/
def ConvolutionContext.IsFp16 (ctx : ConvolutionContext) : Bool :=
  ctx.dataType == DataType.fp16

/-- The test `ctx.IsBfp16()`. -/
def ConvolutionContext.IsBfp16 (ctx : ConvolutionContext) : Bool :=
  ctx.dataType == DataType.bfp16

/-- The type of the external matrix-core legality predicate
`IsValidBlockwiseGemmXdlops(ctx, GemmMPerBlock, GemmNPerBlock, GemmKPerBlock,
GemmMPerWave, GemmNPerWave, GemmKPack)`; the predicate itself is defined outside
the source file and is a parameter of everything that calls it. -/
abbrev BlockwiseGemmXdlopsCheck : Type :=
  ConvolutionContext → Int → Int → Int → Int → Int → Int → Bool

/-- Modelled from the spec: the two-argument helper `gcd` of the utility header,
the greatest common divisor of two `int`s. -/
def gcd (x y : Int) : Int :=
  (Int.gcd x y : Int)

/-- Modelled from the spec: the helper `lcm` of the utility header, the least
common multiple of two `int`s. -/
def lcm (x y : Int) : Int :=
  (Int.lcm x y : Int)

/-- Modelled from the spec: the helper `IsTwoPower<L, H>(v)` of the utility
header, `v` is a power of two of the `int` range and `L <= v <= H`. -/
def IsTwoPower (L H v : Int) : Bool :=
  (List.range 31).any (fun e => v == 2 ^ e) && decide (L ≤ v) && decide (v ≤ H)

/-- Modelled from the spec: the helper `NextTwoPower<L, H>(v)` of the utility header,
one step of a counter digit over the powers of two of `[L, H]`. The first component is
the new value of `v`, the second the returned flag: at the maximum `H` the value wraps to
the minimum `L` and the call returns true (a carry); otherwise the value is doubled and
the call returns false. -/
def NextTwoPower (L H v : Int) : Int × Bool :=
  if v = H then (L, true) else (v * 2, false)

/-- Modelled from the spec: the helper `PreviousTwoPower<L, H>(v)` of the utility header,
one reverse step of a counter digit over the powers of two of `[L, H]`: at the minimum `L`
the value wraps to the maximum `H` and the call returns true (a carry); otherwise the
value is halved and the call returns false. -/
def PreviousTwoPower (L H v : Int) : Int × Bool :=
  if v = L then (H, true) else (v.tdiv 2, false)

/-- Modelled from the spec: the helper `NextFlag<L, H>(v)` of the utility header, one
step of a counter digit over the flag values from `L` to `H`: at the maximum `H` the flag
wraps to `L` and the call returns true (a carry); otherwise the flag becomes `H` and the
call returns false. -/
def NextFlag (L H v : Bool) : Bool × Bool :=
  if v = H then (L, true) else (H, false)

/-- The type of the floating-point test of `IsFastToBeUsedForTuning`: `ratio_gt g m c`
stands for the outcome of `float(g) / m > c`, where `g` is the `int` `grid_size`, `m` the
`std::size_t` `grid_size_max_blockwise_gemm` and `c` the decimal literal of the source.
Floating-point arithmetic is outside the embedding, so the test is a parameter of
everything that evaluates it. -/
abbrev FloatRatioTest : Type :=
  Int → Nat → Rat → Bool

/-- The conversion of an `int` to `std::size_t`. -/
def to_size_t (v : Int) : Nat :=
  (v % 2 ^ 64).toNat

/-- The value of an `int` expression whose exact value is `v`: the 32-bit two's
complement number congruent to `v` modulo `2 ^ 32`, which is `v` itself when
`-2 ^ 31 <= v < 2 ^ 31`. -/
def to_int (v : Int) : Int :=
  (v + 2 ^ 31) % 2 ^ 32 - 2 ^ 31

/-- The performance configuration `PerformanceImplicitGemmWrwV4R4Xdlops_Padded_Gemm`
(the spec's TileConfig): nine `int` fields and two `bool` fields. -/
structure PerformanceImplicitGemmWrwV4R4Xdlops_Padded_Gemm where
  GemmMPerBlock : Int
  GemmNPerBlock : Int
  GemmKPerBlock : Int
  GemmMPerWave : Int
  GemmNPerWave : Int
  GemmKPack : Int
  GemmMFactor : Int
  GemmNFactor : Int
  GemmKTotalFactor : Int
  GemmAThreadCopyMoreGemmK : Bool
  GemmBThreadCopyMoreGemmK : Bool
  deriving DecidableEq, Repr

/-- The result tuple of `CalculateGemmSizeAndGemmKBlock`. -/
structure GemmSizeAndGemmKBlock where
  gemm_g : Int
  gemm_m : Int
  gemm_n : Int
  gemm_k_total : Int
  gemm_k_block : Int
  gemm_m_pad : Int
  gemm_n_pad : Int
  gemm_k_total_pad : Int
  valid : Bool
  deriving DecidableEq, Repr

/-- The result tuple of the two block-copy parameter functions; `ClusterLengths_GemmMN`
is `ClusterLengths_GemmM` for operand A and `ClusterLengths_GemmN` for operand B. -/
structure BlockCopyPerformanceParameters where
  ClusterLengths_GemmK : Int
  ClusterLengths_GemmMN : Int
  ClusterLengths_GemmKPack : Int
  SrcDataPerRead_GemmKPack : Int
  DstDataPerWrite_GemmKPack : Int
  valid : Bool
  deriving DecidableEq, Repr

namespace PerformanceImplicitGemmWrwV4R4Xdlops_Padded_Gemm

/-- The failure tuple `(-1, -1, -1, -1, -1, -1, -1, -1, false)` of
`CalculateGemmSizeAndGemmKBlock`. -/
def gemmSizeFailure : GemmSizeAndGemmKBlock :=
  { gemm_g := -1, gemm_m := -1, gemm_n := -1, gemm_k_total := -1, gemm_k_block := -1,
    gemm_m_pad := -1, gemm_n_pad := -1, gemm_k_total_pad := -1, valid := false }

/-- The failure tuple `(-1, -1, -1, -1, -1, false)` of the block-copy parameter
functions. -/
def blockCopyFailure : BlockCopyPerformanceParameters :=
  { ClusterLengths_GemmK := -1, ClusterLengths_GemmMN := -1, ClusterLengths_GemmKPack := -1,
    SrcDataPerRead_GemmKPack := -1, DstDataPerWrite_GemmKPack := -1, valid := false }

/-- The function `CalculateBlockSize` (source lines 260-278). -/
def CalculateBlockSize (t : PerformanceImplicitGemmWrwV4R4Xdlops_Padded_Gemm) : Int × Bool :=
  if ¬(t.GemmMPerBlock.tmod t.GemmMPerWave = 0 ∧ t.GemmNPerBlock.tmod t.GemmNPerWave = 0) then
    (-1, false)
  else
    let WaveSize : Int := 64
    let block_size :=
      (t.GemmNPerBlock * t.GemmMPerBlock).tdiv (t.GemmMPerWave * t.GemmNPerWave) * WaveSize
    (block_size, true)

/-- The block size that `IsFastToBeUsedForTuning` recomputes inline (source line 762). -/
def IsFastToBeUsedForTuning_block_size
    (t : PerformanceImplicitGemmWrwV4R4Xdlops_Padded_Gemm) : Int :=
  (t.GemmMPerBlock.tdiv t.GemmMPerWave) * (t.GemmNPerBlock.tdiv t.GemmNPerWave) * 64

/-- The loop `for(; gemm_k_block > 1; gemm_k_block--)` of
`CalculateGemmSizeAndGemmKBlock` (source lines 864-880), by recursion on the loop
counter; the result is the value of `gemm_k_block` when the loop is left. -/
def gemmKBlockLoop (t : PerformanceImplicitGemmWrwV4R4Xdlops_Padded_Gemm) (n ho wo : Int) :
    Nat → Int
  | 0 => 0
  | j + 1 =>
    let gemm_k_block : Int := (j : Int) + 1
    if gemm_k_block > 1 then
      if n.tmod gemm_k_block ≠ 0 then
        gemmKBlockLoop t n ho wo j
      else
        let n_sub := n.tdiv gemm_k_block
        let gemm_k_total_no_pad := n_sub * ho * wo
        let gemm_k_total :=
          ((gemm_k_total_no_pad - 1).tdiv t.GemmKTotalFactor + 1) * t.GemmKTotalFactor
        if ¬(gemm_k_total.tmod (t.GemmKPerBlock * t.GemmKPack) = 0) then
          gemmKBlockLoop t n ho wo j
        else
          gemm_k_block
    else
      gemm_k_block

/-- The two tests one iteration of that loop applies to the candidate `j`: the batch
size is divisible by `j`, and the K-total of the split, padded to `GemmKTotalFactor`, is
divisible by `GemmKPerBlock * GemmKPack` (source lines 866-877). -/
def gemmKBlockAccepts (t : PerformanceImplicitGemmWrwV4R4Xdlops_Padded_Gemm) (n ho wo j : Int) :
    Prop :=
  n.tmod j = 0 ∧
    (((n.tdiv j * ho * wo - 1).tdiv t.GemmKTotalFactor + 1) * t.GemmKTotalFactor).tmod
      (t.GemmKPerBlock * t.GemmKPack) = 0

/-- The function `CalculateGemmSizeAndGemmKBlock` (source lines 816-911), with the total
division of `Int`: the tuple that every execution without a zero divisor returns. The
source's division `max_grid_size / grid_size_without_split_gemmk` (line 861) does not
return for a zero divisor; `CalculateGemmSizeAndGemmKBlock_checked` tests the divisors. -/
def CalculateGemmSizeAndGemmKBlock (t : PerformanceImplicitGemmWrwV4R4Xdlops_Padded_Gemm)
    (ctx : ConvolutionContext) : GemmSizeAndGemmKBlock :=
  let g := ctx.GetGroupCountG
  let n := ctx.GetBatchN
  let k := ctx.GetOutputChannelK
  let c := ctx.GetInputChannelC
  let ho := ctx.GetOutputHeightHo
  let wo := ctx.GetOutputWidthWo
  let y := ctx.GetFilterHeightY
  let x := ctx.GetFilterWidthX
  let k_per_group := k.tdiv g
  let c_per_group := c.tdiv g
  let gemm_m_no_pad := k_per_group
  let gemm_n_no_pad := c_per_group * y * x
  let gemm_m := ((gemm_m_no_pad - 1).tdiv t.GemmMFactor + 1) * t.GemmMFactor
  let gemm_n := ((gemm_n_no_pad - 1).tdiv t.GemmNFactor + 1) * t.GemmNFactor
  let gemm_m_pad := gemm_m - gemm_m_no_pad
  let gemm_n_pad := gemm_n - gemm_n_no_pad
  if ¬(gemm_m.tmod t.GemmMPerBlock = 0 ∧ gemm_n.tmod t.GemmNPerBlock = 0) then
    gemmSizeFailure
  else
    let grid_size_without_split_gemmk :=
      g * (gemm_m.tdiv t.GemmMPerBlock) * (gemm_n.tdiv t.GemmNPerBlock)
    let max_grid_size : Int := 20 * (ctx.GetMaxComputeUnits : Int)
    let gemm_k_block0 := max (max_grid_size.tdiv grid_size_without_split_gemmk) 1
    let gemm_k_block1 := min gemm_k_block0 n
    let gemm_k_block2 :=
      if gemm_k_block1 > 1 then gemmKBlockLoop t n ho wo gemm_k_block1.toNat else gemm_k_block1
    let gemm_k_block := max 1 gemm_k_block2
    let n_sub := n.tdiv gemm_k_block
    let gemm_k_total_no_pad := n_sub * ho * wo
    let gemm_k_total :=
      ((gemm_k_total_no_pad - 1).tdiv t.GemmKTotalFactor + 1) * t.GemmKTotalFactor
    let gemm_k_total_pad := gemm_k_total - gemm_k_total_no_pad
    let gemm_g := g * gemm_k_block
    { gemm_g := gemm_g, gemm_m := gemm_m, gemm_n := gemm_n, gemm_k_total := gemm_k_total,
      gemm_k_block := gemm_k_block, gemm_m_pad := gemm_m_pad, gemm_n_pad := gemm_n_pad,
      gemm_k_total_pad := gemm_k_total_pad, valid := true }

/-- The function `CalculateGridSize` (source lines 280-317). -/
def CalculateGridSize (t : PerformanceImplicitGemmWrwV4R4Xdlops_Padded_Gemm)
    (ctx : ConvolutionContext) : Int × Bool :=
  let r := t.CalculateGemmSizeAndGemmKBlock ctx
  if ¬(r.valid = true) then
    (-1, false)
  else if ¬(r.gemm_m.tmod t.GemmMPerBlock = 0 ∧ r.gemm_n.tmod t.GemmNPerBlock = 0) then
    (-1, false)
  else
    let GridSize :=
      r.gemm_g * (r.gemm_m.tdiv t.GemmMPerBlock) * (r.gemm_n.tdiv t.GemmNPerBlock)
    (GridSize, true)

/-- The function `CalculateGemmABlockCopyPerformanceParameters` (source lines 319-412). -/
def CalculateGemmABlockCopyPerformanceParameters
    (t : PerformanceImplicitGemmWrwV4R4Xdlops_Padded_Gemm) (ctx : ConvolutionContext) :
    BlockCopyPerformanceParameters :=
  let SrcDataPerRead0 : Int :=
    if ctx.IsFp32 then ctx.amd_buffer_load_max_length_float
    else ctx.amd_buffer_load_max_length_half
  let DstDataPerWrite0 : Int :=
    if ctx.IsFp32 then ctx.amd_lds_write_max_length_float
    else ctx.amd_lds_write_max_length_half
  let block_size := t.CalculateBlockSize.1
  let valid := t.CalculateBlockSize.2
  if ¬(valid = true) then
    blockCopyFailure
  else
    let SrcDataPerRead1 := gcd SrcDataPerRead0 t.GemmKPack
    let ho := ctx.GetOutputHeightHo
    let wo := ctx.GetOutputWidthWo
    let SrcDataPerRead_GemmKPack := gcd SrcDataPerRead1 (ho * wo)
    let data_per_thread_copy0 :=
      max 1 ((t.GemmKPerBlock * t.GemmMPerBlock * t.GemmKPack).tdiv block_size)
    let data_per_thread_copy := lcm data_per_thread_copy0 SrcDataPerRead_GemmKPack
    let data_per_thread_copy_gemmkpack := SrcDataPerRead_GemmKPack
    let tmp := data_per_thread_copy.tdiv data_per_thread_copy_gemmkpack
    if tmp = 0 then
      blockCopyFailure
    else
      let data_per_thread_copy_gemmk :=
        if t.GemmAThreadCopyMoreGemmK then gcd t.GemmKPerBlock tmp
        else tmp.tdiv (gcd t.GemmMPerBlock tmp)
      let data_per_thread_copy_gemmm :=
        if t.GemmAThreadCopyMoreGemmK then tmp.tdiv (gcd t.GemmKPerBlock tmp)
        else gcd t.GemmMPerBlock tmp
      if data_per_thread_copy_gemmk ≤ 0 ∨ data_per_thread_copy_gemmm ≤ 0 ∨
          data_per_thread_copy_gemmkpack ≤ 0 then
        blockCopyFailure
      else
        let DstDataPerWrite_GemmKPack := gcd DstDataPerWrite0 data_per_thread_copy_gemmkpack
        if ¬(t.GemmKPerBlock.tmod data_per_thread_copy_gemmk = 0 ∧
              t.GemmMPerBlock.tmod data_per_thread_copy_gemmm = 0 ∧
              t.GemmKPack.tmod data_per_thread_copy_gemmkpack = 0) then
          blockCopyFailure
        else
          let ClusterLengths_GemmK := t.GemmKPerBlock.tdiv data_per_thread_copy_gemmk
          let ClusterLengths_GemmM := t.GemmMPerBlock.tdiv data_per_thread_copy_gemmm
          let ClusterLengths_GemmKPack := t.GemmKPack.tdiv data_per_thread_copy_gemmkpack
          if ClusterLengths_GemmK < 0 ∨ ClusterLengths_GemmM < 0 ∨
              ClusterLengths_GemmKPack < 0 then
            blockCopyFailure
          else if block_size <
              ClusterLengths_GemmK * ClusterLengths_GemmM * ClusterLengths_GemmKPack then
            blockCopyFailure
          else
            { ClusterLengths_GemmK := ClusterLengths_GemmK,
              ClusterLengths_GemmMN := ClusterLengths_GemmM,
              ClusterLengths_GemmKPack := ClusterLengths_GemmKPack,
              SrcDataPerRead_GemmKPack := SrcDataPerRead_GemmKPack,
              DstDataPerWrite_GemmKPack := DstDataPerWrite_GemmKPack,
              valid := true }

/-- The function `CalculateGemmBBlockCopyPerformanceParameters` (source lines 414-541).
The variadic `gcd(a, b, c, d, e)` of the utility header is `gcd(a, gcd(b, c, d, e))`. -/
def CalculateGemmBBlockCopyPerformanceParameters
    (t : PerformanceImplicitGemmWrwV4R4Xdlops_Padded_Gemm) (ctx : ConvolutionContext) :
    BlockCopyPerformanceParameters :=
  let SrcDataPerRead0 : Int :=
    if ctx.IsFp32 then ctx.amd_buffer_load_max_length_float
    else ctx.amd_buffer_load_max_length_half
  let DstDataPerWrite0 : Int :=
    if ctx.IsFp32 then ctx.amd_lds_write_max_length_float
    else ctx.amd_lds_write_max_length_half
  let block_size := t.CalculateBlockSize.1
  let valid := t.CalculateBlockSize.2
  if ¬(valid = true) then
    blockCopyFailure
  else
    let y := ctx.GetFilterHeightY
    let x := ctx.GetFilterWidthX
    let ho := ctx.GetOutputHeightHo
    let wo := ctx.GetOutputWidthWo
    let conv_stride_h := ctx.GetAdjustedConvolutionStrideH
    let conv_stride_w := ctx.GetAdjustedConvolutionStrideW
    let conv_dilation_w := ctx.GetAdjustedConvolutionDilationW
    let in_left_pad_h := ctx.GetInputLeftPadH
    let in_left_pad_w := ctx.GetInputLeftPadW
    let in_right_pad_h := ctx.GetAdjustedInputRightPadH
    let in_right_pad_w := ctx.GetAdjustedInputRightPadW
    let SrcDataPerRead1 : Int :=
      if y = 1 ∧ x = 1 ∧ conv_stride_h = 1 ∧ conv_stride_w = 1 ∧ in_left_pad_h = 0 ∧
          in_left_pad_w = 0 ∧ in_right_pad_h = 0 ∧ in_right_pad_w = 0 then
        gcd SrcDataPerRead0 (ho * wo)
      else if conv_stride_w = 1 ∧ in_left_pad_w = 0 ∧ in_right_pad_w = 0 then
        gcd SrcDataPerRead0 wo
      else if conv_stride_w = 1 then
        gcd SrcDataPerRead0 (gcd wo (gcd in_left_pad_w (gcd in_right_pad_w conv_dilation_w)))
      else
        1
    let SrcDataPerRead_GemmKPack := gcd SrcDataPerRead1 t.GemmKPack
    let data_per_thread_copy0 :=
      max 1 ((t.GemmKPerBlock * t.GemmNPerBlock * t.GemmKPack).tdiv block_size)
    let data_per_thread_copy := lcm data_per_thread_copy0 SrcDataPerRead_GemmKPack
    let data_per_thread_copy_gemmkpack := SrcDataPerRead_GemmKPack
    let tmp := data_per_thread_copy.tdiv data_per_thread_copy_gemmkpack
    let data_per_thread_copy_gemmk :=
      if t.GemmBThreadCopyMoreGemmK then gcd t.GemmNPerBlock tmp
      else tmp.tdiv (gcd t.GemmKPerBlock tmp)
    let data_per_thread_copy_gemmn :=
      if t.GemmBThreadCopyMoreGemmK then tmp.tdiv (gcd t.GemmNPerBlock tmp)
      else gcd t.GemmKPerBlock tmp
    if data_per_thread_copy_gemmk ≤ 0 ∨ data_per_thread_copy_gemmn ≤ 0 ∨
        data_per_thread_copy_gemmkpack ≤ 0 then
      blockCopyFailure
    else
      let DstDataPerWrite_GemmKPack := gcd DstDataPerWrite0 data_per_thread_copy_gemmkpack
      if ¬(t.GemmKPerBlock.tmod data_per_thread_copy_gemmk = 0 ∧
            t.GemmNPerBlock.tmod data_per_thread_copy_gemmn = 0 ∧
            t.GemmKPack.tmod data_per_thread_copy_gemmkpack = 0) then
        blockCopyFailure
      else
        let ClusterLengths_GemmK := t.GemmKPerBlock.tdiv data_per_thread_copy_gemmk
        let ClusterLengths_GemmN := t.GemmNPerBlock.tdiv data_per_thread_copy_gemmn
        let ClusterLengths_GemmKPack := t.GemmKPack.tdiv data_per_thread_copy_gemmkpack
        if ClusterLengths_GemmK < 0 ∨ ClusterLengths_GemmN < 0 ∨
            ClusterLengths_GemmKPack < 0 then
          blockCopyFailure
        else if block_size <
            ClusterLengths_GemmK * ClusterLengths_GemmN * ClusterLengths_GemmKPack then
          blockCopyFailure
        else
          { ClusterLengths_GemmK := ClusterLengths_GemmK,
            ClusterLengths_GemmMN := ClusterLengths_GemmN,
            ClusterLengths_GemmKPack := ClusterLengths_GemmKPack,
            SrcDataPerRead_GemmKPack := SrcDataPerRead_GemmKPack,
            DstDataPerWrite_GemmKPack := DstDataPerWrite_GemmKPack,
            valid := true }

/-- The function `CalculateLdsNumberOfByte` (source lines 543-554): the two products and
their sum are `int` arithmetic (32 bits, `to_int`); the sum is converted to `std::size_t`
and multiplied by `sizeof(float) = 4` or `sizeof(half_float::half) = 2`. -/
def CalculateLdsNumberOfByte (t : PerformanceImplicitGemmWrwV4R4Xdlops_Padded_Gemm)
    (ctx : ConvolutionContext) : Nat × Bool :=
  let a_block_space := to_int (t.GemmKPerBlock * t.GemmMPerBlock * t.GemmKPack)
  let b_block_space := to_int (t.GemmKPerBlock * t.GemmNPerBlock * t.GemmKPack)
  let lds_size : Nat :=
    (to_size_t (to_int (a_block_space + b_block_space)) * (if ctx.IsFp32 then 4 else 2)) %
      2 ^ 64
  (lds_size, true)

/-- The function `IsValidValue` (source lines 556-567). -/
def IsValidValue (t : PerformanceImplicitGemmWrwV4R4Xdlops_Padded_Gemm) : Bool :=
  IsTwoPower 4 256 t.GemmMPerBlock
    && IsTwoPower 4 256 t.GemmNPerBlock
    && IsTwoPower 1 8 t.GemmKPerBlock
    && IsTwoPower 4 128 t.GemmMPerWave
    && IsTwoPower 4 128 t.GemmNPerWave
    && IsTwoPower 1 8 t.GemmKPack

/-- The function `IsReallyValid` (source lines 571-634); the external predicate
`IsValidBlockwiseGemmXdlops` is the parameter `xdlops`. -/
def IsReallyValid (xdlops : BlockwiseGemmXdlopsCheck)
    (t : PerformanceImplicitGemmWrwV4R4Xdlops_Padded_Gemm) (ctx : ConvolutionContext) : Bool :=
  if ¬(t.IsValidValue = true) then
    false
  else if ¬(xdlops ctx t.GemmMPerBlock t.GemmNPerBlock t.GemmKPerBlock t.GemmMPerWave
      t.GemmNPerWave t.GemmKPack = true) then
    false
  else
    let r := t.CalculateGemmSizeAndGemmKBlock ctx
    if ¬(r.valid = true) then
      false
    else if r.gemm_k_total.tmod t.GemmKPack ≠ 0 then
      false
    else
      let gemm_k := r.gemm_k_total.tdiv t.GemmKPack
      if ¬(r.gemm_m.tmod t.GemmMPerBlock = 0 ∧ r.gemm_n.tmod t.GemmNPerBlock = 0 ∧
            gemm_k.tmod t.GemmKPerBlock = 0) then
        false
      else if ¬((t.CalculateGemmABlockCopyPerformanceParameters ctx).valid = true) then
        false
      else if ¬((t.CalculateGemmBBlockCopyPerformanceParameters ctx).valid = true) then
        false
      else
        let lds_size := (t.CalculateLdsNumberOfByte ctx).1
        let valid := (t.CalculateLdsNumberOfByte ctx).2
        valid && decide (lds_size ≤ ctx.get_lds_max_number_of_byte)

/-- The default constructor (source lines 47-52): the configuration
`{4, 4, 1, 4, 4, 1, 16, 64, 16, false, false}`. -/
def defaultConfig : PerformanceImplicitGemmWrwV4R4Xdlops_Padded_Gemm :=
  { GemmMPerBlock := 4, GemmNPerBlock := 4, GemmKPerBlock := 1, GemmMPerWave := 4,
    GemmNPerWave := 4, GemmKPack := 1, GemmMFactor := 16, GemmNFactor := 64,
    GemmKTotalFactor := 16, GemmAThreadCopyMoreGemmK := false,
    GemmBThreadCopyMoreGemmK := false }

/-- The function `SetNextValue` (source lines 98-125); its unnamed context argument is
not read. The first component is the configuration after the call, the second the
returned flag. Each helper call updates its field, and the `do { ... } while(false)`
block is left by `break` (the function then returns true) as soon as a helper returns
false. -/
def SetNextValue (t : PerformanceImplicitGemmWrwV4R4Xdlops_Padded_Gemm) :
    PerformanceImplicitGemmWrwV4R4Xdlops_Padded_Gemm × Bool :=
  let b := NextFlag false true t.GemmBThreadCopyMoreGemmK
  let t1 := { t with GemmBThreadCopyMoreGemmK := b.1 }
  if ¬(b.2 = true) then (t1, true)
  else
    let a := NextFlag false false t1.GemmAThreadCopyMoreGemmK
    let t2 := { t1 with GemmAThreadCopyMoreGemmK := a.1 }
    if ¬(a.2 = true) then (t2, true)
    else
      let kpack := NextTwoPower 1 8 t2.GemmKPack
      let t3 := { t2 with GemmKPack := kpack.1 }
      if ¬(kpack.2 = true) then (t3, true)
      else
        let nwave := NextTwoPower 4 128 t3.GemmNPerWave
        let t4 := { t3 with GemmNPerWave := nwave.1 }
        if ¬(nwave.2 = true) then (t4, true)
        else
          let mwave := NextTwoPower 4 128 t4.GemmMPerWave
          let t5 := { t4 with GemmMPerWave := mwave.1 }
          if ¬(mwave.2 = true) then (t5, true)
          else
            let kblock := NextTwoPower 1 8 t5.GemmKPerBlock
            let t6 := { t5 with GemmKPerBlock := kblock.1 }
            if ¬(kblock.2 = true) then (t6, true)
            else
              let nblock := NextTwoPower 4 256 t6.GemmNPerBlock
              let t7 := { t6 with GemmNPerBlock := nblock.1 }
              if ¬(nblock.2 = true) then (t7, true)
              else
                let mblock := NextTwoPower 4 256 t7.GemmMPerBlock
                let t8 := { t7 with GemmMPerBlock := mblock.1 }
                if ¬(mblock.2 = true) then (t8, true)
                else (t8, false)

/-- The configuration after `k` successive calls of `SetNextValue`. -/
def SetNextValue_iterate :
    Nat → PerformanceImplicitGemmWrwV4R4Xdlops_Padded_Gemm →
      PerformanceImplicitGemmWrwV4R4Xdlops_Padded_Gemm
  | 0, t => t
  | k + 1, t => SetNextValue_iterate k t.SetNextValue.1

/-- The function `IsFastToBeUsedForTuning` (source lines 639-798). The comparison of the
`float` quotient with a decimal literal is the parameter `ratio_gt`; the product
`gemm_m * gemm_n` of line 665 is `int` arithmetic (32 bits, `to_int`), the products
`std::size_t(gemm_m) * gemm_n` and `5 * num_cu` are `std::size_t` arithmetic. -/
def IsFastToBeUsedForTuning (ratio_gt : FloatRatioTest)
    (t : PerformanceImplicitGemmWrwV4R4Xdlops_Padded_Gemm) (ctx : ConvolutionContext) : Bool :=
  if t.GemmMPerWave * t.GemmNPerWave > 64 * 128 then
    false
  else
    let gemm_m := (t.CalculateGemmSizeAndGemmKBlock ctx).gemm_m
    let gemm_n := (t.CalculateGemmSizeAndGemmKBlock ctx).gemm_n
    let grid_size : Int :=
      (to_int (gemm_m * gemm_n)).tdiv (t.GemmMPerBlock * t.GemmNPerBlock)
    let max_blockwise_gemm_size : Int :=
      max (gcd 256 gemm_m * gcd 128 gemm_n) (gcd 128 gemm_m * gcd 256 gemm_n)
    let grid_size_max_blockwise_gemm : Nat :=
      ((to_size_t gemm_m * to_size_t gemm_n) % 2 ^ 64) / to_size_t max_blockwise_gemm_size
    let num_cu : Nat := ctx.GetMaxComputeUnits
    let too_many_blocks : Bool :=
      if grid_size_max_blockwise_gemm > (5 * num_cu) % 2 ^ 64 then
        ratio_gt grid_size grid_size_max_blockwise_gemm (281 / 100)
      else if grid_size_max_blockwise_gemm > (4 * num_cu) % 2 ^ 64 then
        ratio_gt grid_size grid_size_max_blockwise_gemm (361 / 100)
      else if grid_size_max_blockwise_gemm > (3 * num_cu) % 2 ^ 64 then
        ratio_gt grid_size grid_size_max_blockwise_gemm (441 / 100)
      else if grid_size_max_blockwise_gemm > (2 * num_cu) % 2 ^ 64 then
        ratio_gt grid_size grid_size_max_blockwise_gemm (641 / 100)
      else if grid_size_max_blockwise_gemm > num_cu then
        ratio_gt grid_size grid_size_max_blockwise_gemm (1241 / 100)
      else
        false
    if too_many_blocks = true then
      false
    else
      let wave_per_block : Int :=
        (t.GemmMPerBlock.tdiv t.GemmMPerWave) * (t.GemmNPerBlock.tdiv t.GemmNPerWave)
      if ¬(wave_per_block > 1 ∧ wave_per_block ≤ 4) then
        false
      else if t.GemmMPerBlock > 2 * t.GemmNPerBlock ∧
          gemm_n.tmod (2 * t.GemmNPerBlock) = 0 then
        false
      else if t.GemmNPerBlock > 2 * t.GemmMPerBlock ∧
          gemm_m.tmod (2 * t.GemmMPerBlock) = 0 then
        false
      else if t.GemmMPerWave > 2 * t.GemmNPerWave ∧
          t.GemmNPerBlock.tmod (2 * t.GemmNPerWave) = 0 then
        false
      else if t.GemmNPerWave > 2 * t.GemmMPerWave ∧
          t.GemmMPerBlock.tmod (2 * t.GemmMPerWave) = 0 then
        false
      else
        let block_size := t.IsFastToBeUsedForTuning_block_size
        let a_data_per_thread_copy :=
          (t.GemmKPerBlock * t.GemmMPerBlock * t.GemmKPack).tdiv block_size
        let b_data_per_thread_copy :=
          (t.GemmKPerBlock * t.GemmNPerBlock * t.GemmKPack).tdiv block_size
        let too_much_data : Bool :=
          if ctx.IsFp32 then
            decide (a_data_per_thread_copy > 16 ∨ b_data_per_thread_copy > 16)
          else if ctx.IsFp16 || ctx.IsBfp16 then
            decide (a_data_per_thread_copy > 32 ∨ b_data_per_thread_copy > 32)
          else
            false
        if too_much_data = true then
          false
        else if ctx.IsFp32 then
          if t.GemmKPack > 4 then false
          else if t.GemmKPerBlock * t.GemmKPack < 8 then false
          else true
        else if ctx.IsFp16 || ctx.IsBfp16 then
          if t.GemmKPerBlock * t.GemmKPack < 16 then false
          else true
        else
          true

/-- One pass of the inner `do { ... } while(false)` block of `HeuristicInit` (source
lines 140-158, 170-188 and 201-219; the three copies differ only in the range
`<KPackL, KPackH>` of `GemmKPack`). The first component is `tmp` after the pass, the
second is true when the pass reached `all_visited = true`. -/
def heuristicDescentStep (KPackL KPackH : Int)
    (tmp : PerformanceImplicitGemmWrwV4R4Xdlops_Padded_Gemm) :
    PerformanceImplicitGemmWrwV4R4Xdlops_Padded_Gemm × Bool :=
  let kblock := PreviousTwoPower 1 8 tmp.GemmKPerBlock
  let t1 := { tmp with GemmKPerBlock := kblock.1 }
  if ¬(kblock.2 = true) then (t1, false)
  else
    let kpack := PreviousTwoPower KPackL KPackH t1.GemmKPack
    let t2 := { t1 with GemmKPack := kpack.1 }
    if ¬(kpack.2 = true) then (t2, false)
    else
      let nwave := PreviousTwoPower 4 128 t2.GemmNPerWave
      let t3 := { t2 with GemmNPerWave := nwave.1 }
      if ¬(nwave.2 = true) then (t3, false)
      else
        let mwave := PreviousTwoPower 4 128 t3.GemmMPerWave
        let t4 := { t3 with GemmMPerWave := mwave.1 }
        if ¬(mwave.2 = true) then (t4, false)
        else
          let nblock := PreviousTwoPower 4 256 t4.GemmNPerBlock
          let t5 := { t4 with GemmNPerBlock := nblock.1 }
          if ¬(nblock.2 = true) then (t5, false)
          else
            let mblock := PreviousTwoPower 4 256 t5.GemmMPerBlock
            let t6 := { t5 with GemmMPerBlock := mblock.1 }
            if ¬(mblock.2 = true) then (t6, false)
            else (t6, true)

/-- The outer loop `do { ...; if(is_valid_func(tmp, ctx)) break; } while(!all_visited)`
of `HeuristicInit` (source lines 138-162), with an iteration budget: `none` when the
budget is used up before the loop is left, otherwise the value of `tmp` on exit. -/
def heuristicDescentLoop (KPackL KPackH : Int)
    (is_valid_func : PerformanceImplicitGemmWrwV4R4Xdlops_Padded_Gemm → Bool) :
    Nat → PerformanceImplicitGemmWrwV4R4Xdlops_Padded_Gemm →
      Option PerformanceImplicitGemmWrwV4R4Xdlops_Padded_Gemm
  | 0, _ => none
  | fuel + 1, tmp =>
    let tmp1 := (heuristicDescentStep KPackL KPackH tmp).1
    let all_visited := (heuristicDescentStep KPackL KPackH tmp).2
    if is_valid_func tmp1 = true then some tmp1
    else if ¬(¬(all_visited = true)) then some tmp1
    else heuristicDescentLoop KPackL KPackH is_valid_func fuel tmp1

/-- The seed `tmp = {256, 256, 8, 128, 128, KPack, 16, 64, 16, false, true}` of a descent
of `HeuristicInit` (source lines 135, 166 and 196), with `KPack = 4` for fp32 and
`KPack = 8` for fp16 and bfp16. -/
def heuristicSeed (KPack : Int) : PerformanceImplicitGemmWrwV4R4Xdlops_Padded_Gemm :=
  { GemmMPerBlock := 256, GemmNPerBlock := 256, GemmKPerBlock := 8, GemmMPerWave := 128,
    GemmNPerWave := 128, GemmKPack := KPack, GemmMFactor := 16, GemmNFactor := 64,
    GemmKTotalFactor := 16, GemmAThreadCopyMoreGemmK := false,
    GemmBThreadCopyMoreGemmK := true }

/-- The candidate that the outer loop of `HeuristicInit` evaluates in its iteration
number `k` (counted from 0) when the loop starts from `tmp`: `tmp` after `k + 1` passes
of the inner block. -/
def heuristicCandidate (KPackL KPackH : Int) :
    Nat → PerformanceImplicitGemmWrwV4R4Xdlops_Padded_Gemm →
      PerformanceImplicitGemmWrwV4R4Xdlops_Padded_Gemm
  | 0, tmp => (heuristicDescentStep KPackL KPackH tmp).1
  | k + 1, tmp => heuristicCandidate KPackL KPackH k (heuristicDescentStep KPackL KPackH tmp).1

/-- The lambda `get_euristic_config` of `HeuristicInit` (source lines 132-230): the
value of `tmp` after the call. For a datatype other than fp32, fp16 and bfp16 the source
logs an error and `assert(false)`; `tmp` is left as it is. -/
def get_euristic_config (fuel : Nat) (ctx : ConvolutionContext)
    (is_valid_func : PerformanceImplicitGemmWrwV4R4Xdlops_Padded_Gemm → Bool)
    (tmp : PerformanceImplicitGemmWrwV4R4Xdlops_Padded_Gemm) :
    Option PerformanceImplicitGemmWrwV4R4Xdlops_Padded_Gemm :=
  if ctx.IsFp32 then
    heuristicDescentLoop 1 4 is_valid_func fuel (heuristicSeed 4)
  else if ctx.IsFp16 then
    heuristicDescentLoop 4 8 is_valid_func fuel (heuristicSeed 8)
  else if ctx.IsBfp16 then
    heuristicDescentLoop 2 8 is_valid_func fuel (heuristicSeed 8)
  else
    some tmp

/-- The function `HeuristicInit` (source lines 127-251): the value assigned to `*this`,
or `none` when a descent loop uses up the budget `fuel`. The receiver `self` is only
written, by the final `*this = tmp`. The external predicate
`IsValidBlockwiseGemmXdlops` is the parameter `xdlops`, the floating-point test of
`IsFastToBeUsedForTuning` the parameter `ratio_gt`. -/
def HeuristicInit (xdlops : BlockwiseGemmXdlopsCheck) (ratio_gt : FloatRatioTest) (fuel : Nat)
    (_self : PerformanceImplicitGemmWrwV4R4Xdlops_Padded_Gemm) (ctx : ConvolutionContext) :
    Option PerformanceImplicitGemmWrwV4R4Xdlops_Padded_Gemm :=
  match get_euristic_config fuel ctx
      (fun config => config.IsReallyValid xdlops ctx && config.IsFastToBeUsedForTuning ratio_gt ctx)
      defaultConfig with
  | none => none
  | some tmp1 =>
    if ¬(tmp1.IsReallyValid xdlops ctx = true) then
      get_euristic_config fuel ctx (fun config => config.IsReallyValid xdlops ctx) tmp1
    else
      some tmp1

/-- The position of the power of two `v` above the minimum `L` of its range: the
number of doublings that lead from `L` to `v`. -/
def twoPowerDigit (L v : Int) : Nat :=
  ((List.range 31).filter (fun e => decide (L * 2 ^ (e + 1) ≤ v))).length

/-- The lattice that `SetNextValue` enumerates: legal tile sizes, the alignment factors
of the default configuration, and `GemmAThreadCopyMoreGemmK = false`, the only value of
the range `<false, false>` the source gives that flag. -/
def InTuningLattice (t : PerformanceImplicitGemmWrwV4R4Xdlops_Padded_Gemm) : Prop :=
  t.IsValidValue = true ∧ t.GemmAThreadCopyMoreGemmK = false ∧
    t.GemmMFactor = 16 ∧ t.GemmNFactor = 64 ∧ t.GemmKTotalFactor = 16

/-- The mixed-radix number whose digits are, from least to most significant,
`GemmBThreadCopyMoreGemmK`, `GemmKPack`, `GemmNPerWave`, `GemmMPerWave`, `GemmKPerBlock`,
`GemmNPerBlock` and `GemmMPerBlock`. -/
def tuningRank (t : PerformanceImplicitGemmWrwV4R4Xdlops_Padded_Gemm) : Nat :=
  (if t.GemmBThreadCopyMoreGemmK = true then 1 else 0) +
    2 * (twoPowerDigit 1 t.GemmKPack +
      4 * (twoPowerDigit 4 t.GemmNPerWave +
        6 * (twoPowerDigit 4 t.GemmMPerWave +
          6 * (twoPowerDigit 1 t.GemmKPerBlock +
            4 * (twoPowerDigit 4 t.GemmNPerBlock + 7 * twoPowerDigit 4 t.GemmMPerBlock)))))

/-- The range `<KPackL, KPackH>` of `GemmKPack` in the descent that `HeuristicInit` runs
for the datatype of `ctx`, with the number `count` of its values: `<1, 4>` for fp32,
`<4, 8>` for fp16 and `<2, 8>` for bfp16 (source lines 146, 176 and 207). -/
def IsHeuristicKPackRange (ctx : ConvolutionContext) (KPackL KPackH : Int) (count : Nat) :
    Prop :=
  (ctx.dataType = DataType.fp32 ∧ KPackL = 1 ∧ KPackH = 4 ∧ count = 3) ∨
    (ctx.dataType = DataType.fp16 ∧ KPackL = 4 ∧ KPackH = 8 ∧ count = 2) ∨
    (ctx.dataType = DataType.bfp16 ∧ KPackL = 2 ∧ KPackH = 8 ∧ count = 3)

/-- The lattice of a descent of `HeuristicInit`: block tiles in `{4..256}`, wave tiles in
`{4..128}`, `GemmKPerBlock` in `{1..8}`, `GemmKPack` in `{KPackL..KPackH}` (powers of two
throughout), factors 16/64/16 and the flags `false`, `true` of the seed. -/
def InDescentLattice (KPackL KPackH : Int)
    (t : PerformanceImplicitGemmWrwV4R4Xdlops_Padded_Gemm) : Prop :=
  IsTwoPower 4 256 t.GemmMPerBlock = true ∧ IsTwoPower 4 256 t.GemmNPerBlock = true ∧
    IsTwoPower 1 8 t.GemmKPerBlock = true ∧ IsTwoPower 4 128 t.GemmMPerWave = true ∧
    IsTwoPower 4 128 t.GemmNPerWave = true ∧ IsTwoPower KPackL KPackH t.GemmKPack = true ∧
    t.GemmMFactor = 16 ∧ t.GemmNFactor = 64 ∧ t.GemmKTotalFactor = 16 ∧
    t.GemmAThreadCopyMoreGemmK = false ∧ t.GemmBThreadCopyMoreGemmK = true

/-- The mixed-radix number of a descent whose digits are, from least to most
significant, `GemmKPerBlock`, `GemmKPack` (with `count` values above `KPackL`),
`GemmNPerWave`, `GemmMPerWave`, `GemmNPerBlock` and `GemmMPerBlock`. -/
def descentIndex (KPackL : Int) (count : Nat)
    (t : PerformanceImplicitGemmWrwV4R4Xdlops_Padded_Gemm) : Nat :=
  twoPowerDigit 1 t.GemmKPerBlock +
    4 * (twoPowerDigit KPackL t.GemmKPack +
      count * (twoPowerDigit 4 t.GemmNPerWave +
        6 * (twoPowerDigit 4 t.GemmMPerWave +
          6 * (twoPowerDigit 4 t.GemmNPerBlock + 7 * twoPowerDigit 4 t.GemmMPerBlock))))

/-- The local `SrcDataPerRead_GemmKPack` of `CalculateGemmABlockCopyPerformanceParameters`
after source line 348: the hardware maximum narrowed by `GemmKPack` and by `ho * wo`. -/
def GemmA_SrcDataPerRead_GemmKPack (t : PerformanceImplicitGemmWrwV4R4Xdlops_Padded_Gemm)
    (ctx : ConvolutionContext) : Int :=
  gcd
    (gcd
      (if ctx.IsFp32 then ctx.amd_buffer_load_max_length_float
        else ctx.amd_buffer_load_max_length_half)
      t.GemmKPack)
    (ctx.GetOutputHeightHo * ctx.GetOutputWidthWo)

/-- The local `tmp` of `CalculateGemmABlockCopyPerformanceParameters` (source lines
351-359). -/
def GemmA_tmp (t : PerformanceImplicitGemmWrwV4R4Xdlops_Padded_Gemm)
    (ctx : ConvolutionContext) : Int :=
  (lcm
      (max 1 ((t.GemmKPerBlock * t.GemmMPerBlock * t.GemmKPack).tdiv t.CalculateBlockSize.1))
      (t.GemmA_SrcDataPerRead_GemmKPack ctx)).tdiv
    (t.GemmA_SrcDataPerRead_GemmKPack ctx)

/-- The local `data_per_thread_copy_gemmk` of
`CalculateGemmABlockCopyPerformanceParameters` (source lines 367-376). -/
def GemmA_data_per_thread_copy_gemmk (t : PerformanceImplicitGemmWrwV4R4Xdlops_Padded_Gemm)
    (ctx : ConvolutionContext) : Int :=
  if t.GemmAThreadCopyMoreGemmK then gcd t.GemmKPerBlock (t.GemmA_tmp ctx)
  else (t.GemmA_tmp ctx).tdiv (gcd t.GemmMPerBlock (t.GemmA_tmp ctx))

/-- The local `data_per_thread_copy_gemmm` of
`CalculateGemmABlockCopyPerformanceParameters` (source lines 367-376). -/
def GemmA_data_per_thread_copy_gemmm (t : PerformanceImplicitGemmWrwV4R4Xdlops_Padded_Gemm)
    (ctx : ConvolutionContext) : Int :=
  if t.GemmAThreadCopyMoreGemmK then
    (t.GemmA_tmp ctx).tdiv (gcd t.GemmKPerBlock (t.GemmA_tmp ctx))
  else gcd t.GemmMPerBlock (t.GemmA_tmp ctx)

/-- The local `SrcDataPerRead_GemmKPack` of `CalculateGemmBBlockCopyPerformanceParameters`
after source line 479: the hardware maximum narrowed by the stride and padding rule and
by `GemmKPack`. -/
def GemmB_SrcDataPerRead_GemmKPack (t : PerformanceImplicitGemmWrwV4R4Xdlops_Padded_Gemm)
    (ctx : ConvolutionContext) : Int :=
  gcd
    (if ctx.GetFilterHeightY = 1 ∧ ctx.GetFilterWidthX = 1 ∧
          ctx.GetAdjustedConvolutionStrideH = 1 ∧ ctx.GetAdjustedConvolutionStrideW = 1 ∧
          ctx.GetInputLeftPadH = 0 ∧ ctx.GetInputLeftPadW = 0 ∧
          ctx.GetAdjustedInputRightPadH = 0 ∧ ctx.GetAdjustedInputRightPadW = 0 then
        gcd
          (if ctx.IsFp32 then ctx.amd_buffer_load_max_length_float
            else ctx.amd_buffer_load_max_length_half)
          (ctx.GetOutputHeightHo * ctx.GetOutputWidthWo)
      else if ctx.GetAdjustedConvolutionStrideW = 1 ∧ ctx.GetInputLeftPadW = 0 ∧
          ctx.GetAdjustedInputRightPadW = 0 then
        gcd
          (if ctx.IsFp32 then ctx.amd_buffer_load_max_length_float
            else ctx.amd_buffer_load_max_length_half)
          ctx.GetOutputWidthWo
      else if ctx.GetAdjustedConvolutionStrideW = 1 then
        gcd
          (if ctx.IsFp32 then ctx.amd_buffer_load_max_length_float
            else ctx.amd_buffer_load_max_length_half)
          (gcd ctx.GetOutputWidthWo
            (gcd ctx.GetInputLeftPadW
              (gcd ctx.GetAdjustedInputRightPadW ctx.GetAdjustedConvolutionDilationW)))
      else
        1)
    t.GemmKPack

/-- The local `tmp` of `CalculateGemmBBlockCopyPerformanceParameters` (source lines
482-490). -/
def GemmB_tmp (t : PerformanceImplicitGemmWrwV4R4Xdlops_Padded_Gemm)
    (ctx : ConvolutionContext) : Int :=
  (lcm
      (max 1 ((t.GemmKPerBlock * t.GemmNPerBlock * t.GemmKPack).tdiv t.CalculateBlockSize.1))
      (t.GemmB_SrcDataPerRead_GemmKPack ctx)).tdiv
    (t.GemmB_SrcDataPerRead_GemmKPack ctx)

/-- The local `data_per_thread_copy_gemmk` of
`CalculateGemmBBlockCopyPerformanceParameters` (source lines 495-504): with the flag set
it is `gcd(GemmNPerBlock, tmp)`, as the source writes it. -/
def GemmB_data_per_thread_copy_gemmk (t : PerformanceImplicitGemmWrwV4R4Xdlops_Padded_Gemm)
    (ctx : ConvolutionContext) : Int :=
  if t.GemmBThreadCopyMoreGemmK then gcd t.GemmNPerBlock (t.GemmB_tmp ctx)
  else (t.GemmB_tmp ctx).tdiv (gcd t.GemmKPerBlock (t.GemmB_tmp ctx))

/-- The local `data_per_thread_copy_gemmn` of
`CalculateGemmBBlockCopyPerformanceParameters` (source lines 495-504): with the flag
clear it is `gcd(GemmKPerBlock, tmp)`, as the source writes it. -/
def GemmB_data_per_thread_copy_gemmn (t : PerformanceImplicitGemmWrwV4R4Xdlops_Padded_Gemm)
    (ctx : ConvolutionContext) : Int :=
  if t.GemmBThreadCopyMoreGemmK then
    (t.GemmB_tmp ctx).tdiv (gcd t.GemmNPerBlock (t.GemmB_tmp ctx))
  else gcd t.GemmKPerBlock (t.GemmB_tmp ctx)

/-- The cluster lengths of operand B in the words of the specification, to be compared
with the source: with `remaining = lcm(max(1, GemmKPerBlock*GemmNPerBlock*GemmKPack /
blockSize), srcVectorLen) / srcVectorLen`, the per-thread count along K is
`gcd(GemmKPerBlock, remaining)` and along N is `remaining` divided by it when
`GemmBThreadCopyMoreGemmK` is true; the per-thread count along N is
`gcd(GemmNPerBlock, remaining)` and along K is `remaining` divided by it when the flag is
false; the cluster lengths are `GemmKPerBlock / perThreadK`, `GemmNPerBlock / perThreadN`
and `GemmKPack / srcVectorLen`. This definition follows the specification, not the
source. -/
def GemmB_ClusterLengths_spec (t : PerformanceImplicitGemmWrwV4R4Xdlops_Padded_Gemm)
    (ctx : ConvolutionContext) : Int × Int × Int :=
  let blockSize := t.CalculateBlockSize.1
  let srcVectorLen := t.GemmB_SrcDataPerRead_GemmKPack ctx
  let remaining :=
    (lcm (max 1 ((t.GemmKPerBlock * t.GemmNPerBlock * t.GemmKPack).tdiv blockSize))
      srcVectorLen).tdiv srcVectorLen
  let perThreadK :=
    if t.GemmBThreadCopyMoreGemmK then gcd t.GemmKPerBlock remaining
    else remaining.tdiv (gcd t.GemmNPerBlock remaining)
  let perThreadN :=
    if t.GemmBThreadCopyMoreGemmK then remaining.tdiv (gcd t.GemmKPerBlock remaining)
    else gcd t.GemmNPerBlock remaining
  (t.GemmKPerBlock.tdiv perThreadK, t.GemmNPerBlock.tdiv perThreadN,
    t.GemmKPack.tdiv srcVectorLen)

/-- The candidates that the outer loop of a descent of `HeuristicInit` (source lines
138-162) passes to `is_valid_func`, in the order of the calls, under the iteration budget
of `heuristicDescentLoop`: `none` when the budget is used up before the loop is left. The
argument `evaluated` holds the candidates of the earlier iterations, the latest first. -/
def heuristicDescentEvaluated (KPackL KPackH : Int)
    (is_valid_func : PerformanceImplicitGemmWrwV4R4Xdlops_Padded_Gemm → Bool) :
    Nat → PerformanceImplicitGemmWrwV4R4Xdlops_Padded_Gemm →
      List PerformanceImplicitGemmWrwV4R4Xdlops_Padded_Gemm →
      Option (List PerformanceImplicitGemmWrwV4R4Xdlops_Padded_Gemm)
  | 0, _, _ => none
  | fuel + 1, tmp, evaluated =>
    let tmp1 := (heuristicDescentStep KPackL KPackH tmp).1
    let all_visited := (heuristicDescentStep KPackL KPackH tmp).2
    if is_valid_func tmp1 = true then some (tmp1 :: evaluated).reverse
    else if ¬(¬(all_visited = true)) then some (tmp1 :: evaluated).reverse
    else heuristicDescentEvaluated KPackL KPackH is_valid_func fuel tmp1 (tmp1 :: evaluated)

/-- The candidates that one call of the lambda `get_euristic_config` of `HeuristicInit`
(source lines 132-230) passes to `is_valid_func`, in the order of the calls; for a
datatype other than fp32, fp16 and bfp16 no candidate is evaluated. -/
def get_euristic_config_evaluated (fuel : Nat) (ctx : ConvolutionContext)
    (is_valid_func : PerformanceImplicitGemmWrwV4R4Xdlops_Padded_Gemm → Bool) :
    Option (List PerformanceImplicitGemmWrwV4R4Xdlops_Padded_Gemm) :=
  if ctx.IsFp32 then
    heuristicDescentEvaluated 1 4 is_valid_func fuel (heuristicSeed 4) []
  else if ctx.IsFp16 then
    heuristicDescentEvaluated 4 8 is_valid_func fuel (heuristicSeed 8) []
  else if ctx.IsBfp16 then
    heuristicDescentEvaluated 2 8 is_valid_func fuel (heuristicSeed 8) []
  else
    some []

/-- The local `grid_size_without_split_gemmk` of `CalculateGemmSizeAndGemmKBlock` (source
line 856), the divisor of `max_grid_size / grid_size_without_split_gemmk` (source line
861). -/
def grid_size_without_split_gemmk (t : PerformanceImplicitGemmWrwV4R4Xdlops_Padded_Gemm)
    (ctx : ConvolutionContext) : Int :=
  let g := ctx.GetGroupCountG
  let k := ctx.GetOutputChannelK
  let c := ctx.GetInputChannelC
  let y := ctx.GetFilterHeightY
  let x := ctx.GetFilterWidthX
  let k_per_group := k.tdiv g
  let c_per_group := c.tdiv g
  let gemm_m_no_pad := k_per_group
  let gemm_n_no_pad := c_per_group * y * x
  let gemm_m := ((gemm_m_no_pad - 1).tdiv t.GemmMFactor + 1) * t.GemmMFactor
  let gemm_n := ((gemm_n_no_pad - 1).tdiv t.GemmNFactor + 1) * t.GemmNFactor
  g * (gemm_m.tdiv t.GemmMPerBlock) * (gemm_n.tdiv t.GemmNPerBlock)

/-- The function `IsFastToBeUsedForTuning` (source lines 639-798) with the divisor of every
division and remainder of its body tested before the operation: the result is `none` when
the execution reaches an operation whose divisor is zero, and otherwise the value the
function returns. The operations are `(gemm_m * gemm_n) / (GemmMPerBlock * GemmNPerBlock)`
(line 665), the `std::size_t` quotient by `max_blockwise_gemm_size` (line 673), the `float`
quotient by `grid_size_max_blockwise_gemm` (line 675), the quotients by `GemmMPerWave` and
`GemmNPerWave` (lines 709 and 762), the remainders of lines 734, 740, 749 and 755, each
inside its `if`, and the two quotients by `block_size` (lines 764 and 765). The divisions
inside the callee `CalculateGemmSizeAndGemmKBlock` are not tested here. -/
def IsFastToBeUsedForTuning_checked (ratio_gt : FloatRatioTest)
    (t : PerformanceImplicitGemmWrwV4R4Xdlops_Padded_Gemm) (ctx : ConvolutionContext) :
    Option Bool :=
  if t.GemmMPerWave * t.GemmNPerWave > 64 * 128 then
    some false
  else
    let gemm_m := (t.CalculateGemmSizeAndGemmKBlock ctx).gemm_m
    let gemm_n := (t.CalculateGemmSizeAndGemmKBlock ctx).gemm_n
    if t.GemmMPerBlock * t.GemmNPerBlock = 0 then none
    else
      let grid_size : Int :=
        (to_int (gemm_m * gemm_n)).tdiv (t.GemmMPerBlock * t.GemmNPerBlock)
      let max_blockwise_gemm_size : Int :=
        max (gcd 256 gemm_m * gcd 128 gemm_n) (gcd 128 gemm_m * gcd 256 gemm_n)
      if to_size_t max_blockwise_gemm_size = 0 then none
      else
        let grid_size_max_blockwise_gemm : Nat :=
          ((to_size_t gemm_m * to_size_t gemm_n) % 2 ^ 64) / to_size_t max_blockwise_gemm_size
        if grid_size_max_blockwise_gemm = 0 then none
        else
          let num_cu : Nat := ctx.GetMaxComputeUnits
          let too_many_blocks : Bool :=
            if grid_size_max_blockwise_gemm > (5 * num_cu) % 2 ^ 64 then
              ratio_gt grid_size grid_size_max_blockwise_gemm (281 / 100)
            else if grid_size_max_blockwise_gemm > (4 * num_cu) % 2 ^ 64 then
              ratio_gt grid_size grid_size_max_blockwise_gemm (361 / 100)
            else if grid_size_max_blockwise_gemm > (3 * num_cu) % 2 ^ 64 then
              ratio_gt grid_size grid_size_max_blockwise_gemm (441 / 100)
            else if grid_size_max_blockwise_gemm > (2 * num_cu) % 2 ^ 64 then
              ratio_gt grid_size grid_size_max_blockwise_gemm (641 / 100)
            else if grid_size_max_blockwise_gemm > num_cu then
              ratio_gt grid_size grid_size_max_blockwise_gemm (1241 / 100)
            else
              false
          if too_many_blocks = true then
            some false
          else if t.GemmMPerWave = 0 ∨ t.GemmNPerWave = 0 then none
          else
            let wave_per_block : Int :=
              (t.GemmMPerBlock.tdiv t.GemmMPerWave) * (t.GemmNPerBlock.tdiv t.GemmNPerWave)
            if ¬(wave_per_block > 1 ∧ wave_per_block ≤ 4) then
              some false
            else if t.GemmMPerBlock > 2 * t.GemmNPerBlock ∧ 2 * t.GemmNPerBlock = 0 then none
            else if t.GemmMPerBlock > 2 * t.GemmNPerBlock ∧
                gemm_n.tmod (2 * t.GemmNPerBlock) = 0 then
              some false
            else if t.GemmNPerBlock > 2 * t.GemmMPerBlock ∧ 2 * t.GemmMPerBlock = 0 then none
            else if t.GemmNPerBlock > 2 * t.GemmMPerBlock ∧
                gemm_m.tmod (2 * t.GemmMPerBlock) = 0 then
              some false
            else if t.GemmMPerWave > 2 * t.GemmNPerWave ∧ 2 * t.GemmNPerWave = 0 then none
            else if t.GemmMPerWave > 2 * t.GemmNPerWave ∧
                t.GemmNPerBlock.tmod (2 * t.GemmNPerWave) = 0 then
              some false
            else if t.GemmNPerWave > 2 * t.GemmMPerWave ∧ 2 * t.GemmMPerWave = 0 then none
            else if t.GemmNPerWave > 2 * t.GemmMPerWave ∧
                t.GemmMPerBlock.tmod (2 * t.GemmMPerWave) = 0 then
              some false
            else
              let block_size := t.IsFastToBeUsedForTuning_block_size
              if block_size = 0 then none
              else
                let a_data_per_thread_copy :=
                  (t.GemmKPerBlock * t.GemmMPerBlock * t.GemmKPack).tdiv block_size
                let b_data_per_thread_copy :=
                  (t.GemmKPerBlock * t.GemmNPerBlock * t.GemmKPack).tdiv block_size
                let too_much_data : Bool :=
                  if ctx.IsFp32 then
                    decide (a_data_per_thread_copy > 16 ∨ b_data_per_thread_copy > 16)
                  else if ctx.IsFp16 || ctx.IsBfp16 then
                    decide (a_data_per_thread_copy > 32 ∨ b_data_per_thread_copy > 32)
                  else
                    false
                if too_much_data = true then
                  some false
                else if ctx.IsFp32 then
                  if t.GemmKPack > 4 then some false
                  else if t.GemmKPerBlock * t.GemmKPack < 8 then some false
                  else some true
                else if ctx.IsFp16 || ctx.IsBfp16 then
                  if t.GemmKPerBlock * t.GemmKPack < 16 then some false
                  else some true
                else
                  some true

/-- The loop `for(; gemm_k_block > 1; gemm_k_block--)` of
`CalculateGemmSizeAndGemmKBlock` (source lines 864-880) with the divisor of every division
and remainder tested before the operation: `none` when an iteration reaches a zero
divisor (`GemmKTotalFactor` at line 874, `GemmKPerBlock * GemmKPack` at line 876; the
divisor `gemm_k_block` of lines 866 and 869 is larger than 1). -/
def gemmKBlockLoop_checked (t : PerformanceImplicitGemmWrwV4R4Xdlops_Padded_Gemm)
    (n ho wo : Int) : Nat → Option Int
  | 0 => some 0
  | j + 1 =>
    let gemm_k_block : Int := (j : Int) + 1
    if gemm_k_block > 1 then
      if n.tmod gemm_k_block ≠ 0 then
        gemmKBlockLoop_checked t n ho wo j
      else
        let n_sub := n.tdiv gemm_k_block
        let gemm_k_total_no_pad := n_sub * ho * wo
        if t.GemmKTotalFactor = 0 then none
        else
          let gemm_k_total :=
            ((gemm_k_total_no_pad - 1).tdiv t.GemmKTotalFactor + 1) * t.GemmKTotalFactor
          if t.GemmKPerBlock * t.GemmKPack = 0 then none
          else if ¬(gemm_k_total.tmod (t.GemmKPerBlock * t.GemmKPack) = 0) then
            gemmKBlockLoop_checked t n ho wo j
          else
            some gemm_k_block
    else
      some gemm_k_block

/-- The function `CalculateGemmSizeAndGemmKBlock` (source lines 816-911) with the divisor
of every division and remainder tested before the operation: the result is `none` when
the execution reaches an operation whose divisor is zero, which `catch(...)` does not
catch, and otherwise the tuple the function returns. The divisors are the group count
(lines 840 and 841), `GemmMFactor` and `GemmNFactor` (lines 847 and 848), `GemmMPerBlock`
and, when the first remainder is zero, `GemmNPerBlock` (lines 853 and 856),
`grid_size_without_split_gemmk` (line 861), those of the loop, and `GemmKTotalFactor`
(line 889); the divisor `gemm_k_block` of line 885 is at least 1. -/
def CalculateGemmSizeAndGemmKBlock_checked
    (t : PerformanceImplicitGemmWrwV4R4Xdlops_Padded_Gemm) (ctx : ConvolutionContext) :
    Option GemmSizeAndGemmKBlock :=
  let g := ctx.GetGroupCountG
  let n := ctx.GetBatchN
  let k := ctx.GetOutputChannelK
  let c := ctx.GetInputChannelC
  let ho := ctx.GetOutputHeightHo
  let wo := ctx.GetOutputWidthWo
  let y := ctx.GetFilterHeightY
  let x := ctx.GetFilterWidthX
  if g = 0 then none
  else
    let k_per_group := k.tdiv g
    let c_per_group := c.tdiv g
    let gemm_m_no_pad := k_per_group
    let gemm_n_no_pad := c_per_group * y * x
    if t.GemmMFactor = 0 then none
    else
      let gemm_m := ((gemm_m_no_pad - 1).tdiv t.GemmMFactor + 1) * t.GemmMFactor
      if t.GemmNFactor = 0 then none
      else
        let gemm_n := ((gemm_n_no_pad - 1).tdiv t.GemmNFactor + 1) * t.GemmNFactor
        let gemm_m_pad := gemm_m - gemm_m_no_pad
        let gemm_n_pad := gemm_n - gemm_n_no_pad
        if t.GemmMPerBlock = 0 then none
        else if gemm_m.tmod t.GemmMPerBlock = 0 ∧ t.GemmNPerBlock = 0 then none
        else if ¬(gemm_m.tmod t.GemmMPerBlock = 0 ∧ gemm_n.tmod t.GemmNPerBlock = 0) then
          some gemmSizeFailure
        else
          let grid_size_without_split_gemmk :=
            g * (gemm_m.tdiv t.GemmMPerBlock) * (gemm_n.tdiv t.GemmNPerBlock)
          let max_grid_size : Int := 20 * (ctx.GetMaxComputeUnits : Int)
          if grid_size_without_split_gemmk = 0 then none
          else
            let gemm_k_block0 := max (max_grid_size.tdiv grid_size_without_split_gemmk) 1
            let gemm_k_block1 := min gemm_k_block0 n
            match (if gemm_k_block1 > 1 then
                gemmKBlockLoop_checked t n ho wo gemm_k_block1.toNat
              else some gemm_k_block1) with
            | none => none
            | some gemm_k_block2 =>
              let gemm_k_block := max 1 gemm_k_block2
              let n_sub := n.tdiv gemm_k_block
              let gemm_k_total_no_pad := n_sub * ho * wo
              if t.GemmKTotalFactor = 0 then none
              else
                let gemm_k_total :=
                  ((gemm_k_total_no_pad - 1).tdiv t.GemmKTotalFactor + 1) *
                    t.GemmKTotalFactor
                let gemm_k_total_pad := gemm_k_total - gemm_k_total_no_pad
                let gemm_g := g * gemm_k_block
                some
                  { gemm_g := gemm_g, gemm_m := gemm_m, gemm_n := gemm_n,
                    gemm_k_total := gemm_k_total, gemm_k_block := gemm_k_block,
                    gemm_m_pad := gemm_m_pad, gemm_n_pad := gemm_n_pad,
                    gemm_k_total_pad := gemm_k_total_pad, valid := true }

/-- The comparison of two configurations digit by digit, in the words of the specification
of the descent order: `GemmMPerBlock` is the most significant digit, then `GemmNPerBlock`,
`GemmMPerWave`, `GemmNPerWave`, `GemmKPack`, and `GemmKPerBlock` is the least significant
one; `descentDigitsGreater u v` says that `u` is larger than `v` at the most significant
digit in which they differ. This definition follows the specification, not the source. -/
def descentDigitsGreater (u v : PerformanceImplicitGemmWrwV4R4Xdlops_Padded_Gemm) : Prop :=
  v.GemmMPerBlock < u.GemmMPerBlock ∨ (v.GemmMPerBlock = u.GemmMPerBlock ∧
    (v.GemmNPerBlock < u.GemmNPerBlock ∨ (v.GemmNPerBlock = u.GemmNPerBlock ∧
      (v.GemmMPerWave < u.GemmMPerWave ∨ (v.GemmMPerWave = u.GemmMPerWave ∧
        (v.GemmNPerWave < u.GemmNPerWave ∨ (v.GemmNPerWave = u.GemmNPerWave ∧
          (v.GemmKPack < u.GemmKPack ∨ (v.GemmKPack = u.GemmKPack ∧
            v.GemmKPerBlock < u.GemmKPerBlock)))))))))

/-- The descent order in the words of the specification: `descentOrderBefore seed u v`
says that a descent from `seed` evaluates `u` before `v`. One reverse mixed-radix step is
taken before each evaluation, so the seed itself is evaluated last; a reverse step lowers
the mixed-radix number, so of two configurations other than the seed the larger one is
evaluated first. This definition follows the specification, not the source. -/
def descentOrderBefore (seed u v : PerformanceImplicitGemmWrwV4R4Xdlops_Padded_Gemm) :
    Prop :=
  u ≠ seed ∧ (v = seed ∨ descentDigitsGreater u v)

end PerformanceImplicitGemmWrwV4R4Xdlops_Padded_Gemm

namespace ConvHipImplicitGemmWrwV4R4Xdlops_Padded_Gemm

/-- The function `GetWorkspaceSize` (source lines 1190-1204). The product
`k * c * y * x` is `int` arithmetic (32 bits, `to_int`); it is converted to `std::size_t`
and multiplied by `miopen::GetTypeSize(miopenFloat)`, the 4 bytes of a full-precision
element. -/
def GetWorkspaceSize (ctx : ConvolutionContext) : Nat :=
  if ctx.IsFp32 then
    0
  else
    let k := ctx.GetOutputChannelK
    let c := ctx.GetInputChannelC
    let y := ctx.GetFilterHeightY
    let x := ctx.GetFilterWidthX
    (to_size_t (to_int (k * c * y * x)) * 4) % 2 ^ 64

/-- Modelled from the spec: the answers of the checks that the statements of
`IsApplicable` after its first one would read, all of them defined outside the source
file: the environment toggle, the context flags, the hardware, direction, dimension,
index-range and layout checks, the device name, the outcome of `HeuristicInit` with the
padding amounts, and `IsValidGridGemmXdlops`. -/
structure ApplicabilityQueries where
  env_disabled : Bool
  skip_solutions_that_take_long_time_to_build_and_have_narrow_coverage : Bool
  IsComposableKernelSupportedHardware : Bool
  IsXdlopsSupport : Bool
  use_hip_kernels : Bool
  IsBackwardWrW : Bool
  Is2d : Bool
  IsIndexRangeLargeEnough : Bool
  IsLayoutDefault : Bool
  device_is_gfx908 : Bool
  heuristic_config_IsReallyValid : Bool
  padding_needed : Bool
  IsValidGridGemmXdlops : Bool

/-- Sequencing of one statement with the rest of a function body: a statement is
`some r` when it executes `return r`, which ends the function with `r`, and `none` when
control falls through to the statements after it. -/
def returnOrElse (statement : Option Bool) (rest : Bool) : Bool :=
  match statement with
  | some r => r
  | none => rest

/-- The function `IsApplicable` (source lines 1106-1180), statement by statement. Its
first statement is `return false; // disable XDLOPS`; the checks that follow it read the
answers in `queries` and the datatype of the context (the device-name check is compiled
in only under `WORKAROUND_MI100_BF16_FATAL_COMPILER_ERRORS`; without it the query
`device_is_gfx908` answers false). -/
def IsApplicable (queries : ApplicabilityQueries) (ctx : ConvolutionContext) : Bool :=
  returnOrElse (some false) <|
  returnOrElse (if queries.env_disabled then some false else none) <|
  returnOrElse
    (if queries.skip_solutions_that_take_long_time_to_build_and_have_narrow_coverage then
      some false else none) <|
  returnOrElse (if !queries.IsComposableKernelSupportedHardware then some false else none) <|
  returnOrElse (if !queries.IsXdlopsSupport then some false else none) <|
  returnOrElse (if !queries.use_hip_kernels then some false else none) <|
  returnOrElse (if !(ctx.IsFp32 || ctx.IsFp16 || ctx.IsBfp16) then some false else none) <|
  returnOrElse (if !queries.IsBackwardWrW then some false else none) <|
  returnOrElse (if !queries.Is2d then some false else none) <|
  returnOrElse (if !queries.IsIndexRangeLargeEnough then some false else none) <|
  returnOrElse (if !queries.IsLayoutDefault then some false else none) <|
  returnOrElse (if queries.device_is_gfx908 && ctx.IsBfp16 then some false else none) <|
  returnOrElse (if !queries.heuristic_config_IsReallyValid then some false else none) <|
  returnOrElse (if !queries.padding_needed then some false else none) <|
  queries.IsValidGridGemmXdlops

end ConvHipImplicitGemmWrwV4R4Xdlops_Padded_Gemm

/-- Scenario A of the specification: one group, batch 32, 64 input and 64 output
channels, 14x14 output, 3x3 filter, stride 1, dilation 1, no padding, fp32, 60 compute
units; vector lengths 4 (fp32) and 8 (16-bit), 64 KiB of LDS. -/
def scenarioA : ConvolutionContext :=
  { dataType := DataType.fp32, GetGroupCountG := 1, GetBatchN := 32,
    GetOutputChannelK := 64, GetInputChannelC := 64,
    GetOutputHeightHo := 14, GetOutputWidthWo := 14,
    GetFilterHeightY := 3, GetFilterWidthX := 3,
    GetAdjustedConvolutionStrideH := 1, GetAdjustedConvolutionStrideW := 1,
    GetAdjustedConvolutionDilationW := 1,
    GetInputLeftPadH := 0, GetInputLeftPadW := 0,
    GetAdjustedInputRightPadH := 0, GetAdjustedInputRightPadW := 0,
    GetMaxComputeUnits := 60,
    amd_buffer_load_max_length_float := 4, amd_buffer_load_max_length_half := 8,
    amd_lds_write_max_length_float := 4, amd_lds_write_max_length_half := 8,
    get_lds_max_number_of_byte := 65536 }

/-- An external matrix-core predicate that accepts every tile. -/
def xdlopsAcceptAll : BlockwiseGemmXdlopsCheck :=
  fun _ _ _ _ _ _ _ => true

/-- A configuration that is valid for Scenario A. -/
def tileA : PerformanceImplicitGemmWrwV4R4Xdlops_Padded_Gemm :=
  { GemmMPerBlock := 64, GemmNPerBlock := 64, GemmKPerBlock := 4, GemmMPerWave := 32,
    GemmNPerWave := 32, GemmKPack := 4, GemmMFactor := 16, GemmNFactor := 64,
    GemmKTotalFactor := 16, GemmAThreadCopyMoreGemmK := false,
    GemmBThreadCopyMoreGemmK := true }

/-- Scenario A with an empty batch (batch size 0). -/
def scenarioA_emptyBatch : ConvolutionContext :=
  { scenarioA with GetBatchN := 0 }

/-- The configuration `tileA` with a 128-row block tile, which does not divide the 64
rows of Scenario A. -/
def tileA_M128 : PerformanceImplicitGemmWrwV4R4Xdlops_Padded_Gemm :=
  { tileA with GemmMPerBlock := 128 }

/-- The configuration `tileA` with `GemmKPerBlock = 8` and `GemmKPack = 8`. -/
def tileA_K8 : PerformanceImplicitGemmWrwV4R4Xdlops_Padded_Gemm :=
  { tileA with GemmKPerBlock := 8, GemmKPack := 8 }

/-- Scenario B of the specification: Scenario A with the 16-bit datatype fp16. -/
def scenarioB : ConvolutionContext :=
  { scenarioA with dataType := DataType.fp16 }

/-- An external matrix-core predicate that rejects every tile, as on hardware without
matrix-core support. -/
def xdlopsRejectAll : BlockwiseGemmXdlopsCheck :=
  fun _ _ _ _ _ _ _ => false

/-- A configuration of the fp32 descent lattice that is really valid and fast for
Scenario A. -/
def tileA_fast : PerformanceImplicitGemmWrwV4R4Xdlops_Padded_Gemm :=
  { GemmMPerBlock := 64, GemmNPerBlock := 64, GemmKPerBlock := 8, GemmMPerWave := 64,
    GemmNPerWave := 32, GemmKPack := 4, GemmMFactor := 16, GemmNFactor := 64,
    GemmKTotalFactor := 16, GemmAThreadCopyMoreGemmK := false,
    GemmBThreadCopyMoreGemmK := true }

/-- A floating-point test that computes the quotient exactly, as a rational number. -/
def exactRatioTest : FloatRatioTest :=
  fun g m c => decide ((g : Rat) / (m : Rat) > c)

/-- The configuration `{64, 64, 8, 64, 64, 4, 16, 64, 16, false, true}`: one wave per
block, and 32 elements per thread for each operand in Scenario A. -/
def tileA_oneWave : PerformanceImplicitGemmWrwV4R4Xdlops_Padded_Gemm :=
  { GemmMPerBlock := 64, GemmNPerBlock := 64, GemmKPerBlock := 8, GemmMPerWave := 64,
    GemmNPerWave := 64, GemmKPack := 4, GemmMFactor := 16, GemmNFactor := 64,
    GemmKTotalFactor := 16, GemmAThreadCopyMoreGemmK := false,
    GemmBThreadCopyMoreGemmK := true }

/-- The configuration `tileA_oneWave` with `GemmBThreadCopyMoreGemmK = false`. -/
def tileA_oneWave_flagB_false : PerformanceImplicitGemmWrwV4R4Xdlops_Padded_Gemm :=
  { tileA_oneWave with GemmBThreadCopyMoreGemmK := false }

/-- Scenario A with two groups and a single output channel, so that
`outChannels / groups = 0`. -/
def scenarioA_twoGroups_oneOutputChannel : ConvolutionContext :=
  { scenarioA with GetGroupCountG := 2, GetOutputChannelK := 1 }

/-- The configuration `tileA` with the padding factor `GemmMFactor = 1`. -/
def tileA_unitMFactor : PerformanceImplicitGemmWrwV4R4Xdlops_Padded_Gemm :=
  { tileA with GemmMFactor := 1 }

/-- Scenario A with 256 input and 256 output channels and a 1x1 filter. -/
def scenarioA_256_1x1 : ConvolutionContext :=
  { scenarioA with GetOutputChannelK := 256, GetInputChannelC := 256,
                   GetFilterHeightY := 1, GetFilterWidthX := 1 }

/-- A configuration of the fp32 descent lattice that is really valid and fast for
`scenarioA_256_1x1`. -/
def tile_256_1x1_fast : PerformanceImplicitGemmWrwV4R4Xdlops_Padded_Gemm :=
  { GemmMPerBlock := 128, GemmNPerBlock := 128, GemmKPerBlock := 8, GemmMPerWave := 64,
    GemmNPerWave := 64, GemmKPack := 4, GemmMFactor := 16, GemmNFactor := 64,
    GemmKTotalFactor := 16, GemmAThreadCopyMoreGemmK := false,
    GemmBThreadCopyMoreGemmK := true }

/-- Scenario A with 1024 input and 1024 output channels: `gemm_m = 1024`,
`gemm_n = 9216`, and the grid of the largest blockwise tile has `288` blocks, between 4
and 5 times the 60 compute units. -/
def scenarioA_1024 : ConvolutionContext :=
  { scenarioA with GetOutputChannelK := 1024, GetInputChannelC := 1024 }

/-- The accuracy of a floating-point test `float(g) / m > c`: it answers true whenever
the exact quotient `g / m`, lowered by the relative error `3 * 2^-24` of three roundings
to single precision (of `g`, of `m` and of the quotient), still exceeds the literal `c`
raised by the relative error `2^-52` of its rounding to double precision. The operands
are those of `IsFastToBeUsedForTuning`: a non-negative `int` and a positive
`std::size_t`. -/
def IsAccurateRatioTest (ratio_gt : FloatRatioTest) : Prop :=
  ∀ (g : Int) (m : Nat) (c : Rat), 0 ≤ g → g < 2 ^ 31 → 0 < m → m < 2 ^ 64 → 1 ≤ c →
    c ≤ 16 → c * (1 + 1 / 2 ^ 52) < (g : Rat) / (m : Rat) * (1 - 3 / 2 ^ 24) →
    ratio_gt g m c = true

/-- The largest power of two `pw * 2^k` (`k <= fuel`) that does not exceed `q`, by
doubling `pw` while the double still fits. -/
def powerOfTwoBelow (q : Rat) : Nat → Rat → Rat
  | 0, pw => pw
  | fuel + 1, pw => if pw * 2 ≤ q then powerOfTwoBelow q fuel (pw * 2) else pw

/-- Rounding of a rational to the nearest integer, ties to the even one. -/
def roundHalfEven (s : Rat) : Int :=
  if s - ⌊s⌋ < 1 / 2 then ⌊s⌋
  else if 1 / 2 < s - ⌊s⌋ then ⌊s⌋ + 1
  else if ⌊s⌋ % 2 = 0 then ⌊s⌋
  else ⌊s⌋ + 1

/-- Rounding to the nearest binary floating-point number with `p` bits of precision, ties
to even (the default rounding of IEEE 754), for a magnitude from `2^-150` up to `2^150`;
overflow and subnormal numbers lie outside that range and are not modelled. The spacing
of the floating-point numbers around `q` is `ulp = 2^e / 2^(p-1)`, with `2^e` the largest
power of two not above `|q|`. -/
def roundToNearestEven (p : Nat) (q : Rat) : Rat :=
  if q = 0 then 0
  else
    let ulp : Rat := powerOfTwoBelow |q| 300 (1 / 2 ^ 150) / 2 ^ (p - 1)
    (if q < 0 then -1 else 1) * ((roundHalfEven (|q| / ulp) : Rat) * ulp)

/-- The floating-point test `float(g) / m > c` as IEEE 754 arithmetic evaluates it: `g`
and `m` are converted to single precision (24 bits), the quotient is rounded to single
precision, the decimal literal `c` is the nearest double (53 bits), and the comparison of
the `float` with the `double` is exact. For `m = 0` the quotient is an infinity or a NaN,
and it exceeds `c` only when `g` is positive. -/
def ieeeRatioTest : FloatRatioTest :=
  fun g m c =>
    if m = 0 then decide (0 < g)
    else
      decide
        (roundToNearestEven 24
            (roundToNearestEven 24 (g : Rat) / roundToNearestEven 24 (m : Rat)) >
          roundToNearestEven 53 c)

/-- The configuration `tileA_fast` with the wave tile `GemmMPerWave = 128`, larger than the
block tile `GemmMPerBlock = 64`: all tile fields are positive and the block has
`64 / 128 = 0` waves. -/
def tileA_noWave : PerformanceImplicitGemmWrwV4R4Xdlops_Padded_Gemm :=
  { tileA_fast with GemmMPerWave := 128 }

/-- Scenario B (fp16) with 16384 output and 16384 input channels: the weight tensor has
`16384 * 16384 * 3 * 3 = 2415919104` elements, more than the largest `int`. -/
def scenarioB_16384 : ConvolutionContext :=
  { scenarioB with GetOutputChannelK := 16384, GetInputChannelC := 16384 }

/-- Scenario A (fp32) with 16384 output and 16384 input channels. -/
def scenarioA_16384 : ConvolutionContext :=
  { scenarioA with GetOutputChannelK := 16384, GetInputChannelC := 16384 }

/-- The configuration `{64, 64, 8, 32, 32, 4, 16, 64, 16, false, true}`: four waves per
block. -/
def tile_64_32 : PerformanceImplicitGemmWrwV4R4Xdlops_Padded_Gemm :=
  { GemmMPerBlock := 64, GemmNPerBlock := 64, GemmKPerBlock := 8, GemmMPerWave := 32,
    GemmNPerWave := 32, GemmKPack := 4, GemmMFactor := 16, GemmNFactor := 64,
    GemmKTotalFactor := 16, GemmAThreadCopyMoreGemmK := false,
    GemmBThreadCopyMoreGemmK := true }

open PerformanceImplicitGemmWrwV4R4Xdlops_Padded_Gemm

/-! ## Shared lemmas -/

theorem CalculateLdsNumberOfByte_snd (t : PerformanceImplicitGemmWrwV4R4Xdlops_Padded_Gemm)
    (ctx : ConvolutionContext) : (t.CalculateLdsNumberOfByte ctx).2 = true := rfl

theorem IsReallyValid_unfold (xdlops : BlockwiseGemmXdlopsCheck)
    (t : PerformanceImplicitGemmWrwV4R4Xdlops_Padded_Gemm) (ctx : ConvolutionContext) :
    t.IsReallyValid xdlops ctx = true ↔
      (t.IsValidValue = true ∧
        xdlops ctx t.GemmMPerBlock t.GemmNPerBlock t.GemmKPerBlock t.GemmMPerWave
          t.GemmNPerWave t.GemmKPack = true ∧
        (t.CalculateGemmSizeAndGemmKBlock ctx).valid = true ∧
        (t.CalculateGemmSizeAndGemmKBlock ctx).gemm_k_total.tmod t.GemmKPack = 0 ∧
        ((t.CalculateGemmSizeAndGemmKBlock ctx).gemm_k_total.tdiv t.GemmKPack).tmod
          t.GemmKPerBlock = 0 ∧
        (t.CalculateGemmSizeAndGemmKBlock ctx).gemm_m.tmod t.GemmMPerBlock = 0 ∧
        (t.CalculateGemmSizeAndGemmKBlock ctx).gemm_n.tmod t.GemmNPerBlock = 0 ∧
        (t.CalculateGemmABlockCopyPerformanceParameters ctx).valid = true ∧
        (t.CalculateGemmBBlockCopyPerformanceParameters ctx).valid = true ∧
        (t.CalculateLdsNumberOfByte ctx).1 ≤ ctx.get_lds_max_number_of_byte) := by
  unfold IsReallyValid
  simp only [CalculateLdsNumberOfByte_snd]
  constructor
  · intro h
    split_ifs at h with h1 h2 h3 h4 h5 h6 h7
    · simp only [not_not] at h1 h2 h3 h4 h5 h6 h7
      simp only [Bool.true_and, decide_eq_true_eq] at h
      exact ⟨h1, h2, h3, h4, h5.2.2, h5.1, h5.2.1, h6, h7, h⟩
  · rintro ⟨h1, h2, h3, h4, h5, h6, h7, h8, h9, h10⟩
    simp [h1, h2, h3, h4, h5, h6, h7, h8, h9, h10]

theorem blockCopyA_valid_blockSize (t : PerformanceImplicitGemmWrwV4R4Xdlops_Padded_Gemm)
    (ctx : ConvolutionContext)
    (h : (t.CalculateGemmABlockCopyPerformanceParameters ctx).valid = true) :
    t.CalculateBlockSize.2 = true := by
  by_contra hb
  have : t.CalculateGemmABlockCopyPerformanceParameters ctx = blockCopyFailure := by
    unfold CalculateGemmABlockCopyPerformanceParameters
    exact if_pos hb
  rw [this] at h
  simp [blockCopyFailure] at h

theorem blockCopyB_valid_blockSize (t : PerformanceImplicitGemmWrwV4R4Xdlops_Padded_Gemm)
    (ctx : ConvolutionContext)
    (h : (t.CalculateGemmBBlockCopyPerformanceParameters ctx).valid = true) :
    t.CalculateBlockSize.2 = true := by
  by_contra hb
  have : t.CalculateGemmBBlockCopyPerformanceParameters ctx = blockCopyFailure := by
    unfold CalculateGemmBBlockCopyPerformanceParameters
    exact if_pos hb
  rw [this] at h
  simp [blockCopyFailure] at h

theorem CalculateBlockSize_snd (t : PerformanceImplicitGemmWrwV4R4Xdlops_Padded_Gemm) :
    t.CalculateBlockSize.2 = true ↔
      (t.GemmMPerBlock.tmod t.GemmMPerWave = 0 ∧ t.GemmNPerBlock.tmod t.GemmNPerWave = 0) := by
  unfold CalculateBlockSize
  split_ifs with h
  · simp [h]
  · simp only [not_not] at h
    simp [h]

theorem gemmSize_failure_of_not (t : PerformanceImplicitGemmWrwV4R4Xdlops_Padded_Gemm)
    (ctx : ConvolutionContext)
    (h : ¬((((ctx.GetOutputChannelK.tdiv ctx.GetGroupCountG - 1).tdiv t.GemmMFactor + 1) *
            t.GemmMFactor).tmod t.GemmMPerBlock = 0 ∧
          (((ctx.GetInputChannelC.tdiv ctx.GetGroupCountG * ctx.GetFilterHeightY *
            ctx.GetFilterWidthX - 1).tdiv t.GemmNFactor + 1) *
            t.GemmNFactor).tmod t.GemmNPerBlock = 0)) :
    t.CalculateGemmSizeAndGemmKBlock ctx = gemmSizeFailure := by
  unfold CalculateGemmSizeAndGemmKBlock
  exact if_pos h

theorem gemmSize_valid_iff (t : PerformanceImplicitGemmWrwV4R4Xdlops_Padded_Gemm)
    (ctx : ConvolutionContext) :
    (t.CalculateGemmSizeAndGemmKBlock ctx).valid = true ↔
      ((((ctx.GetOutputChannelK.tdiv ctx.GetGroupCountG - 1).tdiv t.GemmMFactor + 1) *
            t.GemmMFactor).tmod t.GemmMPerBlock = 0 ∧
          (((ctx.GetInputChannelC.tdiv ctx.GetGroupCountG * ctx.GetFilterHeightY *
            ctx.GetFilterWidthX - 1).tdiv t.GemmNFactor + 1) *
            t.GemmNFactor).tmod t.GemmNPerBlock = 0) := by
  constructor
  · intro hv
    by_contra h
    rw [gemmSize_failure_of_not t ctx h] at hv
    simp [gemmSizeFailure] at hv
  · intro h
    unfold CalculateGemmSizeAndGemmKBlock
    simp only []
    rw [if_neg (not_not.mpr h)]

theorem gemmSize_m_n_of_valid (t : PerformanceImplicitGemmWrwV4R4Xdlops_Padded_Gemm)
    (ctx : ConvolutionContext) (hv : (t.CalculateGemmSizeAndGemmKBlock ctx).valid = true) :
    (t.CalculateGemmSizeAndGemmKBlock ctx).gemm_m =
        ((ctx.GetOutputChannelK.tdiv ctx.GetGroupCountG - 1).tdiv t.GemmMFactor + 1) *
          t.GemmMFactor ∧
      (t.CalculateGemmSizeAndGemmKBlock ctx).gemm_n =
        ((ctx.GetInputChannelC.tdiv ctx.GetGroupCountG * ctx.GetFilterHeightY *
          ctx.GetFilterWidthX - 1).tdiv t.GemmNFactor + 1) * t.GemmNFactor := by
  have h := (gemmSize_valid_iff t ctx).mp hv
  unfold CalculateGemmSizeAndGemmKBlock
  simp only []
  rw [if_neg (not_not.mpr h)]
  exact ⟨rfl, rfl⟩

theorem gemmSize_divisible_of_valid (t : PerformanceImplicitGemmWrwV4R4Xdlops_Padded_Gemm)
    (ctx : ConvolutionContext) (hv : (t.CalculateGemmSizeAndGemmKBlock ctx).valid = true) :
    (t.CalculateGemmSizeAndGemmKBlock ctx).gemm_m.tmod t.GemmMPerBlock = 0 ∧
      (t.CalculateGemmSizeAndGemmKBlock ctx).gemm_n.tmod t.GemmNPerBlock = 0 := by
  have h := (gemmSize_valid_iff t ctx).mp hv
  have hmn := gemmSize_m_n_of_valid t ctx hv
  rw [hmn.1, hmn.2]
  exact h

theorem CalculateGridSize_of_valid (t : PerformanceImplicitGemmWrwV4R4Xdlops_Padded_Gemm)
    (ctx : ConvolutionContext) (hv : (t.CalculateGemmSizeAndGemmKBlock ctx).valid = true) :
    t.CalculateGridSize ctx =
      ((t.CalculateGemmSizeAndGemmKBlock ctx).gemm_g *
          ((t.CalculateGemmSizeAndGemmKBlock ctx).gemm_m.tdiv t.GemmMPerBlock) *
          ((t.CalculateGemmSizeAndGemmKBlock ctx).gemm_n.tdiv t.GemmNPerBlock), true) := by
  have hd := gemmSize_divisible_of_valid t ctx hv
  unfold CalculateGridSize
  simp only []
  rw [if_neg (not_not.mpr hv), if_neg (not_not.mpr hd)]

theorem CalculateGridSize_of_not_valid (t : PerformanceImplicitGemmWrwV4R4Xdlops_Padded_Gemm)
    (ctx : ConvolutionContext) (hv : ¬((t.CalculateGemmSizeAndGemmKBlock ctx).valid = true)) :
    t.CalculateGridSize ctx = (-1, false) := by
  unfold CalculateGridSize
  exact if_pos hv

theorem IsTwoPower_bounds {L H v : Int} (h : IsTwoPower L H v = true) : L ≤ v ∧ v ≤ H := by
  unfold IsTwoPower at h
  simp only [Bool.and_eq_true, decide_eq_true_eq] at h
  exact ⟨h.1.2, h.2⟩

theorem IsValidValue_bounds (t : PerformanceImplicitGemmWrwV4R4Xdlops_Padded_Gemm)
    (h : t.IsValidValue = true) :
    (4 ≤ t.GemmMPerBlock ∧ t.GemmMPerBlock ≤ 256) ∧
      (4 ≤ t.GemmNPerBlock ∧ t.GemmNPerBlock ≤ 256) ∧
      (1 ≤ t.GemmKPerBlock ∧ t.GemmKPerBlock ≤ 8) ∧
      (4 ≤ t.GemmMPerWave ∧ t.GemmMPerWave ≤ 128) ∧
      (4 ≤ t.GemmNPerWave ∧ t.GemmNPerWave ≤ 128) ∧
      (1 ≤ t.GemmKPack ∧ t.GemmKPack ≤ 8) := by
  unfold IsValidValue at h
  simp only [Bool.and_eq_true] at h
  obtain ⟨⟨⟨⟨⟨h1, h2⟩, h3⟩, h4⟩, h5⟩, h6⟩ := h
  exact ⟨IsTwoPower_bounds h1, IsTwoPower_bounds h2, IsTwoPower_bounds h3,
    IsTwoPower_bounds h4, IsTwoPower_bounds h5, IsTwoPower_bounds h6⟩

theorem lds_cast (a : Int) (sz : Nat) :
    (((to_size_t a * sz) % 2 ^ 64 : Nat) : Int) = (a * (sz : Int)) % 2 ^ 64 := by
  unfold to_size_t
  have h0 : (0 : Int) ≤ a % 2 ^ 64 := Int.emod_nonneg _ (by norm_num)
  rw [Int.natCast_mod, Nat.cast_mul, Int.toNat_of_nonneg h0]
  push_cast
  rw [Int.mul_emod, Int.emod_emod_of_dvd _ (dvd_refl _), ← Int.mul_emod]

theorem to_int_of_range {v : Int} (h0 : -2 ^ 31 ≤ v) (h1 : v < 2 ^ 31) : to_int v = v := by
  unfold to_int
  norm_num at h0 h1 ⊢
  omega

theorem to_int_add_to_int (a b : Int) : to_int (to_int a + to_int b) = to_int (a + b) := by
  unfold to_int
  norm_num
  omega

theorem lds_bound_of_valid (t : PerformanceImplicitGemmWrwV4R4Xdlops_Padded_Gemm)
    (h : t.IsValidValue = true) :
    0 ≤ t.GemmKPerBlock * t.GemmMPerBlock * t.GemmKPack +
        t.GemmKPerBlock * t.GemmNPerBlock * t.GemmKPack ∧
      t.GemmKPerBlock * t.GemmMPerBlock * t.GemmKPack +
        t.GemmKPerBlock * t.GemmNPerBlock * t.GemmKPack ≤ 32768 := by
  obtain ⟨⟨m1, m2⟩, ⟨n1, n2⟩, ⟨k1, k2⟩, _, _, ⟨p1, p2⟩⟩ := IsValidValue_bounds t h
  have hkm : t.GemmKPerBlock * t.GemmMPerBlock ≤ 8 * 256 :=
    mul_le_mul k2 m2 (by omega) (by omega)
  have hkn : t.GemmKPerBlock * t.GemmNPerBlock ≤ 8 * 256 :=
    mul_le_mul k2 n2 (by omega) (by omega)
  have hkm0 : 0 ≤ t.GemmKPerBlock * t.GemmMPerBlock := mul_nonneg (by omega) (by omega)
  have hkn0 : 0 ≤ t.GemmKPerBlock * t.GemmNPerBlock := mul_nonneg (by omega) (by omega)
  have h1 : t.GemmKPerBlock * t.GemmMPerBlock * t.GemmKPack ≤ 8 * 256 * 8 :=
    mul_le_mul hkm p2 (by omega) (by omega)
  have h2 : t.GemmKPerBlock * t.GemmNPerBlock * t.GemmKPack ≤ 8 * 256 * 8 :=
    mul_le_mul hkn p2 (by omega) (by omega)
  have h3 : 0 ≤ t.GemmKPerBlock * t.GemmMPerBlock * t.GemmKPack :=
    mul_nonneg hkm0 (by omega)
  have h4 : 0 ≤ t.GemmKPerBlock * t.GemmNPerBlock * t.GemmKPack :=
    mul_nonneg hkn0 (by omega)
  constructor <;> omega

theorem blockSize_formula {M N MW NW : Int} (hMW : MW ≠ 0) (hNW : NW ≠ 0)
    (hM : M.tmod MW = 0) (hN : N.tmod NW = 0) :
    (N * M).tdiv (MW * NW) = M.tdiv MW * N.tdiv NW := by
  obtain ⟨a, rfl⟩ := Int.dvd_of_tmod_eq_zero hM
  obtain ⟨b, rfl⟩ := Int.dvd_of_tmod_eq_zero hN
  rw [Int.mul_tdiv_cancel_left a hMW, Int.mul_tdiv_cancel_left b hNW]
  have : NW * b * (MW * a) = MW * NW * (a * b) := by ring
  rw [this, Int.mul_tdiv_cancel_left _ (mul_ne_zero hMW hNW)]

theorem gemmKBlockLoop_succ_of_accepts (t : PerformanceImplicitGemmWrwV4R4Xdlops_Padded_Gemm)
    (n ho wo : Int) (J : Nat) (hJ : 1 ≤ J) (ha : gemmKBlockAccepts t n ho wo ((J : Int) + 1)) :
    gemmKBlockLoop t n ho wo (J + 1) = (J : Int) + 1 := by
  have h1 : ((J : Int) + 1) > 1 := by omega
  unfold gemmKBlockLoop
  simp only []
  rw [if_pos h1, if_neg (not_not.mpr ha.1), if_neg (not_not.mpr ha.2)]

theorem gemmKBlockLoop_succ_of_not_accepts
    (t : PerformanceImplicitGemmWrwV4R4Xdlops_Padded_Gemm)
    (n ho wo : Int) (J : Nat) (hJ : 1 ≤ J) (ha : ¬gemmKBlockAccepts t n ho wo ((J : Int) + 1)) :
    gemmKBlockLoop t n ho wo (J + 1) = gemmKBlockLoop t n ho wo J := by
  have h1 : ((J : Int) + 1) > 1 := by omega
  rw [gemmKBlockLoop]
  simp only []
  rw [if_pos h1]
  by_cases hd : n.tmod ((J : Int) + 1) = 0
  · have hk : ¬((((n.tdiv ((J : Int) + 1) * ho * wo - 1).tdiv t.GemmKTotalFactor + 1) *
        t.GemmKTotalFactor).tmod (t.GemmKPerBlock * t.GemmKPack) = 0) := fun hk => ha ⟨hd, hk⟩
    rw [if_neg (not_not.mpr hd), if_pos hk]
  · rw [if_pos hd]

theorem gemmKBlockLoop_spec (t : PerformanceImplicitGemmWrwV4R4Xdlops_Padded_Gemm)
    (n ho wo : Int) (J : Nat) :
    (gemmKBlockLoop t n ho wo J = min 1 (J : Int) ∧
        ∀ j : Int, 1 < j → j ≤ J → ¬gemmKBlockAccepts t n ho wo j) ∨
      (1 < gemmKBlockLoop t n ho wo J ∧ gemmKBlockLoop t n ho wo J ≤ J ∧
        gemmKBlockAccepts t n ho wo (gemmKBlockLoop t n ho wo J) ∧
        ∀ j : Int, gemmKBlockLoop t n ho wo J < j → j ≤ J → ¬gemmKBlockAccepts t n ho wo j) := by
  induction J with
  | zero =>
    left
    refine ⟨by simp [gemmKBlockLoop], ?_⟩
    intro j h1 h2
    simp at h2
    omega
  | succ J ih =>
    by_cases hJ : 1 ≤ J
    · by_cases ha : gemmKBlockAccepts t n ho wo ((J : Int) + 1)
      · right
        rw [gemmKBlockLoop_succ_of_accepts t n ho wo J hJ ha]
        refine ⟨by omega, by push_cast; omega, ha, ?_⟩
        intro j h1 h2
        push_cast at h2
        omega
      · rw [gemmKBlockLoop_succ_of_not_accepts t n ho wo J hJ ha]
        have hstep : ∀ j : Int, j ≤ ((J + 1 : Nat) : Int) → ¬(j ≤ (J : Int)) →
            j = (J : Int) + 1 := by
          intro j h1 h2
          push_cast at h1
          omega
        rcases ih with ⟨e, hno⟩ | ⟨h1, h2, h3, h4⟩
        · left
          refine ⟨?_, ?_⟩
          · rw [e]
            push_cast
            omega
          · intro j hj1 hj2
            by_cases hle : j ≤ (J : Int)
            · exact hno j hj1 hle
            · rw [hstep j hj2 hle]
              exact ha
        · right
          refine ⟨h1, by push_cast; omega, h3, ?_⟩
          intro j hj1 hj2
          by_cases hle : j ≤ (J : Int)
          · exact h4 j hj1 hle
          · rw [hstep j hj2 hle]
            exact ha
    · have hJ0 : J = 0 := by omega
      subst hJ0
      left
      refine ⟨by simp [gemmKBlockLoop], ?_⟩
      intro j h1 h2
      simp at h2
      omega

theorem gemmSize_fields_of_valid (t : PerformanceImplicitGemmWrwV4R4Xdlops_Padded_Gemm)
    (ctx : ConvolutionContext) (hv : (t.CalculateGemmSizeAndGemmKBlock ctx).valid = true) :
    (t.CalculateGemmSizeAndGemmKBlock ctx).gemm_g =
        ctx.GetGroupCountG * (t.CalculateGemmSizeAndGemmKBlock ctx).gemm_k_block ∧
      (t.CalculateGemmSizeAndGemmKBlock ctx).gemm_k_total =
        ((ctx.GetBatchN.tdiv (t.CalculateGemmSizeAndGemmKBlock ctx).gemm_k_block *
            ctx.GetOutputHeightHo * ctx.GetOutputWidthWo - 1).tdiv t.GemmKTotalFactor + 1) *
          t.GemmKTotalFactor ∧
      (t.CalculateGemmSizeAndGemmKBlock ctx).gemm_m_pad =
        (t.CalculateGemmSizeAndGemmKBlock ctx).gemm_m -
          ctx.GetOutputChannelK.tdiv ctx.GetGroupCountG ∧
      (t.CalculateGemmSizeAndGemmKBlock ctx).gemm_n_pad =
        (t.CalculateGemmSizeAndGemmKBlock ctx).gemm_n -
          ctx.GetInputChannelC.tdiv ctx.GetGroupCountG * ctx.GetFilterHeightY *
            ctx.GetFilterWidthX ∧
      (t.CalculateGemmSizeAndGemmKBlock ctx).gemm_k_total_pad =
        (t.CalculateGemmSizeAndGemmKBlock ctx).gemm_k_total -
          ctx.GetBatchN.tdiv (t.CalculateGemmSizeAndGemmKBlock ctx).gemm_k_block *
            ctx.GetOutputHeightHo * ctx.GetOutputWidthWo := by
  have h := (gemmSize_valid_iff t ctx).mp hv
  unfold CalculateGemmSizeAndGemmKBlock
  simp only []
  rw [if_neg (not_not.mpr h)]
  exact ⟨rfl, rfl, rfl, rfl, rfl⟩

theorem gemm_k_block_eq_of_valid (t : PerformanceImplicitGemmWrwV4R4Xdlops_Padded_Gemm)
    (ctx : ConvolutionContext) (hv : (t.CalculateGemmSizeAndGemmKBlock ctx).valid = true) :
    (t.CalculateGemmSizeAndGemmKBlock ctx).gemm_k_block =
      max 1
        (if min (max ((20 * (ctx.GetMaxComputeUnits : Int)).tdiv
              (ctx.GetGroupCountG *
                ((t.CalculateGemmSizeAndGemmKBlock ctx).gemm_m.tdiv t.GemmMPerBlock) *
                ((t.CalculateGemmSizeAndGemmKBlock ctx).gemm_n.tdiv t.GemmNPerBlock))) 1)
            ctx.GetBatchN > 1 then
          gemmKBlockLoop t ctx.GetBatchN ctx.GetOutputHeightHo ctx.GetOutputWidthWo
            (min (max ((20 * (ctx.GetMaxComputeUnits : Int)).tdiv
              (ctx.GetGroupCountG *
                ((t.CalculateGemmSizeAndGemmKBlock ctx).gemm_m.tdiv t.GemmMPerBlock) *
                ((t.CalculateGemmSizeAndGemmKBlock ctx).gemm_n.tdiv t.GemmNPerBlock))) 1)
            ctx.GetBatchN).toNat
        else
          min (max ((20 * (ctx.GetMaxComputeUnits : Int)).tdiv
              (ctx.GetGroupCountG *
                ((t.CalculateGemmSizeAndGemmKBlock ctx).gemm_m.tdiv t.GemmMPerBlock) *
                ((t.CalculateGemmSizeAndGemmKBlock ctx).gemm_n.tdiv t.GemmNPerBlock))) 1)
            ctx.GetBatchN) := by
  have h := (gemmSize_valid_iff t ctx).mp hv
  unfold CalculateGemmSizeAndGemmKBlock
  simp only []
  rw [if_neg (not_not.mpr h)]

theorem gemm_k_block_spec (t : PerformanceImplicitGemmWrwV4R4Xdlops_Padded_Gemm)
    (ctx : ConvolutionContext) (hv : (t.CalculateGemmSizeAndGemmKBlock ctx).valid = true)
    (B : Int)
    (hB : B = min (max ((20 * (ctx.GetMaxComputeUnits : Int)).tdiv
              (ctx.GetGroupCountG *
                ((t.CalculateGemmSizeAndGemmKBlock ctx).gemm_m.tdiv t.GemmMPerBlock) *
                ((t.CalculateGemmSizeAndGemmKBlock ctx).gemm_n.tdiv t.GemmNPerBlock))) 1)
            ctx.GetBatchN) :
    ((t.CalculateGemmSizeAndGemmKBlock ctx).gemm_k_block = 1 ∧
        ∀ j : Int, 1 < j → j ≤ B →
          ¬gemmKBlockAccepts t ctx.GetBatchN ctx.GetOutputHeightHo ctx.GetOutputWidthWo j) ∨
      (1 < (t.CalculateGemmSizeAndGemmKBlock ctx).gemm_k_block ∧
        (t.CalculateGemmSizeAndGemmKBlock ctx).gemm_k_block ≤ B ∧
        gemmKBlockAccepts t ctx.GetBatchN ctx.GetOutputHeightHo ctx.GetOutputWidthWo
          (t.CalculateGemmSizeAndGemmKBlock ctx).gemm_k_block ∧
        ∀ j : Int, (t.CalculateGemmSizeAndGemmKBlock ctx).gemm_k_block < j → j ≤ B →
          ¬gemmKBlockAccepts t ctx.GetBatchN ctx.GetOutputHeightHo ctx.GetOutputWidthWo j) := by
  rw [gemm_k_block_eq_of_valid t ctx hv, ← hB]
  by_cases h1 : B > 1
  · rw [if_pos h1]
    have hcast : ((B.toNat : Nat) : Int) = B := Int.toNat_of_nonneg (by omega)
    have hl := gemmKBlockLoop_spec t ctx.GetBatchN ctx.GetOutputHeightHo ctx.GetOutputWidthWo
      B.toNat
    rw [hcast] at hl
    rcases hl with ⟨e, hno⟩ | ⟨ha, hb, hc, hd⟩
    · left
      rw [e]
      exact ⟨by omega, hno⟩
    · right
      have hm : max 1 (gemmKBlockLoop t ctx.GetBatchN ctx.GetOutputHeightHo
          ctx.GetOutputWidthWo B.toNat) = gemmKBlockLoop t ctx.GetBatchN
          ctx.GetOutputHeightHo ctx.GetOutputWidthWo B.toNat := by omega
      rw [hm]
      exact ⟨ha, hb, hc, hd⟩
  · rw [if_neg h1]
    left
    refine ⟨by omega, ?_⟩
    intro j hj1 hj2
    omega

theorem pad_up_spec {x F : Int} (hx : 1 ≤ x) (hF : 0 < F) :
    x ≤ ((x - 1).tdiv F + 1) * F ∧ ((x - 1).tdiv F + 1) * F - x ≤ F - 1 ∧
      (((x - 1).tdiv F + 1) * F).tmod F = 0 := by
  have hq : (x - 1).tdiv F = (x - 1) / F := Int.tdiv_eq_ediv (by omega) (le_of_lt hF)
  have h1 := Int.emod_add_ediv (x - 1) F
  have h2 := Int.emod_nonneg (x - 1) (ne_of_gt hF)
  have h3 := Int.emod_lt_of_pos (x - 1) hF
  have h4 : ((x - 1) / F + 1) * F = F * ((x - 1) / F) + F := by ring
  refine ⟨?_, ?_, Int.mul_tmod_left _ _⟩
  · rw [hq, h4]
    linarith
  · rw [hq, h4]
    linarith

/-! ## The claims -/

/-- C1: for every workload and every configuration, `IsReallyValid` returns true if and
only if `IsValidValue` holds, the external predicate `IsValidBlockwiseGemmXdlops` accepts
the tile sizes, `CalculateGemmSizeAndGemmKBlock` succeeds, `gemm_k_total % GemmKPack == 0`,
`(gemm_k_total / GemmKPack) % GemmKPerBlock == 0`, `gemm_m % GemmMPerBlock == 0`,
`gemm_n % GemmNPerBlock == 0`, both block-copy parameter functions succeed, and the LDS
byte footprint is at most the hardware budget. -/
theorem IsReallyValid_iff_all_checks (xdlops : BlockwiseGemmXdlopsCheck)
    (t : PerformanceImplicitGemmWrwV4R4Xdlops_Padded_Gemm) (ctx : ConvolutionContext) :
    t.IsReallyValid xdlops ctx = true ↔
      (t.IsValidValue = true ∧
        xdlops ctx t.GemmMPerBlock t.GemmNPerBlock t.GemmKPerBlock t.GemmMPerWave
          t.GemmNPerWave t.GemmKPack = true ∧
        (t.CalculateGemmSizeAndGemmKBlock ctx).valid = true ∧
        (t.CalculateGemmSizeAndGemmKBlock ctx).gemm_k_total.tmod t.GemmKPack = 0 ∧
        ((t.CalculateGemmSizeAndGemmKBlock ctx).gemm_k_total.tdiv t.GemmKPack).tmod
          t.GemmKPerBlock = 0 ∧
        (t.CalculateGemmSizeAndGemmKBlock ctx).gemm_m.tmod t.GemmMPerBlock = 0 ∧
        (t.CalculateGemmSizeAndGemmKBlock ctx).gemm_n.tmod t.GemmNPerBlock = 0 ∧
        (t.CalculateGemmABlockCopyPerformanceParameters ctx).valid = true ∧
        (t.CalculateGemmBBlockCopyPerformanceParameters ctx).valid = true ∧
        (t.CalculateLdsNumberOfByte ctx).1 ≤ ctx.get_lds_max_number_of_byte) :=
  IsReallyValid_unfold xdlops t ctx

/-- C2: if `IsReallyValid` is true then every derived quantity reports success:
`CalculateBlockSize`, `CalculateGridSize`, both block-copy parameter functions and
`CalculateLdsNumberOfByte` all return ok. -/
theorem IsReallyValid_derived_quantities_ok (xdlops : BlockwiseGemmXdlopsCheck)
    (t : PerformanceImplicitGemmWrwV4R4Xdlops_Padded_Gemm) (ctx : ConvolutionContext)
    (h : t.IsReallyValid xdlops ctx = true) :
    t.CalculateBlockSize.2 = true ∧
      (t.CalculateGridSize ctx).2 = true ∧
      (t.CalculateGemmABlockCopyPerformanceParameters ctx).valid = true ∧
      (t.CalculateGemmBBlockCopyPerformanceParameters ctx).valid = true ∧
      (t.CalculateLdsNumberOfByte ctx).2 = true := by
  obtain ⟨_, _, hv, _, _, _, _, hA, hB, _⟩ := (IsReallyValid_unfold xdlops t ctx).mp h
  refine ⟨blockCopyA_valid_blockSize t ctx hA, ?_, hA, hB, rfl⟩
  rw [CalculateGridSize_of_valid t ctx hv]

/-- Witness of C2: the configuration `tileA` is really valid for Scenario A, and all of
its derived quantities report success. -/
theorem IsReallyValid_derived_quantities_ok_witness :
    tileA.IsReallyValid xdlopsAcceptAll scenarioA = true ∧
      (tileA.CalculateBlockSize.2 = true ∧
        (tileA.CalculateGridSize scenarioA).2 = true ∧
        (tileA.CalculateGemmABlockCopyPerformanceParameters scenarioA).valid = true ∧
        (tileA.CalculateGemmBBlockCopyPerformanceParameters scenarioA).valid = true ∧
        (tileA.CalculateLdsNumberOfByte scenarioA).2 = true) :=
  ⟨by decide, IsReallyValid_derived_quantities_ok xdlopsAcceptAll tileA scenarioA (by decide)⟩

/-- C3: `CalculateLdsNumberOfByte` never fails: it returns ok = true for every
configuration. It returns exactly `(GemmKPerBlock*GemmMPerBlock*GemmKPack +
GemmKPerBlock*GemmNPerBlock*GemmKPack) * sizeof(datatype)` (4 bytes for fp32, 2 bytes
otherwise) for every configuration whose sum `GemmKPerBlock*GemmMPerBlock*GemmKPack +
GemmKPerBlock*GemmNPerBlock*GemmKPack` is a non-negative `int` value, in particular for
every configuration that `IsValidValue` accepts; the source calls the function only after
`IsValidValue`. For every configuration accepted by `IsReallyValid` the returned value is
that product and it is at most the hardware LDS budget. -/
theorem CalculateLdsNumberOfByte_value_and_budget (xdlops : BlockwiseGemmXdlopsCheck)
    (t : PerformanceImplicitGemmWrwV4R4Xdlops_Padded_Gemm) (ctx : ConvolutionContext) :
    (t.CalculateLdsNumberOfByte ctx).2 = true ∧
      ((0 ≤ t.GemmKPerBlock * t.GemmMPerBlock * t.GemmKPack +
            t.GemmKPerBlock * t.GemmNPerBlock * t.GemmKPack ∧
          t.GemmKPerBlock * t.GemmMPerBlock * t.GemmKPack +
            t.GemmKPerBlock * t.GemmNPerBlock * t.GemmKPack < 2 ^ 31) →
        (((t.CalculateLdsNumberOfByte ctx).1 : Nat) : Int) =
          (t.GemmKPerBlock * t.GemmMPerBlock * t.GemmKPack +
            t.GemmKPerBlock * t.GemmNPerBlock * t.GemmKPack) *
          (if ctx.dataType = DataType.fp32 then 4 else 2)) ∧
      (t.IsValidValue = true →
        (((t.CalculateLdsNumberOfByte ctx).1 : Nat) : Int) =
          (t.GemmKPerBlock * t.GemmMPerBlock * t.GemmKPack +
            t.GemmKPerBlock * t.GemmNPerBlock * t.GemmKPack) *
          (if ctx.dataType = DataType.fp32 then 4 else 2)) ∧
      (t.IsReallyValid xdlops ctx = true →
        (((t.CalculateLdsNumberOfByte ctx).1 : Nat) : Int) =
            (t.GemmKPerBlock * t.GemmMPerBlock * t.GemmKPack +
              t.GemmKPerBlock * t.GemmNPerBlock * t.GemmKPack) *
            (if ctx.dataType = DataType.fp32 then 4 else 2) ∧
          (t.CalculateLdsNumberOfByte ctx).1 ≤ ctx.get_lds_max_number_of_byte) := by
  have hval : (0 ≤ t.GemmKPerBlock * t.GemmMPerBlock * t.GemmKPack +
        t.GemmKPerBlock * t.GemmNPerBlock * t.GemmKPack ∧
      t.GemmKPerBlock * t.GemmMPerBlock * t.GemmKPack +
        t.GemmKPerBlock * t.GemmNPerBlock * t.GemmKPack < 2 ^ 31) →
      (((t.CalculateLdsNumberOfByte ctx).1 : Nat) : Int) =
        (t.GemmKPerBlock * t.GemmMPerBlock * t.GemmKPack +
          t.GemmKPerBlock * t.GemmNPerBlock * t.GemmKPack) *
        (if ctx.dataType = DataType.fp32 then 4 else 2) := by
    rintro ⟨h0, h1⟩
    have hsz : (((if ctx.IsFp32 then 4 else 2 : Nat) : Nat) : Int) =
        (if ctx.dataType = DataType.fp32 then 4 else 2) := by
      simp only [ConvolutionContext.IsFp32, beq_iff_eq]
      split_ifs <;> rfl
    unfold CalculateLdsNumberOfByte
    simp only []
    rw [lds_cast, to_int_add_to_int, to_int_of_range (by omega) h1, hsz]
    refine Int.emod_eq_of_lt (mul_nonneg h0 ?_) ?_
    · split_ifs <;> norm_num
    · split_ifs <;> norm_num at h1 ⊢ <;> omega
  refine ⟨rfl, hval, ?_, ?_⟩
  · intro hv
    obtain ⟨h0, h1⟩ := lds_bound_of_valid t hv
    exact hval ⟨h0, by omega⟩
  · intro h
    obtain ⟨hv, _, _, _, _, _, _, _, _, hl⟩ := (IsReallyValid_unfold xdlops t ctx).mp h
    obtain ⟨h0, h1⟩ := lds_bound_of_valid t hv
    exact ⟨hval ⟨h0, by omega⟩, hl⟩

/-- C4: for every workload and every configuration with non-zero wave tiles in which
`GemmMPerBlock` is not divisible by `GemmMPerWave`, `CalculateBlockSize` reports not-ok
(it returns `(-1, false)`) and `IsReallyValid` returns false, whatever the external
matrix-core predicate answers. -/
theorem blockSize_fails_of_M_not_divisible (xdlops : BlockwiseGemmXdlopsCheck)
    (t : PerformanceImplicitGemmWrwV4R4Xdlops_Padded_Gemm) (ctx : ConvolutionContext)
    (_hMWave : t.GemmMPerWave ≠ 0) (_hNWave : t.GemmNPerWave ≠ 0)
    (h : t.GemmMPerBlock.tmod t.GemmMPerWave ≠ 0) :
    t.CalculateBlockSize = (-1, false) ∧ t.IsReallyValid xdlops ctx = false := by
  have hb : t.CalculateBlockSize = (-1, false) := by
    unfold CalculateBlockSize
    exact if_pos (fun hc => h hc.1)
  refine ⟨hb, ?_⟩
  by_contra hr
  have hr' : t.IsReallyValid xdlops ctx = true := by simpa using hr
  obtain ⟨_, _, _, _, _, _, _, hA, _, _⟩ := (IsReallyValid_unfold xdlops t ctx).mp hr'
  have := blockCopyA_valid_blockSize t ctx hA
  rw [hb] at this
  simp at this

/-- Witness of C4: `GemmMPerBlock = 4` and `GemmMPerWave = 8`, on Scenario A. -/
theorem blockSize_fails_of_M_not_divisible_witness :
    ((4 : Int).tmod 8 ≠ 0) ∧
      ((⟨4, 4, 1, 8, 4, 1, 16, 64, 16, false, false⟩ :
          PerformanceImplicitGemmWrwV4R4Xdlops_Padded_Gemm).CalculateBlockSize = (-1, false) ∧
        (⟨4, 4, 1, 8, 4, 1, 16, 64, 16, false, false⟩ :
          PerformanceImplicitGemmWrwV4R4Xdlops_Padded_Gemm).IsReallyValid xdlopsAcceptAll
            scenarioA = false) :=
  ⟨by decide,
    blockSize_fails_of_M_not_divisible xdlopsAcceptAll ⟨4, 4, 1, 8, 4, 1, 16, 64, 16, false, false⟩
      scenarioA (by decide) (by decide) (by decide)⟩

/-- C5: for every configuration with positive block and wave tiles, `CalculateBlockSize`
fails, returning `(-1, false)`, exactly when `GemmMPerBlock % GemmMPerWave != 0` or
`GemmNPerBlock % GemmNPerWave != 0`; otherwise it returns ok with the value
`(GemmMPerBlock/GemmMPerWave) * (GemmNPerBlock/GemmNPerWave) * 64`: the expression of the
source, `(GemmNPerBlock*GemmMPerBlock)/(GemmMPerWave*GemmNPerWave)*64`, equals that
formula and equals the block size recomputed inline in `IsFastToBeUsedForTuning`. -/
theorem CalculateBlockSize_spec (t : PerformanceImplicitGemmWrwV4R4Xdlops_Padded_Gemm)
    (_hM : 0 < t.GemmMPerBlock) (_hN : 0 < t.GemmNPerBlock)
    (hMW : 0 < t.GemmMPerWave) (hNW : 0 < t.GemmNPerWave) :
    (t.CalculateBlockSize.2 = false ↔
        (t.GemmMPerBlock.tmod t.GemmMPerWave ≠ 0 ∨ t.GemmNPerBlock.tmod t.GemmNPerWave ≠ 0)) ∧
      (t.CalculateBlockSize.2 = false → t.CalculateBlockSize = (-1, false)) ∧
      (t.CalculateBlockSize.2 = true →
        t.CalculateBlockSize =
            (t.GemmMPerBlock.tdiv t.GemmMPerWave * t.GemmNPerBlock.tdiv t.GemmNPerWave * 64,
              true) ∧
          (t.GemmNPerBlock * t.GemmMPerBlock).tdiv (t.GemmMPerWave * t.GemmNPerWave) * 64 =
            t.GemmMPerBlock.tdiv t.GemmMPerWave * t.GemmNPerBlock.tdiv t.GemmNPerWave * 64 ∧
          t.CalculateBlockSize.1 = t.IsFastToBeUsedForTuning_block_size) := by
  have hiff := CalculateBlockSize_snd t
  refine ⟨?_, ?_, ?_⟩
  · rw [← Bool.not_eq_true, hiff]
    constructor
    · intro h
      by_contra hc
      push_neg at hc
      exact h hc
    · rintro (h | h) hc
      · exact h hc.1
      · exact h hc.2
  · intro h
    have hn : ¬(t.GemmMPerBlock.tmod t.GemmMPerWave = 0 ∧
        t.GemmNPerBlock.tmod t.GemmNPerWave = 0) := by
      rw [← hiff, h]
      simp
    unfold CalculateBlockSize
    exact if_pos hn
  · intro h
    have hc := hiff.mp h
    have hf := blockSize_formula (ne_of_gt hMW) (ne_of_gt hNW) hc.1 hc.2
    have hb : t.CalculateBlockSize =
        ((t.GemmNPerBlock * t.GemmMPerBlock).tdiv (t.GemmMPerWave * t.GemmNPerWave) * 64,
          true) := by
      unfold CalculateBlockSize
      exact if_neg (not_not.mpr hc)
    refine ⟨?_, ?_, ?_⟩
    · rw [hb, hf]
    · rw [hf]
    · rw [hb]
      unfold IsFastToBeUsedForTuning_block_size
      rw [hf]

/-- Witness of C5: the configuration `tileA` (64x64 block tile, 32x32 wave tile). -/
theorem CalculateBlockSize_spec_witness :
    (0 < tileA.GemmMPerBlock ∧ 0 < tileA.GemmNPerBlock ∧ 0 < tileA.GemmMPerWave ∧
        0 < tileA.GemmNPerWave) ∧
      tileA.CalculateBlockSize = (256, true) ∧
      ((tileA.CalculateBlockSize.2 = false ↔
          (tileA.GemmMPerBlock.tmod tileA.GemmMPerWave ≠ 0 ∨
            tileA.GemmNPerBlock.tmod tileA.GemmNPerWave ≠ 0)) ∧
        (tileA.CalculateBlockSize.2 = false → tileA.CalculateBlockSize = (-1, false)) ∧
        (tileA.CalculateBlockSize.2 = true →
          tileA.CalculateBlockSize =
              (tileA.GemmMPerBlock.tdiv tileA.GemmMPerWave *
                tileA.GemmNPerBlock.tdiv tileA.GemmNPerWave * 64, true) ∧
            (tileA.GemmNPerBlock * tileA.GemmMPerBlock).tdiv
                (tileA.GemmMPerWave * tileA.GemmNPerWave) * 64 =
              tileA.GemmMPerBlock.tdiv tileA.GemmMPerWave *
                tileA.GemmNPerBlock.tdiv tileA.GemmNPerWave * 64 ∧
            tileA.CalculateBlockSize.1 = tileA.IsFastToBeUsedForTuning_block_size)) :=
  ⟨by decide, by decide,
    CalculateBlockSize_spec tileA (by decide) (by decide) (by decide) (by decide)⟩

/-- C6: for every workload and configuration, `CalculateGridSize` succeeds exactly when
`CalculateGemmSizeAndGemmKBlock` succeeds: after a successful shape derivation the extra
divisibility check of `gemm_m` and `gemm_n` by the block tile cannot fail. On success the
value is `gemm_g * (gemm_m / GemmMPerBlock) * (gemm_n / GemmNPerBlock)` with the three
quantities taken from `CalculateGemmSizeAndGemmKBlock`; on failure the result is
`(-1, false)`. -/
theorem CalculateGridSize_spec (t : PerformanceImplicitGemmWrwV4R4Xdlops_Padded_Gemm)
    (ctx : ConvolutionContext) :
    ((t.CalculateGridSize ctx).2 = true ↔
        (t.CalculateGemmSizeAndGemmKBlock ctx).valid = true) ∧
      ((t.CalculateGemmSizeAndGemmKBlock ctx).valid = true →
        ((t.CalculateGemmSizeAndGemmKBlock ctx).gemm_m.tmod t.GemmMPerBlock = 0 ∧
          (t.CalculateGemmSizeAndGemmKBlock ctx).gemm_n.tmod t.GemmNPerBlock = 0) ∧
        t.CalculateGridSize ctx =
          ((t.CalculateGemmSizeAndGemmKBlock ctx).gemm_g *
              ((t.CalculateGemmSizeAndGemmKBlock ctx).gemm_m.tdiv t.GemmMPerBlock) *
              ((t.CalculateGemmSizeAndGemmKBlock ctx).gemm_n.tdiv t.GemmNPerBlock), true)) ∧
      ((t.CalculateGridSize ctx).2 = false → t.CalculateGridSize ctx = (-1, false)) := by
  by_cases hv : (t.CalculateGemmSizeAndGemmKBlock ctx).valid = true
  · have hg := CalculateGridSize_of_valid t ctx hv
    refine ⟨?_, ?_, ?_⟩
    · rw [hg]
      simp [hv]
    · intro _
      exact ⟨gemmSize_divisible_of_valid t ctx hv, hg⟩
    · rw [hg]
      simp
  · have hg := CalculateGridSize_of_not_valid t ctx hv
    refine ⟨?_, ?_, ?_⟩
    · rw [hg]
      simp [hv]
    · intro h
      exact absurd h hv
    · intro _
      exact hg

/-- C8 fails as stated: for Scenario A with an empty batch the shape derivation succeeds
with `gemm_k_block = 1`, the unpadded K-total is `0`, the truncating division gives the
padded K-total `16`, and `gemm_k_total_pad = 16` lies outside `[0, GemmKTotalFactor - 1]`
`= [0, 15]`. -/
theorem padding_bound_fails_for_empty_batch :
    (tileA.CalculateGemmSizeAndGemmKBlock scenarioA_emptyBatch).valid = true ∧
      (tileA.CalculateGemmSizeAndGemmKBlock scenarioA_emptyBatch).gemm_k_block = 1 ∧
      (tileA.CalculateGemmSizeAndGemmKBlock scenarioA_emptyBatch).gemm_k_total = 16 ∧
      (tileA.CalculateGemmSizeAndGemmKBlock scenarioA_emptyBatch).gemm_k_total_pad = 16 ∧
      ¬((tileA.CalculateGemmSizeAndGemmKBlock scenarioA_emptyBatch).gemm_k_total_pad ≤
        tileA.GemmKTotalFactor - 1) := by
  decide

/-- C8, amended: for every workload and configuration for which
`CalculateGemmSizeAndGemmKBlock` succeeds, if the three alignment factors are positive
and the three unpadded values `outChannels/groups`, `inChannels/groups*filterH*filterW`
and `(batch/gemm_k_block)*Ho*Wo` are at least 1, then each pad amount is the padded value
minus the unpadded value and lies in `[0, factor - 1]`, and each padded value is a
multiple of its factor. -/
theorem padding_bounds (t : PerformanceImplicitGemmWrwV4R4Xdlops_Padded_Gemm)
    (ctx : ConvolutionContext) (hv : (t.CalculateGemmSizeAndGemmKBlock ctx).valid = true)
    (hMF : 0 < t.GemmMFactor) (hNF : 0 < t.GemmNFactor) (hKF : 0 < t.GemmKTotalFactor)
    (hm : 1 ≤ ctx.GetOutputChannelK.tdiv ctx.GetGroupCountG)
    (hn : 1 ≤ ctx.GetInputChannelC.tdiv ctx.GetGroupCountG * ctx.GetFilterHeightY *
      ctx.GetFilterWidthX)
    (hk : 1 ≤ ctx.GetBatchN.tdiv (t.CalculateGemmSizeAndGemmKBlock ctx).gemm_k_block *
      ctx.GetOutputHeightHo * ctx.GetOutputWidthWo) :
    ((t.CalculateGemmSizeAndGemmKBlock ctx).gemm_m_pad =
          (t.CalculateGemmSizeAndGemmKBlock ctx).gemm_m -
            ctx.GetOutputChannelK.tdiv ctx.GetGroupCountG ∧
        0 ≤ (t.CalculateGemmSizeAndGemmKBlock ctx).gemm_m_pad ∧
        (t.CalculateGemmSizeAndGemmKBlock ctx).gemm_m_pad ≤ t.GemmMFactor - 1 ∧
        (t.CalculateGemmSizeAndGemmKBlock ctx).gemm_m.tmod t.GemmMFactor = 0) ∧
      ((t.CalculateGemmSizeAndGemmKBlock ctx).gemm_n_pad =
          (t.CalculateGemmSizeAndGemmKBlock ctx).gemm_n -
            ctx.GetInputChannelC.tdiv ctx.GetGroupCountG * ctx.GetFilterHeightY *
              ctx.GetFilterWidthX ∧
        0 ≤ (t.CalculateGemmSizeAndGemmKBlock ctx).gemm_n_pad ∧
        (t.CalculateGemmSizeAndGemmKBlock ctx).gemm_n_pad ≤ t.GemmNFactor - 1 ∧
        (t.CalculateGemmSizeAndGemmKBlock ctx).gemm_n.tmod t.GemmNFactor = 0) ∧
      ((t.CalculateGemmSizeAndGemmKBlock ctx).gemm_k_total_pad =
          (t.CalculateGemmSizeAndGemmKBlock ctx).gemm_k_total -
            ctx.GetBatchN.tdiv (t.CalculateGemmSizeAndGemmKBlock ctx).gemm_k_block *
              ctx.GetOutputHeightHo * ctx.GetOutputWidthWo ∧
        0 ≤ (t.CalculateGemmSizeAndGemmKBlock ctx).gemm_k_total_pad ∧
        (t.CalculateGemmSizeAndGemmKBlock ctx).gemm_k_total_pad ≤ t.GemmKTotalFactor - 1 ∧
        (t.CalculateGemmSizeAndGemmKBlock ctx).gemm_k_total.tmod t.GemmKTotalFactor = 0) := by
  obtain ⟨_, hkt, hmp, hnp, hkp⟩ := gemmSize_fields_of_valid t ctx hv
  obtain ⟨hgm, hgn⟩ := gemmSize_m_n_of_valid t ctx hv
  obtain ⟨m1, m2, m3⟩ := pad_up_spec hm hMF
  obtain ⟨n1, n2, n3⟩ := pad_up_spec hn hNF
  obtain ⟨k1, k2, k3⟩ := pad_up_spec hk hKF
  refine ⟨⟨hmp, ?_, ?_, ?_⟩, ⟨hnp, ?_, ?_, ?_⟩, ⟨hkp, ?_, ?_, ?_⟩⟩
  · rw [hmp, hgm]; linarith
  · rw [hmp, hgm]; linarith
  · rw [hgm]; exact m3
  · rw [hnp, hgn]; linarith
  · rw [hnp, hgn]; linarith
  · rw [hgn]; exact n3
  · rw [hkp, hkt]; linarith
  · rw [hkp, hkt]; linarith
  · rw [hkt]; exact k3

/-- Witness of the amended C8: Scenario A with `tileA`, where the pads are 0, 0 and 12. -/
theorem padding_bounds_witness :
    ((tileA.CalculateGemmSizeAndGemmKBlock scenarioA).valid = true ∧
        0 < tileA.GemmMFactor ∧ 0 < tileA.GemmNFactor ∧ 0 < tileA.GemmKTotalFactor) ∧
      ((tileA.CalculateGemmSizeAndGemmKBlock scenarioA).gemm_m_pad = 0 ∧
        (tileA.CalculateGemmSizeAndGemmKBlock scenarioA).gemm_n_pad = 0 ∧
        (tileA.CalculateGemmSizeAndGemmKBlock scenarioA).gemm_k_total_pad = 12) ∧
      (tileA.CalculateGemmSizeAndGemmKBlock scenarioA).gemm_k_total_pad ≤
        tileA.GemmKTotalFactor - 1 :=
  ⟨by decide, by decide,
    (padding_bounds tileA scenarioA (by decide) (by decide) (by decide) (by decide)
      (by decide) (by decide) (by decide)).2.2.2.2.1⟩

/-- C9: for every workload with batch size `n >= 1` and every configuration for which
`CalculateGemmSizeAndGemmKBlock` succeeds, with the bound
`B = min(n, max(1, (20*computeUnits) / gridSizeNoSplit))` and
`gridSizeNoSplit = groups*(gemm_m/GemmMPerBlock)*(gemm_n/GemmNPerBlock)`, the returned
`gemm_k_block` is the largest integer `j` with `1 < j <= B` such that `n % j == 0` and the
K-total of the split, `(n/j)*Ho*Wo` padded up to `GemmKTotalFactor`, is divisible by
`GemmKPerBlock*GemmKPack`; and `gemm_k_block = 1` when no such `j` exists. -/
theorem gemm_k_block_largest_accepted (t : PerformanceImplicitGemmWrwV4R4Xdlops_Padded_Gemm)
    (ctx : ConvolutionContext) (_hn : 1 ≤ ctx.GetBatchN)
    (hv : (t.CalculateGemmSizeAndGemmKBlock ctx).valid = true) :
    (1 < (t.CalculateGemmSizeAndGemmKBlock ctx).gemm_k_block ∧
        (t.CalculateGemmSizeAndGemmKBlock ctx).gemm_k_block ≤
          min ctx.GetBatchN (max 1 ((20 * (ctx.GetMaxComputeUnits : Int)).tdiv
            (ctx.GetGroupCountG *
              ((t.CalculateGemmSizeAndGemmKBlock ctx).gemm_m.tdiv t.GemmMPerBlock) *
              ((t.CalculateGemmSizeAndGemmKBlock ctx).gemm_n.tdiv t.GemmNPerBlock)))) ∧
        ctx.GetBatchN.tmod (t.CalculateGemmSizeAndGemmKBlock ctx).gemm_k_block = 0 ∧
        (((ctx.GetBatchN.tdiv (t.CalculateGemmSizeAndGemmKBlock ctx).gemm_k_block *
            ctx.GetOutputHeightHo * ctx.GetOutputWidthWo - 1).tdiv t.GemmKTotalFactor + 1) *
          t.GemmKTotalFactor).tmod (t.GemmKPerBlock * t.GemmKPack) = 0 ∧
        ∀ j : Int, (t.CalculateGemmSizeAndGemmKBlock ctx).gemm_k_block < j →
          j ≤ min ctx.GetBatchN (max 1 ((20 * (ctx.GetMaxComputeUnits : Int)).tdiv
            (ctx.GetGroupCountG *
              ((t.CalculateGemmSizeAndGemmKBlock ctx).gemm_m.tdiv t.GemmMPerBlock) *
              ((t.CalculateGemmSizeAndGemmKBlock ctx).gemm_n.tdiv t.GemmNPerBlock)))) →
          ¬(ctx.GetBatchN.tmod j = 0 ∧
            (((ctx.GetBatchN.tdiv j * ctx.GetOutputHeightHo * ctx.GetOutputWidthWo - 1).tdiv
                t.GemmKTotalFactor + 1) * t.GemmKTotalFactor).tmod
              (t.GemmKPerBlock * t.GemmKPack) = 0)) ∨
      ((t.CalculateGemmSizeAndGemmKBlock ctx).gemm_k_block = 1 ∧
        ∀ j : Int, 1 < j →
          j ≤ min ctx.GetBatchN (max 1 ((20 * (ctx.GetMaxComputeUnits : Int)).tdiv
            (ctx.GetGroupCountG *
              ((t.CalculateGemmSizeAndGemmKBlock ctx).gemm_m.tdiv t.GemmMPerBlock) *
              ((t.CalculateGemmSizeAndGemmKBlock ctx).gemm_n.tdiv t.GemmNPerBlock)))) →
          ¬(ctx.GetBatchN.tmod j = 0 ∧
            (((ctx.GetBatchN.tdiv j * ctx.GetOutputHeightHo * ctx.GetOutputWidthWo - 1).tdiv
                t.GemmKTotalFactor + 1) * t.GemmKTotalFactor).tmod
              (t.GemmKPerBlock * t.GemmKPack) = 0)) := by
  have hB : min ctx.GetBatchN (max 1 ((20 * (ctx.GetMaxComputeUnits : Int)).tdiv
      (ctx.GetGroupCountG *
        ((t.CalculateGemmSizeAndGemmKBlock ctx).gemm_m.tdiv t.GemmMPerBlock) *
        ((t.CalculateGemmSizeAndGemmKBlock ctx).gemm_n.tdiv t.GemmNPerBlock)))) =
      min (max ((20 * (ctx.GetMaxComputeUnits : Int)).tdiv
        (ctx.GetGroupCountG *
          ((t.CalculateGemmSizeAndGemmKBlock ctx).gemm_m.tdiv t.GemmMPerBlock) *
          ((t.CalculateGemmSizeAndGemmKBlock ctx).gemm_n.tdiv t.GemmNPerBlock))) 1)
        ctx.GetBatchN := by
    rw [min_comm, max_comm]
  rcases gemm_k_block_spec t ctx hv _ hB with ⟨e, hno⟩ | ⟨h1, h2, h3, h4⟩
  · right
    exact ⟨e, fun j hj1 hj2 => hno j hj1 hj2⟩
  · left
    exact ⟨h1, h2, h3.1, h3.2, fun j hj1 hj2 => h4 j hj1 hj2⟩

/-- Witness of C9: Scenario A with `tileA`, where the bound is `min(32, 133) = 32` and the
returned `gemm_k_block` is 32. -/
theorem gemm_k_block_largest_accepted_witness :
    (1 ≤ scenarioA.GetBatchN ∧
        (tileA.CalculateGemmSizeAndGemmKBlock scenarioA).valid = true) ∧
      (tileA.CalculateGemmSizeAndGemmKBlock scenarioA).gemm_k_block = 32 ∧
      (
      (1 < (tileA.CalculateGemmSizeAndGemmKBlock scenarioA).gemm_k_block ∧
          (tileA.CalculateGemmSizeAndGemmKBlock scenarioA).gemm_k_block ≤
            min scenarioA.GetBatchN (max 1 ((20 * (scenarioA.GetMaxComputeUnits : Int)).tdiv
              (scenarioA.GetGroupCountG *
                ((tileA.CalculateGemmSizeAndGemmKBlock scenarioA).gemm_m.tdiv tileA.GemmMPerBlock) *
                ((tileA.CalculateGemmSizeAndGemmKBlock scenarioA).gemm_n.tdiv tileA.GemmNPerBlock)))) ∧
          scenarioA.GetBatchN.tmod (tileA.CalculateGemmSizeAndGemmKBlock scenarioA).gemm_k_block = 0 ∧
          (((scenarioA.GetBatchN.tdiv (tileA.CalculateGemmSizeAndGemmKBlock scenarioA).gemm_k_block *
              scenarioA.GetOutputHeightHo * scenarioA.GetOutputWidthWo - 1).tdiv tileA.GemmKTotalFactor + 1) *
            tileA.GemmKTotalFactor).tmod (tileA.GemmKPerBlock * tileA.GemmKPack) = 0 ∧
          ∀ j : Int, (tileA.CalculateGemmSizeAndGemmKBlock scenarioA).gemm_k_block < j →
            j ≤ min scenarioA.GetBatchN (max 1 ((20 * (scenarioA.GetMaxComputeUnits : Int)).tdiv
              (scenarioA.GetGroupCountG *
                ((tileA.CalculateGemmSizeAndGemmKBlock scenarioA).gemm_m.tdiv tileA.GemmMPerBlock) *
                ((tileA.CalculateGemmSizeAndGemmKBlock scenarioA).gemm_n.tdiv tileA.GemmNPerBlock)))) →
            ¬(scenarioA.GetBatchN.tmod j = 0 ∧
              (((scenarioA.GetBatchN.tdiv j * scenarioA.GetOutputHeightHo * scenarioA.GetOutputWidthWo - 1).tdiv
                  tileA.GemmKTotalFactor + 1) * tileA.GemmKTotalFactor).tmod
                (tileA.GemmKPerBlock * tileA.GemmKPack) = 0)) ∨
        ((tileA.CalculateGemmSizeAndGemmKBlock scenarioA).gemm_k_block = 1 ∧
          ∀ j : Int, 1 < j →
            j ≤ min scenarioA.GetBatchN (max 1 ((20 * (scenarioA.GetMaxComputeUnits : Int)).tdiv
              (scenarioA.GetGroupCountG *
                ((tileA.CalculateGemmSizeAndGemmKBlock scenarioA).gemm_m.tdiv tileA.GemmMPerBlock) *
                ((tileA.CalculateGemmSizeAndGemmKBlock scenarioA).gemm_n.tdiv tileA.GemmNPerBlock)))) →
            ¬(scenarioA.GetBatchN.tmod j = 0 ∧
              (((scenarioA.GetBatchN.tdiv j * scenarioA.GetOutputHeightHo * scenarioA.GetOutputWidthWo - 1).tdiv
                  tileA.GemmKTotalFactor + 1) * tileA.GemmKTotalFactor).tmod
                (tileA.GemmKPerBlock * tileA.GemmKPack) = 0))) :=
  ⟨by decide, by decide,
    gemm_k_block_largest_accepted tileA scenarioA (by decide) (by decide)⟩

/-- C10 fails as stated: in Scenario A with `GemmKPerBlock = 8` and `GemmKPack = 8` the
batch size 32 has the divisor 32, which does not exceed `(20*60) / 9 = 133`, yet the
returned `gemm_k_block` is 2: the K-totals of the splits 32, 16, 8 and 4, padded to 16,
are 208, 400, 784 and 1568, none of them a multiple of 64. -/
theorem gemm_k_block_not_largest_divisor :
    (1 ≤ scenarioA.GetBatchN ∧
        (tileA_K8.CalculateGemmSizeAndGemmKBlock scenarioA).valid = true) ∧
      (tileA_K8.CalculateGemmSizeAndGemmKBlock scenarioA).gemm_k_block = 2 ∧
      scenarioA.GetBatchN.tmod 32 = 0 ∧
      (32 : Int) ≤ (20 * (scenarioA.GetMaxComputeUnits : Int)).tdiv
        (scenarioA.GetGroupCountG *
          ((tileA_K8.CalculateGemmSizeAndGemmKBlock scenarioA).gemm_m.tdiv
            tileA_K8.GemmMPerBlock) *
          ((tileA_K8.CalculateGemmSizeAndGemmKBlock scenarioA).gemm_n.tdiv
            tileA_K8.GemmNPerBlock)) ∧
      (tileA_K8.CalculateGemmSizeAndGemmKBlock scenarioA).gemm_k_block < 32 := by
  decide

/-- C10, amended: for every workload with batch size `n >= 1` and every configuration for
which `CalculateGemmSizeAndGemmKBlock` succeeds, the returned `gemm_k_block` is the
largest divisor `d > 1` of `n` that does not exceed `(20*computeUnits) / gridSizeNoSplit`
and whose split K-total `(n/d)*Ho*Wo`, padded up to `GemmKTotalFactor`, is divisible by
`GemmKPerBlock*GemmKPack`; it is 1 when no such divisor exists. -/
theorem gemm_k_block_largest_fitting_divisor
    (t : PerformanceImplicitGemmWrwV4R4Xdlops_Padded_Gemm) (ctx : ConvolutionContext)
    (hn : 1 ≤ ctx.GetBatchN)
    (hv : (t.CalculateGemmSizeAndGemmKBlock ctx).valid = true) :
    ((t.CalculateGemmSizeAndGemmKBlock ctx).gemm_k_block = 1 ∨
        (1 < (t.CalculateGemmSizeAndGemmKBlock ctx).gemm_k_block ∧
          (t.CalculateGemmSizeAndGemmKBlock ctx).gemm_k_block ∣ ctx.GetBatchN ∧
          (t.CalculateGemmSizeAndGemmKBlock ctx).gemm_k_block ≤
            (20 * (ctx.GetMaxComputeUnits : Int)).tdiv
              (ctx.GetGroupCountG *
                ((t.CalculateGemmSizeAndGemmKBlock ctx).gemm_m.tdiv t.GemmMPerBlock) *
                ((t.CalculateGemmSizeAndGemmKBlock ctx).gemm_n.tdiv t.GemmNPerBlock)) ∧
          (((ctx.GetBatchN.tdiv (t.CalculateGemmSizeAndGemmKBlock ctx).gemm_k_block *
              ctx.GetOutputHeightHo * ctx.GetOutputWidthWo - 1).tdiv t.GemmKTotalFactor + 1) *
            t.GemmKTotalFactor).tmod (t.GemmKPerBlock * t.GemmKPack) = 0)) ∧
      ∀ d : Int, 1 < d → d ∣ ctx.GetBatchN →
        d ≤ (20 * (ctx.GetMaxComputeUnits : Int)).tdiv
          (ctx.GetGroupCountG *
            ((t.CalculateGemmSizeAndGemmKBlock ctx).gemm_m.tdiv t.GemmMPerBlock) *
            ((t.CalculateGemmSizeAndGemmKBlock ctx).gemm_n.tdiv t.GemmNPerBlock)) →
        (((ctx.GetBatchN.tdiv d * ctx.GetOutputHeightHo * ctx.GetOutputWidthWo - 1).tdiv
            t.GemmKTotalFactor + 1) * t.GemmKTotalFactor).tmod
          (t.GemmKPerBlock * t.GemmKPack) = 0 →
        d ≤ (t.CalculateGemmSizeAndGemmKBlock ctx).gemm_k_block := by
  have key := gemm_k_block_spec t ctx hv _ rfl
  have hle : ∀ d : Int, 1 < d → d ∣ ctx.GetBatchN →
      d ≤ (20 * (ctx.GetMaxComputeUnits : Int)).tdiv
        (ctx.GetGroupCountG *
          ((t.CalculateGemmSizeAndGemmKBlock ctx).gemm_m.tdiv t.GemmMPerBlock) *
          ((t.CalculateGemmSizeAndGemmKBlock ctx).gemm_n.tdiv t.GemmNPerBlock)) →
      d ≤ min (max ((20 * (ctx.GetMaxComputeUnits : Int)).tdiv
        (ctx.GetGroupCountG *
          ((t.CalculateGemmSizeAndGemmKBlock ctx).gemm_m.tdiv t.GemmMPerBlock) *
          ((t.CalculateGemmSizeAndGemmKBlock ctx).gemm_n.tdiv t.GemmNPerBlock))) 1)
        ctx.GetBatchN := by
    intro d _ hd hq
    have hdn : d ≤ ctx.GetBatchN := Int.le_of_dvd (by omega) hd
    exact le_min (le_trans hq (le_max_left _ _)) hdn
  rcases key with ⟨e, hno⟩ | ⟨h1, h2, h3, h4⟩
  · refine ⟨Or.inl e, ?_⟩
    intro d hd1 hdvd hq hK
    exact absurd ⟨Int.tmod_eq_zero_of_dvd hdvd, hK⟩ (hno d hd1 (hle d hd1 hdvd hq))
  · refine ⟨Or.inr ⟨h1, Int.dvd_of_tmod_eq_zero h3.1, ?_, h3.2⟩, ?_⟩
    · have h5 := le_trans h2 (min_le_left _ _)
      rcases le_max_iff.mp h5 with h6 | h6
      · exact h6
      · omega
    · intro d hd1 hdvd hq hK
      by_contra hlt
      push_neg at hlt
      exact h4 d hlt (hle d hd1 hdvd hq) ⟨Int.tmod_eq_zero_of_dvd hdvd, hK⟩

/-- Witness of the amended C10: Scenario A with `GemmKPerBlock = 8` and `GemmKPack = 8`,
where the returned `gemm_k_block` is 2, so the divisor 32 of the batch size, which fits
under the bound, has a padded K-total that is not a multiple of 64. -/
theorem gemm_k_block_largest_fitting_divisor_witness :
    (1 ≤ scenarioA.GetBatchN ∧
        (tileA_K8.CalculateGemmSizeAndGemmKBlock scenarioA).valid = true) ∧
      (tileA_K8.CalculateGemmSizeAndGemmKBlock scenarioA).gemm_k_block = 2 ∧
      ((((scenarioA.GetBatchN.tdiv 2 * scenarioA.GetOutputHeightHo *
            scenarioA.GetOutputWidthWo - 1).tdiv tileA_K8.GemmKTotalFactor + 1) *
          tileA_K8.GemmKTotalFactor).tmod (tileA_K8.GemmKPerBlock * tileA_K8.GemmKPack) = 0 →
        (2 : Int) ≤ (tileA_K8.CalculateGemmSizeAndGemmKBlock scenarioA).gemm_k_block) :=
  ⟨by decide, by decide,
    (gemm_k_block_largest_fitting_divisor tileA_K8 scenarioA (by decide) (by decide)).2 2
      (by decide) (by decide) (by decide)⟩

/-! ## Shared lemmas on the power-of-two ranges -/

theorem IsTwoPower_mem {L H v : Int} (h : IsTwoPower L H v = true) :
    (∃ e : Nat, e < 31 ∧ v = 2 ^ e) ∧ L ≤ v ∧ v ≤ H := by
  unfold IsTwoPower at h
  simp only [Bool.and_eq_true, List.any_eq_true, List.mem_range, beq_iff_eq,
    decide_eq_true_eq] at h
  exact ⟨h.1.1, h.1.2, h.2⟩

theorem IsTwoPower_iff {L H v : Int} (hH : H < 2 ^ 31) :
    IsTwoPower L H v = true ↔ (∃ e : Nat, v = 2 ^ e) ∧ L ≤ v ∧ v ≤ H := by
  constructor
  · intro h
    obtain ⟨⟨e, _, he⟩, h1, h2⟩ := IsTwoPower_mem h
    exact ⟨⟨e, he⟩, h1, h2⟩
  · rintro ⟨⟨e, he⟩, h1, h2⟩
    have hlt : (2 : Int) ^ e < 2 ^ 31 := by
      rw [← he]
      exact lt_of_le_of_lt h2 hH
    have he31 : e < 31 := (pow_lt_pow_iff_right₀ (by norm_num : (1 : Int) < 2)).mp hlt
    unfold IsTwoPower
    simp only [Bool.and_eq_true, List.any_eq_true, List.mem_range, beq_iff_eq,
      decide_eq_true_eq]
    exact ⟨⟨⟨e, he31, he⟩, h1⟩, h2⟩

theorem IsTwoPower_values {L H v : Int} (h : IsTwoPower L H v = true) :
    (v = 1 ∨ v = 2 ∨ v = 4 ∨ v = 8 ∨ v = 16 ∨ v = 32 ∨ v = 64 ∨ v = 128 ∨ v = 256 ∨
      512 ≤ v) ∧ L ≤ v ∧ v ≤ H := by
  obtain ⟨⟨e, he31, he⟩, h1, h2⟩ := IsTwoPower_mem h
  refine ⟨?_, h1, h2⟩
  by_cases h9 : e < 9
  · interval_cases e <;> simp_all
  · have : (2 : Int) ^ 9 ≤ 2 ^ e :=
      pow_le_pow_right₀ (by norm_num) (by omega)
    have h512 : (512 : Int) ≤ v := by
      rw [he]
      exact le_trans (by norm_num) this
    omega

theorem twoPower_1_8 (v : Int) (h : IsTwoPower 1 8 v = true) :
    twoPowerDigit 1 v < 4 ∧ (v = 1 ↔ twoPowerDigit 1 v = 0) ∧
      (v = 8 ↔ twoPowerDigit 1 v = 3) ∧
      (v ≠ 8 → IsTwoPower 1 8 (v * 2) = true ∧
        twoPowerDigit 1 (v * 2) = twoPowerDigit 1 v + 1) ∧
      (v ≠ 1 → IsTwoPower 1 8 (v.tdiv 2) = true ∧
        twoPowerDigit 1 (v.tdiv 2) + 1 = twoPowerDigit 1 v) ∧
      v = 1 * 2 ^ twoPowerDigit 1 v := by
  obtain ⟨hc, h1, h2⟩ := IsTwoPower_values h
  have hv : v = 1 ∨ v = 2 ∨ v = 4 ∨ v = 8 := by omega
  rcases hv with rfl | rfl | rfl | rfl <;> decide

theorem twoPower_4_128 (v : Int) (h : IsTwoPower 4 128 v = true) :
    twoPowerDigit 4 v < 6 ∧ (v = 4 ↔ twoPowerDigit 4 v = 0) ∧
      (v = 128 ↔ twoPowerDigit 4 v = 5) ∧
      (v ≠ 128 → IsTwoPower 4 128 (v * 2) = true ∧
        twoPowerDigit 4 (v * 2) = twoPowerDigit 4 v + 1) ∧
      (v ≠ 4 → IsTwoPower 4 128 (v.tdiv 2) = true ∧
        twoPowerDigit 4 (v.tdiv 2) + 1 = twoPowerDigit 4 v) ∧
      v = 4 * 2 ^ twoPowerDigit 4 v := by
  obtain ⟨hc, h1, h2⟩ := IsTwoPower_values h
  have hv : v = 4 ∨ v = 8 ∨ v = 16 ∨ v = 32 ∨ v = 64 ∨ v = 128 := by omega
  rcases hv with rfl | rfl | rfl | rfl | rfl | rfl <;> decide

theorem twoPower_4_256 (v : Int) (h : IsTwoPower 4 256 v = true) :
    twoPowerDigit 4 v < 7 ∧ (v = 4 ↔ twoPowerDigit 4 v = 0) ∧
      (v = 256 ↔ twoPowerDigit 4 v = 6) ∧
      (v ≠ 256 → IsTwoPower 4 256 (v * 2) = true ∧
        twoPowerDigit 4 (v * 2) = twoPowerDigit 4 v + 1) ∧
      (v ≠ 4 → IsTwoPower 4 256 (v.tdiv 2) = true ∧
        twoPowerDigit 4 (v.tdiv 2) + 1 = twoPowerDigit 4 v) ∧
      v = 4 * 2 ^ twoPowerDigit 4 v := by
  obtain ⟨hc, h1, h2⟩ := IsTwoPower_values h
  have hv : v = 4 ∨ v = 8 ∨ v = 16 ∨ v = 32 ∨ v = 64 ∨ v = 128 ∨ v = 256 := by omega
  rcases hv with rfl | rfl | rfl | rfl | rfl | rfl | rfl <;> decide

theorem twoPower_1_4 (v : Int) (h : IsTwoPower 1 4 v = true) :
    twoPowerDigit 1 v < 3 ∧ (v = 1 ↔ twoPowerDigit 1 v = 0) ∧
      (v = 4 ↔ twoPowerDigit 1 v = 2) ∧
      (v ≠ 4 → IsTwoPower 1 4 (v * 2) = true ∧
        twoPowerDigit 1 (v * 2) = twoPowerDigit 1 v + 1) ∧
      (v ≠ 1 → IsTwoPower 1 4 (v.tdiv 2) = true ∧
        twoPowerDigit 1 (v.tdiv 2) + 1 = twoPowerDigit 1 v) ∧
      v = 1 * 2 ^ twoPowerDigit 1 v := by
  obtain ⟨hc, h1, h2⟩ := IsTwoPower_values h
  have hv : v = 1 ∨ v = 2 ∨ v = 4 := by omega
  rcases hv with rfl | rfl | rfl <;> decide

theorem twoPower_4_8 (v : Int) (h : IsTwoPower 4 8 v = true) :
    twoPowerDigit 4 v < 2 ∧ (v = 4 ↔ twoPowerDigit 4 v = 0) ∧
      (v = 8 ↔ twoPowerDigit 4 v = 1) ∧
      (v ≠ 8 → IsTwoPower 4 8 (v * 2) = true ∧
        twoPowerDigit 4 (v * 2) = twoPowerDigit 4 v + 1) ∧
      (v ≠ 4 → IsTwoPower 4 8 (v.tdiv 2) = true ∧
        twoPowerDigit 4 (v.tdiv 2) + 1 = twoPowerDigit 4 v) ∧
      v = 4 * 2 ^ twoPowerDigit 4 v := by
  obtain ⟨hc, h1, h2⟩ := IsTwoPower_values h
  have hv : v = 4 ∨ v = 8 := by omega
  rcases hv with rfl | rfl <;> decide

theorem twoPower_2_8 (v : Int) (h : IsTwoPower 2 8 v = true) :
    twoPowerDigit 2 v < 3 ∧ (v = 2 ↔ twoPowerDigit 2 v = 0) ∧
      (v = 8 ↔ twoPowerDigit 2 v = 2) ∧
      (v ≠ 8 → IsTwoPower 2 8 (v * 2) = true ∧
        twoPowerDigit 2 (v * 2) = twoPowerDigit 2 v + 1) ∧
      (v ≠ 2 → IsTwoPower 2 8 (v.tdiv 2) = true ∧
        twoPowerDigit 2 (v.tdiv 2) + 1 = twoPowerDigit 2 v) ∧
      v = 2 * 2 ^ twoPowerDigit 2 v := by
  obtain ⟨hc, h1, h2⟩ := IsTwoPower_values h
  have hv : v = 2 ∨ v = 4 ∨ v = 8 := by omega
  rcases hv with rfl | rfl | rfl <;> decide

/-! ## Shared lemmas on `SetNextValue` -/

theorem SetNextValue_of_B_false (t : PerformanceImplicitGemmWrwV4R4Xdlops_Padded_Gemm)
    (hB : t.GemmBThreadCopyMoreGemmK = false) :
    t.SetNextValue = ({ t with GemmBThreadCopyMoreGemmK := true }, true) := by
  simp [SetNextValue, NextFlag, hB]

theorem SetNextValue_of_A_true (t : PerformanceImplicitGemmWrwV4R4Xdlops_Padded_Gemm)
    (hB : t.GemmBThreadCopyMoreGemmK = true) (hA : t.GemmAThreadCopyMoreGemmK = true) :
    t.SetNextValue =
      ({ t with GemmBThreadCopyMoreGemmK := false, GemmAThreadCopyMoreGemmK := false },
        true) := by
  simp [SetNextValue, NextFlag, hB, hA]

theorem SetNextValue_of_KPack (t : PerformanceImplicitGemmWrwV4R4Xdlops_Padded_Gemm)
    (hB : t.GemmBThreadCopyMoreGemmK = true) (hA : t.GemmAThreadCopyMoreGemmK = false)
    (h1 : t.GemmKPack ≠ 8) :
    t.SetNextValue =
      ({ t with GemmBThreadCopyMoreGemmK := false, GemmAThreadCopyMoreGemmK := false,
                GemmKPack := t.GemmKPack * 2 }, true) := by
  simp [SetNextValue, NextFlag, NextTwoPower, hB, hA, h1]

theorem SetNextValue_of_NPerWave (t : PerformanceImplicitGemmWrwV4R4Xdlops_Padded_Gemm)
    (hB : t.GemmBThreadCopyMoreGemmK = true) (hA : t.GemmAThreadCopyMoreGemmK = false)
    (h1 : t.GemmKPack = 8) (h2 : t.GemmNPerWave ≠ 128) :
    t.SetNextValue =
      ({ t with GemmBThreadCopyMoreGemmK := false, GemmAThreadCopyMoreGemmK := false,
                GemmKPack := 1, GemmNPerWave := t.GemmNPerWave * 2 }, true) := by
  simp [SetNextValue, NextFlag, NextTwoPower, hB, hA, h1, h2]

theorem SetNextValue_of_MPerWave (t : PerformanceImplicitGemmWrwV4R4Xdlops_Padded_Gemm)
    (hB : t.GemmBThreadCopyMoreGemmK = true) (hA : t.GemmAThreadCopyMoreGemmK = false)
    (h1 : t.GemmKPack = 8) (h2 : t.GemmNPerWave = 128) (h3 : t.GemmMPerWave ≠ 128) :
    t.SetNextValue =
      ({ t with GemmBThreadCopyMoreGemmK := false, GemmAThreadCopyMoreGemmK := false,
                GemmKPack := 1, GemmNPerWave := 4,
                GemmMPerWave := t.GemmMPerWave * 2 }, true) := by
  simp [SetNextValue, NextFlag, NextTwoPower, hB, hA, h1, h2, h3]

theorem SetNextValue_of_KPerBlock (t : PerformanceImplicitGemmWrwV4R4Xdlops_Padded_Gemm)
    (hB : t.GemmBThreadCopyMoreGemmK = true) (hA : t.GemmAThreadCopyMoreGemmK = false)
    (h1 : t.GemmKPack = 8) (h2 : t.GemmNPerWave = 128) (h3 : t.GemmMPerWave = 128)
    (h4 : t.GemmKPerBlock ≠ 8) :
    t.SetNextValue =
      ({ t with GemmBThreadCopyMoreGemmK := false, GemmAThreadCopyMoreGemmK := false,
                GemmKPack := 1, GemmNPerWave := 4, GemmMPerWave := 4,
                GemmKPerBlock := t.GemmKPerBlock * 2 }, true) := by
  simp [SetNextValue, NextFlag, NextTwoPower, hB, hA, h1, h2, h3, h4]

theorem SetNextValue_of_NPerBlock (t : PerformanceImplicitGemmWrwV4R4Xdlops_Padded_Gemm)
    (hB : t.GemmBThreadCopyMoreGemmK = true) (hA : t.GemmAThreadCopyMoreGemmK = false)
    (h1 : t.GemmKPack = 8) (h2 : t.GemmNPerWave = 128) (h3 : t.GemmMPerWave = 128)
    (h4 : t.GemmKPerBlock = 8) (h5 : t.GemmNPerBlock ≠ 256) :
    t.SetNextValue =
      ({ t with GemmBThreadCopyMoreGemmK := false, GemmAThreadCopyMoreGemmK := false,
                GemmKPack := 1, GemmNPerWave := 4, GemmMPerWave := 4, GemmKPerBlock := 1,
                GemmNPerBlock := t.GemmNPerBlock * 2 }, true) := by
  simp [SetNextValue, NextFlag, NextTwoPower, hB, hA, h1, h2, h3, h4, h5]

theorem SetNextValue_of_MPerBlock (t : PerformanceImplicitGemmWrwV4R4Xdlops_Padded_Gemm)
    (hB : t.GemmBThreadCopyMoreGemmK = true) (hA : t.GemmAThreadCopyMoreGemmK = false)
    (h1 : t.GemmKPack = 8) (h2 : t.GemmNPerWave = 128) (h3 : t.GemmMPerWave = 128)
    (h4 : t.GemmKPerBlock = 8) (h5 : t.GemmNPerBlock = 256) (h6 : t.GemmMPerBlock ≠ 256) :
    t.SetNextValue =
      ({ t with GemmBThreadCopyMoreGemmK := false, GemmAThreadCopyMoreGemmK := false,
                GemmKPack := 1, GemmNPerWave := 4, GemmMPerWave := 4, GemmKPerBlock := 1,
                GemmNPerBlock := 4, GemmMPerBlock := t.GemmMPerBlock * 2 }, true) := by
  simp [SetNextValue, NextFlag, NextTwoPower, hB, hA, h1, h2, h3, h4, h5, h6]

theorem SetNextValue_of_all_max (t : PerformanceImplicitGemmWrwV4R4Xdlops_Padded_Gemm)
    (hB : t.GemmBThreadCopyMoreGemmK = true) (hA : t.GemmAThreadCopyMoreGemmK = false)
    (h1 : t.GemmKPack = 8) (h2 : t.GemmNPerWave = 128) (h3 : t.GemmMPerWave = 128)
    (h4 : t.GemmKPerBlock = 8) (h5 : t.GemmNPerBlock = 256) (h6 : t.GemmMPerBlock = 256) :
    t.SetNextValue =
      ({ t with GemmBThreadCopyMoreGemmK := false, GemmAThreadCopyMoreGemmK := false,
                GemmKPack := 1, GemmNPerWave := 4, GemmMPerWave := 4, GemmKPerBlock := 1,
                GemmNPerBlock := 4, GemmMPerBlock := 4 }, false) := by
  simp [SetNextValue, NextFlag, NextTwoPower, hB, hA, h1, h2, h3, h4, h5, h6]

theorem SetNextValue_snd_eq_false_iff (t : PerformanceImplicitGemmWrwV4R4Xdlops_Padded_Gemm) :
    t.SetNextValue.2 = false ↔
      (t.GemmMPerBlock = 256 ∧ t.GemmNPerBlock = 256 ∧ t.GemmKPerBlock = 8 ∧
        t.GemmMPerWave = 128 ∧ t.GemmNPerWave = 128 ∧ t.GemmKPack = 8 ∧
        t.GemmAThreadCopyMoreGemmK = false ∧ t.GemmBThreadCopyMoreGemmK = true) := by
  by_cases hB : t.GemmBThreadCopyMoreGemmK = true
  swap
  · simp only [Bool.not_eq_true] at hB
    simp [SetNextValue_of_B_false t hB, hB]
  by_cases hA : t.GemmAThreadCopyMoreGemmK = false
  swap
  · simp only [Bool.not_eq_false] at hA
    simp [SetNextValue_of_A_true t hB hA, hA]
  by_cases h1 : t.GemmKPack = 8
  swap
  · simp [SetNextValue_of_KPack t hB hA h1, h1]
  by_cases h2 : t.GemmNPerWave = 128
  swap
  · simp [SetNextValue_of_NPerWave t hB hA h1 h2, h2]
  by_cases h3 : t.GemmMPerWave = 128
  swap
  · simp [SetNextValue_of_MPerWave t hB hA h1 h2 h3, h3]
  by_cases h4 : t.GemmKPerBlock = 8
  swap
  · simp [SetNextValue_of_KPerBlock t hB hA h1 h2 h3 h4, h4]
  by_cases h5 : t.GemmNPerBlock = 256
  swap
  · simp [SetNextValue_of_NPerBlock t hB hA h1 h2 h3 h4 h5, h5]
  by_cases h6 : t.GemmMPerBlock = 256
  swap
  · simp [SetNextValue_of_MPerBlock t hB hA h1 h2 h3 h4 h5 h6, h6]
  simp [SetNextValue_of_all_max t hB hA h1 h2 h3 h4 h5 h6, hB, hA, h1, h2, h3, h4, h5, h6]

theorem IsValidValue_iff (t : PerformanceImplicitGemmWrwV4R4Xdlops_Padded_Gemm) :
    t.IsValidValue = true ↔
      (IsTwoPower 4 256 t.GemmMPerBlock = true ∧ IsTwoPower 4 256 t.GemmNPerBlock = true ∧
        IsTwoPower 1 8 t.GemmKPerBlock = true ∧ IsTwoPower 4 128 t.GemmMPerWave = true ∧
        IsTwoPower 4 128 t.GemmNPerWave = true ∧ IsTwoPower 1 8 t.GemmKPack = true) := by
  unfold IsValidValue
  simp only [Bool.and_eq_true]
  tauto

theorem SetNextValue_preserves (t : PerformanceImplicitGemmWrwV4R4Xdlops_Padded_Gemm) :
    (t.SetNextValue.1.GemmMFactor = t.GemmMFactor ∧
        t.SetNextValue.1.GemmNFactor = t.GemmNFactor ∧
        t.SetNextValue.1.GemmKTotalFactor = t.GemmKTotalFactor) ∧
      (t.GemmAThreadCopyMoreGemmK = false → t.SetNextValue.1.GemmAThreadCopyMoreGemmK = false) ∧
      (t.IsValidValue = true → t.SetNextValue.1.IsValidValue = true) := by
  have hmin1 : IsTwoPower 1 8 1 = true := by decide
  have hmin4 : IsTwoPower 4 128 4 = true := by decide
  have hmin4' : IsTwoPower 4 256 4 = true := by decide
  by_cases hB : t.GemmBThreadCopyMoreGemmK = true
  swap
  · simp only [Bool.not_eq_true] at hB
    rw [SetNextValue_of_B_false t hB]
    refine ⟨⟨rfl, rfl, rfl⟩, fun h => h, fun h => ?_⟩
    rw [IsValidValue_iff] at h ⊢
    exact h
  by_cases hA : t.GemmAThreadCopyMoreGemmK = false
  swap
  · simp only [Bool.not_eq_false] at hA
    rw [SetNextValue_of_A_true t hB hA]
    refine ⟨⟨rfl, rfl, rfl⟩, fun _ => rfl, fun h => ?_⟩
    rw [IsValidValue_iff] at h ⊢
    exact h
  by_cases h1 : t.GemmKPack = 8
  swap
  · rw [SetNextValue_of_KPack t hB hA h1]
    refine ⟨⟨rfl, rfl, rfl⟩, fun _ => rfl, fun h => ?_⟩
    rw [IsValidValue_iff] at h ⊢
    obtain ⟨a, b, c, d, e, f⟩ := h
    exact ⟨a, b, c, d, e, ((twoPower_1_8 _ f).2.2.2.1 h1).1⟩
  by_cases h2 : t.GemmNPerWave = 128
  swap
  · rw [SetNextValue_of_NPerWave t hB hA h1 h2]
    refine ⟨⟨rfl, rfl, rfl⟩, fun _ => rfl, fun h => ?_⟩
    rw [IsValidValue_iff] at h ⊢
    obtain ⟨a, b, c, d, e, f⟩ := h
    exact ⟨a, b, c, d, ((twoPower_4_128 _ e).2.2.2.1 h2).1, hmin1⟩
  by_cases h3 : t.GemmMPerWave = 128
  swap
  · rw [SetNextValue_of_MPerWave t hB hA h1 h2 h3]
    refine ⟨⟨rfl, rfl, rfl⟩, fun _ => rfl, fun h => ?_⟩
    rw [IsValidValue_iff] at h ⊢
    obtain ⟨a, b, c, d, e, f⟩ := h
    exact ⟨a, b, c, ((twoPower_4_128 _ d).2.2.2.1 h3).1, hmin4, hmin1⟩
  by_cases h4 : t.GemmKPerBlock = 8
  swap
  · rw [SetNextValue_of_KPerBlock t hB hA h1 h2 h3 h4]
    refine ⟨⟨rfl, rfl, rfl⟩, fun _ => rfl, fun h => ?_⟩
    rw [IsValidValue_iff] at h ⊢
    obtain ⟨a, b, c, d, e, f⟩ := h
    exact ⟨a, b, ((twoPower_1_8 _ c).2.2.2.1 h4).1, hmin4, hmin4, hmin1⟩
  by_cases h5 : t.GemmNPerBlock = 256
  swap
  · rw [SetNextValue_of_NPerBlock t hB hA h1 h2 h3 h4 h5]
    refine ⟨⟨rfl, rfl, rfl⟩, fun _ => rfl, fun h => ?_⟩
    rw [IsValidValue_iff] at h ⊢
    obtain ⟨a, b, c, d, e, f⟩ := h
    exact ⟨a, ((twoPower_4_256 _ b).2.2.2.1 h5).1, hmin1, hmin4, hmin4, hmin1⟩
  by_cases h6 : t.GemmMPerBlock = 256
  swap
  · rw [SetNextValue_of_MPerBlock t hB hA h1 h2 h3 h4 h5 h6]
    refine ⟨⟨rfl, rfl, rfl⟩, fun _ => rfl, fun h => ?_⟩
    rw [IsValidValue_iff] at h ⊢
    obtain ⟨a, b, c, d, e, f⟩ := h
    exact ⟨((twoPower_4_256 _ a).2.2.2.1 h6).1, hmin4', hmin1, hmin4, hmin4, hmin1⟩
  rw [SetNextValue_of_all_max t hB hA h1 h2 h3 h4 h5 h6]
  refine ⟨⟨rfl, rfl, rfl⟩, fun _ => rfl, fun _ => ?_⟩
  rw [IsValidValue_iff]
  exact ⟨hmin4', hmin4', hmin1, hmin4, hmin4, hmin1⟩

theorem tuningRank_step (t : PerformanceImplicitGemmWrwV4R4Xdlops_Padded_Gemm)
    (h : InTuningLattice t) :
    tuningRank t < 56448 ∧
      (tuningRank t < 56447 →
        t.SetNextValue.2 = true ∧ InTuningLattice t.SetNextValue.1 ∧
          tuningRank t.SetNextValue.1 = tuningRank t + 1) ∧
      (tuningRank t = 56447 → t.SetNextValue = (defaultConfig, false)) := by
  obtain ⟨hv, hA, hMF, hNF, hKF⟩ := h
  have hpres := SetNextValue_preserves t
  have hlat : InTuningLattice t.SetNextValue.1 :=
    ⟨hpres.2.2 hv, hpres.2.1 hA, by rw [hpres.1.1, hMF], by rw [hpres.1.2.1, hNF],
      by rw [hpres.1.2.2, hKF]⟩
  obtain ⟨vmb, vnb, vkb, vmw, vnw, vkp⟩ := (IsValidValue_iff t).mp hv
  obtain ⟨bmb, -, xmb, nmb, -, -⟩ := twoPower_4_256 _ vmb
  obtain ⟨bnb, -, xnb, nnb, -, -⟩ := twoPower_4_256 _ vnb
  obtain ⟨bkb, -, xkb, nkb, -, -⟩ := twoPower_1_8 _ vkb
  obtain ⟨bmw, -, xmw, nmw, -, -⟩ := twoPower_4_128 _ vmw
  obtain ⟨bnw, -, xnw, nnw, -, -⟩ := twoPower_4_128 _ vnw
  obtain ⟨bkp, -, xkp, nkp, -, -⟩ := twoPower_1_8 _ vkp
  have d1 : twoPowerDigit 1 1 = 0 := by decide
  have d4 : twoPowerDigit 4 4 = 0 := by decide
  by_cases hB : t.GemmBThreadCopyMoreGemmK = true
  swap
  · simp only [Bool.not_eq_true] at hB
    have e := SetNextValue_of_B_false t hB
    have hr : tuningRank t.SetNextValue.1 = tuningRank t + 1 := by
      rw [e]
      simp only [tuningRank, hB]
      simp
      omega
    have hlt : tuningRank t < 56447 := by
      simp only [tuningRank, hB]
      simp
      omega
    refine ⟨by omega, fun _ => ⟨by rw [e], hlat, hr⟩, fun h => by omega⟩
  by_cases h1 : t.GemmKPack = 8
  swap
  · have e := SetNextValue_of_KPack t hB hA h1
    have hd := (nkp h1).2
    have hne : twoPowerDigit 1 t.GemmKPack ≠ 3 := fun hc => h1 (xkp.mpr hc)
    have hr : tuningRank t.SetNextValue.1 = tuningRank t + 1 := by
      rw [e]
      simp only [tuningRank, hB, hd]
      simp
      omega
    have hlt : tuningRank t < 56447 := by
      simp only [tuningRank, hB]
      simp
      omega
    refine ⟨by omega, fun _ => ⟨by rw [e], hlat, hr⟩, fun h => by omega⟩
  have k1 := xkp.mp h1
  by_cases h2 : t.GemmNPerWave = 128
  swap
  · have e := SetNextValue_of_NPerWave t hB hA h1 h2
    have hd := (nnw h2).2
    have hne : twoPowerDigit 4 t.GemmNPerWave ≠ 5 := fun hc => h2 (xnw.mpr hc)
    have hr : tuningRank t.SetNextValue.1 = tuningRank t + 1 := by
      rw [e]
      simp only [tuningRank, hB, hd, d1, k1]
      simp
      omega
    have hlt : tuningRank t < 56447 := by
      simp only [tuningRank, hB]
      simp
      omega
    refine ⟨by omega, fun _ => ⟨by rw [e], hlat, hr⟩, fun h => by omega⟩
  have k2 := xnw.mp h2
  by_cases h3 : t.GemmMPerWave = 128
  swap
  · have e := SetNextValue_of_MPerWave t hB hA h1 h2 h3
    have hd := (nmw h3).2
    have hne : twoPowerDigit 4 t.GemmMPerWave ≠ 5 := fun hc => h3 (xmw.mpr hc)
    have hr : tuningRank t.SetNextValue.1 = tuningRank t + 1 := by
      rw [e]
      simp only [tuningRank, hB, hd, d1, d4, k1, k2]
      simp
      omega
    have hlt : tuningRank t < 56447 := by
      simp only [tuningRank, hB]
      simp
      omega
    refine ⟨by omega, fun _ => ⟨by rw [e], hlat, hr⟩, fun h => by omega⟩
  have k3 := xmw.mp h3
  by_cases h4 : t.GemmKPerBlock = 8
  swap
  · have e := SetNextValue_of_KPerBlock t hB hA h1 h2 h3 h4
    have hd := (nkb h4).2
    have hne : twoPowerDigit 1 t.GemmKPerBlock ≠ 3 := fun hc => h4 (xkb.mpr hc)
    have hr : tuningRank t.SetNextValue.1 = tuningRank t + 1 := by
      rw [e]
      simp only [tuningRank, hB, hd, d1, d4, k1, k2, k3]
      simp
      omega
    have hlt : tuningRank t < 56447 := by
      simp only [tuningRank, hB]
      simp
      omega
    refine ⟨by omega, fun _ => ⟨by rw [e], hlat, hr⟩, fun h => by omega⟩
  have k4 := xkb.mp h4
  by_cases h5 : t.GemmNPerBlock = 256
  swap
  · have e := SetNextValue_of_NPerBlock t hB hA h1 h2 h3 h4 h5
    have hd := (nnb h5).2
    have hne : twoPowerDigit 4 t.GemmNPerBlock ≠ 6 := fun hc => h5 (xnb.mpr hc)
    have hr : tuningRank t.SetNextValue.1 = tuningRank t + 1 := by
      rw [e]
      simp only [tuningRank, hB, hd, d1, d4, k1, k2, k3, k4]
      simp
      omega
    have hlt : tuningRank t < 56447 := by
      simp only [tuningRank, hB]
      simp
      omega
    refine ⟨by omega, fun _ => ⟨by rw [e], hlat, hr⟩, fun h => by omega⟩
  have k5 := xnb.mp h5
  by_cases h6 : t.GemmMPerBlock = 256
  swap
  · have e := SetNextValue_of_MPerBlock t hB hA h1 h2 h3 h4 h5 h6
    have hd := (nmb h6).2
    have hne : twoPowerDigit 4 t.GemmMPerBlock ≠ 6 := fun hc => h6 (xmb.mpr hc)
    have hr : tuningRank t.SetNextValue.1 = tuningRank t + 1 := by
      rw [e]
      simp only [tuningRank, hB, hd, d1, d4, k1, k2, k3, k4, k5]
      simp
      omega
    have hlt : tuningRank t < 56447 := by
      simp only [tuningRank, hB]
      simp
      omega
    refine ⟨by omega, fun _ => ⟨by rw [e], hlat, hr⟩, fun h => by omega⟩
  have k6 := xmb.mp h6
  have e := SetNextValue_of_all_max t hB hA h1 h2 h3 h4 h5 h6
  have hrank : tuningRank t = 56447 := by
    simp only [tuningRank, hB, k1, k2, k3, k4, k5, k6]
    simp
  refine ⟨by omega, fun h => by omega, fun _ => ?_⟩
  rw [e]
  simp only [defaultConfig, hMF, hNF, hKF]

theorem SetNextValue_iterate_succ (k : Nat)
    (t : PerformanceImplicitGemmWrwV4R4Xdlops_Padded_Gemm) :
    SetNextValue_iterate (k + 1) t = (SetNextValue_iterate k t).SetNextValue.1 := by
  induction k generalizing t with
  | zero => rfl
  | succ k ih =>
    rw [SetNextValue_iterate, ih t.SetNextValue.1]
    rfl

theorem SetNextValue_iterate_flagA (k : Nat)
    (t : PerformanceImplicitGemmWrwV4R4Xdlops_Padded_Gemm)
    (h : t.GemmAThreadCopyMoreGemmK = false) :
    (SetNextValue_iterate k t).GemmAThreadCopyMoreGemmK = false := by
  induction k generalizing t with
  | zero => exact h
  | succ k ih =>
    rw [SetNextValue_iterate]
    exact ih _ ((SetNextValue_preserves t).2.1 h)

theorem tuningRank_iterate (k : Nat) (t : PerformanceImplicitGemmWrwV4R4Xdlops_Padded_Gemm)
    (h : InTuningLattice t) (hk : tuningRank t + k ≤ 56447) :
    InTuningLattice (SetNextValue_iterate k t) ∧
      tuningRank (SetNextValue_iterate k t) = tuningRank t + k := by
  induction k generalizing t with
  | zero => exact ⟨h, rfl⟩
  | succ k ih =>
    obtain ⟨_, hstep, _⟩ := tuningRank_step t h
    obtain ⟨_, hl, hr⟩ := hstep (by omega)
    rw [SetNextValue_iterate]
    obtain ⟨h1, h2⟩ := ih t.SetNextValue.1 hl (by omega)
    exact ⟨h1, by omega⟩

theorem defaultConfig_lattice : InTuningLattice defaultConfig ∧ tuningRank defaultConfig = 0 := by
  refine ⟨⟨by decide, rfl, rfl, rfl, rfl⟩, by decide⟩

theorem tuningRank_injective (t u : PerformanceImplicitGemmWrwV4R4Xdlops_Padded_Gemm)
    (ht : InTuningLattice t) (hu : InTuningLattice u) (h : tuningRank t = tuningRank u) :
    t = u := by
  obtain ⟨hv, hA, hMF, hNF, hKF⟩ := ht
  obtain ⟨hv', hA', hMF', hNF', hKF'⟩ := hu
  obtain ⟨vmb, vnb, vkb, vmw, vnw, vkp⟩ := (IsValidValue_iff t).mp hv
  obtain ⟨vmb', vnb', vkb', vmw', vnw', vkp'⟩ := (IsValidValue_iff u).mp hv'
  obtain ⟨bmb, -, -, -, -, emb⟩ := twoPower_4_256 _ vmb
  obtain ⟨bnb, -, -, -, -, enb⟩ := twoPower_4_256 _ vnb
  obtain ⟨bkb, -, -, -, -, ekb⟩ := twoPower_1_8 _ vkb
  obtain ⟨bmw, -, -, -, -, emw⟩ := twoPower_4_128 _ vmw
  obtain ⟨bnw, -, -, -, -, enw⟩ := twoPower_4_128 _ vnw
  obtain ⟨bkp, -, -, -, -, ekp⟩ := twoPower_1_8 _ vkp
  obtain ⟨bmb', -, -, -, -, emb'⟩ := twoPower_4_256 _ vmb'
  obtain ⟨bnb', -, -, -, -, enb'⟩ := twoPower_4_256 _ vnb'
  obtain ⟨bkb', -, -, -, -, ekb'⟩ := twoPower_1_8 _ vkb'
  obtain ⟨bmw', -, -, -, -, emw'⟩ := twoPower_4_128 _ vmw'
  obtain ⟨bnw', -, -, -, -, enw'⟩ := twoPower_4_128 _ vnw'
  obtain ⟨bkp', -, -, -, -, ekp'⟩ := twoPower_1_8 _ vkp'
  have key : t.GemmBThreadCopyMoreGemmK = u.GemmBThreadCopyMoreGemmK ∧
      twoPowerDigit 1 t.GemmKPack = twoPowerDigit 1 u.GemmKPack ∧
      twoPowerDigit 4 t.GemmNPerWave = twoPowerDigit 4 u.GemmNPerWave ∧
      twoPowerDigit 4 t.GemmMPerWave = twoPowerDigit 4 u.GemmMPerWave ∧
      twoPowerDigit 1 t.GemmKPerBlock = twoPowerDigit 1 u.GemmKPerBlock ∧
      twoPowerDigit 4 t.GemmNPerBlock = twoPowerDigit 4 u.GemmNPerBlock ∧
      twoPowerDigit 4 t.GemmMPerBlock = twoPowerDigit 4 u.GemmMPerBlock := by
    unfold tuningRank at h
    cases hB : t.GemmBThreadCopyMoreGemmK <;> cases hB' : u.GemmBThreadCopyMoreGemmK <;>
      simp only [hB, hB'] at h <;> simp at h <;> refine ⟨?_, ?_, ?_, ?_, ?_, ?_, ?_⟩ <;>
      first | rfl | omega
  obtain ⟨kB, k1, k2, k3, k4, k5, k6⟩ := key
  have f1 : t.GemmKPack = u.GemmKPack := by rw [ekp, ekp', k1]
  have f2 : t.GemmNPerWave = u.GemmNPerWave := by rw [enw, enw', k2]
  have f3 : t.GemmMPerWave = u.GemmMPerWave := by rw [emw, emw', k3]
  have f4 : t.GemmKPerBlock = u.GemmKPerBlock := by rw [ekb, ekb', k4]
  have f5 : t.GemmNPerBlock = u.GemmNPerBlock := by rw [enb, enb', k5]
  have f6 : t.GemmMPerBlock = u.GemmMPerBlock := by rw [emb, emb', k6]
  have g1 : t.GemmMFactor = u.GemmMFactor := hMF.trans hMF'.symm
  have g2 : t.GemmNFactor = u.GemmNFactor := hNF.trans hNF'.symm
  have g3 : t.GemmKTotalFactor = u.GemmKTotalFactor := hKF.trans hKF'.symm
  have g4 : t.GemmAThreadCopyMoreGemmK = u.GemmAThreadCopyMoreGemmK := hA.trans hA'.symm
  cases t
  cases u
  simp only [PerformanceImplicitGemmWrwV4R4Xdlops_Padded_Gemm.mk.injEq]
  exact ⟨f6, f5, f4, f3, f2, f1, g1, g2, g3, g4, kB⟩

/-! ## The claims on `IsValidValue`, `SetNextValue`, `GetWorkspaceSize`, `IsApplicable` -/

/-- C11: `IsValidValue` returns true if and only if `GemmMPerBlock` and `GemmNPerBlock`
are powers of two in `[4, 256]`, `GemmKPerBlock` and `GemmKPack` are powers of two in
`[1, 8]`, and `GemmMPerWave` and `GemmNPerWave` are powers of two in `[4, 128]`; so every
scalar tile field of an accepted configuration lies in its range. -/
theorem IsValidValue_iff_power_of_two_ranges
    (t : PerformanceImplicitGemmWrwV4R4Xdlops_Padded_Gemm) :
    t.IsValidValue = true ↔
      (((∃ e : Nat, t.GemmMPerBlock = 2 ^ e) ∧ 4 ≤ t.GemmMPerBlock ∧ t.GemmMPerBlock ≤ 256) ∧
        ((∃ e : Nat, t.GemmNPerBlock = 2 ^ e) ∧ 4 ≤ t.GemmNPerBlock ∧ t.GemmNPerBlock ≤ 256) ∧
        ((∃ e : Nat, t.GemmKPerBlock = 2 ^ e) ∧ 1 ≤ t.GemmKPerBlock ∧ t.GemmKPerBlock ≤ 8) ∧
        ((∃ e : Nat, t.GemmMPerWave = 2 ^ e) ∧ 4 ≤ t.GemmMPerWave ∧ t.GemmMPerWave ≤ 128) ∧
        ((∃ e : Nat, t.GemmNPerWave = 2 ^ e) ∧ 4 ≤ t.GemmNPerWave ∧ t.GemmNPerWave ≤ 128) ∧
        ((∃ e : Nat, t.GemmKPack = 2 ^ e) ∧ 1 ≤ t.GemmKPack ∧ t.GemmKPack ≤ 8)) := by
  rw [IsValidValue_iff, IsTwoPower_iff (by norm_num), IsTwoPower_iff (by norm_num),
    IsTwoPower_iff (by norm_num), IsTwoPower_iff (by norm_num), IsTwoPower_iff (by norm_num),
    IsTwoPower_iff (by norm_num)]

/-- C14 fails as stated: on the configuration whose tile sizes are all at their maximum,
with `GemmBThreadCopyMoreGemmK = true` and `GemmAThreadCopyMoreGemmK = false`, the call
returns false, although `GemmAThreadCopyMoreGemmK` is not `true`. -/
theorem SetNextValue_returns_false_with_flagA_false :
    (⟨256, 256, 8, 128, 128, 8, 16, 64, 16, false, true⟩ :
        PerformanceImplicitGemmWrwV4R4Xdlops_Padded_Gemm).IsValidValue = true ∧
      (⟨256, 256, 8, 128, 128, 8, 16, 64, 16, false, true⟩ :
        PerformanceImplicitGemmWrwV4R4Xdlops_Padded_Gemm).SetNextValue.2 = false ∧
      (⟨256, 256, 8, 128, 128, 8, 16, 64, 16, false, true⟩ :
        PerformanceImplicitGemmWrwV4R4Xdlops_Padded_Gemm).GemmAThreadCopyMoreGemmK ≠ true := by
  decide

/-- C14, amended: for every configuration whose tile sizes are legal lattice values,
`SetNextValue` returns false if and only if, before the call, `GemmMPerBlock =
GemmNPerBlock = 256`, `GemmKPerBlock = 8`, `GemmMPerWave = GemmNPerWave = 128`,
`GemmKPack = 8`, `GemmAThreadCopyMoreGemmK = false` (the maximum of its range
`<false, false>`) and `GemmBThreadCopyMoreGemmK = true`; in particular it returns false
on the first call on that configuration. -/
theorem SetNextValue_returns_false_iff
    (t : PerformanceImplicitGemmWrwV4R4Xdlops_Padded_Gemm) (_h : t.IsValidValue = true) :
    (t.SetNextValue.2 = false ↔
        (t.GemmMPerBlock = 256 ∧ t.GemmNPerBlock = 256 ∧ t.GemmKPerBlock = 8 ∧
          t.GemmMPerWave = 128 ∧ t.GemmNPerWave = 128 ∧ t.GemmKPack = 8 ∧
          t.GemmAThreadCopyMoreGemmK = false ∧ t.GemmBThreadCopyMoreGemmK = true)) ∧
      (⟨256, 256, 8, 128, 128, 8, t.GemmMFactor, t.GemmNFactor, t.GemmKTotalFactor, false,
        true⟩ : PerformanceImplicitGemmWrwV4R4Xdlops_Padded_Gemm).SetNextValue.2 = false :=
  ⟨SetNextValue_snd_eq_false_iff t,
    (SetNextValue_snd_eq_false_iff _).mpr ⟨rfl, rfl, rfl, rfl, rfl, rfl, rfl, rfl⟩⟩

/-- Witness of the amended C14: the default configuration, on which the call returns
true. -/
theorem SetNextValue_returns_false_iff_witness :
    defaultConfig.IsValidValue = true ∧ defaultConfig.SetNextValue.2 = true ∧
      (⟨256, 256, 8, 128, 128, 8, 16, 64, 16, false, true⟩ :
        PerformanceImplicitGemmWrwV4R4Xdlops_Padded_Gemm).SetNextValue.2 = false :=
  ⟨by decide, by decide,
    (SetNextValue_returns_false_iff defaultConfig (by decide)).2⟩

/-- C16: if `IsValidValue` holds before a call of `SetNextValue` then it holds after the
call, whether the call returns true or false, and the call never changes `GemmMFactor`,
`GemmNFactor` or `GemmKTotalFactor`. -/
theorem SetNextValue_keeps_IsValidValue
    (t : PerformanceImplicitGemmWrwV4R4Xdlops_Padded_Gemm) (h : t.IsValidValue = true) :
    t.SetNextValue.1.IsValidValue = true ∧
      t.SetNextValue.1.GemmMFactor = t.GemmMFactor ∧
      t.SetNextValue.1.GemmNFactor = t.GemmNFactor ∧
      t.SetNextValue.1.GemmKTotalFactor = t.GemmKTotalFactor :=
  ⟨(SetNextValue_preserves t).2.2 h, (SetNextValue_preserves t).1⟩

/-- Witness of C16: the configuration with every tile size at its maximum, on which the
call returns false and leaves the default configuration. -/
theorem SetNextValue_keeps_IsValidValue_witness :
    (⟨256, 256, 8, 128, 128, 8, 16, 64, 16, false, true⟩ :
        PerformanceImplicitGemmWrwV4R4Xdlops_Padded_Gemm).IsValidValue = true ∧
      (⟨256, 256, 8, 128, 128, 8, 16, 64, 16, false, true⟩ :
        PerformanceImplicitGemmWrwV4R4Xdlops_Padded_Gemm).SetNextValue = (defaultConfig, false) ∧
      defaultConfig.IsValidValue = true :=
  ⟨by decide, by decide,
    (SetNextValue_keeps_IsValidValue ⟨256, 256, 8, 128, 128, 8, 16, 64, 16, false, true⟩
      (by decide)).1⟩

/-- Where the `int` product `k * c * y * x` of source line 1202 does not overflow:
`GetWorkspaceSize` returns 0 for every fp32 workload, and for every other workload, fp16
and bfp16 in particular, whose product `outChannels * inChannels * filterH * filterW`
(total channel counts) is a non-negative `int` value, it returns that product times 4. -/
theorem GetWorkspaceSize_without_overflow (ctx : ConvolutionContext) :
    (ctx.dataType = DataType.fp32 →
        ConvHipImplicitGemmWrwV4R4Xdlops_Padded_Gemm.GetWorkspaceSize ctx = 0) ∧
      (ctx.dataType = DataType.fp16 ∨ ctx.dataType = DataType.bfp16 →
        0 ≤ ctx.GetOutputChannelK * ctx.GetInputChannelC * ctx.GetFilterHeightY *
            ctx.GetFilterWidthX →
        ctx.GetOutputChannelK * ctx.GetInputChannelC * ctx.GetFilterHeightY *
            ctx.GetFilterWidthX < 2 ^ 31 →
        ((ConvHipImplicitGemmWrwV4R4Xdlops_Padded_Gemm.GetWorkspaceSize ctx : Nat) : Int) =
          ctx.GetOutputChannelK * ctx.GetInputChannelC * ctx.GetFilterHeightY *
            ctx.GetFilterWidthX * 4) := by
  refine ⟨?_, ?_⟩
  · intro h
    simp [ConvHipImplicitGemmWrwV4R4Xdlops_Padded_Gemm.GetWorkspaceSize,
      ConvolutionContext.IsFp32, h]
  · intro h h0 h1
    have hne : ctx.IsFp32 = false := by
      rcases h with h | h <;> simp [ConvolutionContext.IsFp32, h]
    unfold ConvHipImplicitGemmWrwV4R4Xdlops_Padded_Gemm.GetWorkspaceSize
    simp only [hne, Bool.false_eq_true, if_false]
    rw [lds_cast, to_int_of_range (by omega) h1]
    refine Int.emod_eq_of_lt (mul_nonneg h0 (by norm_num)) ?_
    norm_num at h1 ⊢
    omega

/-- C17: `GetWorkspaceSize` returns 0 for the fp32 Scenario A and `64*64*3*3*4 = 147456`
for Scenario B, as the claim says; but for the fp16 workload `scenarioB_16384` with 16384
output and input channels and a 3x3 filter, where the claim gives
`16384*16384*3*3*4 = 9663676416` bytes, the `int` product of source line 1202 wraps to
`-1879048192` before it is widened, and the function returns `18446744066193358848`. -/
theorem GetWorkspaceSize_wraps_int_product :
    ConvHipImplicitGemmWrwV4R4Xdlops_Padded_Gemm.GetWorkspaceSize scenarioA = 0 ∧
      ConvHipImplicitGemmWrwV4R4Xdlops_Padded_Gemm.GetWorkspaceSize scenarioB =
        64 * 64 * 3 * 3 * 4 ∧
      64 * 64 * 3 * 3 * 4 = 147456 ∧
      scenarioB_16384.dataType = DataType.fp16 ∧
      to_int (scenarioB_16384.GetOutputChannelK * scenarioB_16384.GetInputChannelC *
        scenarioB_16384.GetFilterHeightY * scenarioB_16384.GetFilterWidthX) = -1879048192 ∧
      ConvHipImplicitGemmWrwV4R4Xdlops_Padded_Gemm.GetWorkspaceSize scenarioB_16384 =
        18446744066193358848 ∧
      16384 * 16384 * 3 * 3 * 4 = 9663676416 ∧
      ConvHipImplicitGemmWrwV4R4Xdlops_Padded_Gemm.GetWorkspaceSize scenarioB_16384 ≠
        16384 * 16384 * 3 * 3 * 4 := by
  refine ⟨by decide, by decide, by norm_num, rfl, by decide, by decide, by norm_num,
    by decide⟩

/-- C18: `IsApplicable` returns false for every convolution context, whatever the
checks that follow its first statement would answer. -/
theorem IsApplicable_eq_false
    (queries : ConvHipImplicitGemmWrwV4R4Xdlops_Padded_Gemm.ApplicabilityQueries)
    (ctx : ConvolutionContext) :
    ConvHipImplicitGemmWrwV4R4Xdlops_Padded_Gemm.IsApplicable queries ctx = false :=
  rfl

/-- C19 fails as stated: on the default configuration with `GemmBThreadCopyMoreGemmK =
true`, which is legal and not at the maximum, the call does not move
`GemmAThreadCopyMoreGemmK` from false to true; it resets `GemmBThreadCopyMoreGemmK`,
leaves `GemmAThreadCopyMoreGemmK` false and doubles `GemmKPack`. -/
theorem SetNextValue_skips_flagA :
    (⟨4, 4, 1, 4, 4, 1, 16, 64, 16, false, true⟩ :
        PerformanceImplicitGemmWrwV4R4Xdlops_Padded_Gemm).IsValidValue = true ∧
      (⟨4, 4, 1, 4, 4, 1, 16, 64, 16, false, true⟩ :
        PerformanceImplicitGemmWrwV4R4Xdlops_Padded_Gemm).SetNextValue =
        (⟨4, 4, 1, 4, 4, 2, 16, 64, 16, false, false⟩, true) ∧
      (⟨4, 4, 1, 4, 4, 1, 16, 64, 16, false, true⟩ :
        PerformanceImplicitGemmWrwV4R4Xdlops_Padded_Gemm).SetNextValue.1 ≠
        ⟨4, 4, 1, 4, 4, 1, 16, 64, 16, true, false⟩ := by
  decide

/-- C19, amended: for every configuration with legal tile sizes and
`GemmAThreadCopyMoreGemmK = false` that is not at the lattice maximum (every tile size at
its maximum and `GemmBThreadCopyMoreGemmK = true`), `SetNextValue` returns true and acts as
one increment of a mixed-radix counter whose digits are, from least to most significant,
`GemmBThreadCopyMoreGemmK`, `GemmKPack`, `GemmNPerWave`, `GemmMPerWave`, `GemmKPerBlock`,
`GemmNPerBlock`, `GemmMPerBlock`: the least-significant digit not at its maximum moves to
its next value (doubling for tile sizes, false to true for the flag), every
less-significant digit is reset to its minimum and every more-significant digit is
unchanged; `GemmAThreadCopyMoreGemmK` stays false and the factors are unchanged. -/
theorem SetNextValue_increment (t : PerformanceImplicitGemmWrwV4R4Xdlops_Padded_Gemm)
    (_hv : t.IsValidValue = true) (hA : t.GemmAThreadCopyMoreGemmK = false)
    (hmax : ¬(t.GemmMPerBlock = 256 ∧ t.GemmNPerBlock = 256 ∧ t.GemmKPerBlock = 8 ∧
      t.GemmMPerWave = 128 ∧ t.GemmNPerWave = 128 ∧ t.GemmKPack = 8 ∧
      t.GemmBThreadCopyMoreGemmK = true)) :
    t.SetNextValue.2 = true ∧
      (t.GemmBThreadCopyMoreGemmK = false →
        t.SetNextValue.1 = ⟨t.GemmMPerBlock, t.GemmNPerBlock, t.GemmKPerBlock, t.GemmMPerWave,
          t.GemmNPerWave, t.GemmKPack, t.GemmMFactor, t.GemmNFactor, t.GemmKTotalFactor,
          false, true⟩) ∧
      (t.GemmBThreadCopyMoreGemmK = true → t.GemmKPack ≠ 8 →
        t.SetNextValue.1 = ⟨t.GemmMPerBlock, t.GemmNPerBlock, t.GemmKPerBlock, t.GemmMPerWave,
          t.GemmNPerWave, t.GemmKPack * 2, t.GemmMFactor, t.GemmNFactor, t.GemmKTotalFactor,
          false, false⟩) ∧
      (t.GemmBThreadCopyMoreGemmK = true → t.GemmKPack = 8 → t.GemmNPerWave ≠ 128 →
        t.SetNextValue.1 = ⟨t.GemmMPerBlock, t.GemmNPerBlock, t.GemmKPerBlock, t.GemmMPerWave,
          t.GemmNPerWave * 2, 1, t.GemmMFactor, t.GemmNFactor, t.GemmKTotalFactor,
          false, false⟩) ∧
      (t.GemmBThreadCopyMoreGemmK = true → t.GemmKPack = 8 → t.GemmNPerWave = 128 →
        t.GemmMPerWave ≠ 128 →
        t.SetNextValue.1 = ⟨t.GemmMPerBlock, t.GemmNPerBlock, t.GemmKPerBlock,
          t.GemmMPerWave * 2, 4, 1, t.GemmMFactor, t.GemmNFactor, t.GemmKTotalFactor,
          false, false⟩) ∧
      (t.GemmBThreadCopyMoreGemmK = true → t.GemmKPack = 8 → t.GemmNPerWave = 128 →
        t.GemmMPerWave = 128 → t.GemmKPerBlock ≠ 8 →
        t.SetNextValue.1 = ⟨t.GemmMPerBlock, t.GemmNPerBlock, t.GemmKPerBlock * 2,
          4, 4, 1, t.GemmMFactor, t.GemmNFactor, t.GemmKTotalFactor, false, false⟩) ∧
      (t.GemmBThreadCopyMoreGemmK = true → t.GemmKPack = 8 → t.GemmNPerWave = 128 →
        t.GemmMPerWave = 128 → t.GemmKPerBlock = 8 → t.GemmNPerBlock ≠ 256 →
        t.SetNextValue.1 = ⟨t.GemmMPerBlock, t.GemmNPerBlock * 2, 1,
          4, 4, 1, t.GemmMFactor, t.GemmNFactor, t.GemmKTotalFactor, false, false⟩) ∧
      (t.GemmBThreadCopyMoreGemmK = true → t.GemmKPack = 8 → t.GemmNPerWave = 128 →
        t.GemmMPerWave = 128 → t.GemmKPerBlock = 8 → t.GemmNPerBlock = 256 →
        t.GemmMPerBlock ≠ 256 →
        t.SetNextValue.1 = ⟨t.GemmMPerBlock * 2, 4, 1,
          4, 4, 1, t.GemmMFactor, t.GemmNFactor, t.GemmKTotalFactor, false, false⟩) := by
  refine ⟨?_, ?_, ?_, ?_, ?_, ?_, ?_, ?_⟩
  · by_contra hc
    simp only [Bool.not_eq_true] at hc
    obtain ⟨a, b, c, d, e, f, _, g⟩ := (SetNextValue_snd_eq_false_iff t).mp hc
    exact hmax ⟨a, b, c, d, e, f, g⟩
  · intro hB
    rw [SetNextValue_of_B_false t hB]
    cases t
    simp_all
  · intro hB h1
    rw [SetNextValue_of_KPack t hB hA h1]
  · intro hB h1 h2
    rw [SetNextValue_of_NPerWave t hB hA h1 h2]
  · intro hB h1 h2 h3
    rw [SetNextValue_of_MPerWave t hB hA h1 h2 h3]
  · intro hB h1 h2 h3 h4
    rw [SetNextValue_of_KPerBlock t hB hA h1 h2 h3 h4]
  · intro hB h1 h2 h3 h4 h5
    rw [SetNextValue_of_NPerBlock t hB hA h1 h2 h3 h4 h5]
  · intro hB h1 h2 h3 h4 h5 h6
    rw [SetNextValue_of_MPerBlock t hB hA h1 h2 h3 h4 h5 h6]

/-- Witness of the amended C19: the default configuration with
`GemmBThreadCopyMoreGemmK = true`, whose successor doubles `GemmKPack`. -/
theorem SetNextValue_increment_witness :
    ((⟨4, 4, 1, 4, 4, 1, 16, 64, 16, false, true⟩ :
        PerformanceImplicitGemmWrwV4R4Xdlops_Padded_Gemm).IsValidValue = true) ∧
      (⟨4, 4, 1, 4, 4, 1, 16, 64, 16, false, true⟩ :
        PerformanceImplicitGemmWrwV4R4Xdlops_Padded_Gemm).SetNextValue.1 =
        ⟨4, 4, 1, 4, 4, 2, 16, 64, 16, false, false⟩ :=
  ⟨by decide,
    (SetNextValue_increment ⟨4, 4, 1, 4, 4, 1, 16, 64, 16, false, true⟩ (by decide) rfl
      (by decide)).2.2.1 rfl (by decide)⟩

/-- C15 fails as stated: the enumeration from the default configuration never visits the
combination of the minimal tile sizes with `GemmAThreadCopyMoreGemmK = true` and
`GemmBThreadCopyMoreGemmK = false`, however often `SetNextValue` is applied. -/
theorem SetNextValue_never_visits_flagA_true :
    ¬∃ k : Nat, SetNextValue_iterate k defaultConfig =
      ⟨4, 4, 1, 4, 4, 1, 16, 64, 16, true, false⟩ := by
  rintro ⟨k, hk⟩
  have h := SetNextValue_iterate_flagA k defaultConfig rfl
  rw [hk] at h
  exact absurd h (by decide)

/-- C15, amended: repeatedly applying `SetNextValue` from the default configuration
`{4,4,1,4,4,1,16,64,16,false,false}` visits every combination of the six tile sizes and of
`GemmBThreadCopyMoreGemmK`, with `GemmAThreadCopyMoreGemmK` fixed at false, exactly once
before returning false: the first 56447 calls return true, call number 56448 returns
false, the 56448 configurations visited are pairwise distinct, and they are exactly the
configurations with legal tile sizes, `GemmAThreadCopyMoreGemmK = false` and the factors
16/64/16; their number is the product `7*7*4*6*6*4*2` of the range cardinalities. -/
theorem SetNextValue_enumerates_lattice :
    (∀ k : Nat, k < 56447 → (SetNextValue_iterate k defaultConfig).SetNextValue.2 = true) ∧
      (SetNextValue_iterate 56447 defaultConfig).SetNextValue.2 = false ∧
      (∀ i j : Nat, i < 56448 → j < 56448 →
        SetNextValue_iterate i defaultConfig = SetNextValue_iterate j defaultConfig → i = j) ∧
      (∀ t : PerformanceImplicitGemmWrwV4R4Xdlops_Padded_Gemm,
        (t.IsValidValue = true ∧ t.GemmAThreadCopyMoreGemmK = false ∧ t.GemmMFactor = 16 ∧
            t.GemmNFactor = 64 ∧ t.GemmKTotalFactor = 16) ↔
          ∃ k : Nat, k < 56448 ∧ SetNextValue_iterate k defaultConfig = t) ∧
      7 * 7 * 4 * 6 * 6 * 4 * 2 = 56448 := by
  obtain ⟨hd, hr0⟩ := defaultConfig_lattice
  have hit : ∀ k : Nat, k < 56448 →
      InTuningLattice (SetNextValue_iterate k defaultConfig) ∧
        tuningRank (SetNextValue_iterate k defaultConfig) = k := by
    intro k hk
    have := tuningRank_iterate k defaultConfig hd (by omega)
    exact ⟨this.1, by omega⟩
  refine ⟨?_, ?_, ?_, ?_, by norm_num⟩
  · intro k hk
    obtain ⟨hl, hr⟩ := hit k (by omega)
    exact ((tuningRank_step _ hl).2.1 (by omega)).1
  · obtain ⟨hl, hr⟩ := hit 56447 (by omega)
    rw [(tuningRank_step _ hl).2.2 hr]
  · intro i j hi hj hij
    have h1 := (hit i hi).2
    have h2 := (hit j hj).2
    rw [hij] at h1
    omega
  · intro t
    constructor
    · intro ht
      have hlt := (tuningRank_step t ht).1
      obtain ⟨hl, hr⟩ := hit (tuningRank t) hlt
      exact ⟨tuningRank t, hlt, tuningRank_injective _ _ hl ht hr⟩
    · rintro ⟨k, hk, rfl⟩
      exact (hit k hk).1

/-! ## Shared lemmas on the descent of `HeuristicInit` -/

theorem heuristicDescentStep_of_KPerBlock (KPackL KPackH : Int)
    (tmp : PerformanceImplicitGemmWrwV4R4Xdlops_Padded_Gemm)
    (h1 : tmp.GemmKPerBlock ≠ 1) :
    heuristicDescentStep KPackL KPackH tmp =
      ({ tmp with
          GemmKPerBlock := tmp.GemmKPerBlock.tdiv 2 }, false) := by
  simp [heuristicDescentStep, PreviousTwoPower, h1]

theorem heuristicDescentStep_of_KPack (KPackL KPackH : Int)
    (tmp : PerformanceImplicitGemmWrwV4R4Xdlops_Padded_Gemm)
    (h1 : tmp.GemmKPerBlock = 1) (h2 : tmp.GemmKPack ≠ KPackL) :
    heuristicDescentStep KPackL KPackH tmp =
      ({ tmp with
          GemmKPerBlock := 8, GemmKPack := tmp.GemmKPack.tdiv 2 }, false) := by
  simp [heuristicDescentStep, PreviousTwoPower, h1, h2]

theorem heuristicDescentStep_of_NPerWave (KPackL KPackH : Int)
    (tmp : PerformanceImplicitGemmWrwV4R4Xdlops_Padded_Gemm)
    (h1 : tmp.GemmKPerBlock = 1) (h2 : tmp.GemmKPack = KPackL) (h3 : tmp.GemmNPerWave ≠ 4) :
    heuristicDescentStep KPackL KPackH tmp =
      ({ tmp with
          GemmKPerBlock := 8, GemmKPack := KPackH, GemmNPerWave := tmp.GemmNPerWave.tdiv 2 }, false) := by
  simp [heuristicDescentStep, PreviousTwoPower, h1, h2, h3]

theorem heuristicDescentStep_of_MPerWave (KPackL KPackH : Int)
    (tmp : PerformanceImplicitGemmWrwV4R4Xdlops_Padded_Gemm)
    (h1 : tmp.GemmKPerBlock = 1) (h2 : tmp.GemmKPack = KPackL) (h3 : tmp.GemmNPerWave = 4)
    (h4 : tmp.GemmMPerWave ≠ 4) :
    heuristicDescentStep KPackL KPackH tmp =
      ({ tmp with
          GemmKPerBlock := 8, GemmKPack := KPackH, GemmNPerWave := 128,
          GemmMPerWave := tmp.GemmMPerWave.tdiv 2 }, false) := by
  simp [heuristicDescentStep, PreviousTwoPower, h1, h2, h3, h4]

theorem heuristicDescentStep_of_NPerBlock (KPackL KPackH : Int)
    (tmp : PerformanceImplicitGemmWrwV4R4Xdlops_Padded_Gemm)
    (h1 : tmp.GemmKPerBlock = 1) (h2 : tmp.GemmKPack = KPackL) (h3 : tmp.GemmNPerWave = 4)
    (h4 : tmp.GemmMPerWave = 4) (h5 : tmp.GemmNPerBlock ≠ 4) :
    heuristicDescentStep KPackL KPackH tmp =
      ({ tmp with
          GemmKPerBlock := 8, GemmKPack := KPackH, GemmNPerWave := 128, GemmMPerWave := 128,
          GemmNPerBlock := tmp.GemmNPerBlock.tdiv 2 }, false) := by
  simp [heuristicDescentStep, PreviousTwoPower, h1, h2, h3, h4, h5]

theorem heuristicDescentStep_of_MPerBlock (KPackL KPackH : Int)
    (tmp : PerformanceImplicitGemmWrwV4R4Xdlops_Padded_Gemm)
    (h1 : tmp.GemmKPerBlock = 1) (h2 : tmp.GemmKPack = KPackL) (h3 : tmp.GemmNPerWave = 4)
    (h4 : tmp.GemmMPerWave = 4) (h5 : tmp.GemmNPerBlock = 4) (h6 : tmp.GemmMPerBlock ≠ 4) :
    heuristicDescentStep KPackL KPackH tmp =
      ({ tmp with
          GemmKPerBlock := 8, GemmKPack := KPackH, GemmNPerWave := 128, GemmMPerWave := 128,
          GemmNPerBlock := 256, GemmMPerBlock := tmp.GemmMPerBlock.tdiv 2 }, false) := by
  simp [heuristicDescentStep, PreviousTwoPower, h1, h2, h3, h4, h5, h6]

theorem heuristicDescentStep_of_all_min (KPackL KPackH : Int)
    (tmp : PerformanceImplicitGemmWrwV4R4Xdlops_Padded_Gemm)
    (h1 : tmp.GemmKPerBlock = 1) (h2 : tmp.GemmKPack = KPackL) (h3 : tmp.GemmNPerWave = 4)
    (h4 : tmp.GemmMPerWave = 4) (h5 : tmp.GemmNPerBlock = 4) (h6 : tmp.GemmMPerBlock = 4) :
    heuristicDescentStep KPackL KPackH tmp =
      ({ tmp with
          GemmKPerBlock := 8, GemmKPack := KPackH, GemmNPerWave := 128, GemmMPerWave := 128,
          GemmNPerBlock := 256, GemmMPerBlock := 256 }, true) := by
  simp [heuristicDescentStep, PreviousTwoPower, h1, h2, h3, h4, h5, h6]

theorem heuristicRange_facts {ctx : ConvolutionContext} {KPackL KPackH : Int} {count : Nat}
    (hK : IsHeuristicKPackRange ctx KPackL KPackH count) :
    (count = 2 ∨ count = 3) ∧ IsTwoPower KPackL KPackH KPackH = true ∧
      twoPowerDigit KPackL KPackH + 1 = count ∧
      ∀ v : Int, IsTwoPower KPackL KPackH v = true →
        twoPowerDigit KPackL v < count ∧ (v = KPackL ↔ twoPowerDigit KPackL v = 0) ∧
          (v ≠ KPackL → IsTwoPower KPackL KPackH (v.tdiv 2) = true ∧
            twoPowerDigit KPackL (v.tdiv 2) + 1 = twoPowerDigit KPackL v) ∧
          v = KPackL * 2 ^ twoPowerDigit KPackL v ∧ IsTwoPower 1 8 v = true := by
  rcases hK with ⟨_, rfl, rfl, rfl⟩ | ⟨_, rfl, rfl, rfl⟩ | ⟨_, rfl, rfl, rfl⟩
  · refine ⟨Or.inr rfl, by decide, by decide, fun v hv => ?_⟩
    obtain ⟨a, b, -, -, c, d⟩ := twoPower_1_4 v hv
    refine ⟨a, b, c, d, ?_⟩
    obtain ⟨hc, h1, h2⟩ := IsTwoPower_values hv
    have hv' : v = 1 ∨ v = 2 ∨ v = 4 := by omega
    rcases hv' with rfl | rfl | rfl <;> decide
  · refine ⟨Or.inl rfl, by decide, by decide, fun v hv => ?_⟩
    obtain ⟨a, b, -, -, c, d⟩ := twoPower_4_8 v hv
    refine ⟨a, b, c, d, ?_⟩
    obtain ⟨hc, h1, h2⟩ := IsTwoPower_values hv
    have hv' : v = 4 ∨ v = 8 := by omega
    rcases hv' with rfl | rfl <;> decide
  · refine ⟨Or.inr rfl, by decide, by decide, fun v hv => ?_⟩
    obtain ⟨a, b, -, -, c, d⟩ := twoPower_2_8 v hv
    refine ⟨a, b, c, d, ?_⟩
    obtain ⟨hc, h1, h2⟩ := IsTwoPower_values hv
    have hv' : v = 2 ∨ v = 4 ∨ v = 8 := by omega
    rcases hv' with rfl | rfl | rfl <;> decide

theorem descentIndex_step {ctx : ConvolutionContext} {KPackL KPackH : Int} {count : Nat}
    (hK : IsHeuristicKPackRange ctx KPackL KPackH count)
    (t : PerformanceImplicitGemmWrwV4R4Xdlops_Padded_Gemm)
    (ht : InDescentLattice KPackL KPackH t) :
    descentIndex KPackL count t < 7056 * count ∧
      (0 < descentIndex KPackL count t →
        (heuristicDescentStep KPackL KPackH t).2 = false ∧
          InDescentLattice KPackL KPackH (heuristicDescentStep KPackL KPackH t).1 ∧
          descentIndex KPackL count (heuristicDescentStep KPackL KPackH t).1 + 1 =
            descentIndex KPackL count t) ∧
      (descentIndex KPackL count t = 0 →
        heuristicDescentStep KPackL KPackH t = (heuristicSeed KPackH, true)) := by
  obtain ⟨hcount, hHH, hdH, kpf⟩ := heuristicRange_facts hK
  obtain ⟨vmb, vnb, vkb, vmw, vnw, vkp, hMF, hNF, hKF, hA, hB⟩ := ht
  obtain ⟨bmb, xmb, -, -, pmb, -⟩ := twoPower_4_256 _ vmb
  obtain ⟨bnb, xnb, -, -, pnb, -⟩ := twoPower_4_256 _ vnb
  obtain ⟨bkb, xkb, -, -, pkb, -⟩ := twoPower_1_8 _ vkb
  obtain ⟨bmw, xmw, -, -, pmw, -⟩ := twoPower_4_128 _ vmw
  obtain ⟨bnw, xnw, -, -, pnw, -⟩ := twoPower_4_128 _ vnw
  obtain ⟨bkp, xkp, pkp, -, -⟩ := kpf _ vkp
  have m8 : IsTwoPower 1 8 8 = true := by decide
  have m128 : IsTwoPower 4 128 128 = true := by decide
  have m256 : IsTwoPower 4 256 256 = true := by decide
  have d8 : twoPowerDigit 1 8 = 3 := by decide
  have d128 : twoPowerDigit 4 128 = 5 := by decide
  have d256 : twoPowerDigit 4 256 = 6 := by decide
  have hbound : descentIndex KPackL count t < 7056 * count := by
    unfold descentIndex
    rcases hcount with rfl | rfl <;> omega
  refine ⟨hbound, ?_, ?_⟩
  · intro hpos
    by_cases h1 : t.GemmKPerBlock = 1
    swap
    · rw [heuristicDescentStep_of_KPerBlock KPackL KPackH t h1]
      refine ⟨rfl, ⟨vmb, vnb, (pkb h1).1, vmw, vnw, vkp, hMF, hNF, hKF, hA, hB⟩, ?_⟩
      have hd := (pkb h1).2
      simp only [descentIndex]
      omega
    have k1 := xkb.mp h1
    by_cases h2 : t.GemmKPack = KPackL
    swap
    · rw [heuristicDescentStep_of_KPack KPackL KPackH t h1 h2]
      refine ⟨rfl, ⟨vmb, vnb, m8, vmw, vnw, (pkp h2).1, hMF, hNF, hKF, hA, hB⟩, ?_⟩
      have hd := (pkp h2).2
      simp only [descentIndex, d8, k1]
      omega
    have k2 := xkp.mp h2
    by_cases h3 : t.GemmNPerWave = 4
    swap
    · rw [heuristicDescentStep_of_NPerWave KPackL KPackH t h1 h2 h3]
      refine ⟨rfl, ⟨vmb, vnb, m8, vmw, (pnw h3).1, hHH, hMF, hNF, hKF, hA, hB⟩, ?_⟩
      have hd := (pnw h3).2
      simp only [descentIndex, d8, k1, k2]
      rcases hcount with rfl | rfl <;> omega
    have k3 := xnw.mp h3
    by_cases h4 : t.GemmMPerWave = 4
    swap
    · rw [heuristicDescentStep_of_MPerWave KPackL KPackH t h1 h2 h3 h4]
      refine ⟨rfl, ⟨vmb, vnb, m8, (pmw h4).1, m128, hHH, hMF, hNF, hKF, hA, hB⟩, ?_⟩
      have hd := (pmw h4).2
      simp only [descentIndex, d8, d128, k1, k2, k3]
      rcases hcount with rfl | rfl <;> omega
    have k4 := xmw.mp h4
    by_cases h5 : t.GemmNPerBlock = 4
    swap
    · rw [heuristicDescentStep_of_NPerBlock KPackL KPackH t h1 h2 h3 h4 h5]
      refine ⟨rfl, ⟨vmb, (pnb h5).1, m8, m128, m128, hHH, hMF, hNF, hKF, hA, hB⟩, ?_⟩
      have hd := (pnb h5).2
      simp only [descentIndex, d8, d128, k1, k2, k3, k4]
      rcases hcount with rfl | rfl <;> omega
    have k5 := xnb.mp h5
    by_cases h6 : t.GemmMPerBlock = 4
    swap
    · rw [heuristicDescentStep_of_MPerBlock KPackL KPackH t h1 h2 h3 h4 h5 h6]
      refine ⟨rfl, ⟨(pmb h6).1, m256, m8, m128, m128, hHH, hMF, hNF, hKF, hA, hB⟩, ?_⟩
      have hd := (pmb h6).2
      simp only [descentIndex, d8, d128, d256, k1, k2, k3, k4, k5]
      rcases hcount with rfl | rfl <;> omega
    have k6 := xmb.mp h6
    exfalso
    simp only [descentIndex, k1, k2, k3, k4, k5, k6] at hpos
    simp at hpos
  · intro h0
    have hz : twoPowerDigit 1 t.GemmKPerBlock = 0 ∧ twoPowerDigit KPackL t.GemmKPack = 0 ∧
        twoPowerDigit 4 t.GemmNPerWave = 0 ∧ twoPowerDigit 4 t.GemmMPerWave = 0 ∧
        twoPowerDigit 4 t.GemmNPerBlock = 0 ∧ twoPowerDigit 4 t.GemmMPerBlock = 0 := by
      unfold descentIndex at h0
      rcases hcount with rfl | rfl <;> omega
    obtain ⟨z1, z2, z3, z4, z5, z6⟩ := hz
    rw [heuristicDescentStep_of_all_min KPackL KPackH t (xkb.mpr z1) (xkp.mpr z2)
      (xnw.mpr z3) (xmw.mpr z4) (xnb.mpr z5) (xmb.mpr z6)]
    simp only [heuristicSeed, hMF, hNF, hKF, hA, hB]

theorem descentIndex_injective {ctx : ConvolutionContext} {KPackL KPackH : Int} {count : Nat}
    (hK : IsHeuristicKPackRange ctx KPackL KPackH count)
    (t u : PerformanceImplicitGemmWrwV4R4Xdlops_Padded_Gemm)
    (ht : InDescentLattice KPackL KPackH t) (hu : InDescentLattice KPackL KPackH u)
    (h : descentIndex KPackL count t = descentIndex KPackL count u) : t = u := by
  obtain ⟨hcount, -, -, kpf⟩ := heuristicRange_facts hK
  obtain ⟨vmb, vnb, vkb, vmw, vnw, vkp, hMF, hNF, hKF, hA, hB⟩ := ht
  obtain ⟨vmb', vnb', vkb', vmw', vnw', vkp', hMF', hNF', hKF', hA', hB'⟩ := hu
  obtain ⟨bmb, -, -, -, -, emb⟩ := twoPower_4_256 _ vmb
  obtain ⟨bnb, -, -, -, -, enb⟩ := twoPower_4_256 _ vnb
  obtain ⟨bkb, -, -, -, -, ekb⟩ := twoPower_1_8 _ vkb
  obtain ⟨bmw, -, -, -, -, emw⟩ := twoPower_4_128 _ vmw
  obtain ⟨bnw, -, -, -, -, enw⟩ := twoPower_4_128 _ vnw
  obtain ⟨bkp, -, -, ekp, -⟩ := kpf _ vkp
  obtain ⟨bmb', -, -, -, -, emb'⟩ := twoPower_4_256 _ vmb'
  obtain ⟨bnb', -, -, -, -, enb'⟩ := twoPower_4_256 _ vnb'
  obtain ⟨bkb', -, -, -, -, ekb'⟩ := twoPower_1_8 _ vkb'
  obtain ⟨bmw', -, -, -, -, emw'⟩ := twoPower_4_128 _ vmw'
  obtain ⟨bnw', -, -, -, -, enw'⟩ := twoPower_4_128 _ vnw'
  obtain ⟨bkp', -, -, ekp', -⟩ := kpf _ vkp'
  have key : twoPowerDigit 1 t.GemmKPerBlock = twoPowerDigit 1 u.GemmKPerBlock ∧
      twoPowerDigit KPackL t.GemmKPack = twoPowerDigit KPackL u.GemmKPack ∧
      twoPowerDigit 4 t.GemmNPerWave = twoPowerDigit 4 u.GemmNPerWave ∧
      twoPowerDigit 4 t.GemmMPerWave = twoPowerDigit 4 u.GemmMPerWave ∧
      twoPowerDigit 4 t.GemmNPerBlock = twoPowerDigit 4 u.GemmNPerBlock ∧
      twoPowerDigit 4 t.GemmMPerBlock = twoPowerDigit 4 u.GemmMPerBlock := by
    unfold descentIndex at h
    rcases hcount with rfl | rfl <;> omega
  obtain ⟨k1, k2, k3, k4, k5, k6⟩ := key
  have f1 : t.GemmKPerBlock = u.GemmKPerBlock := by rw [ekb, ekb', k1]
  have f2 : t.GemmKPack = u.GemmKPack := by rw [ekp, ekp', k2]
  have f3 : t.GemmNPerWave = u.GemmNPerWave := by rw [enw, enw', k3]
  have f4 : t.GemmMPerWave = u.GemmMPerWave := by rw [emw, emw', k4]
  have f5 : t.GemmNPerBlock = u.GemmNPerBlock := by rw [enb, enb', k5]
  have f6 : t.GemmMPerBlock = u.GemmMPerBlock := by rw [emb, emb', k6]
  have g1 : t.GemmMFactor = u.GemmMFactor := hMF.trans hMF'.symm
  have g2 : t.GemmNFactor = u.GemmNFactor := hNF.trans hNF'.symm
  have g3 : t.GemmKTotalFactor = u.GemmKTotalFactor := hKF.trans hKF'.symm
  have g4 : t.GemmAThreadCopyMoreGemmK = u.GemmAThreadCopyMoreGemmK := hA.trans hA'.symm
  have g5 : t.GemmBThreadCopyMoreGemmK = u.GemmBThreadCopyMoreGemmK := hB.trans hB'.symm
  cases t
  cases u
  simp only [PerformanceImplicitGemmWrwV4R4Xdlops_Padded_Gemm.mk.injEq]
  exact ⟨f6, f5, f1, f4, f3, f2, g1, g2, g3, g4, g5⟩

theorem heuristicSeed_lattice {ctx : ConvolutionContext} {KPackL KPackH : Int} {count : Nat}
    (hK : IsHeuristicKPackRange ctx KPackL KPackH count) :
    InDescentLattice KPackL KPackH (heuristicSeed KPackH) ∧
      descentIndex KPackL count (heuristicSeed KPackH) + 1 = 7056 * count := by
  obtain ⟨hcount, hHH, hdH, -⟩ := heuristicRange_facts hK
  have m8 : IsTwoPower 1 8 8 = true := by decide
  have m128 : IsTwoPower 4 128 128 = true := by decide
  have m256 : IsTwoPower 4 256 256 = true := by decide
  refine ⟨⟨m256, m256, m8, m128, m128, hHH, rfl, rfl, rfl, rfl, rfl⟩, ?_⟩
  have d8 : twoPowerDigit 1 8 = 3 := by decide
  have d128 : twoPowerDigit 4 128 = 5 := by decide
  have d256 : twoPowerDigit 4 256 = 6 := by decide
  simp only [descentIndex, heuristicSeed, d8, d128, d256]
  rcases hcount with rfl | rfl <;> omega

theorem heuristicDescentLoop_stop (KPackL KPackH : Int)
    (P : PerformanceImplicitGemmWrwV4R4Xdlops_Padded_Gemm → Bool) (fuel : Nat)
    (tmp : PerformanceImplicitGemmWrwV4R4Xdlops_Padded_Gemm)
    (h : P (heuristicDescentStep KPackL KPackH tmp).1 = true ∨
      (heuristicDescentStep KPackL KPackH tmp).2 = true) :
    heuristicDescentLoop KPackL KPackH P (fuel + 1) tmp =
      some (heuristicDescentStep KPackL KPackH tmp).1 := by
  rw [heuristicDescentLoop]
  by_cases hP : P (heuristicDescentStep KPackL KPackH tmp).1 = true
  · rw [if_pos hP]
  · rw [if_neg hP]
    have hall : (heuristicDescentStep KPackL KPackH tmp).2 = true := by
      rcases h with h | h
      · exact absurd h hP
      · exact h
    rw [if_pos (not_not.mpr hall)]

theorem heuristicDescentLoop_continue (KPackL KPackH : Int)
    (P : PerformanceImplicitGemmWrwV4R4Xdlops_Padded_Gemm → Bool) (fuel : Nat)
    (tmp : PerformanceImplicitGemmWrwV4R4Xdlops_Padded_Gemm)
    (hP : P (heuristicDescentStep KPackL KPackH tmp).1 = false)
    (hall : (heuristicDescentStep KPackL KPackH tmp).2 = false) :
    heuristicDescentLoop KPackL KPackH P (fuel + 1) tmp =
      heuristicDescentLoop KPackL KPackH P fuel (heuristicDescentStep KPackL KPackH tmp).1 := by
  rw [heuristicDescentLoop]
  rw [if_neg (by simp [hP]), if_neg (by simp [hall])]

theorem heuristicDescentLoop_spec {ctx : ConvolutionContext} {KPackL KPackH : Int}
    {count : Nat} (hK : IsHeuristicKPackRange ctx KPackL KPackH count)
    (P : PerformanceImplicitGemmWrwV4R4Xdlops_Padded_Gemm → Bool) (i : Nat) :
    ∀ (tmp : PerformanceImplicitGemmWrwV4R4Xdlops_Padded_Gemm) (fuel : Nat),
      InDescentLattice KPackL KPackH tmp → descentIndex KPackL count tmp = i → i < fuel →
      ∃ r, heuristicDescentLoop KPackL KPackH P fuel tmp = some r ∧
        InDescentLattice KPackL KPackH r ∧
        ((P r = true ∧ descentIndex KPackL count r < i ∧
            ∀ u, InDescentLattice KPackL KPackH u →
              descentIndex KPackL count r < descentIndex KPackL count u →
              descentIndex KPackL count u < i → P u = false) ∨
          (r = heuristicSeed KPackH ∧
            ∀ u, InDescentLattice KPackL KPackH u →
              descentIndex KPackL count u < i → P u = false)) := by
  induction i with
  | zero =>
    intro tmp fuel ht hi hfuel
    obtain ⟨f, rfl⟩ : ∃ f, fuel = f + 1 := ⟨fuel - 1, by omega⟩
    have hs := (descentIndex_step hK tmp ht).2.2 hi
    refine ⟨heuristicSeed KPackH, ?_, (heuristicSeed_lattice hK).1, Or.inr ⟨rfl, ?_⟩⟩
    · rw [heuristicDescentLoop_stop KPackL KPackH P f tmp (Or.inr (by rw [hs])), hs]
    · intro u _ hu
      omega
  | succ i ih =>
    intro tmp fuel ht hi hfuel
    obtain ⟨f, rfl⟩ : ∃ f, fuel = f + 1 := ⟨fuel - 1, by omega⟩
    obtain ⟨hall, hl, hidx⟩ := (descentIndex_step hK tmp ht).2.1 (by omega)
    have hidx' : descentIndex KPackL count (heuristicDescentStep KPackL KPackH tmp).1 = i := by
      omega
    by_cases hP : P (heuristicDescentStep KPackL KPackH tmp).1 = true
    · refine ⟨_, heuristicDescentLoop_stop KPackL KPackH P f tmp (Or.inl hP), hl,
        Or.inl ⟨hP, by omega, ?_⟩⟩
      intro u _ h1 h2
      omega
    · simp only [Bool.not_eq_true] at hP
      rw [heuristicDescentLoop_continue KPackL KPackH P f tmp hP hall]
      obtain ⟨r, hr, hrl, hcase⟩ := ih _ f hl hidx' (by omega)
      have hnew : ∀ u, InDescentLattice KPackL KPackH u →
          descentIndex KPackL count u = i → P u = false := by
        intro u hu hui
        have : u = (heuristicDescentStep KPackL KPackH tmp).1 :=
          descentIndex_injective hK _ _ hu hl (by omega)
        rw [this]
        exact hP
      refine ⟨r, hr, hrl, ?_⟩
      rcases hcase with ⟨h1, h2, h3⟩ | ⟨h1, h2⟩
      · refine Or.inl ⟨h1, by omega, ?_⟩
        intro u hu hu1 hu2
        by_cases hui : descentIndex KPackL count u = i
        · exact hnew u hu hui
        · exact h3 u hu hu1 (by omega)
      · refine Or.inr ⟨h1, ?_⟩
        intro u hu hu1
        by_cases hui : descentIndex KPackL count u = i
        · exact hnew u hu hui
        · exact h2 u hu (by omega)

theorem heuristicCandidate_index {ctx : ConvolutionContext} {KPackL KPackH : Int}
    {count : Nat} (hK : IsHeuristicKPackRange ctx KPackL KPackH count) (k : Nat) :
    ∀ tmp : PerformanceImplicitGemmWrwV4R4Xdlops_Padded_Gemm,
      InDescentLattice KPackL KPackH tmp →
      (k < descentIndex KPackL count tmp →
        InDescentLattice KPackL KPackH (heuristicCandidate KPackL KPackH k tmp) ∧
          descentIndex KPackL count (heuristicCandidate KPackL KPackH k tmp) + k + 1 =
            descentIndex KPackL count tmp) ∧
      (k = descentIndex KPackL count tmp →
        heuristicCandidate KPackL KPackH k tmp = heuristicSeed KPackH) := by
  induction k with
  | zero =>
    intro tmp ht
    refine ⟨fun h => ?_, fun h => ?_⟩
    · obtain ⟨-, hl, hidx⟩ := (descentIndex_step hK tmp ht).2.1 h
      exact ⟨hl, by rw [heuristicCandidate]; omega⟩
    · rw [heuristicCandidate, (descentIndex_step hK tmp ht).2.2 h.symm]
  | succ k ih =>
    intro tmp ht
    refine ⟨fun h => ?_, fun h => ?_⟩
    · obtain ⟨-, hl, hidx⟩ := (descentIndex_step hK tmp ht).2.1 (by omega)
      obtain ⟨h1, h2⟩ := (ih _ hl).1 (by omega)
      rw [heuristicCandidate]
      exact ⟨h1, by omega⟩
    · obtain ⟨-, hl, hidx⟩ := (descentIndex_step hK tmp ht).2.1 (by omega)
      rw [heuristicCandidate]
      exact (ih _ hl).2 (by omega)

theorem get_euristic_config_eq {ctx : ConvolutionContext} {KPackL KPackH : Int}
    {count : Nat} (hK : IsHeuristicKPackRange ctx KPackL KPackH count) (fuel : Nat)
    (P : PerformanceImplicitGemmWrwV4R4Xdlops_Padded_Gemm → Bool)
    (tmp : PerformanceImplicitGemmWrwV4R4Xdlops_Padded_Gemm) :
    get_euristic_config fuel ctx P tmp =
      heuristicDescentLoop KPackL KPackH P fuel (heuristicSeed KPackH) := by
  rcases hK with ⟨h, rfl, rfl, rfl⟩ | ⟨h, rfl, rfl, rfl⟩ | ⟨h, rfl, rfl, rfl⟩ <;>
    simp [get_euristic_config, ConvolutionContext.IsFp32, ConvolutionContext.IsFp16,
      ConvolutionContext.IsBfp16, h]

theorem heuristicCandidate_enumerates {ctx : ConvolutionContext} {KPackL KPackH : Int}
    {count : Nat} (hK : IsHeuristicKPackRange ctx KPackL KPackH count) :
    (∀ j : Nat, j < 7056 * count →
        InDescentLattice KPackL KPackH
          (heuristicCandidate KPackL KPackH j (heuristicSeed KPackH))) ∧
      (∀ j : Nat, j + 1 < 7056 * count →
        descentIndex KPackL count
          (heuristicCandidate KPackL KPackH j (heuristicSeed KPackH)) + j + 2 =
            7056 * count) ∧
      heuristicCandidate KPackL KPackH (7056 * count - 1) (heuristicSeed KPackH) =
        heuristicSeed KPackH ∧
      ∀ u, InDescentLattice KPackL KPackH u →
        ∃ j : Nat, j < 7056 * count ∧
          heuristicCandidate KPackL KPackH j (heuristicSeed KPackH) = u := by
  obtain ⟨hsl, hsi⟩ := heuristicSeed_lattice hK
  have hlast : heuristicCandidate KPackL KPackH (7056 * count - 1) (heuristicSeed KPackH) =
      heuristicSeed KPackH :=
    (heuristicCandidate_index hK _ _ hsl).2 (by omega)
  have hmid : ∀ j : Nat, j + 1 < 7056 * count →
      InDescentLattice KPackL KPackH
          (heuristicCandidate KPackL KPackH j (heuristicSeed KPackH)) ∧
        descentIndex KPackL count
          (heuristicCandidate KPackL KPackH j (heuristicSeed KPackH)) + j + 2 =
            7056 * count := by
    intro j hj
    obtain ⟨h1, h2⟩ := (heuristicCandidate_index hK j _ hsl).1 (by omega)
    exact ⟨h1, by omega⟩
  refine ⟨?_, fun j hj => (hmid j hj).2, hlast, ?_⟩
  · intro j hj
    by_cases hj' : j + 1 < 7056 * count
    · exact (hmid j hj').1
    · have : j = 7056 * count - 1 := by omega
      rw [this, hlast]
      exact hsl
  · intro u hu
    have hub := (descentIndex_step hK u hu).1
    by_cases hui : descentIndex KPackL count u + 1 = 7056 * count
    · refine ⟨7056 * count - 1, by omega, ?_⟩
      rw [hlast]
      exact descentIndex_injective hK _ _ hsl hu (by omega)
    · refine ⟨7056 * count - 2 - descentIndex KPackL count u, by omega, ?_⟩
      obtain ⟨h1, h2⟩ := hmid (7056 * count - 2 - descentIndex KPackL count u) (by omega)
      exact descentIndex_injective hK _ _ h1 hu (by omega)

theorem get_euristic_config_result {ctx : ConvolutionContext} {KPackL KPackH : Int}
    {count : Nat} (hK : IsHeuristicKPackRange ctx KPackL KPackH count)
    (P : PerformanceImplicitGemmWrwV4R4Xdlops_Padded_Gemm → Bool) (fuel : Nat)
    (hfuel : 7056 * count ≤ fuel)
    (tmp : PerformanceImplicitGemmWrwV4R4Xdlops_Padded_Gemm) :
    ∃ r k, get_euristic_config fuel ctx P tmp = some r ∧ k < 7056 * count ∧
      r = heuristicCandidate KPackL KPackH k (heuristicSeed KPackH) ∧
      (∀ j : Nat, j < k →
        P (heuristicCandidate KPackL KPackH j (heuristicSeed KPackH)) = false) ∧
      (P r = true ∨ k = 7056 * count - 1) := by
  obtain ⟨hsl, hsi⟩ := heuristicSeed_lattice hK
  obtain ⟨hlat, hidx, hlast, -⟩ := heuristicCandidate_enumerates hK
  obtain ⟨r, hr, hrl, hcase⟩ := heuristicDescentLoop_spec hK P
    (descentIndex KPackL count (heuristicSeed KPackH)) (heuristicSeed KPackH) fuel hsl rfl
    (by omega)
  rw [get_euristic_config_eq hK]
  rcases hcase with ⟨h1, h2, h3⟩ | ⟨h1, h2⟩
  · refine ⟨r, 7056 * count - 2 - descentIndex KPackL count r, hr, by omega, ?_, ?_,
      Or.inl h1⟩
    · have hc := hidx (7056 * count - 2 - descentIndex KPackL count r) (by omega)
      exact descentIndex_injective hK _ _ hrl (hlat _ (by omega)) (by omega)
    · intro j hj
      have hc := hidx j (by omega)
      exact h3 _ (hlat j (by omega)) (by omega) (by omega)
  · refine ⟨r, 7056 * count - 1, hr, by omega, ?_, ?_, Or.inr rfl⟩
    · rw [hlast, h1]
    · intro j hj
      have hc := hidx j (by omega)
      exact h2 _ (hlat j (by omega)) (by omega)

theorem HeuristicInit_eq {ctx : ConvolutionContext}
    (xdlops : BlockwiseGemmXdlopsCheck) (ratio_gt : FloatRatioTest) (fuel : Nat)
    (self r1 : PerformanceImplicitGemmWrwV4R4Xdlops_Padded_Gemm)
    (h1 : get_euristic_config fuel ctx
      (fun config => config.IsReallyValid xdlops ctx &&
        config.IsFastToBeUsedForTuning ratio_gt ctx) defaultConfig = some r1) :
    HeuristicInit xdlops ratio_gt fuel self ctx =
      if ¬(r1.IsReallyValid xdlops ctx = true) then
        get_euristic_config fuel ctx (fun config => config.IsReallyValid xdlops ctx) r1
      else some r1 := by
  unfold HeuristicInit
  rw [h1]

theorem IsReallyValid_xdlopsRejectAll (t : PerformanceImplicitGemmWrwV4R4Xdlops_Padded_Gemm)
    (ctx : ConvolutionContext) : t.IsReallyValid xdlopsRejectAll ctx = false := by
  by_contra h
  have h' : t.IsReallyValid xdlopsRejectAll ctx = true := by simpa using h
  have hx := ((IsReallyValid_unfold xdlopsRejectAll t ctx).mp h').2.1
  simp [xdlopsRejectAll] at hx

/-! ## The claims on `HeuristicInit` -/

/-- C12: for every fp32, fp16 or bfp16 workload, if at least one configuration of the
descent lattice of the datatype satisfies `IsReallyValid`, then `HeuristicInit` produces a
configuration (for every iteration budget of at least 21168) and that configuration
satisfies `IsReallyValid`. -/
theorem HeuristicInit_valid_of_lattice_valid (xdlops : BlockwiseGemmXdlopsCheck)
    (ratio_gt : FloatRatioTest) (fuel : Nat)
    (self : PerformanceImplicitGemmWrwV4R4Xdlops_Padded_Gemm) (ctx : ConvolutionContext)
    (KPackL KPackH : Int) (count : Nat)
    (hK : IsHeuristicKPackRange ctx KPackL KPackH count) (hfuel : 21168 ≤ fuel)
    (hex : ∃ u, InDescentLattice KPackL KPackH u ∧ u.IsReallyValid xdlops ctx = true) :
    ∃ res, HeuristicInit xdlops ratio_gt fuel self ctx = some res ∧
      res.IsReallyValid xdlops ctx = true := by
  have hcount : 7056 * count ≤ fuel := by
    rcases (heuristicRange_facts hK).1 with rfl | rfl <;> omega
  obtain ⟨-, -, -, hcover⟩ := heuristicCandidate_enumerates hK
  obtain ⟨r1, k1, e1, -, -, -, -⟩ := get_euristic_config_result hK
    (fun config => config.IsReallyValid xdlops ctx &&
      config.IsFastToBeUsedForTuning ratio_gt ctx) fuel hcount defaultConfig
  rw [HeuristicInit_eq xdlops ratio_gt fuel self r1 e1]
  by_cases hv : r1.IsReallyValid xdlops ctx = true
  · exact ⟨r1, by rw [if_neg (not_not.mpr hv)], hv⟩
  · rw [if_pos hv]
    obtain ⟨r2, k2, e2, hk2, hr2, hbefore, hlast⟩ := get_euristic_config_result hK
      (fun config => config.IsReallyValid xdlops ctx) fuel hcount r1
    refine ⟨r2, e2, ?_⟩
    rcases hlast with h | h
    · exact h
    · obtain ⟨u, hu, huv⟩ := hex
      obtain ⟨j, hj, rfl⟩ := hcover u hu
      by_cases hjk : j < k2
      · have := hbefore j hjk
        simp only [] at this
        rw [huv] at this
        exact absurd this (by decide)
      · have : j = k2 := by omega
        rw [hr2, ← this]
        exact huv

/-- Witness of C12: Scenario A, where the configuration `tileA` of the fp32 descent
lattice is really valid, so `HeuristicInit` yields a really valid configuration. -/
theorem HeuristicInit_valid_of_lattice_valid_witness :
    (IsHeuristicKPackRange scenarioA 1 4 3 ∧ InDescentLattice 1 4 tileA ∧
        tileA.IsReallyValid xdlopsAcceptAll scenarioA = true) ∧
      ∃ res, HeuristicInit xdlopsAcceptAll exactRatioTest 21168 defaultConfig scenarioA =
          some res ∧ res.IsReallyValid xdlopsAcceptAll scenarioA = true :=
  ⟨⟨Or.inl ⟨rfl, rfl, rfl, rfl⟩, by unfold InDescentLattice; decide, by decide⟩,
    HeuristicInit_valid_of_lattice_valid xdlopsAcceptAll exactRatioTest 21168 defaultConfig
      scenarioA 1 4 3 (Or.inl ⟨rfl, rfl, rfl, rfl⟩) (le_refl _)
      ⟨tileA, by unfold InDescentLattice; decide, by decide⟩⟩

/-- C13: for every fp32, fp16 or bfp16 workload for which no configuration of the descent
lattice satisfies `IsReallyValid`, `HeuristicInit` still produces a configuration (for
every iteration budget of at least 21168): the last candidate the descent visits, which
is the seed of the datatype, `{256,256,8,128,128,4,16,64,16,false,true}` for fp32 and
`{256,256,8,128,128,8,16,64,16,false,true}` for fp16 and bfp16; this configuration fails
`IsReallyValid`. -/
theorem HeuristicInit_exhausted (xdlops : BlockwiseGemmXdlopsCheck)
    (ratio_gt : FloatRatioTest) (fuel : Nat)
    (self : PerformanceImplicitGemmWrwV4R4Xdlops_Padded_Gemm) (ctx : ConvolutionContext)
    (KPackL KPackH : Int) (count : Nat)
    (hK : IsHeuristicKPackRange ctx KPackL KPackH count) (hfuel : 21168 ≤ fuel)
    (hno : ∀ u, InDescentLattice KPackL KPackH u → u.IsReallyValid xdlops ctx = false) :
    HeuristicInit xdlops ratio_gt fuel self ctx =
        some ⟨256, 256, 8, 128, 128, KPackH, 16, 64, 16, false, true⟩ ∧
      (⟨256, 256, 8, 128, 128, KPackH, 16, 64, 16, false, true⟩ :
        PerformanceImplicitGemmWrwV4R4Xdlops_Padded_Gemm).IsReallyValid xdlops ctx = false ∧
      heuristicCandidate KPackL KPackH (7056 * count - 1)
          ⟨256, 256, 8, 128, 128, KPackH, 16, 64, 16, false, true⟩ =
        ⟨256, 256, 8, 128, 128, KPackH, 16, 64, 16, false, true⟩ ∧
      (ctx.dataType = DataType.fp32 → KPackH = 4) ∧
      (ctx.dataType = DataType.fp16 ∨ ctx.dataType = DataType.bfp16 → KPackH = 8) := by
  have hcount : 7056 * count ≤ fuel := by
    rcases (heuristicRange_facts hK).1 with rfl | rfl <;> omega
  obtain ⟨hlat, -, hlastc, -⟩ := heuristicCandidate_enumerates hK
  have hseed : (⟨256, 256, 8, 128, 128, KPackH, 16, 64, 16, false, true⟩ :
      PerformanceImplicitGemmWrwV4R4Xdlops_Padded_Gemm) = heuristicSeed KPackH := rfl
  have hround : ∀ (P : PerformanceImplicitGemmWrwV4R4Xdlops_Padded_Gemm → Bool)
      (tmp : PerformanceImplicitGemmWrwV4R4Xdlops_Padded_Gemm),
      (∀ u, P u = true → u.IsReallyValid xdlops ctx = true) →
      get_euristic_config fuel ctx P tmp = some (heuristicSeed KPackH) := by
    intro P tmp hP
    obtain ⟨r, k, e, hk, hr, -, hlast⟩ := get_euristic_config_result hK P fuel hcount tmp
    rcases hlast with h | h
    · have hv := hP r h
      rw [hr] at hv
      rw [hno _ (hlat k hk)] at hv
      exact absurd hv (by decide)
    · rw [e, hr, h, hlastc]
  have hsv : (heuristicSeed KPackH).IsReallyValid xdlops ctx = false :=
    hno _ (heuristicSeed_lattice hK).1
  refine ⟨?_, ?_, ?_, ?_, ?_⟩
  · rw [hseed, HeuristicInit_eq xdlops ratio_gt fuel self (heuristicSeed KPackH)
      (hround _ _ (fun u hu => by
        simp only [Bool.and_eq_true] at hu
        exact hu.1))]
    rw [if_pos (by rw [hsv]; decide)]
    exact hround _ _ (fun u hu => hu)
  · rw [hseed]
    exact hsv
  · rw [hseed]
    exact hlastc
  · intro h
    rcases hK with ⟨_, _, rfl, _⟩ | ⟨h', _, _, _⟩ | ⟨h', _, _, _⟩
    · rfl
    · rw [h] at h'
      exact absurd h' (by decide)
    · rw [h] at h'
      exact absurd h' (by decide)
  · intro h
    rcases hK with ⟨h', _, _, _⟩ | ⟨_, _, rfl, _⟩ | ⟨_, _, rfl, _⟩
    · rcases h with h | h <;> rw [h] at h' <;> exact absurd h' (by decide)
    · rfl
    · rfl

/-- Witness of C13: Scenario A on hardware whose matrix-core predicate rejects every
tile; `HeuristicInit` leaves the fp32 seed. -/
theorem HeuristicInit_exhausted_witness :
    IsHeuristicKPackRange scenarioA 1 4 3 ∧
      HeuristicInit xdlopsRejectAll exactRatioTest 21168 defaultConfig scenarioA =
        some ⟨256, 256, 8, 128, 128, 4, 16, 64, 16, false, true⟩ :=
  ⟨Or.inl ⟨rfl, rfl, rfl, rfl⟩,
    (HeuristicInit_exhausted xdlopsRejectAll exactRatioTest 21168 defaultConfig scenarioA
      1 4 3 (Or.inl ⟨rfl, rfl, rfl, rfl⟩) (le_refl _)
      (fun u _ => IsReallyValid_xdlopsRejectAll u scenarioA)).1⟩

/-! ## Shared lemmas for the descent steps and the performance filter -/

theorem heuristicDescentStep_cases (KPackL KPackH : Int)
    (tmp : PerformanceImplicitGemmWrwV4R4Xdlops_Padded_Gemm) :
    ((heuristicDescentStep KPackL KPackH tmp).1.GemmNPerBlock = tmp.GemmNPerBlock ∧
        (heuristicDescentStep KPackL KPackH tmp).1.GemmMPerBlock = tmp.GemmMPerBlock) ∨
      ((tmp.GemmKPerBlock = 1 ∧ tmp.GemmKPack = KPackL ∧ tmp.GemmNPerWave = 4 ∧
          tmp.GemmMPerWave = 4) ∧
        (heuristicDescentStep KPackL KPackH tmp).1.GemmKPerBlock = 8 ∧
        (heuristicDescentStep KPackL KPackH tmp).1.GemmKPack = KPackH ∧
        (heuristicDescentStep KPackL KPackH tmp).1.GemmNPerWave = 128 ∧
        (heuristicDescentStep KPackL KPackH tmp).1.GemmMPerWave = 128) := by
  by_cases h1 : tmp.GemmKPerBlock = 1
  swap
  · rw [heuristicDescentStep_of_KPerBlock KPackL KPackH tmp h1]
    exact Or.inl ⟨rfl, rfl⟩
  by_cases h2 : tmp.GemmKPack = KPackL
  swap
  · rw [heuristicDescentStep_of_KPack KPackL KPackH tmp h1 h2]
    exact Or.inl ⟨rfl, rfl⟩
  by_cases h3 : tmp.GemmNPerWave = 4
  swap
  · rw [heuristicDescentStep_of_NPerWave KPackL KPackH tmp h1 h2 h3]
    exact Or.inl ⟨rfl, rfl⟩
  by_cases h4 : tmp.GemmMPerWave = 4
  swap
  · rw [heuristicDescentStep_of_MPerWave KPackL KPackH tmp h1 h2 h3 h4]
    exact Or.inl ⟨rfl, rfl⟩
  refine Or.inr ⟨⟨h1, h2, h3, h4⟩, ?_⟩
  by_cases h5 : tmp.GemmNPerBlock = 4
  swap
  · rw [heuristicDescentStep_of_NPerBlock KPackL KPackH tmp h1 h2 h3 h4 h5]
    exact ⟨rfl, rfl, rfl, rfl⟩
  by_cases h6 : tmp.GemmMPerBlock = 4
  swap
  · rw [heuristicDescentStep_of_MPerBlock KPackL KPackH tmp h1 h2 h3 h4 h5 h6]
    exact ⟨rfl, rfl, rfl, rfl⟩
  rw [heuristicDescentStep_of_all_min KPackL KPackH tmp h1 h2 h3 h4 h5 h6]
  exact ⟨rfl, rfl, rfl, rfl⟩

theorem of_ite_false_eq_true {c : Prop} [Decidable c] {b : Bool}
    (h : (if c then false else b) = true) : ¬c ∧ b = true := by
  by_cases hc : c
  · rw [if_pos hc] at h
    exact absurd h (by decide)
  · rw [if_neg hc] at h
    exact ⟨hc, h⟩

theorem IsFastToBeUsedForTuning_of_true (ratio_gt : FloatRatioTest)
    (t : PerformanceImplicitGemmWrwV4R4Xdlops_Padded_Gemm) (ctx : ConvolutionContext)
    (h : t.IsFastToBeUsedForTuning ratio_gt ctx = true) (grid_size : Int) (G : Nat)
    (hgrid : grid_size =
      (to_int ((t.CalculateGemmSizeAndGemmKBlock ctx).gemm_m *
        (t.CalculateGemmSizeAndGemmKBlock ctx).gemm_n)).tdiv
          (t.GemmMPerBlock * t.GemmNPerBlock))
    (hG : G =
      ((to_size_t (t.CalculateGemmSizeAndGemmKBlock ctx).gemm_m *
          to_size_t (t.CalculateGemmSizeAndGemmKBlock ctx).gemm_n) % 2 ^ 64) /
        to_size_t (max
          (gcd 256 (t.CalculateGemmSizeAndGemmKBlock ctx).gemm_m *
            gcd 128 (t.CalculateGemmSizeAndGemmKBlock ctx).gemm_n)
          (gcd 128 (t.CalculateGemmSizeAndGemmKBlock ctx).gemm_m *
            gcd 256 (t.CalculateGemmSizeAndGemmKBlock ctx).gemm_n))) :
    ¬(t.GemmMPerWave * t.GemmNPerWave > 64 * 128) ∧
      ¬((if G > (5 * ctx.GetMaxComputeUnits) % 2 ^ 64 then ratio_gt grid_size G (281 / 100)
        else if G > (4 * ctx.GetMaxComputeUnits) % 2 ^ 64 then
          ratio_gt grid_size G (361 / 100)
        else if G > (3 * ctx.GetMaxComputeUnits) % 2 ^ 64 then
          ratio_gt grid_size G (441 / 100)
        else if G > (2 * ctx.GetMaxComputeUnits) % 2 ^ 64 then
          ratio_gt grid_size G (641 / 100)
        else if G > ctx.GetMaxComputeUnits then ratio_gt grid_size G (1241 / 100)
        else false) = true) ∧
      (1 < (t.GemmMPerBlock.tdiv t.GemmMPerWave) * (t.GemmNPerBlock.tdiv t.GemmNPerWave) ∧
        (t.GemmMPerBlock.tdiv t.GemmMPerWave) * (t.GemmNPerBlock.tdiv t.GemmNPerWave) ≤ 4) := by
  unfold IsFastToBeUsedForTuning at h
  obtain ⟨hw, h⟩ := of_ite_false_eq_true h
  simp only [] at h
  obtain ⟨hb, h⟩ := of_ite_false_eq_true h
  obtain ⟨hwave, -⟩ := of_ite_false_eq_true h
  rw [← hgrid, ← hG] at hb
  simp only [not_not] at hwave
  exact ⟨hw, hb, by omega, hwave.2⟩

/-! ## The claims on the descent order, the wave count and the enumeration -/

/-- C22: in every pass of the inner block of a descent of `HeuristicInit`, for every
range `<KPackL, KPackH>` of `GemmKPack` (the source uses `<1, 4>` for fp32, `<4, 8>` for
fp16 and `<2, 8>` for bfp16), if `GemmNPerBlock` or `GemmMPerBlock` is changed then,
before the pass, `GemmKPerBlock`, `GemmKPack`, `GemmNPerWave` and `GemmMPerWave` were at
the minima 1, `KPackL`, 4 and 4 of their ranges, and after the pass they are at the
maxima 8, `KPackH`, 128 and 128. -/
theorem heuristicDescentStep_changes_block_tile_only_after_lower_fields
    (KPackL KPackH : Int) (tmp : PerformanceImplicitGemmWrwV4R4Xdlops_Padded_Gemm)
    (h : (heuristicDescentStep KPackL KPackH tmp).1.GemmNPerBlock ≠ tmp.GemmNPerBlock ∨
      (heuristicDescentStep KPackL KPackH tmp).1.GemmMPerBlock ≠ tmp.GemmMPerBlock) :
    (tmp.GemmKPerBlock = 1 ∧ tmp.GemmKPack = KPackL ∧ tmp.GemmNPerWave = 4 ∧
        tmp.GemmMPerWave = 4) ∧
      (heuristicDescentStep KPackL KPackH tmp).1.GemmKPerBlock = 8 ∧
      (heuristicDescentStep KPackL KPackH tmp).1.GemmKPack = KPackH ∧
      (heuristicDescentStep KPackL KPackH tmp).1.GemmNPerWave = 128 ∧
      (heuristicDescentStep KPackL KPackH tmp).1.GemmMPerWave = 128 := by
  rcases heuristicDescentStep_cases KPackL KPackH tmp with ⟨hn, hm⟩ | hc
  · rcases h with h | h
    · exact absurd hn h
    · exact absurd hm h
  · exact hc

/-- Witness of C22: the fp32 descent at `{256, 256, 1, 4, 4, 1, ...}`, where the pass
halves `GemmNPerBlock` to 128 and the four lower fields wrap from 1, 1, 4, 4 to
8, 4, 128, 128. -/
theorem heuristicDescentStep_changes_block_tile_only_after_lower_fields_witness :
    (heuristicDescentStep 1 4 ⟨256, 256, 1, 4, 4, 1, 16, 64, 16, false, true⟩).1 =
        ⟨256, 128, 8, 128, 128, 4, 16, 64, 16, false, true⟩ ∧
      (heuristicDescentStep 1 4
        ⟨256, 256, 1, 4, 4, 1, 16, 64, 16, false, true⟩).1.GemmKPerBlock = 8 :=
  ⟨by decide,
    (heuristicDescentStep_changes_block_tile_only_after_lower_fields 1 4
      ⟨256, 256, 1, 4, 4, 1, 16, 64, 16, false, true⟩ (Or.inl (by decide))).2.1⟩

/-- C28: for every workload, every configuration and every outcome of the floating-point
test, if `IsFastToBeUsedForTuning` returns true then the number of waves per block
`W = (GemmMPerBlock / GemmMPerWave) * (GemmNPerBlock / GemmNPerWave)` satisfies
`1 < W <= 4` and the wave tile product `GemmMPerWave * GemmNPerWave` is at most
`64 * 128`. -/
theorem IsFastToBeUsedForTuning_wave_bounds (ratio_gt : FloatRatioTest)
    (t : PerformanceImplicitGemmWrwV4R4Xdlops_Padded_Gemm) (ctx : ConvolutionContext)
    (h : t.IsFastToBeUsedForTuning ratio_gt ctx = true) :
    1 < (t.GemmMPerBlock.tdiv t.GemmMPerWave) * (t.GemmNPerBlock.tdiv t.GemmNPerWave) ∧
      (t.GemmMPerBlock.tdiv t.GemmMPerWave) * (t.GemmNPerBlock.tdiv t.GemmNPerWave) ≤ 4 ∧
      t.GemmMPerWave * t.GemmNPerWave ≤ 64 * 128 := by
  obtain ⟨hw, -, h1, h2⟩ := IsFastToBeUsedForTuning_of_true ratio_gt t ctx h _ _ rfl rfl
  exact ⟨h1, h2, by omega⟩

/-- Witness of C28: `tileA_fast` in Scenario A has `(64/64) * (64/32) = 2` waves per
block and the wave tile product `64 * 32 = 2048`. -/
theorem IsFastToBeUsedForTuning_wave_bounds_witness :
    tileA_fast.IsFastToBeUsedForTuning exactRatioTest scenarioA = true ∧
      (tileA_fast.GemmMPerBlock.tdiv tileA_fast.GemmMPerWave) *
        (tileA_fast.GemmNPerBlock.tdiv tileA_fast.GemmNPerWave) = 2 ∧
      tileA_fast.GemmMPerWave * tileA_fast.GemmNPerWave ≤ 64 * 128 :=
  ⟨by decide, by decide,
    (IsFastToBeUsedForTuning_wave_bounds exactRatioTest tileA_fast scenarioA
      (by decide)).2.2⟩

/-- C29: starting from the default configuration `{4,4,1,4,4,1,16,64,16,false,false}`,
no number of calls of `SetNextValue` sets `GemmAThreadCopyMoreGemmK` to true; the first
`7*7*4*6*6*4*2 - 1 = 56447` calls return true; the start and the configurations after
these calls are 56448 pairwise distinct configurations, namely every configuration with
legal tile sizes, `GemmAThreadCopyMoreGemmK = false` and the factors 16/64/16 of the
default; call number 56448 returns false and leaves the default configuration. -/
theorem SetNextValue_enumeration_from_default :
    (∀ k : Nat, (SetNextValue_iterate k defaultConfig).GemmAThreadCopyMoreGemmK = false) ∧
      (∀ k : Nat, k < 7 * 7 * 4 * 6 * 6 * 4 * 2 - 1 →
        (SetNextValue_iterate k defaultConfig).SetNextValue.2 = true) ∧
      7 * 7 * 4 * 6 * 6 * 4 * 2 - 1 = 56447 ∧
      (∀ i j : Nat, i ≤ 56447 → j ≤ 56447 → i ≠ j →
        SetNextValue_iterate i defaultConfig ≠ SetNextValue_iterate j defaultConfig) ∧
      (∀ t : PerformanceImplicitGemmWrwV4R4Xdlops_Padded_Gemm,
        (∃ k : Nat, k ≤ 56447 ∧ SetNextValue_iterate k defaultConfig = t) ↔
          (IsTwoPower 4 256 t.GemmMPerBlock = true ∧ IsTwoPower 4 256 t.GemmNPerBlock = true ∧
            IsTwoPower 1 8 t.GemmKPerBlock = true ∧ IsTwoPower 4 128 t.GemmMPerWave = true ∧
            IsTwoPower 4 128 t.GemmNPerWave = true ∧ IsTwoPower 1 8 t.GemmKPack = true ∧
            t.GemmMFactor = 16 ∧ t.GemmNFactor = 64 ∧ t.GemmKTotalFactor = 16 ∧
            t.GemmAThreadCopyMoreGemmK = false)) ∧
      (SetNextValue_iterate 56447 defaultConfig).SetNextValue = (defaultConfig, false) ∧
      SetNextValue_iterate 56448 defaultConfig = defaultConfig := by
  obtain ⟨hd, hr0⟩ := defaultConfig_lattice
  have hit : ∀ k : Nat, k ≤ 56447 →
      InTuningLattice (SetNextValue_iterate k defaultConfig) ∧
        tuningRank (SetNextValue_iterate k defaultConfig) = k := by
    intro k hk
    have := tuningRank_iterate k defaultConfig hd (by omega)
    exact ⟨this.1, by omega⟩
  have hlast : (SetNextValue_iterate 56447 defaultConfig).SetNextValue =
      (defaultConfig, false) :=
    (tuningRank_step _ (hit 56447 (le_refl _)).1).2.2 (hit 56447 (le_refl _)).2
  refine ⟨fun k => SetNextValue_iterate_flagA k defaultConfig rfl, ?_, by norm_num, ?_, ?_,
    hlast, ?_⟩
  · intro k hk
    obtain ⟨hl, hr⟩ := hit k (by omega)
    exact ((tuningRank_step _ hl).2.1 (by omega)).1
  · intro i j hi hj hij heq
    have h1 := (hit i hi).2
    have h2 := (hit j hj).2
    rw [heq] at h1
    omega
  · intro t
    constructor
    · rintro ⟨k, hk, rfl⟩
      obtain ⟨hv, hA, hMF, hNF, hKF⟩ := (hit k hk).1
      obtain ⟨v1, v2, v3, v4, v5, v6⟩ := (IsValidValue_iff _).mp hv
      exact ⟨v1, v2, v3, v4, v5, v6, hMF, hNF, hKF, hA⟩
    · rintro ⟨v1, v2, v3, v4, v5, v6, hMF, hNF, hKF, hA⟩
      have ht : InTuningLattice t :=
        ⟨(IsValidValue_iff t).mpr ⟨v1, v2, v3, v4, v5, v6⟩, hA, hMF, hNF, hKF⟩
      have hlt := (tuningRank_step t ht).1
      obtain ⟨hl, hr⟩ := hit (tuningRank t) (by omega)
      exact ⟨tuningRank t, by omega, tuningRank_injective _ _ hl ht hr⟩
  · rw [SetNextValue_iterate_succ, hlast]

/-! ## Shared lemmas on the block-copy parameter functions -/

theorem blockCopyA_eq (t : PerformanceImplicitGemmWrwV4R4Xdlops_Padded_Gemm)
    (ctx : ConvolutionContext) :
    t.CalculateGemmABlockCopyPerformanceParameters ctx =
      if ¬(t.CalculateBlockSize.2 = true) then blockCopyFailure
      else if t.GemmA_tmp ctx = 0 then blockCopyFailure
      else if t.GemmA_data_per_thread_copy_gemmk ctx ≤ 0 ∨
          t.GemmA_data_per_thread_copy_gemmm ctx ≤ 0 ∨
          t.GemmA_SrcDataPerRead_GemmKPack ctx ≤ 0 then blockCopyFailure
      else if ¬(t.GemmKPerBlock.tmod (t.GemmA_data_per_thread_copy_gemmk ctx) = 0 ∧
          t.GemmMPerBlock.tmod (t.GemmA_data_per_thread_copy_gemmm ctx) = 0 ∧
          t.GemmKPack.tmod (t.GemmA_SrcDataPerRead_GemmKPack ctx) = 0) then blockCopyFailure
      else if t.GemmKPerBlock.tdiv (t.GemmA_data_per_thread_copy_gemmk ctx) < 0 ∨
          t.GemmMPerBlock.tdiv (t.GemmA_data_per_thread_copy_gemmm ctx) < 0 ∨
          t.GemmKPack.tdiv (t.GemmA_SrcDataPerRead_GemmKPack ctx) < 0 then blockCopyFailure
      else if t.CalculateBlockSize.1 <
          t.GemmKPerBlock.tdiv (t.GemmA_data_per_thread_copy_gemmk ctx) *
            t.GemmMPerBlock.tdiv (t.GemmA_data_per_thread_copy_gemmm ctx) *
            t.GemmKPack.tdiv (t.GemmA_SrcDataPerRead_GemmKPack ctx) then blockCopyFailure
      else
        { ClusterLengths_GemmK :=
            t.GemmKPerBlock.tdiv (t.GemmA_data_per_thread_copy_gemmk ctx),
          ClusterLengths_GemmMN :=
            t.GemmMPerBlock.tdiv (t.GemmA_data_per_thread_copy_gemmm ctx),
          ClusterLengths_GemmKPack :=
            t.GemmKPack.tdiv (t.GemmA_SrcDataPerRead_GemmKPack ctx),
          SrcDataPerRead_GemmKPack := t.GemmA_SrcDataPerRead_GemmKPack ctx,
          DstDataPerWrite_GemmKPack :=
            gcd
              (if ctx.IsFp32 then ctx.amd_lds_write_max_length_float
                else ctx.amd_lds_write_max_length_half)
              (t.GemmA_SrcDataPerRead_GemmKPack ctx),
          valid := true } :=
  rfl

theorem blockCopyB_eq (t : PerformanceImplicitGemmWrwV4R4Xdlops_Padded_Gemm)
    (ctx : ConvolutionContext) :
    t.CalculateGemmBBlockCopyPerformanceParameters ctx =
      if ¬(t.CalculateBlockSize.2 = true) then blockCopyFailure
      else if t.GemmB_data_per_thread_copy_gemmk ctx ≤ 0 ∨
          t.GemmB_data_per_thread_copy_gemmn ctx ≤ 0 ∨
          t.GemmB_SrcDataPerRead_GemmKPack ctx ≤ 0 then blockCopyFailure
      else if ¬(t.GemmKPerBlock.tmod (t.GemmB_data_per_thread_copy_gemmk ctx) = 0 ∧
          t.GemmNPerBlock.tmod (t.GemmB_data_per_thread_copy_gemmn ctx) = 0 ∧
          t.GemmKPack.tmod (t.GemmB_SrcDataPerRead_GemmKPack ctx) = 0) then blockCopyFailure
      else if t.GemmKPerBlock.tdiv (t.GemmB_data_per_thread_copy_gemmk ctx) < 0 ∨
          t.GemmNPerBlock.tdiv (t.GemmB_data_per_thread_copy_gemmn ctx) < 0 ∨
          t.GemmKPack.tdiv (t.GemmB_SrcDataPerRead_GemmKPack ctx) < 0 then blockCopyFailure
      else if t.CalculateBlockSize.1 <
          t.GemmKPerBlock.tdiv (t.GemmB_data_per_thread_copy_gemmk ctx) *
            t.GemmNPerBlock.tdiv (t.GemmB_data_per_thread_copy_gemmn ctx) *
            t.GemmKPack.tdiv (t.GemmB_SrcDataPerRead_GemmKPack ctx) then blockCopyFailure
      else
        { ClusterLengths_GemmK :=
            t.GemmKPerBlock.tdiv (t.GemmB_data_per_thread_copy_gemmk ctx),
          ClusterLengths_GemmMN :=
            t.GemmNPerBlock.tdiv (t.GemmB_data_per_thread_copy_gemmn ctx),
          ClusterLengths_GemmKPack :=
            t.GemmKPack.tdiv (t.GemmB_SrcDataPerRead_GemmKPack ctx),
          SrcDataPerRead_GemmKPack := t.GemmB_SrcDataPerRead_GemmKPack ctx,
          DstDataPerWrite_GemmKPack :=
            gcd
              (if ctx.IsFp32 then ctx.amd_lds_write_max_length_float
                else ctx.amd_lds_write_max_length_half)
              (t.GemmB_SrcDataPerRead_GemmKPack ctx),
          valid := true } :=
  rfl

theorem blockCopy_ite_valid {c : Prop} [Decidable c] {x : BlockCopyPerformanceParameters} :
    (if c then blockCopyFailure else x).valid = true ↔ ¬c ∧ x.valid = true := by
  by_cases hc : c
  · rw [if_pos hc]
    simp [blockCopyFailure, hc]
  · rw [if_neg hc]
    simp [hc]

theorem blockCopy_ite_failure {c : Prop} [Decidable c] {x : BlockCopyPerformanceParameters}
    (hx : ¬(x.valid = true) → x = blockCopyFailure)
    (h : ¬((if c then blockCopyFailure else x).valid = true)) :
    (if c then blockCopyFailure else x) = blockCopyFailure := by
  by_cases hc : c
  · rw [if_pos hc]
  · rw [if_neg hc] at h ⊢
    exact hx h

theorem blockCopyA_valid_iff (t : PerformanceImplicitGemmWrwV4R4Xdlops_Padded_Gemm)
    (ctx : ConvolutionContext) :
    (t.CalculateGemmABlockCopyPerformanceParameters ctx).valid = true ↔
      (t.CalculateBlockSize.2 = true ∧ t.GemmA_tmp ctx ≠ 0 ∧
        (0 < t.GemmA_data_per_thread_copy_gemmk ctx ∧
          0 < t.GemmA_data_per_thread_copy_gemmm ctx ∧
          0 < t.GemmA_SrcDataPerRead_GemmKPack ctx) ∧
        (t.GemmKPerBlock.tmod (t.GemmA_data_per_thread_copy_gemmk ctx) = 0 ∧
          t.GemmMPerBlock.tmod (t.GemmA_data_per_thread_copy_gemmm ctx) = 0 ∧
          t.GemmKPack.tmod (t.GemmA_SrcDataPerRead_GemmKPack ctx) = 0) ∧
        (0 ≤ t.GemmKPerBlock.tdiv (t.GemmA_data_per_thread_copy_gemmk ctx) ∧
          0 ≤ t.GemmMPerBlock.tdiv (t.GemmA_data_per_thread_copy_gemmm ctx) ∧
          0 ≤ t.GemmKPack.tdiv (t.GemmA_SrcDataPerRead_GemmKPack ctx)) ∧
        t.GemmKPerBlock.tdiv (t.GemmA_data_per_thread_copy_gemmk ctx) *
            t.GemmMPerBlock.tdiv (t.GemmA_data_per_thread_copy_gemmm ctx) *
            t.GemmKPack.tdiv (t.GemmA_SrcDataPerRead_GemmKPack ctx) ≤
          t.CalculateBlockSize.1) := by
  rw [blockCopyA_eq, blockCopy_ite_valid, blockCopy_ite_valid, blockCopy_ite_valid,
    blockCopy_ite_valid, blockCopy_ite_valid, blockCopy_ite_valid]
  simp only [not_not, not_or, not_le, not_lt, and_true]

theorem blockCopyA_of_valid (t : PerformanceImplicitGemmWrwV4R4Xdlops_Padded_Gemm)
    (ctx : ConvolutionContext)
    (h : (t.CalculateGemmABlockCopyPerformanceParameters ctx).valid = true) :
    t.CalculateGemmABlockCopyPerformanceParameters ctx =
      { ClusterLengths_GemmK :=
          t.GemmKPerBlock.tdiv (t.GemmA_data_per_thread_copy_gemmk ctx),
        ClusterLengths_GemmMN :=
          t.GemmMPerBlock.tdiv (t.GemmA_data_per_thread_copy_gemmm ctx),
        ClusterLengths_GemmKPack :=
          t.GemmKPack.tdiv (t.GemmA_SrcDataPerRead_GemmKPack ctx),
        SrcDataPerRead_GemmKPack := t.GemmA_SrcDataPerRead_GemmKPack ctx,
        DstDataPerWrite_GemmKPack :=
          gcd
            (if ctx.IsFp32 then ctx.amd_lds_write_max_length_float
              else ctx.amd_lds_write_max_length_half)
            (t.GemmA_SrcDataPerRead_GemmKPack ctx),
        valid := true } := by
  obtain ⟨h1, h2, ⟨h3a, h3b, h3c⟩, h4, ⟨h5a, h5b, h5c⟩, h6⟩ :=
    (blockCopyA_valid_iff t ctx).mp h
  rw [blockCopyA_eq, if_neg (not_not.mpr h1), if_neg h2,
    if_neg (not_or.mpr ⟨not_le.mpr h3a, not_or.mpr ⟨not_le.mpr h3b, not_le.mpr h3c⟩⟩),
    if_neg (not_not.mpr h4),
    if_neg (not_or.mpr ⟨not_lt.mpr h5a, not_or.mpr ⟨not_lt.mpr h5b, not_lt.mpr h5c⟩⟩),
    if_neg (not_lt.mpr h6)]

theorem blockCopyA_of_not_valid (t : PerformanceImplicitGemmWrwV4R4Xdlops_Padded_Gemm)
    (ctx : ConvolutionContext)
    (h : ¬((t.CalculateGemmABlockCopyPerformanceParameters ctx).valid = true)) :
    t.CalculateGemmABlockCopyPerformanceParameters ctx = blockCopyFailure := by
  rw [blockCopyA_eq] at h ⊢
  refine blockCopy_ite_failure (blockCopy_ite_failure (blockCopy_ite_failure
    (blockCopy_ite_failure (blockCopy_ite_failure (blockCopy_ite_failure ?_))))) h
  intro hc
  exact absurd rfl hc

theorem blockCopyB_valid_iff (t : PerformanceImplicitGemmWrwV4R4Xdlops_Padded_Gemm)
    (ctx : ConvolutionContext) :
    (t.CalculateGemmBBlockCopyPerformanceParameters ctx).valid = true ↔
      (t.CalculateBlockSize.2 = true ∧
        (0 < t.GemmB_data_per_thread_copy_gemmk ctx ∧
          0 < t.GemmB_data_per_thread_copy_gemmn ctx ∧
          0 < t.GemmB_SrcDataPerRead_GemmKPack ctx) ∧
        (t.GemmKPerBlock.tmod (t.GemmB_data_per_thread_copy_gemmk ctx) = 0 ∧
          t.GemmNPerBlock.tmod (t.GemmB_data_per_thread_copy_gemmn ctx) = 0 ∧
          t.GemmKPack.tmod (t.GemmB_SrcDataPerRead_GemmKPack ctx) = 0) ∧
        (0 ≤ t.GemmKPerBlock.tdiv (t.GemmB_data_per_thread_copy_gemmk ctx) ∧
          0 ≤ t.GemmNPerBlock.tdiv (t.GemmB_data_per_thread_copy_gemmn ctx) ∧
          0 ≤ t.GemmKPack.tdiv (t.GemmB_SrcDataPerRead_GemmKPack ctx)) ∧
        t.GemmKPerBlock.tdiv (t.GemmB_data_per_thread_copy_gemmk ctx) *
            t.GemmNPerBlock.tdiv (t.GemmB_data_per_thread_copy_gemmn ctx) *
            t.GemmKPack.tdiv (t.GemmB_SrcDataPerRead_GemmKPack ctx) ≤
          t.CalculateBlockSize.1) := by
  rw [blockCopyB_eq, blockCopy_ite_valid, blockCopy_ite_valid, blockCopy_ite_valid,
    blockCopy_ite_valid, blockCopy_ite_valid]
  simp only [not_not, not_or, not_le, not_lt, and_true]

theorem blockCopyB_of_valid (t : PerformanceImplicitGemmWrwV4R4Xdlops_Padded_Gemm)
    (ctx : ConvolutionContext)
    (h : (t.CalculateGemmBBlockCopyPerformanceParameters ctx).valid = true) :
    t.CalculateGemmBBlockCopyPerformanceParameters ctx =
      { ClusterLengths_GemmK :=
          t.GemmKPerBlock.tdiv (t.GemmB_data_per_thread_copy_gemmk ctx),
        ClusterLengths_GemmMN :=
          t.GemmNPerBlock.tdiv (t.GemmB_data_per_thread_copy_gemmn ctx),
        ClusterLengths_GemmKPack :=
          t.GemmKPack.tdiv (t.GemmB_SrcDataPerRead_GemmKPack ctx),
        SrcDataPerRead_GemmKPack := t.GemmB_SrcDataPerRead_GemmKPack ctx,
        DstDataPerWrite_GemmKPack :=
          gcd
            (if ctx.IsFp32 then ctx.amd_lds_write_max_length_float
              else ctx.amd_lds_write_max_length_half)
            (t.GemmB_SrcDataPerRead_GemmKPack ctx),
        valid := true } := by
  obtain ⟨h1, ⟨h3a, h3b, h3c⟩, h4, ⟨h5a, h5b, h5c⟩, h6⟩ :=
    (blockCopyB_valid_iff t ctx).mp h
  rw [blockCopyB_eq, if_neg (not_not.mpr h1),
    if_neg (not_or.mpr ⟨not_le.mpr h3a, not_or.mpr ⟨not_le.mpr h3b, not_le.mpr h3c⟩⟩),
    if_neg (not_not.mpr h4),
    if_neg (not_or.mpr ⟨not_lt.mpr h5a, not_or.mpr ⟨not_lt.mpr h5b, not_lt.mpr h5c⟩⟩),
    if_neg (not_lt.mpr h6)]

theorem blockCopyB_of_not_valid (t : PerformanceImplicitGemmWrwV4R4Xdlops_Padded_Gemm)
    (ctx : ConvolutionContext)
    (h : ¬((t.CalculateGemmBBlockCopyPerformanceParameters ctx).valid = true)) :
    t.CalculateGemmBBlockCopyPerformanceParameters ctx = blockCopyFailure := by
  rw [blockCopyB_eq] at h ⊢
  refine blockCopy_ite_failure (blockCopy_ite_failure (blockCopy_ite_failure
    (blockCopy_ite_failure (blockCopy_ite_failure ?_)))) h
  intro hc
  exact absurd rfl hc

theorem gcd_pos_right (a : Int) {b : Int} (hb : 0 < b) : 0 < gcd a b := by
  unfold gcd
  exact_mod_cast Int.gcd_pos_of_ne_zero_right a (ne_of_gt hb)

theorem gcd_dvd_snd (a b : Int) : gcd a b ∣ b := by
  unfold gcd
  exact Int.gcd_dvd_right

theorem tdiv_pos_of_dvd {a b : Int} (ha : 0 < a) (hb : 0 < b) (h : b ∣ a) :
    1 ≤ a.tdiv b := by
  obtain ⟨k, rfl⟩ := h
  rw [Int.mul_tdiv_cancel_left k (ne_of_gt hb)]
  by_contra hk
  push_neg at hk
  have : b * k ≤ 0 := by nlinarith
  omega

theorem tdiv_pos_of_tmod {a b : Int} (ha : 0 < a) (hb : 0 < b) (h : a.tmod b = 0) :
    1 ≤ a.tdiv b :=
  tdiv_pos_of_dvd ha hb (Int.dvd_of_tmod_eq_zero h)

theorem lcm_tdiv_pos {d s : Int} (hd : 1 ≤ d) (hs : 0 < s) : 1 ≤ (lcm d s).tdiv s := by
  have hne : Int.lcm d s ≠ 0 := Int.lcm_ne_zero (by omega) (by omega)
  have hpos : 0 < lcm d s := by
    unfold lcm
    have : 0 < Int.lcm d s := Nat.pos_of_ne_zero hne
    exact_mod_cast this
  exact tdiv_pos_of_dvd hpos hs (by unfold lcm; exact Int.dvd_lcm_right)

theorem gcd_split_pos (X : Int) {tmp : Int} (htmp : 1 ≤ tmp) :
    0 < gcd X tmp ∧ 0 < tmp.tdiv (gcd X tmp) := by
  have h1 := gcd_pos_right X (by omega : 0 < tmp)
  have h2 := tdiv_pos_of_dvd (by omega : 0 < tmp) h1 (gcd_dvd_snd X tmp)
  exact ⟨h1, by omega⟩

theorem GemmA_positive (t : PerformanceImplicitGemmWrwV4R4Xdlops_Padded_Gemm)
    (ctx : ConvolutionContext) (hKP : 0 < t.GemmKPack) :
    0 < t.GemmA_SrcDataPerRead_GemmKPack ctx ∧ 1 ≤ t.GemmA_tmp ctx ∧
      0 < t.GemmA_data_per_thread_copy_gemmk ctx ∧
      0 < t.GemmA_data_per_thread_copy_gemmm ctx := by
  have hsrc : 0 < t.GemmA_SrcDataPerRead_GemmKPack ctx := by
    unfold GemmA_SrcDataPerRead_GemmKPack
    have h1 := gcd_pos_right (if ctx.IsFp32 then ctx.amd_buffer_load_max_length_float
      else ctx.amd_buffer_load_max_length_half) hKP
    unfold gcd at h1 ⊢
    have : Int.gcd (↑(Int.gcd (if ctx.IsFp32 then ctx.amd_buffer_load_max_length_float
        else ctx.amd_buffer_load_max_length_half) t.GemmKPack))
        (ctx.GetOutputHeightHo * ctx.GetOutputWidthWo) ≠ 0 := by
      intro h0
      rw [Int.gcd_eq_zero_iff] at h0
      omega
    exact_mod_cast Nat.pos_of_ne_zero this
  have htmp : 1 ≤ t.GemmA_tmp ctx := by
    unfold GemmA_tmp
    exact lcm_tdiv_pos (le_max_left _ _) hsrc
  refine ⟨hsrc, htmp, ?_, ?_⟩
  · unfold GemmA_data_per_thread_copy_gemmk
    split_ifs
    · exact (gcd_split_pos _ htmp).1
    · exact (gcd_split_pos _ htmp).2
  · unfold GemmA_data_per_thread_copy_gemmm
    split_ifs
    · exact (gcd_split_pos _ htmp).2
    · exact (gcd_split_pos _ htmp).1

theorem GemmB_positive (t : PerformanceImplicitGemmWrwV4R4Xdlops_Padded_Gemm)
    (ctx : ConvolutionContext) (hKP : 0 < t.GemmKPack) :
    0 < t.GemmB_SrcDataPerRead_GemmKPack ctx ∧ 1 ≤ t.GemmB_tmp ctx ∧
      0 < t.GemmB_data_per_thread_copy_gemmk ctx ∧
      0 < t.GemmB_data_per_thread_copy_gemmn ctx := by
  have hsrc : 0 < t.GemmB_SrcDataPerRead_GemmKPack ctx := by
    unfold GemmB_SrcDataPerRead_GemmKPack
    exact gcd_pos_right _ hKP
  have htmp : 1 ≤ t.GemmB_tmp ctx := by
    unfold GemmB_tmp
    exact lcm_tdiv_pos (le_max_left _ _) hsrc
  refine ⟨hsrc, htmp, ?_, ?_⟩
  · unfold GemmB_data_per_thread_copy_gemmk
    split_ifs
    · exact (gcd_split_pos _ htmp).1
    · exact (gcd_split_pos _ htmp).2
  · unfold GemmB_data_per_thread_copy_gemmn
    split_ifs
    · exact (gcd_split_pos _ htmp).2
    · exact (gcd_split_pos _ htmp).1

/-! ## The claims on the block-copy parameter functions -/

/-- C23: on success, the source vector length returned for operand A is the greatest
common divisor of the hardware maximum global-load length of the datatype, `GemmKPack`
and `Ho*Wo`; for operand B it is `gcd(r, GemmKPack)`, where `r = gcd(hwmax, Ho*Wo)` if the
filter is 1x1 with stride 1 and all four pads zero, else `r = gcd(hwmax, Wo)` if the width
stride is 1 and the left and right width pads are zero, else
`r = gcd(hwmax, Wo, leftPadW, rightPadW, dilationW)` if the width stride is 1, else
`r = 1`. In particular operand B's source vector length is 1 whenever the width stride is
not 1. In Scenario A with `tileA` both functions succeed, with the lengths 4 and 2. -/
theorem block_copy_source_vector_length
    (t : PerformanceImplicitGemmWrwV4R4Xdlops_Padded_Gemm) (ctx : ConvolutionContext) :
    ((t.CalculateGemmABlockCopyPerformanceParameters ctx).valid = true →
        (t.CalculateGemmABlockCopyPerformanceParameters ctx).SrcDataPerRead_GemmKPack =
            gcd
              (gcd
                (if ctx.IsFp32 then ctx.amd_buffer_load_max_length_float
                  else ctx.amd_buffer_load_max_length_half)
                t.GemmKPack)
              (ctx.GetOutputHeightHo * ctx.GetOutputWidthWo) ∧
          (t.CalculateGemmABlockCopyPerformanceParameters ctx).SrcDataPerRead_GemmKPack =
            gcd
              (if ctx.IsFp32 then ctx.amd_buffer_load_max_length_float
                else ctx.amd_buffer_load_max_length_half)
              (gcd t.GemmKPack (ctx.GetOutputHeightHo * ctx.GetOutputWidthWo))) ∧
      ((t.CalculateGemmBBlockCopyPerformanceParameters ctx).valid = true →
        (t.CalculateGemmBBlockCopyPerformanceParameters ctx).SrcDataPerRead_GemmKPack =
          gcd
            (if ctx.GetFilterHeightY = 1 ∧ ctx.GetFilterWidthX = 1 ∧
                ctx.GetAdjustedConvolutionStrideH = 1 ∧
                ctx.GetAdjustedConvolutionStrideW = 1 ∧
                ctx.GetInputLeftPadH = 0 ∧ ctx.GetInputLeftPadW = 0 ∧
                ctx.GetAdjustedInputRightPadH = 0 ∧ ctx.GetAdjustedInputRightPadW = 0 then
              gcd
                (if ctx.IsFp32 then ctx.amd_buffer_load_max_length_float
                  else ctx.amd_buffer_load_max_length_half)
                (ctx.GetOutputHeightHo * ctx.GetOutputWidthWo)
            else if ctx.GetAdjustedConvolutionStrideW = 1 ∧ ctx.GetInputLeftPadW = 0 ∧
                ctx.GetAdjustedInputRightPadW = 0 then
              gcd
                (if ctx.IsFp32 then ctx.amd_buffer_load_max_length_float
                  else ctx.amd_buffer_load_max_length_half)
                ctx.GetOutputWidthWo
            else if ctx.GetAdjustedConvolutionStrideW = 1 then
              gcd
                (if ctx.IsFp32 then ctx.amd_buffer_load_max_length_float
                  else ctx.amd_buffer_load_max_length_half)
                (gcd ctx.GetOutputWidthWo (gcd ctx.GetInputLeftPadW
                  (gcd ctx.GetAdjustedInputRightPadW ctx.GetAdjustedConvolutionDilationW)))
            else 1)
            t.GemmKPack) ∧
      ((t.CalculateGemmBBlockCopyPerformanceParameters ctx).valid = true →
        ctx.GetAdjustedConvolutionStrideW ≠ 1 →
        (t.CalculateGemmBBlockCopyPerformanceParameters ctx).SrcDataPerRead_GemmKPack = 1) ∧
      (tileA.CalculateGemmABlockCopyPerformanceParameters scenarioA).valid = true ∧
      (tileA.CalculateGemmABlockCopyPerformanceParameters scenarioA).SrcDataPerRead_GemmKPack
        = 4 ∧
      (tileA.CalculateGemmBBlockCopyPerformanceParameters scenarioA).valid = true ∧
      (tileA.CalculateGemmBBlockCopyPerformanceParameters scenarioA).SrcDataPerRead_GemmKPack
        = 2 := by
  refine ⟨?_, ?_, ?_, by decide, by decide, by decide, by decide⟩
  · intro h
    rw [blockCopyA_of_valid t ctx h]
    refine ⟨rfl, ?_⟩
    show t.GemmA_SrcDataPerRead_GemmKPack ctx = _
    unfold GemmA_SrcDataPerRead_GemmKPack gcd
    rw [Int.gcd_assoc]
  · intro h
    rw [blockCopyB_of_valid t ctx h]
    rfl
  · intro h hs
    rw [blockCopyB_of_valid t ctx h]
    show t.GemmB_SrcDataPerRead_GemmKPack ctx = 1
    unfold GemmB_SrcDataPerRead_GemmKPack
    rw [if_neg (fun hc => hs hc.2.2.2.1), if_neg (fun hc => hs hc.1), if_neg hs]
    unfold gcd
    simp

/-- C24: for operand A, on success, with `blockSize` the value of `CalculateBlockSize`,
`srcVectorLen` the returned source vector length and `remaining = lcm(max(1,
GemmKPerBlock*GemmMPerBlock*GemmKPack / blockSize), srcVectorLen) / srcVectorLen`: when
`GemmAThreadCopyMoreGemmK` is true the per-thread count along K is
`gcd(GemmKPerBlock, remaining)` and along M is `remaining` divided by it; when it is false
the per-thread count along M is `gcd(GemmMPerBlock, remaining)` and along K is `remaining`
divided by it; the returned cluster lengths are `GemmKPerBlock / perThreadK`,
`GemmMPerBlock / perThreadM` and `GemmKPack / srcVectorLen`. -/
theorem GemmA_cluster_lengths (t : PerformanceImplicitGemmWrwV4R4Xdlops_Padded_Gemm)
    (ctx : ConvolutionContext)
    (h : (t.CalculateGemmABlockCopyPerformanceParameters ctx).valid = true)
    (blockSize srcVectorLen remaining perThreadK perThreadM : Int)
    (hbs : blockSize = t.CalculateBlockSize.1)
    (hsrc : srcVectorLen =
      (t.CalculateGemmABlockCopyPerformanceParameters ctx).SrcDataPerRead_GemmKPack)
    (hrem : remaining =
      (lcm (max 1 ((t.GemmKPerBlock * t.GemmMPerBlock * t.GemmKPack).tdiv blockSize))
        srcVectorLen).tdiv srcVectorLen)
    (htrue : t.GemmAThreadCopyMoreGemmK = true →
      perThreadK = gcd t.GemmKPerBlock remaining ∧ perThreadM = remaining.tdiv perThreadK)
    (hfalse : t.GemmAThreadCopyMoreGemmK = false →
      perThreadM = gcd t.GemmMPerBlock remaining ∧ perThreadK = remaining.tdiv perThreadM) :
    (t.CalculateGemmABlockCopyPerformanceParameters ctx).ClusterLengths_GemmK =
        t.GemmKPerBlock.tdiv perThreadK ∧
      (t.CalculateGemmABlockCopyPerformanceParameters ctx).ClusterLengths_GemmMN =
        t.GemmMPerBlock.tdiv perThreadM ∧
      (t.CalculateGemmABlockCopyPerformanceParameters ctx).ClusterLengths_GemmKPack =
        t.GemmKPack.tdiv srcVectorLen := by
  rw [blockCopyA_of_valid t ctx h] at hsrc ⊢
  simp only [] at hsrc
  have hr : remaining = t.GemmA_tmp ctx := by
    rw [hrem, hsrc, hbs]
    rfl
  cases hA : t.GemmAThreadCopyMoreGemmK
  · obtain ⟨hm, hk⟩ := hfalse hA
    have e1 : t.GemmA_data_per_thread_copy_gemmm ctx = perThreadM := by
      unfold GemmA_data_per_thread_copy_gemmm
      rw [hA, hm, hr]
      rfl
    have e2 : t.GemmA_data_per_thread_copy_gemmk ctx = perThreadK := by
      unfold GemmA_data_per_thread_copy_gemmk
      rw [hA, hk, hm, hr]
      rfl
    rw [e1, e2, hsrc]
    exact ⟨rfl, rfl, rfl⟩
  · obtain ⟨hk, hm⟩ := htrue hA
    have e2 : t.GemmA_data_per_thread_copy_gemmk ctx = perThreadK := by
      unfold GemmA_data_per_thread_copy_gemmk
      rw [hA, hk, hr]
      rfl
    have e1 : t.GemmA_data_per_thread_copy_gemmm ctx = perThreadM := by
      unfold GemmA_data_per_thread_copy_gemmm
      rw [hA, hm, hk, hr]
      rfl
    rw [e1, e2, hsrc]
    exact ⟨rfl, rfl, rfl⟩

/-- Witness of C24: Scenario A with `tileA_fast`, where `blockSize = 128`,
`srcVectorLen = 4`, `remaining = lcm(16, 4) / 4 = 4`, the per-thread counts along M and K
are 4 and 1, and the cluster lengths are 8, 16 and 1. -/
theorem GemmA_cluster_lengths_witness :
    (tileA_fast.CalculateGemmABlockCopyPerformanceParameters scenarioA).valid = true ∧
      (128 : Int) = tileA_fast.CalculateBlockSize.1 ∧
      (4 : Int) =
        (tileA_fast.CalculateGemmABlockCopyPerformanceParameters
          scenarioA).SrcDataPerRead_GemmKPack ∧
      ((tileA_fast.CalculateGemmABlockCopyPerformanceParameters
            scenarioA).ClusterLengths_GemmK = tileA_fast.GemmKPerBlock.tdiv 1 ∧
        (tileA_fast.CalculateGemmABlockCopyPerformanceParameters
            scenarioA).ClusterLengths_GemmMN = tileA_fast.GemmMPerBlock.tdiv 4 ∧
        (tileA_fast.CalculateGemmABlockCopyPerformanceParameters
            scenarioA).ClusterLengths_GemmKPack = tileA_fast.GemmKPack.tdiv 4) :=
  ⟨by decide, by decide, by decide,
    GemmA_cluster_lengths tileA_fast scenarioA (by decide) 128 4 4 1 4 (by decide)
      (by decide) (by decide) (fun hA => absurd hA (by decide))
      (fun _ => ⟨by decide, by decide⟩)⟩

/-- The operand-B computation of the source differs from C25: the source assigns
`gcd(GemmNPerBlock, tmp)` to the per-thread count along K when
`GemmBThreadCopyMoreGemmK` is true and `gcd(GemmKPerBlock, tmp)` to the per-thread count
along N when it is false, the reverse of operand A. In Scenario A (`srcVectorLen = 2`,
`remaining = 16`) with the tile `{64,64,8,64,64,4}`: with the flag false the source
succeeds with the cluster lengths 4, 8, 2 where the wording of C25 gives 8, 4, 2; with the
flag true the source fails (its per-thread K count 16 does not divide `GemmKPerBlock = 8`)
where the wording of C25 gives the per-thread K count `gcd(8, 16) = 8` and the cluster
lengths 1, 32, 2. -/
theorem GemmB_cluster_lengths_swap_gcd_arguments :
    tileA_oneWave_flagB_false.CalculateGemmBBlockCopyPerformanceParameters scenarioA =
        { ClusterLengths_GemmK := 4, ClusterLengths_GemmMN := 8,
          ClusterLengths_GemmKPack := 2, SrcDataPerRead_GemmKPack := 2,
          DstDataPerWrite_GemmKPack := 2, valid := true } ∧
      tileA_oneWave_flagB_false.GemmB_ClusterLengths_spec scenarioA = (8, 4, 2) ∧
      tileA_oneWave_flagB_false.GemmB_tmp scenarioA = 16 ∧
      tileA_oneWave.CalculateGemmBBlockCopyPerformanceParameters scenarioA =
        blockCopyFailure ∧
      tileA_oneWave.GemmB_data_per_thread_copy_gemmk scenarioA = 16 ∧
      tileA_oneWave.GemmB_ClusterLengths_spec scenarioA = (1, 32, 2) ∧
      (tileA_oneWave.CalculateGemmABlockCopyPerformanceParameters scenarioA).valid = true := by
  decide

/-- C26: for every workload and every configuration with positive `GemmKPerBlock`,
`GemmMPerBlock`, `GemmNPerBlock` and `GemmKPack`, each block-copy parameter function
succeeds if and only if `CalculateBlockSize` succeeds, `GemmKPerBlock` is divisible by
the per-thread K count, `GemmMPerBlock` (operand A) or `GemmNPerBlock` (operand B) is
divisible by the per-thread M or N count, `GemmKPack` is divisible by the source vector
length, and the product of the three cluster lengths is at most the block size; on
failure the function returns `(-1, -1, -1, -1, -1, false)`, and on success the three
cluster lengths are at least 1. The per-thread counts and the source vector length are
the values of the locals of the source. -/
theorem block_copy_succeeds_iff (t : PerformanceImplicitGemmWrwV4R4Xdlops_Padded_Gemm)
    (ctx : ConvolutionContext) (hK : 0 < t.GemmKPerBlock) (hM : 0 < t.GemmMPerBlock)
    (hN : 0 < t.GemmNPerBlock) (hKP : 0 < t.GemmKPack) :
    (((t.CalculateGemmABlockCopyPerformanceParameters ctx).valid = true ↔
          (t.CalculateBlockSize.2 = true ∧
            t.GemmKPerBlock.tmod (t.GemmA_data_per_thread_copy_gemmk ctx) = 0 ∧
            t.GemmMPerBlock.tmod (t.GemmA_data_per_thread_copy_gemmm ctx) = 0 ∧
            t.GemmKPack.tmod (t.GemmA_SrcDataPerRead_GemmKPack ctx) = 0 ∧
            t.GemmKPerBlock.tdiv (t.GemmA_data_per_thread_copy_gemmk ctx) *
                t.GemmMPerBlock.tdiv (t.GemmA_data_per_thread_copy_gemmm ctx) *
                t.GemmKPack.tdiv (t.GemmA_SrcDataPerRead_GemmKPack ctx) ≤
              t.CalculateBlockSize.1)) ∧
        ((t.CalculateGemmABlockCopyPerformanceParameters ctx).valid = false →
          t.CalculateGemmABlockCopyPerformanceParameters ctx =
            ⟨-1, -1, -1, -1, -1, false⟩) ∧
        ((t.CalculateGemmABlockCopyPerformanceParameters ctx).valid = true →
          (t.CalculateGemmABlockCopyPerformanceParameters ctx).ClusterLengths_GemmK =
              t.GemmKPerBlock.tdiv (t.GemmA_data_per_thread_copy_gemmk ctx) ∧
            (t.CalculateGemmABlockCopyPerformanceParameters ctx).ClusterLengths_GemmMN =
              t.GemmMPerBlock.tdiv (t.GemmA_data_per_thread_copy_gemmm ctx) ∧
            (t.CalculateGemmABlockCopyPerformanceParameters ctx).ClusterLengths_GemmKPack =
              t.GemmKPack.tdiv (t.GemmA_SrcDataPerRead_GemmKPack ctx) ∧
            1 ≤ (t.CalculateGemmABlockCopyPerformanceParameters ctx).ClusterLengths_GemmK ∧
            1 ≤ (t.CalculateGemmABlockCopyPerformanceParameters ctx).ClusterLengths_GemmMN ∧
            1 ≤ (t.CalculateGemmABlockCopyPerformanceParameters
              ctx).ClusterLengths_GemmKPack)) ∧
      (((t.CalculateGemmBBlockCopyPerformanceParameters ctx).valid = true ↔
          (t.CalculateBlockSize.2 = true ∧
            t.GemmKPerBlock.tmod (t.GemmB_data_per_thread_copy_gemmk ctx) = 0 ∧
            t.GemmNPerBlock.tmod (t.GemmB_data_per_thread_copy_gemmn ctx) = 0 ∧
            t.GemmKPack.tmod (t.GemmB_SrcDataPerRead_GemmKPack ctx) = 0 ∧
            t.GemmKPerBlock.tdiv (t.GemmB_data_per_thread_copy_gemmk ctx) *
                t.GemmNPerBlock.tdiv (t.GemmB_data_per_thread_copy_gemmn ctx) *
                t.GemmKPack.tdiv (t.GemmB_SrcDataPerRead_GemmKPack ctx) ≤
              t.CalculateBlockSize.1)) ∧
        ((t.CalculateGemmBBlockCopyPerformanceParameters ctx).valid = false →
          t.CalculateGemmBBlockCopyPerformanceParameters ctx =
            ⟨-1, -1, -1, -1, -1, false⟩) ∧
        ((t.CalculateGemmBBlockCopyPerformanceParameters ctx).valid = true →
          (t.CalculateGemmBBlockCopyPerformanceParameters ctx).ClusterLengths_GemmK =
              t.GemmKPerBlock.tdiv (t.GemmB_data_per_thread_copy_gemmk ctx) ∧
            (t.CalculateGemmBBlockCopyPerformanceParameters ctx).ClusterLengths_GemmMN =
              t.GemmNPerBlock.tdiv (t.GemmB_data_per_thread_copy_gemmn ctx) ∧
            (t.CalculateGemmBBlockCopyPerformanceParameters ctx).ClusterLengths_GemmKPack =
              t.GemmKPack.tdiv (t.GemmB_SrcDataPerRead_GemmKPack ctx) ∧
            1 ≤ (t.CalculateGemmBBlockCopyPerformanceParameters ctx).ClusterLengths_GemmK ∧
            1 ≤ (t.CalculateGemmBBlockCopyPerformanceParameters ctx).ClusterLengths_GemmMN ∧
            1 ≤ (t.CalculateGemmBBlockCopyPerformanceParameters
              ctx).ClusterLengths_GemmKPack)) := by
  obtain ⟨a1, a2, a3, a4⟩ := GemmA_positive t ctx hKP
  obtain ⟨b1, b2, b3, b4⟩ := GemmB_positive t ctx hKP
  refine ⟨⟨?_, ?_, ?_⟩, ⟨?_, ?_, ?_⟩⟩
  · rw [blockCopyA_valid_iff]
    constructor
    · rintro ⟨h1, -, -, ⟨h4, h5, h6⟩, -, h7⟩
      exact ⟨h1, h4, h5, h6, h7⟩
    · rintro ⟨h1, h4, h5, h6, h7⟩
      exact ⟨h1, by omega, ⟨a3, a4, a1⟩, ⟨h4, h5, h6⟩,
        ⟨Int.tdiv_nonneg (le_of_lt hK) (le_of_lt a3),
          Int.tdiv_nonneg (le_of_lt hM) (le_of_lt a4),
          Int.tdiv_nonneg (le_of_lt hKP) (le_of_lt a1)⟩, h7⟩
  · intro h
    exact blockCopyA_of_not_valid t ctx (by rw [h]; decide)
  · intro h
    obtain ⟨-, -, -, ⟨h4, h5, h6⟩, -, -⟩ := (blockCopyA_valid_iff t ctx).mp h
    rw [blockCopyA_of_valid t ctx h]
    exact ⟨rfl, rfl, rfl, tdiv_pos_of_tmod hK a3 h4, tdiv_pos_of_tmod hM a4 h5,
      tdiv_pos_of_tmod hKP a1 h6⟩
  · rw [blockCopyB_valid_iff]
    constructor
    · rintro ⟨h1, -, ⟨h4, h5, h6⟩, -, h7⟩
      exact ⟨h1, h4, h5, h6, h7⟩
    · rintro ⟨h1, h4, h5, h6, h7⟩
      exact ⟨h1, ⟨b3, b4, b1⟩, ⟨h4, h5, h6⟩,
        ⟨Int.tdiv_nonneg (le_of_lt hK) (le_of_lt b3),
          Int.tdiv_nonneg (le_of_lt hN) (le_of_lt b4),
          Int.tdiv_nonneg (le_of_lt hKP) (le_of_lt b1)⟩, h7⟩
  · intro h
    exact blockCopyB_of_not_valid t ctx (by rw [h]; decide)
  · intro h
    obtain ⟨-, -, ⟨h4, h5, h6⟩, -, -⟩ := (blockCopyB_valid_iff t ctx).mp h
    rw [blockCopyB_of_valid t ctx h]
    exact ⟨rfl, rfl, rfl, tdiv_pos_of_tmod hK b3 h4, tdiv_pos_of_tmod hN b4 h5,
      tdiv_pos_of_tmod hKP b1 h6⟩

/-- Witness of C26: Scenario A with `tileA_oneWave`, where operand A succeeds with the
cluster lengths 8, 8 and 1, and operand B fails because its per-thread K count 16 does not
divide `GemmKPerBlock = 8`. -/
theorem block_copy_succeeds_iff_witness :
    (0 < tileA_oneWave.GemmKPerBlock ∧ 0 < tileA_oneWave.GemmMPerBlock ∧
        0 < tileA_oneWave.GemmNPerBlock ∧ 0 < tileA_oneWave.GemmKPack) ∧
      (tileA_oneWave.CalculateGemmABlockCopyPerformanceParameters scenarioA).valid = true ∧
      (1 ≤ (tileA_oneWave.CalculateGemmABlockCopyPerformanceParameters
          scenarioA).ClusterLengths_GemmK) ∧
      ¬(tileA_oneWave.GemmKPerBlock.tmod
          (tileA_oneWave.GemmB_data_per_thread_copy_gemmk scenarioA) = 0) ∧
      tileA_oneWave.CalculateGemmBBlockCopyPerformanceParameters scenarioA =
        ⟨-1, -1, -1, -1, -1, false⟩ :=
  ⟨by decide, by decide,
    ((block_copy_succeeds_iff tileA_oneWave scenarioA (by decide) (by decide) (by decide)
      (by decide)).1.2.2 (by decide)).2.2.2.1,
    by decide,
    (block_copy_succeeds_iff tileA_oneWave scenarioA (by decide) (by decide) (by decide)
      (by decide)).2.2.1 (by decide)⟩

/-! ## Shared lemmas on the grid budget of the K split -/

theorem CalculateGridSize_valid (t : PerformanceImplicitGemmWrwV4R4Xdlops_Padded_Gemm)
    (ctx : ConvolutionContext) (hv : (t.CalculateGridSize ctx).2 = true) :
    (t.CalculateGemmSizeAndGemmKBlock ctx).valid = true := by
  by_contra h
  rw [CalculateGridSize_of_not_valid t ctx h] at hv
  exact absurd hv (by decide)

theorem tdiv_large_of_nonneg {a b : Int} (ha : 0 ≤ a) (h : 2 ≤ a.tdiv b) :
    0 < b ∧ a.tdiv b * b ≤ a := by
  have hb : 0 < b := by
    by_contra hb
    push_neg at hb
    have := Int.tdiv_nonpos ha hb
    omega
  refine ⟨hb, ?_⟩
  rw [Int.tdiv_eq_ediv ha (le_of_lt hb)]
  exact Int.ediv_mul_le a (ne_of_gt hb)

/-! ## The claim on the use of the performance filter by `HeuristicInit` -/

/-- C21 fails as stated: for `scenarioA_256_1x1` (with a matrix-core predicate that
accepts every tile and the exact rational test) the first candidate of the descent,
`{256,256,4,128,128,4,16,64,16,false,true}`, satisfies `IsReallyValid`, so it is the first
candidate that satisfies `IsReallyValid` alone; it fails `IsFastToBeUsedForTuning` (its
wave tile product `128*128` exceeds `64*128`), and `HeuristicInit` produces the different
configuration `{256,128,4,128,64,4,16,64,16,false,true}`. -/
theorem HeuristicInit_skips_valid_candidate_that_is_not_fast :
    heuristicCandidate 1 4 0 (heuristicSeed 4) =
        ⟨256, 256, 4, 128, 128, 4, 16, 64, 16, false, true⟩ ∧
      (heuristicCandidate 1 4 0 (heuristicSeed 4)).IsReallyValid xdlopsAcceptAll
        scenarioA_256_1x1 = true ∧
      (heuristicCandidate 1 4 0 (heuristicSeed 4)).IsFastToBeUsedForTuning exactRatioTest
        scenarioA_256_1x1 = false ∧
      HeuristicInit xdlopsAcceptAll exactRatioTest 21168 defaultConfig scenarioA_256_1x1 =
        some ⟨256, 128, 4, 128, 64, 4, 16, 64, 16, false, true⟩ := by
  refine ⟨by decide, by decide, by decide, ?_⟩
  set_option maxRecDepth 100000 in decide

/-- C21, amended: `IsFastToBeUsedForTuning` is applied on the heuristic path, in the
first of the two descents of `HeuristicInit`. For every fp32, fp16 or bfp16 workload and
every iteration budget of at least 21168: if some configuration of the descent lattice
satisfies both `IsReallyValid` and `IsFastToBeUsedForTuning`, `HeuristicInit` produces the
first candidate of the descent that satisfies both; if none does, it produces the seed
when the seed satisfies `IsReallyValid`, and otherwise the first candidate of the descent
that satisfies `IsReallyValid` alone, or the seed (the last candidate) when no candidate
does. -/
theorem HeuristicInit_two_rounds (xdlops : BlockwiseGemmXdlopsCheck)
    (ratio_gt : FloatRatioTest) (fuel : Nat)
    (self : PerformanceImplicitGemmWrwV4R4Xdlops_Padded_Gemm) (ctx : ConvolutionContext)
    (KPackL KPackH : Int) (count : Nat)
    (hK : IsHeuristicKPackRange ctx KPackL KPackH count) (hfuel : 21168 ≤ fuel) :
    ((∃ u, InDescentLattice KPackL KPackH u ∧ u.IsReallyValid xdlops ctx = true ∧
          u.IsFastToBeUsedForTuning ratio_gt ctx = true) →
        ∃ k : Nat, k < 7056 * count ∧
          HeuristicInit xdlops ratio_gt fuel self ctx =
            some (heuristicCandidate KPackL KPackH k (heuristicSeed KPackH)) ∧
          (heuristicCandidate KPackL KPackH k (heuristicSeed KPackH)).IsReallyValid
            xdlops ctx = true ∧
          (heuristicCandidate KPackL KPackH k (heuristicSeed KPackH)).IsFastToBeUsedForTuning
            ratio_gt ctx = true ∧
          ∀ j : Nat, j < k →
            ¬((heuristicCandidate KPackL KPackH j (heuristicSeed KPackH)).IsReallyValid
                  xdlops ctx = true ∧
              (heuristicCandidate KPackL KPackH j
                  (heuristicSeed KPackH)).IsFastToBeUsedForTuning ratio_gt ctx = true)) ∧
      ((∀ u, InDescentLattice KPackL KPackH u →
          ¬(u.IsReallyValid xdlops ctx = true ∧
            u.IsFastToBeUsedForTuning ratio_gt ctx = true)) →
        ((heuristicSeed KPackH).IsReallyValid xdlops ctx = true →
          HeuristicInit xdlops ratio_gt fuel self ctx = some (heuristicSeed KPackH)) ∧
        ((heuristicSeed KPackH).IsReallyValid xdlops ctx = false →
          ∃ k : Nat, k < 7056 * count ∧
            HeuristicInit xdlops ratio_gt fuel self ctx =
              some (heuristicCandidate KPackL KPackH k (heuristicSeed KPackH)) ∧
            (∀ j : Nat, j < k →
              (heuristicCandidate KPackL KPackH j (heuristicSeed KPackH)).IsReallyValid
                xdlops ctx = false) ∧
            ((heuristicCandidate KPackL KPackH k (heuristicSeed KPackH)).IsReallyValid
                xdlops ctx = true ∨
              (k = 7056 * count - 1 ∧
                heuristicCandidate KPackL KPackH k (heuristicSeed KPackH) =
                  heuristicSeed KPackH)))) := by
  have hcount : 7056 * count ≤ fuel := by
    rcases (heuristicRange_facts hK).1 with rfl | rfl <;> omega
  obtain ⟨hlat, -, hlastc, hcover⟩ := heuristicCandidate_enumerates hK
  obtain ⟨r1, k1, e1, hk1, hr1, hbefore, hlast⟩ := get_euristic_config_result hK
    (fun config => config.IsReallyValid xdlops ctx &&
      config.IsFastToBeUsedForTuning ratio_gt ctx) fuel hcount defaultConfig
  refine ⟨?_, ?_⟩
  · intro hex
    have hboth : (r1.IsReallyValid xdlops ctx &&
        r1.IsFastToBeUsedForTuning ratio_gt ctx) = true := by
      rcases hlast with h | h
      · exact h
      · obtain ⟨u, hu, huv, huf⟩ := hex
        obtain ⟨j, hj, rfl⟩ := hcover u hu
        by_cases hjk : j < k1
        · have := hbefore j hjk
          simp only [] at this
          rw [huv, huf] at this
          exact absurd this (by decide)
        · have : j = k1 := by omega
          rw [hr1, ← this, huv, huf]
          rfl
    simp only [Bool.and_eq_true] at hboth
    refine ⟨k1, hk1, ?_, ?_, ?_, ?_⟩
    · rw [HeuristicInit_eq xdlops ratio_gt fuel self r1 e1, if_neg (not_not.mpr hboth.1), hr1]
    · rw [← hr1]
      exact hboth.1
    · rw [← hr1]
      exact hboth.2
    · intro j hj hc
      have := hbefore j hj
      simp only [] at this
      rw [hc.1, hc.2] at this
      exact absurd this (by decide)
  · intro hno
    have hr1seed : r1 = heuristicSeed KPackH := by
      rcases hlast with h | h
      · simp only [Bool.and_eq_true] at h
        rw [hr1] at h
        exact absurd h (hno _ (hlat k1 hk1))
      · rw [hr1, h, hlastc]
    rw [hr1seed] at e1
    refine ⟨?_, ?_⟩
    · intro hsv
      rw [HeuristicInit_eq xdlops ratio_gt fuel self _ e1, if_neg (not_not.mpr hsv)]
    · intro hsv
      obtain ⟨r2, k2, e2, hk2, hr2, hbefore2, hlast2⟩ := get_euristic_config_result hK
        (fun config => config.IsReallyValid xdlops ctx) fuel hcount (heuristicSeed KPackH)
      refine ⟨k2, hk2, ?_, hbefore2, ?_⟩
      · rw [HeuristicInit_eq xdlops ratio_gt fuel self _ e1,
          if_pos (by rw [hsv]; decide), e2, hr2]
      · rcases hlast2 with h | h
        · left
          rw [← hr2]
          exact h
        · right
          refine ⟨h, ?_⟩
          rw [h, hlastc]

/-- Witness of the amended C21: `scenarioA_256_1x1`, where the configuration
`tile_256_1x1_fast` of the fp32 descent lattice is really valid and fast, so
`HeuristicInit` produces the first candidate that is really valid and fast. -/
theorem HeuristicInit_two_rounds_witness :
    (IsHeuristicKPackRange scenarioA_256_1x1 1 4 3 ∧
        InDescentLattice 1 4 tile_256_1x1_fast ∧
        tile_256_1x1_fast.IsReallyValid xdlopsAcceptAll scenarioA_256_1x1 = true ∧
        tile_256_1x1_fast.IsFastToBeUsedForTuning exactRatioTest scenarioA_256_1x1 = true) ∧
      ∃ k : Nat, k < 7056 * 3 ∧
        HeuristicInit xdlopsAcceptAll exactRatioTest 21168 defaultConfig scenarioA_256_1x1 =
          some (heuristicCandidate 1 4 k (heuristicSeed 4)) ∧
        (heuristicCandidate 1 4 k (heuristicSeed 4)).IsReallyValid xdlopsAcceptAll
          scenarioA_256_1x1 = true ∧
        (heuristicCandidate 1 4 k (heuristicSeed 4)).IsFastToBeUsedForTuning exactRatioTest
          scenarioA_256_1x1 = true ∧
        ∀ j : Nat, j < k →
          ¬((heuristicCandidate 1 4 j (heuristicSeed 4)).IsReallyValid xdlopsAcceptAll
                scenarioA_256_1x1 = true ∧
            (heuristicCandidate 1 4 j (heuristicSeed 4)).IsFastToBeUsedForTuning
                exactRatioTest scenarioA_256_1x1 = true) :=
  ⟨⟨Or.inl ⟨rfl, rfl, rfl, rfl⟩, by unfold InDescentLattice; decide, by decide, by decide⟩,
    (HeuristicInit_two_rounds xdlopsAcceptAll exactRatioTest 21168 defaultConfig
      scenarioA_256_1x1 1 4 3 (Or.inl ⟨rfl, rfl, rfl, rfl⟩) (le_refl _)).1
      ⟨tile_256_1x1_fast, by unfold InDescentLattice; decide, by decide, by decide⟩⟩


/-! ## Shared lemmas on the grid-occupancy ratio -/

theorem exactRatioTest_accurate : IsAccurateRatioTest exactRatioTest := by
  intro g m c hg _ hm _ hc1 _ h
  unfold exactRatioTest
  simp only [decide_eq_true_eq, gt_iff_lt]
  have hq : (0 : Rat) ≤ (g : Rat) / (m : Rat) :=
    div_nonneg (by exact_mod_cast hg) (by positivity)
  have h1 : c ≤ c * (1 + 1 / 2 ^ 52) := by nlinarith
  have h2 : (g : Rat) / (m : Rat) * (1 - 3 / 2 ^ 24) ≤ (g : Rat) / (m : Rat) := by nlinarith
  linarith

theorem ratio_gap {P x a : Int} (hx : 0 < x) (hP : P ≤ 32768) (ha : 0 < a)
    (h : (a : Rat) / 100 < (P : Rat) / (x : Rat)) :
    (a : Rat) / 100 * (1 + 1 / 2 ^ 52) < (P : Rat) / (x : Rat) * (1 - 3 / 2 ^ 24) := by
  have hxq : (0 : Rat) < (x : Rat) := by exact_mod_cast hx
  have h1 : (a : Rat) * x < 100 * P := by
    rw [div_lt_div_iff₀ (by norm_num) hxq] at h
    linarith
  have h2 : a * x + 1 ≤ 100 * P := by
    have : a * x < 100 * P := by exact_mod_cast h1
    omega
  have h3 : ((a * x : Int) : Rat) + 1 ≤ 100 * (P : Rat) := by exact_mod_cast h2
  have h4 : ((a * x : Int) : Rat) ≤ 3276799 := by
    have : a * x ≤ 3276799 := by omega
    exact_mod_cast this
  have h5 : (0 : Rat) ≤ ((a * x : Int) : Rat) := by
    have : 0 ≤ a * x := le_of_lt (mul_pos ha hx)
    exact_mod_cast this
  have h6 : ((a * x : Int) : Rat) = (a : Rat) * (x : Rat) := by push_cast; ring
  rw [h6] at h3 h4 h5
  rw [div_mul_eq_mul_div, div_mul_eq_mul_div, div_lt_div_iff₀ (by norm_num) hxq]
  norm_num at h3 h4 h5 ⊢
  nlinarith

theorem gcd_le_left_pos (a b : Int) (ha : 0 < a) : 0 < gcd a b ∧ gcd a b ≤ a ∧ gcd a b ∣ b := by
  unfold gcd
  have h1 : (Int.gcd a b : Int) ∣ a := Int.gcd_dvd_left
  have h2 : (0 : Int) < Int.gcd a b := by
    exact_mod_cast Int.gcd_pos_of_ne_zero_left b (ne_of_gt ha)
  exact ⟨h2, Int.le_of_dvd ha h1, Int.gcd_dvd_right⟩

theorem max_blockwise_gemm_size_facts (m n : Int) :
    0 < max (gcd 256 m * gcd 128 n) (gcd 128 m * gcd 256 n) ∧
      max (gcd 256 m * gcd 128 n) (gcd 128 m * gcd 256 n) ≤ 32768 ∧
      max (gcd 256 m * gcd 128 n) (gcd 128 m * gcd 256 n) ∣ m * n := by
  obtain ⟨a1, a2, a3⟩ := gcd_le_left_pos 256 m (by norm_num)
  obtain ⟨b1, b2, b3⟩ := gcd_le_left_pos 128 n (by norm_num)
  obtain ⟨c1, c2, c3⟩ := gcd_le_left_pos 128 m (by norm_num)
  obtain ⟨d1, d2, d3⟩ := gcd_le_left_pos 256 n (by norm_num)
  have e1 : gcd 256 m * gcd 128 n ≤ 32768 := by nlinarith
  have e2 : gcd 128 m * gcd 256 n ≤ 32768 := by nlinarith
  refine ⟨lt_max_of_lt_left (mul_pos a1 b1), max_le e1 e2, ?_⟩
  rcases max_cases (gcd 256 m * gcd 128 n) (gcd 128 m * gcd 256 n) with ⟨h, -⟩ | ⟨h, -⟩
  · rw [h]
    exact mul_dvd_mul a3 b3
  · rw [h]
    exact mul_dvd_mul c3 d3

theorem to_size_t_cast (v : Int) : (to_size_t v : Int) = v % 2 ^ 64 := by
  unfold to_size_t
  exact Int.toNat_of_nonneg (Int.emod_nonneg v (by norm_num))

theorem grid_size_max_blockwise_gemm_eq {m n P : Int} (hmn : 0 < m * n)
    (hov : m * n < 2 ^ 31) (hP : 0 < P) (hPle : P ≤ 32768) :
    ((((to_size_t m * to_size_t n) % 2 ^ 64) / to_size_t P : Nat) : Int) =
      (m * n).tdiv P := by
  have e3 : (to_size_t P : Int) = P := by
    rw [to_size_t_cast, Int.emod_eq_of_lt (le_of_lt hP) (by omega)]
  have hN : ((2 ^ 64 : Nat) : Int) = 2 ^ 64 := by norm_num
  rw [Int.tdiv_eq_ediv (le_of_lt hmn) (le_of_lt hP), Int.ofNat_ediv, Int.natCast_mod,
    Nat.cast_mul, hN, to_size_t_cast, to_size_t_cast, e3, ← Int.mul_emod,
    Int.emod_eq_of_lt (le_of_lt hmn) (by omega)]

theorem grid_ratio_eq {m n MB NB P : Int} (hmn : 0 < m * n) (hx : 0 < MB * NB)
    (hdm : m.tmod MB = 0) (hdn : n.tmod NB = 0) (hP : 0 < P) (hPd : P ∣ m * n) :
    0 < (m * n).tdiv P ∧
      (((m * n).tdiv (MB * NB) : Int) : Rat) / (((m * n).tdiv P : Int) : Rat) =
        (P : Rat) / ((MB * NB : Int) : Rat) := by
  have hxd : MB * NB ∣ m * n :=
    mul_dvd_mul (Int.dvd_of_tmod_eq_zero hdm) (Int.dvd_of_tmod_eq_zero hdn)
  have hG : 1 ≤ (m * n).tdiv P := tdiv_pos_of_dvd hmn hP hPd
  have h1 : (m * n).tdiv P * P = m * n := Int.tdiv_mul_cancel hPd
  have h2 : (m * n).tdiv (MB * NB) * (MB * NB) = m * n := Int.tdiv_mul_cancel hxd
  have q1 : (((m * n).tdiv P : Int) : Rat) * (P : Rat) = ((m * n : Int) : Rat) := by
    exact_mod_cast h1
  have q2 : (((m * n).tdiv (MB * NB) : Int) : Rat) * ((MB * NB : Int) : Rat) =
      ((m * n : Int) : Rat) := by
    exact_mod_cast h2
  have hGq : (0 : Rat) < (((m * n).tdiv P : Int) : Rat) := by exact_mod_cast hG
  have hxq : (0 : Rat) < ((MB * NB : Int) : Rat) := by exact_mod_cast hx
  refine ⟨by omega, ?_⟩
  rw [div_eq_div_iff (ne_of_gt hGq) (ne_of_gt hxq), q2, ← q1, mul_comm]

/-! ## Shared lemmas on the floating-point test -/

theorem powerOfTwoBelow_spec (q : Rat) :
    ∀ (fuel : Nat) (pw : Rat), 0 < pw → pw ≤ q → q < pw * 2 ^ fuel →
      0 < powerOfTwoBelow q fuel pw ∧ powerOfTwoBelow q fuel pw ≤ q ∧
        q < powerOfTwoBelow q fuel pw * 2 := by
  intro fuel
  induction fuel with
  | zero =>
    intro pw _ h1 h2
    rw [pow_zero, mul_one] at h2
    exact absurd h1 (not_le.mpr h2)
  | succ k ih =>
    intro pw h0 h1 h2
    rw [powerOfTwoBelow]
    by_cases h : pw * 2 ≤ q
    · rw [if_pos h]
      refine ih (pw * 2) (by positivity) h ?_
      rw [pow_succ] at h2
      linarith
    · rw [if_neg h]
      exact ⟨h0, h1, not_le.mp h⟩

theorem roundHalfEven_error (s : Rat) : |(roundHalfEven s : Rat) - s| ≤ 1 / 2 := by
  have h1 : ((⌊s⌋ : Int) : Rat) ≤ s := Int.floor_le s
  have h2 : s < ((⌊s⌋ : Int) : Rat) + 1 := Int.lt_floor_add_one s
  unfold roundHalfEven
  rw [abs_le]
  split_ifs with c1 c2 c3
  · constructor <;> linarith
  · push_cast
    constructor <;> linarith
  · constructor <;> linarith
  · push_cast
    constructor <;> linarith

theorem roundToNearestEven_error {p : Nat} (hp : 1 ≤ p) {q : Rat} (h0 : 1 / 2 ^ 150 ≤ q)
    (h1 : q < 2 ^ 150) : |roundToNearestEven p q - q| ≤ q / 2 ^ p := by
  have hq : 0 < q := lt_of_lt_of_le (by positivity) h0
  obtain ⟨r0, r1, -⟩ := powerOfTwoBelow_spec q 300 (1 / 2 ^ 150) (by positivity) h0
    (by norm_num; linarith)
  unfold roundToNearestEven
  rw [if_neg (ne_of_gt hq)]
  simp only []
  rw [if_neg (not_lt.mpr (le_of_lt hq)), one_mul, abs_of_pos hq]
  generalize powerOfTwoBelow q 300 (1 / 2 ^ 150) = r at r0 r1 ⊢
  have hpow : (0 : Rat) < 2 ^ (p - 1) := by positivity
  have hulp : 0 < r / 2 ^ (p - 1) := div_pos r0 hpow
  generalize hu : r / 2 ^ (p - 1) = ulp at hulp ⊢
  have hs := roundHalfEven_error (q / ulp)
  have e1 : (roundHalfEven (q / ulp) : Rat) * ulp - q =
      ((roundHalfEven (q / ulp) : Rat) - q / ulp) * ulp := by
    field_simp
  rw [e1, abs_mul, abs_of_pos hulp]
  have e2 : ulp / 2 = r / 2 ^ p := by
    rw [← hu]
    obtain ⟨k, rfl⟩ : ∃ k, p = k + 1 := ⟨p - 1, by omega⟩
    rw [Nat.add_sub_cancel, pow_succ]
    field_simp
  have e3 : r / 2 ^ p ≤ q / 2 ^ p := div_le_div_of_nonneg_right r1 (by positivity)
  have e4 : |(roundHalfEven (q / ulp) : Rat) - q / ulp| * ulp ≤ 1 / 2 * ulp :=
    mul_le_mul_of_nonneg_right hs (le_of_lt hulp)
  linarith

theorem roundToNearestEven_bounds {p : Nat} (hp : 1 ≤ p) {q : Rat} (h0 : 1 / 2 ^ 150 ≤ q)
    (h1 : q < 2 ^ 150) :
    q * (1 - 1 / 2 ^ p) ≤ roundToNearestEven p q ∧
      roundToNearestEven p q ≤ q * (1 + 1 / 2 ^ p) := by
  have h := abs_le.mp (roundToNearestEven_error hp h0 h1)
  have e : q / 2 ^ p = q * (1 / 2 ^ p) := by ring
  rw [e] at h
  constructor <;> linarith [h.1, h.2]

theorem ieeeRatioTest_accurate : IsAccurateRatioTest ieeeRatioTest := by
  intro g m c hg0 hg1 hm0 hm1 hc1 hc16 h
  unfold ieeeRatioTest
  rw [if_neg (by omega)]
  simp only [decide_eq_true_eq, gt_iff_lt]
  have hmq : (1 : Rat) ≤ (m : Rat) := by exact_mod_cast hm0
  have hmq1 : (m : Rat) < 2 ^ 64 := by exact_mod_cast hm1
  have hgq0 : (0 : Rat) ≤ (g : Rat) := by exact_mod_cast hg0
  have hgpos : 0 < g := by
    rcases lt_or_eq_of_le hg0 with h' | h'
    · exact h'
    · rw [← h'] at h
      norm_num at h
      linarith
  have hgq : (1 : Rat) ≤ (g : Rat) := by exact_mod_cast hgpos
  have hgq1 : (g : Rat) < 2 ^ 31 := by exact_mod_cast hg1
  obtain ⟨a1, a2⟩ := roundToNearestEven_bounds (p := 24) (by norm_num)
    (q := (g : Rat)) (le_trans (by norm_num) hgq) (lt_trans hgq1 (by norm_num))
  obtain ⟨b1, b2⟩ := roundToNearestEven_bounds (p := 24) (by norm_num)
    (q := (m : Rat)) (le_trans (by norm_num) hmq) (lt_trans hmq1 (by norm_num))
  obtain ⟨-, d2⟩ := roundToNearestEven_bounds (p := 53) (by norm_num)
    (q := c) (le_trans (by norm_num) hc1) (lt_of_le_of_lt hc16 (by norm_num))
  generalize roundToNearestEven 24 (g : Rat) = A at a1 a2 ⊢
  generalize roundToNearestEven 24 (m : Rat) = B at b1 b2 ⊢
  have hA2 : (1 : Rat) / 2 ≤ A := by linarith only [a1, hgq]
  have hA0 : 0 < A := by linarith only [hA2]
  have hA1 : A ≤ 2 ^ 32 := by linarith only [a2, hgq1]
  have hB2 : (1 : Rat) / 2 ≤ B := by linarith only [b1, hmq]
  have hB0 : 0 < B := by linarith only [hB2]
  have hB1 : B ≤ 2 ^ 65 := by linarith only [b2, hmq1]
  have hQlow : (g : Rat) * (1 - 1 / 2 ^ 24) / ((m : Rat) * (1 + 1 / 2 ^ 24)) ≤ A / B :=
    div_le_div₀ (le_of_lt hA0) a1 hB0 b2
  have hQ0 : 1 / 2 ^ 150 ≤ A / B := by
    rw [div_le_div_iff₀ (by positivity) hB0]
    linarith only [hA2, hB1]
  have hQ1 : A / B < 2 ^ 150 := by
    rw [div_lt_iff₀ hB0]
    linarith only [hA1, hB2]
  obtain ⟨f1, -⟩ := roundToNearestEven_bounds (p := 24) (by norm_num) hQ0 hQ1
  have hrho : (0 : Rat) ≤ (g : Rat) / (m : Rat) := div_nonneg hgq0 (by positivity)
  have e : (g : Rat) * (1 - 1 / 2 ^ 24) / ((m : Rat) * (1 + 1 / 2 ^ 24)) =
      (g : Rat) / (m : Rat) * ((1 - 1 / 2 ^ 24) / (1 + 1 / 2 ^ 24)) := by
    field_simp
  rw [e] at hQlow
  have k : (1 - 3 / 2 ^ 24 : Rat) ≤ (1 - 1 / 2 ^ 24) / (1 + 1 / 2 ^ 24) * (1 - 1 / 2 ^ 24) := by
    norm_num
  have hF : (g : Rat) / (m : Rat) * (1 - 3 / 2 ^ 24) ≤
      roundToNearestEven 24 (A / B) := by
    have s1 : (g : Rat) / (m : Rat) * (1 - 3 / 2 ^ 24) ≤
        (g : Rat) / (m : Rat) *
          ((1 - 1 / 2 ^ 24) / (1 + 1 / 2 ^ 24) * (1 - 1 / 2 ^ 24)) :=
      mul_le_mul_of_nonneg_left k hrho
    have s2 : (g : Rat) / (m : Rat) * ((1 - 1 / 2 ^ 24) / (1 + 1 / 2 ^ 24)) *
        (1 - 1 / 2 ^ 24) ≤ A / B * (1 - 1 / 2 ^ 24) :=
      mul_le_mul_of_nonneg_right hQlow (by norm_num)
    exact le_trans (le_trans (s1.trans_eq (mul_assoc _ _ _).symm) s2) f1
  have hD : roundToNearestEven 53 c ≤ c * (1 + 1 / 2 ^ 52) := by
    have : c * (1 + 1 / 2 ^ 53) ≤ c * (1 + 1 / 2 ^ 52) :=
      mul_le_mul_of_nonneg_left (by norm_num) (by linarith only [hc1])
    exact le_trans d2 this
  exact lt_of_le_of_lt hD (lt_of_lt_of_le h hF)

theorem tdiv_nonpos_of_nonpos {a b : Int} (ha : a ≤ 0) (hb : 0 ≤ b) : a.tdiv b ≤ 0 := by
  have h := Int.tdiv_nonneg (Int.neg_nonneg_of_nonpos ha) hb
  rw [Int.neg_tdiv] at h
  omega

theorem tdiv_le_self_of_nonneg {a b : Int} (ha : 0 ≤ a) (hb : 0 ≤ b) : a.tdiv b ≤ a := by
  rw [Int.tdiv_eq_ediv ha hb]
  exact Int.ediv_le_self b ha

theorem ratio_le_of_test_false {ratio_gt : FloatRatioTest}
    (hacc : IsAccurateRatioTest ratio_gt) {grid_size : Int} {G : Nat} {P x a : Int}
    {c : Rat} (hc : c = (a : Rat) / 100) (ha1 : 100 ≤ a) (ha2 : a ≤ 1600)
    (hg0 : 0 ≤ grid_size) (hg1 : grid_size < 2 ^ 31) (hG0 : 0 < G) (hG1 : G < 2 ^ 64)
    (hx : 0 < x) (hP : P ≤ 32768)
    (hquot : (grid_size : Rat) / (G : Rat) = (P : Rat) / (x : Rat))
    (hnot : ¬(ratio_gt grid_size G c = true)) :
    (grid_size : Rat) / (G : Rat) ≤ c := by
  by_contra h
  push_neg at h
  apply hnot
  have ha1q : (100 : Rat) ≤ (a : Rat) := by exact_mod_cast ha1
  have ha2q : (a : Rat) ≤ 1600 := by exact_mod_cast ha2
  refine hacc grid_size G c hg0 hg1 hG0 hG1 ?_ ?_ ?_
  · rw [hc]
    linarith
  · rw [hc]
    linarith
  · rw [hquot] at h ⊢
    rw [hc] at h ⊢
    exact ratio_gap hx hP (by omega) h

/-! ## The claim on the grid-occupancy ratio -/

/-- Where the `int` product `gemm_m * gemm_n` of source line 665 does not overflow: for
every workload and configuration with a successful shape derivation, and for every
floating-point test that is accurate in the sense of `IsAccurateRatioTest` (the IEEE 754
evaluation `ieeeRatioTest` of `float(grid_size) / grid_size_max_blockwise_gemm > c` is,
and so is the exact rational test): if `IsFastToBeUsedForTuning` returns true then the
exact rational `R = ((gemm_m*gemm_n) / (GemmMPerBlock*GemmNPerBlock)) / G`, with
`G = (gemm_m*gemm_n) / max(gcd(256,gemm_m)*gcd(128,gemm_n),
gcd(128,gemm_m)*gcd(256,gemm_n))`, satisfies `R <= 2.81` if `G > 5*CU`, else
`R <= 3.61` if `G > 4*CU`, else `R <= 4.41` if `G > 3*CU`, else `R <= 6.41` if
`G > 2*CU`, else `R <= 12.41` if `G > CU`. The hypotheses are that `gemm_m*gemm_n` is
below `2 ^ 31` and that `5*CU` fits a `std::size_t`. -/
theorem IsFastToBeUsedForTuning_ratio_cap_without_overflow (ratio_gt : FloatRatioTest)
    (hacc : IsAccurateRatioTest ratio_gt)
    (t : PerformanceImplicitGemmWrwV4R4Xdlops_Padded_Gemm) (ctx : ConvolutionContext)
    (hfast : t.IsFastToBeUsedForTuning ratio_gt ctx = true)
    (hv : (t.CalculateGemmSizeAndGemmKBlock ctx).valid = true)
    (hov : (t.CalculateGemmSizeAndGemmKBlock ctx).gemm_m *
      (t.CalculateGemmSizeAndGemmKBlock ctx).gemm_n < 2 ^ 31)
    (hcu : 5 * ctx.GetMaxComputeUnits < 2 ^ 64)
    (G : Int) (R : Rat)
    (hG : G =
      ((t.CalculateGemmSizeAndGemmKBlock ctx).gemm_m *
        (t.CalculateGemmSizeAndGemmKBlock ctx).gemm_n).tdiv
        (max
          (gcd 256 (t.CalculateGemmSizeAndGemmKBlock ctx).gemm_m *
            gcd 128 (t.CalculateGemmSizeAndGemmKBlock ctx).gemm_n)
          (gcd 128 (t.CalculateGemmSizeAndGemmKBlock ctx).gemm_m *
            gcd 256 (t.CalculateGemmSizeAndGemmKBlock ctx).gemm_n)))
    (hR : R =
      ((((t.CalculateGemmSizeAndGemmKBlock ctx).gemm_m *
          (t.CalculateGemmSizeAndGemmKBlock ctx).gemm_n).tdiv
            (t.GemmMPerBlock * t.GemmNPerBlock) : Int) : Rat) / (G : Rat)) :
    (5 * (ctx.GetMaxComputeUnits : Int) < G → R ≤ 281 / 100) ∧
      (¬(5 * (ctx.GetMaxComputeUnits : Int) < G) → 4 * (ctx.GetMaxComputeUnits : Int) < G →
        R ≤ 361 / 100) ∧
      (¬(5 * (ctx.GetMaxComputeUnits : Int) < G) →
        ¬(4 * (ctx.GetMaxComputeUnits : Int) < G) → 3 * (ctx.GetMaxComputeUnits : Int) < G →
        R ≤ 441 / 100) ∧
      (¬(5 * (ctx.GetMaxComputeUnits : Int) < G) →
        ¬(4 * (ctx.GetMaxComputeUnits : Int) < G) →
        ¬(3 * (ctx.GetMaxComputeUnits : Int) < G) → 2 * (ctx.GetMaxComputeUnits : Int) < G →
        R ≤ 641 / 100) ∧
      (¬(5 * (ctx.GetMaxComputeUnits : Int) < G) →
        ¬(4 * (ctx.GetMaxComputeUnits : Int) < G) →
        ¬(3 * (ctx.GetMaxComputeUnits : Int) < G) →
        ¬(2 * (ctx.GetMaxComputeUnits : Int) < G) → (ctx.GetMaxComputeUnits : Int) < G →
        R ≤ 1241 / 100) := by
  obtain ⟨hdm, hdn⟩ := gemmSize_divisible_of_valid t ctx hv
  obtain ⟨-, hb, -⟩ := IsFastToBeUsedForTuning_of_true ratio_gt t ctx hfast _ _ rfl rfl
  generalize (t.CalculateGemmSizeAndGemmKBlock ctx).gemm_m = m at *
  generalize (t.CalculateGemmSizeAndGemmKBlock ctx).gemm_n = n at *
  obtain ⟨hP0, hP1, hPd⟩ := max_blockwise_gemm_size_facts m n
  have hcu0 : (0 : Int) ≤ (ctx.GetMaxComputeUnits : Int) := Int.natCast_nonneg _
  by_cases hmn : 0 < m * n
  swap
  · have hG0 : G ≤ 0 := by
      rw [hG]
      exact tdiv_nonpos_of_nonpos (not_lt.mp hmn) (le_of_lt hP0)
    refine ⟨?_, ?_, ?_, ?_, ?_⟩ <;> intros <;> omega
  have hRcap : ∀ c : Rat, 0 ≤ c → 0 < G → ¬(0 < t.GemmMPerBlock * t.GemmNPerBlock) →
      R ≤ c := by
    intro c hc hGpos hx
    have hg : (m * n).tdiv (t.GemmMPerBlock * t.GemmNPerBlock) ≤ 0 :=
      Int.tdiv_nonpos (le_of_lt hmn) (not_lt.mp hx)
    have hgq : (((m * n).tdiv (t.GemmMPerBlock * t.GemmNPerBlock) : Int) : Rat) ≤ 0 := by
      exact_mod_cast hg
    have hGq : (0 : Rat) < (G : Rat) := by exact_mod_cast hGpos
    rw [hR]
    exact le_trans (div_nonpos_of_nonpos_of_nonneg hgq (le_of_lt hGq)) hc
  by_cases hx : 0 < t.GemmMPerBlock * t.GemmNPerBlock
  swap
  · refine ⟨?_, ?_, ?_, ?_, ?_⟩ <;> intros <;>
      exact hRcap _ (by norm_num) (by omega) hx
  rw [to_int_of_range (le_trans (by norm_num) (le_of_lt hmn)) hov] at hb
  have hGn := grid_size_max_blockwise_gemm_eq hmn hov hP0 hP1
  obtain ⟨hGpos, hquot⟩ := grid_ratio_eq hmn hx hdm hdn hP0 hPd
  generalize ((to_size_t m * to_size_t n) % 2 ^ 64) /
    to_size_t (max (gcd 256 m * gcd 128 n) (gcd 128 m * gcd 256 n)) = Gn at hb hGn
  rw [← hG] at hGn hGpos hquot
  have hg0 : 0 ≤ (m * n).tdiv (t.GemmMPerBlock * t.GemmNPerBlock) :=
    Int.tdiv_nonneg (le_of_lt hmn) (le_of_lt hx)
  have hg1 : (m * n).tdiv (t.GemmMPerBlock * t.GemmNPerBlock) < 2 ^ 31 :=
    lt_of_le_of_lt (tdiv_le_self_of_nonneg (le_of_lt hmn) (le_of_lt hx)) hov
  have hGle : G ≤ m * n := by
    rw [hG]
    exact tdiv_le_self_of_nonneg (le_of_lt hmn) (le_of_lt hP0)
  have hGn0 : 0 < Gn := by omega
  have hGn1 : Gn < 2 ^ 64 := by omega
  have hGq : ((Gn : Nat) : Rat) = (G : Rat) := by
    rw [← hGn]
    push_cast
    rfl
  have hRle : ∀ (a : Int) (c : Rat), c = (a : Rat) / 100 → 100 ≤ a → a ≤ 1600 →
      ¬(ratio_gt ((m * n).tdiv (t.GemmMPerBlock * t.GemmNPerBlock)) Gn c = true) →
      R ≤ c := by
    intro a c hc h1 h2 hnot
    rw [hR, ← hGq]
    refine ratio_le_of_test_false hacc hc h1 h2 hg0 hg1 hGn0 hGn1 hx hP1 ?_ hnot
    rw [hGq]
    exact hquot
  have c5 : (5 * ctx.GetMaxComputeUnits) % 2 ^ 64 = 5 * ctx.GetMaxComputeUnits :=
    Nat.mod_eq_of_lt hcu
  have c4 : (4 * ctx.GetMaxComputeUnits) % 2 ^ 64 = 4 * ctx.GetMaxComputeUnits :=
    Nat.mod_eq_of_lt (by omega)
  have c3 : (3 * ctx.GetMaxComputeUnits) % 2 ^ 64 = 3 * ctx.GetMaxComputeUnits :=
    Nat.mod_eq_of_lt (by omega)
  have c2 : (2 * ctx.GetMaxComputeUnits) % 2 ^ 64 = 2 * ctx.GetMaxComputeUnits :=
    Nat.mod_eq_of_lt (by omega)
  rw [c5, c4, c3, c2] at hb
  refine ⟨?_, ?_, ?_, ?_, ?_⟩
  · intro h5
    rw [if_pos (by omega)] at hb
    exact hRle 281 _ (by norm_num) (by norm_num) (by norm_num) hb
  · intro n5 h4
    rw [if_neg (by omega), if_pos (by omega)] at hb
    exact hRle 361 _ (by norm_num) (by norm_num) (by norm_num) hb
  · intro n5 n4 h3
    rw [if_neg (by omega), if_neg (by omega), if_pos (by omega)] at hb
    exact hRle 441 _ (by norm_num) (by norm_num) (by norm_num) hb
  · intro n5 n4 n3 h2
    rw [if_neg (by omega), if_neg (by omega), if_neg (by omega), if_pos (by omega)] at hb
    exact hRle 641 _ (by norm_num) (by norm_num) (by norm_num) hb
  · intro n5 n4 n3 n2 h1
    rw [if_neg (by omega), if_neg (by omega), if_neg (by omega), if_neg (by omega),
      if_pos (by omega)] at hb
    exact hRle 1241 _ (by norm_num) (by norm_num) (by norm_num) hb

/-- An instance of the ratio cap without overflow: `scenarioA_1024` with the tile
`{128,128,8,64,64,4}` and the IEEE 754 evaluation of the floating-point test:
`gemm_m * gemm_n = 1024 * 9216`, the largest blockwise tile is `256 * 128`, so `G = 288`
lies between `4 * 60` and `5 * 60`, and the ratio `R = 576 / 288 = 2` is at most `3.61`. -/
theorem IsFastToBeUsedForTuning_ratio_cap_without_overflow_witness :
    tile_256_1x1_fast.IsFastToBeUsedForTuning ieeeRatioTest scenarioA_1024 = true ∧
      ((tile_256_1x1_fast.CalculateGemmSizeAndGemmKBlock scenarioA_1024).gemm_m *
        (tile_256_1x1_fast.CalculateGemmSizeAndGemmKBlock scenarioA_1024).gemm_n).tdiv
          (tile_256_1x1_fast.GemmMPerBlock * tile_256_1x1_fast.GemmNPerBlock) = 576 ∧
      (¬(5 * (scenarioA_1024.GetMaxComputeUnits : Int) < 288) ∧
        4 * (scenarioA_1024.GetMaxComputeUnits : Int) < 288) ∧
      (2 : Rat) ≤ 361 / 100 :=
  ⟨by set_option maxRecDepth 100000 in with_unfolding_all decide, by decide,
    ⟨by decide, by decide⟩,
    (IsFastToBeUsedForTuning_ratio_cap_without_overflow ieeeRatioTest ieeeRatioTest_accurate
      tile_256_1x1_fast scenarioA_1024
      (by set_option maxRecDepth 100000 in with_unfolding_all decide)
      (by decide) (by decide) (by decide)
      288 2 (by decide) (by with_unfolding_all decide)).2.1 (by decide) (by decide)⟩

/-- C27: for the fp32 workload `scenarioA_16384` (16384 output and input channels, 3x3
filter, 60 compute units) and the configuration `tile_64_32`, the shape derivation
succeeds with `gemm_m = 16384` and `gemm_n = 147456`, and `IsFastToBeUsedForTuning`
returns true, with the IEEE 754 evaluation of the floating-point test and with the exact
rational test. There `G = 2415919104 / 32768 = 73728` exceeds `5 * 60`, and the exact
ratio is `R = (2415919104 / 4096) / 73728 = 589824 / 73728 = 8`, above the cap `2.81` of
the bracket: the `int` product `gemm_m * gemm_n` of source line 665 wraps to
`-1879048192`, the grid size the source compares is `-458752`, and the ratio test passes.
The `std::size_t` product of line 673 does not wrap. -/
theorem IsFastToBeUsedForTuning_ratio_cap_fails_on_int_overflow :
    (tile_64_32.CalculateGemmSizeAndGemmKBlock scenarioA_16384).valid = true ∧
      (tile_64_32.CalculateGemmSizeAndGemmKBlock scenarioA_16384).gemm_m = 16384 ∧
      (tile_64_32.CalculateGemmSizeAndGemmKBlock scenarioA_16384).gemm_n = 147456 ∧
      tile_64_32.IsFastToBeUsedForTuning ieeeRatioTest scenarioA_16384 = true ∧
      tile_64_32.IsFastToBeUsedForTuning exactRatioTest scenarioA_16384 = true ∧
      (16384 * 147456 : Int).tdiv
        (max (gcd 256 16384 * gcd 128 147456) (gcd 128 16384 * gcd 256 147456)) = 73728 ∧
      5 * (scenarioA_16384.GetMaxComputeUnits : Int) < 73728 ∧
      (((16384 * 147456 : Int).tdiv (tile_64_32.GemmMPerBlock * tile_64_32.GemmNPerBlock) :
        Int) : Rat) / ((73728 : Int) : Rat) = 8 ∧
      ¬((8 : Rat) ≤ 281 / 100) ∧
      to_int (16384 * 147456) = -1879048192 ∧
      (to_int (16384 * 147456)).tdiv
        (tile_64_32.GemmMPerBlock * tile_64_32.GemmNPerBlock) = -458752 ∧
      ((to_size_t 16384 * to_size_t 147456) % 2 ^ 64) /
        to_size_t (max (gcd 256 16384 * gcd 128 147456) (gcd 128 16384 * gcd 256 147456)) =
          73728 := by
  refine ⟨by decide, by decide, by decide, ?_, ?_, by decide, by decide, ?_, ?_, by decide,
    by decide, by decide⟩
  · set_option maxRecDepth 100000 in with_unfolding_all decide
  · set_option maxRecDepth 100000 in with_unfolding_all decide
  · have h : (16384 * 147456 : Int).tdiv
        (tile_64_32.GemmMPerBlock * tile_64_32.GemmNPerBlock) = 589824 := by decide
    rw [h]
    norm_num
  · norm_num

/-! ## Shared lemmas on the candidates a descent evaluates -/

theorem heuristicDescentEvaluated_stop (KPackL KPackH : Int)
    (P : PerformanceImplicitGemmWrwV4R4Xdlops_Padded_Gemm → Bool) (fuel : Nat)
    (tmp : PerformanceImplicitGemmWrwV4R4Xdlops_Padded_Gemm)
    (evaluated : List PerformanceImplicitGemmWrwV4R4Xdlops_Padded_Gemm)
    (h : P (heuristicDescentStep KPackL KPackH tmp).1 = true ∨
      (heuristicDescentStep KPackL KPackH tmp).2 = true) :
    heuristicDescentEvaluated KPackL KPackH P (fuel + 1) tmp evaluated =
      some (evaluated.reverse ++ [(heuristicDescentStep KPackL KPackH tmp).1]) := by
  rw [heuristicDescentEvaluated]
  by_cases hP : P (heuristicDescentStep KPackL KPackH tmp).1 = true
  · rw [if_pos hP, List.reverse_cons]
  · rw [if_neg hP]
    have hall : (heuristicDescentStep KPackL KPackH tmp).2 = true := by
      rcases h with h | h
      · exact absurd h hP
      · exact h
    rw [if_pos (not_not.mpr hall), List.reverse_cons]

theorem heuristicDescentEvaluated_continue (KPackL KPackH : Int)
    (P : PerformanceImplicitGemmWrwV4R4Xdlops_Padded_Gemm → Bool) (fuel : Nat)
    (tmp : PerformanceImplicitGemmWrwV4R4Xdlops_Padded_Gemm)
    (evaluated : List PerformanceImplicitGemmWrwV4R4Xdlops_Padded_Gemm)
    (hP : P (heuristicDescentStep KPackL KPackH tmp).1 = false)
    (hall : (heuristicDescentStep KPackL KPackH tmp).2 = false) :
    heuristicDescentEvaluated KPackL KPackH P (fuel + 1) tmp evaluated =
      heuristicDescentEvaluated KPackL KPackH P fuel
        (heuristicDescentStep KPackL KPackH tmp).1
        ((heuristicDescentStep KPackL KPackH tmp).1 :: evaluated) := by
  rw [heuristicDescentEvaluated]
  rw [if_neg (by simp [hP]), if_neg (by simp [hall])]

theorem heuristicCandidate_range_succ (KPackL KPackH : Int) (k : Nat)
    (tmp : PerformanceImplicitGemmWrwV4R4Xdlops_Padded_Gemm) :
    (List.range (k + 1 + 1)).map (fun j => heuristicCandidate KPackL KPackH j tmp) =
      (heuristicDescentStep KPackL KPackH tmp).1 ::
        (List.range (k + 1)).map
          (fun j =>
            heuristicCandidate KPackL KPackH j (heuristicDescentStep KPackL KPackH tmp).1) := by
  rw [List.range_succ_eq_map, List.map_cons, List.map_map]
  rfl

theorem heuristicDescentEvaluated_spec {ctx : ConvolutionContext} {KPackL KPackH : Int}
    {count : Nat} (hK : IsHeuristicKPackRange ctx KPackL KPackH count)
    (P : PerformanceImplicitGemmWrwV4R4Xdlops_Padded_Gemm → Bool) (i : Nat) :
    ∀ (tmp : PerformanceImplicitGemmWrwV4R4Xdlops_Padded_Gemm) (fuel : Nat)
      (evaluated : List PerformanceImplicitGemmWrwV4R4Xdlops_Padded_Gemm),
      InDescentLattice KPackL KPackH tmp → descentIndex KPackL count tmp = i → i < fuel →
      ∃ k : Nat, k ≤ i ∧
        heuristicDescentEvaluated KPackL KPackH P fuel tmp evaluated =
          some (evaluated.reverse ++
            (List.range (k + 1)).map (fun j => heuristicCandidate KPackL KPackH j tmp)) ∧
        heuristicDescentLoop KPackL KPackH P fuel tmp =
          some (heuristicCandidate KPackL KPackH k tmp) ∧
        (∀ j : Nat, j < k → P (heuristicCandidate KPackL KPackH j tmp) = false) ∧
        (P (heuristicCandidate KPackL KPackH k tmp) = true ∨ k = i) := by
  induction i with
  | zero =>
    intro tmp fuel evaluated ht hi hfuel
    obtain ⟨f, rfl⟩ : ∃ f, fuel = f + 1 := ⟨fuel - 1, by omega⟩
    have hs := (descentIndex_step hK tmp ht).2.2 hi
    refine ⟨0, le_refl _, ?_, ?_, fun j hj => absurd hj (Nat.not_lt_zero j), Or.inr rfl⟩
    · rw [heuristicDescentEvaluated_stop KPackL KPackH P f tmp evaluated
        (Or.inr (by rw [hs]))]
      rfl
    · rw [heuristicDescentLoop_stop KPackL KPackH P f tmp (Or.inr (by rw [hs]))]
      rfl
  | succ i ih =>
    intro tmp fuel evaluated ht hi hfuel
    obtain ⟨f, rfl⟩ : ∃ f, fuel = f + 1 := ⟨fuel - 1, by omega⟩
    obtain ⟨hall, hl, hidx⟩ := (descentIndex_step hK tmp ht).2.1 (by omega)
    have hidx' : descentIndex KPackL count (heuristicDescentStep KPackL KPackH tmp).1 = i := by
      omega
    by_cases hP : P (heuristicDescentStep KPackL KPackH tmp).1 = true
    · refine ⟨0, Nat.zero_le _, ?_, ?_, fun j hj => absurd hj (Nat.not_lt_zero j),
        Or.inl hP⟩
      · rw [heuristicDescentEvaluated_stop KPackL KPackH P f tmp evaluated (Or.inl hP)]
        rfl
      · rw [heuristicDescentLoop_stop KPackL KPackH P f tmp (Or.inl hP)]
        rfl
    · simp only [Bool.not_eq_true] at hP
      obtain ⟨k, hk, hev, hloop, hbefore, hlast⟩ :=
        ih _ f ((heuristicDescentStep KPackL KPackH tmp).1 :: evaluated) hl hidx' (by omega)
      refine ⟨k + 1, by omega, ?_, ?_, ?_, ?_⟩
      · rw [heuristicDescentEvaluated_continue KPackL KPackH P f tmp evaluated hP hall, hev,
          heuristicCandidate_range_succ, List.reverse_cons, List.append_assoc,
          List.singleton_append]
      · rw [heuristicDescentLoop_continue KPackL KPackH P f tmp hP hall, hloop]
        rfl
      · intro j hj
        cases j with
        | zero => exact hP
        | succ j => exact hbefore j (by omega)
      · rcases hlast with h | h
        · exact Or.inl h
        · exact Or.inr (by omega)

theorem get_euristic_config_evaluated_eq {ctx : ConvolutionContext} {KPackL KPackH : Int}
    {count : Nat} (hK : IsHeuristicKPackRange ctx KPackL KPackH count) (fuel : Nat)
    (P : PerformanceImplicitGemmWrwV4R4Xdlops_Padded_Gemm → Bool) :
    get_euristic_config_evaluated fuel ctx P =
      heuristicDescentEvaluated KPackL KPackH P fuel (heuristicSeed KPackH) [] := by
  rcases hK with ⟨h, rfl, rfl, rfl⟩ | ⟨h, rfl, rfl, rfl⟩ | ⟨h, rfl, rfl, rfl⟩ <;>
    simp [get_euristic_config_evaluated, ConvolutionContext.IsFp32,
      ConvolutionContext.IsFp16, ConvolutionContext.IsBfp16, h]

theorem heuristicCandidate_injective {ctx : ConvolutionContext} {KPackL KPackH : Int}
    {count : Nat} (hK : IsHeuristicKPackRange ctx KPackL KPackH count) (j1 j2 : Nat)
    (h1 : j1 < 7056 * count) (h2 : j2 < 7056 * count)
    (h : heuristicCandidate KPackL KPackH j1 (heuristicSeed KPackH) =
      heuristicCandidate KPackL KPackH j2 (heuristicSeed KPackH)) : j1 = j2 := by
  obtain ⟨-, hsi⟩ := heuristicSeed_lattice hK
  obtain ⟨-, hidx, hlast, -⟩ := heuristicCandidate_enumerates hK
  have key : ∀ j : Nat, j < 7056 * count →
      descentIndex KPackL count (heuristicCandidate KPackL KPackH j (heuristicSeed KPackH)) =
        if j + 1 < 7056 * count then 7056 * count - 2 - j else 7056 * count - 1 := by
    intro j hj
    by_cases hj' : j + 1 < 7056 * count
    · rw [if_pos hj']
      have := hidx j hj'
      omega
    · rw [if_neg hj']
      have : j = 7056 * count - 1 := by omega
      rw [this, hlast]
      omega
  have e1 := key j1 h1
  have e2 := key j2 h2
  rw [h, e2] at e1
  split_ifs at e1 <;> omega

theorem heuristicCandidate_list_facts {ctx : ConvolutionContext} {KPackL KPackH : Int}
    {count : Nat} (hK : IsHeuristicKPackRange ctx KPackL KPackH count) :
    ((List.range (7056 * count)).map
        (fun j => heuristicCandidate KPackL KPackH j (heuristicSeed KPackH))).Nodup ∧
      ∀ u, u ∈ (List.range (7056 * count)).map
          (fun j => heuristicCandidate KPackL KPackH j (heuristicSeed KPackH)) ↔
        InDescentLattice KPackL KPackH u := by
  obtain ⟨hlat, -, -, hall⟩ := heuristicCandidate_enumerates hK
  constructor
  · refine List.Nodup.map_on ?_ (List.nodup_range _)
    intro x hx y hy hxy
    exact heuristicCandidate_injective hK x y (List.mem_range.mp hx) (List.mem_range.mp hy) hxy
  · intro u
    rw [List.mem_map]
    constructor
    · rintro ⟨j, hj, rfl⟩
      exact hlat j (List.mem_range.mp hj)
    · intro hu
      obtain ⟨j, hj, hju⟩ := hall u hu
      exact ⟨j, List.mem_range.mpr hj, hju⟩

/-! ## The claim on the termination of `HeuristicInit` -/

/-- C31: `HeuristicInit` terminates for every fp32, fp16 or bfp16 workload, whatever the
validity predicates answer: for every matrix-core predicate, every floating-point test and
every prior receiver an iteration budget of 21168 per descent is enough for a result. The
descent lattice of the datatype has `7056 * count` points, which is `7*7*6*6*4*3 = 21168`
for fp32 and bfp16 and `7*7*6*6*4*2 = 14112` for fp16. Every descent (a call of
`get_euristic_config` with any predicate `is_valid_func`, so each of the two passes)
evaluates at most that many candidates and ends with the last candidate it evaluated; when
no evaluated candidate passes, it evaluates exactly that many candidates, no candidate
twice, and the candidates it evaluates are exactly the points of the lattice. -/
theorem HeuristicInit_terminates_within_lattice_size (xdlops : BlockwiseGemmXdlopsCheck)
    (ratio_gt : FloatRatioTest) (fuel : Nat)
    (self : PerformanceImplicitGemmWrwV4R4Xdlops_Padded_Gemm) (ctx : ConvolutionContext)
    (KPackL KPackH : Int) (count : Nat)
    (hK : IsHeuristicKPackRange ctx KPackL KPackH count) (hfuel : 21168 ≤ fuel) :
    (∃ r, HeuristicInit xdlops ratio_gt fuel self ctx = some r) ∧
      (ctx.dataType = DataType.fp32 ∨ ctx.dataType = DataType.bfp16 →
        7056 * count = 7 * 7 * 6 * 6 * 4 * 3 ∧ 7056 * count = 21168) ∧
      (ctx.dataType = DataType.fp16 →
        7056 * count = 7 * 7 * 6 * 6 * 4 * 2 ∧ 7056 * count = 14112) ∧
      ∀ (is_valid_func : PerformanceImplicitGemmWrwV4R4Xdlops_Padded_Gemm → Bool)
        (tmp : PerformanceImplicitGemmWrwV4R4Xdlops_Padded_Gemm),
        ∃ evaluated r,
          get_euristic_config_evaluated fuel ctx is_valid_func = some evaluated ∧
          get_euristic_config fuel ctx is_valid_func tmp = some r ∧
          evaluated.getLast? = some r ∧
          evaluated.length ≤ 7056 * count ∧
          ((∀ u, u ∈ evaluated → is_valid_func u = false) →
            evaluated.length = 7056 * count ∧ evaluated.Nodup ∧
              ∀ u, u ∈ evaluated ↔ InDescentLattice KPackL KPackH u) := by
  obtain ⟨hcount, -, -, -⟩ := heuristicRange_facts hK
  have hfuel' : 7056 * count ≤ fuel := by rcases hcount with rfl | rfl <;> omega
  refine ⟨?_, ?_, ?_, ?_⟩
  · obtain ⟨r1, -, h1, -⟩ := get_euristic_config_result hK
      (fun config => config.IsReallyValid xdlops ctx &&
        config.IsFastToBeUsedForTuning ratio_gt ctx) fuel hfuel' defaultConfig
    rw [HeuristicInit_eq xdlops ratio_gt fuel self r1 h1]
    by_cases hv : r1.IsReallyValid xdlops ctx = true
    · exact ⟨r1, by rw [if_neg (not_not.mpr hv)]⟩
    · obtain ⟨r2, -, h2, -⟩ := get_euristic_config_result hK
        (fun config => config.IsReallyValid xdlops ctx) fuel hfuel' r1
      exact ⟨r2, by rw [if_pos hv, h2]⟩
  · intro hd
    rcases hK with ⟨h, -, -, rfl⟩ | ⟨h, -, -, rfl⟩ | ⟨h, -, -, rfl⟩
    · exact ⟨rfl, rfl⟩
    · rcases hd with hd | hd <;> rw [h] at hd <;> exact absurd hd (by decide)
    · exact ⟨rfl, rfl⟩
  · intro hd
    rcases hK with ⟨h, -, -, rfl⟩ | ⟨h, -, -, rfl⟩ | ⟨h, -, -, rfl⟩
    · rw [h] at hd
      exact absurd hd (by decide)
    · exact ⟨rfl, rfl⟩
    · rw [h] at hd
      exact absurd hd (by decide)
  · intro P tmp
    obtain ⟨hsl, hsi⟩ := heuristicSeed_lattice hK
    obtain ⟨k, hk, hev, hloop, -, hlast⟩ := heuristicDescentEvaluated_spec hK P
      (descentIndex KPackL count (heuristicSeed KPackH)) (heuristicSeed KPackH) fuel [] hsl
      rfl (by omega)
    rw [List.reverse_nil, List.nil_append] at hev
    refine ⟨(List.range (k + 1)).map
        (fun j => heuristicCandidate KPackL KPackH j (heuristicSeed KPackH)),
      heuristicCandidate KPackL KPackH k (heuristicSeed KPackH), ?_, ?_, ?_, ?_, ?_⟩
    · rw [get_euristic_config_evaluated_eq hK]
      exact hev
    · rw [get_euristic_config_eq hK]
      exact hloop
    · rw [List.range_succ, List.map_append, List.map_singleton, List.getLast?_concat]
    · rw [List.length_map, List.length_range]
      omega
    · intro hnone
      have hk' : k + 1 = 7056 * count := by
        rcases hlast with h | h
        · have hm : heuristicCandidate KPackL KPackH k (heuristicSeed KPackH) ∈
              (List.range (k + 1)).map
                (fun j => heuristicCandidate KPackL KPackH j (heuristicSeed KPackH)) :=
            List.mem_map.mpr ⟨k, List.mem_range.mpr (by omega), rfl⟩
          rw [hnone _ hm] at h
          exact absurd h (by decide)
        · omega
      rw [hk']
      obtain ⟨hnd, hmem⟩ := heuristicCandidate_list_facts hK
      exact ⟨by rw [List.length_map, List.length_range], hnd, hmem⟩

/-- Witness of C31: Scenario A with a matrix-core predicate that rejects every tile, so
that no candidate passes in either pass: `HeuristicInit` produces a result, and a descent
with the predicate `IsReallyValid` evaluates 21168 candidates, no candidate twice. -/
theorem HeuristicInit_terminates_within_lattice_size_witness :
    (IsHeuristicKPackRange scenarioA 1 4 3 ∧ 21168 ≤ 21168) ∧
      (∃ r, HeuristicInit xdlopsRejectAll exactRatioTest 21168 defaultConfig scenarioA =
        some r) ∧
      ∃ evaluated,
        get_euristic_config_evaluated 21168 scenarioA
            (fun config => config.IsReallyValid xdlopsRejectAll scenarioA) = some evaluated ∧
          evaluated.length = 21168 ∧ evaluated.Nodup :=
  ⟨⟨Or.inl ⟨rfl, rfl, rfl, rfl⟩, le_refl _⟩,
    (HeuristicInit_terminates_within_lattice_size xdlopsRejectAll exactRatioTest 21168
      defaultConfig scenarioA 1 4 3 (Or.inl ⟨rfl, rfl, rfl, rfl⟩) (le_refl _)).1,
    (fun h => ⟨h.choose, h.choose_spec.choose_spec.1,
        (h.choose_spec.choose_spec.2.2.2.2
          (fun u _ => IsReallyValid_xdlopsRejectAll u scenarioA)).1,
        (h.choose_spec.choose_spec.2.2.2.2
          (fun u _ => IsReallyValid_xdlopsRejectAll u scenarioA)).2.1⟩)
      ((HeuristicInit_terminates_within_lattice_size xdlopsRejectAll exactRatioTest 21168
        defaultConfig scenarioA 1 4 3 (Or.inl ⟨rfl, rfl, rfl, rfl⟩) (le_refl _)).2.2.2
        (fun config => config.IsReallyValid xdlopsRejectAll scenarioA) defaultConfig)⟩

/-! ## The claim on the configuration that `HeuristicInit` leaves -/

theorem HeuristicInit_result_lattice {ctx : ConvolutionContext} {KPackL KPackH : Int}
    {count : Nat} (hK : IsHeuristicKPackRange ctx KPackL KPackH count)
    (xdlops : BlockwiseGemmXdlopsCheck) (ratio_gt : FloatRatioTest) (fuel : Nat)
    (hfuel : 21168 ≤ fuel) (self : PerformanceImplicitGemmWrwV4R4Xdlops_Padded_Gemm) :
    ∃ r, HeuristicInit xdlops ratio_gt fuel self ctx = some r ∧
      InDescentLattice KPackL KPackH r := by
  obtain ⟨hcount, -, -, -⟩ := heuristicRange_facts hK
  have hfuel' : 7056 * count ≤ fuel := by rcases hcount with rfl | rfl <;> omega
  obtain ⟨hlat, -, -, -⟩ := heuristicCandidate_enumerates hK
  obtain ⟨r1, k1, h1, hk1, hr1, -⟩ := get_euristic_config_result hK
    (fun config => config.IsReallyValid xdlops ctx &&
      config.IsFastToBeUsedForTuning ratio_gt ctx) fuel hfuel' defaultConfig
  rw [HeuristicInit_eq xdlops ratio_gt fuel self r1 h1]
  by_cases hv : r1.IsReallyValid xdlops ctx = true
  · refine ⟨r1, by rw [if_neg (not_not.mpr hv)], ?_⟩
    rw [hr1]
    exact hlat k1 hk1
  · obtain ⟨r2, k2, h2, hk2, hr2, -⟩ := get_euristic_config_result hK
      (fun config => config.IsReallyValid xdlops ctx) fuel hfuel' r1
    refine ⟨r2, by rw [if_pos hv, h2], ?_⟩
    rw [hr2]
    exact hlat k2 hk2

/-- C32: for every fp32, fp16 or bfp16 workload, every matrix-core predicate, every
floating-point test, every iteration budget of at least 21168 and every prior state `self`
of the receiver, `HeuristicInit` leaves a configuration `r` that satisfies `IsValidValue`,
has `GemmMFactor = 16`, `GemmNFactor = 64`, `GemmKTotalFactor = 16`,
`GemmAThreadCopyMoreGemmK = false` and `GemmBThreadCopyMoreGemmK = true`, and whose
`GemmKPack` lies in the descent range of the datatype: `{1, 2, 4}` for fp32, `{4, 8}` for
fp16 and `{2, 4, 8}` for bfp16. The result does not depend on the prior state: every
other prior state `other` leads to the same `r`. -/
theorem HeuristicInit_result_in_descent_range (xdlops : BlockwiseGemmXdlopsCheck)
    (ratio_gt : FloatRatioTest) (fuel : Nat)
    (self : PerformanceImplicitGemmWrwV4R4Xdlops_Padded_Gemm) (ctx : ConvolutionContext)
    (hd : ctx.dataType = DataType.fp32 ∨ ctx.dataType = DataType.fp16 ∨
      ctx.dataType = DataType.bfp16)
    (hfuel : 21168 ≤ fuel) :
    ∃ r, HeuristicInit xdlops ratio_gt fuel self ctx = some r ∧
      r.IsValidValue = true ∧
      r.GemmMFactor = 16 ∧ r.GemmNFactor = 64 ∧ r.GemmKTotalFactor = 16 ∧
      r.GemmAThreadCopyMoreGemmK = false ∧ r.GemmBThreadCopyMoreGemmK = true ∧
      (ctx.dataType = DataType.fp32 → r.GemmKPack = 1 ∨ r.GemmKPack = 2 ∨ r.GemmKPack = 4) ∧
      (ctx.dataType = DataType.fp16 → r.GemmKPack = 4 ∨ r.GemmKPack = 8) ∧
      (ctx.dataType = DataType.bfp16 →
        r.GemmKPack = 2 ∨ r.GemmKPack = 4 ∨ r.GemmKPack = 8) ∧
      ∀ other : PerformanceImplicitGemmWrwV4R4Xdlops_Padded_Gemm,
        HeuristicInit xdlops ratio_gt fuel other ctx = some r := by
  have key : ∀ (KPackL KPackH : Int) (count : Nat),
      IsHeuristicKPackRange ctx KPackL KPackH count →
      ∃ r, HeuristicInit xdlops ratio_gt fuel self ctx = some r ∧
        r.IsValidValue = true ∧
        r.GemmMFactor = 16 ∧ r.GemmNFactor = 64 ∧ r.GemmKTotalFactor = 16 ∧
        r.GemmAThreadCopyMoreGemmK = false ∧ r.GemmBThreadCopyMoreGemmK = true ∧
        ((r.GemmKPack = 1 ∨ r.GemmKPack = 2 ∨ r.GemmKPack = 4 ∨ r.GemmKPack = 8) ∧
          KPackL ≤ r.GemmKPack ∧ r.GemmKPack ≤ KPackH) ∧
        ∀ other : PerformanceImplicitGemmWrwV4R4Xdlops_Padded_Gemm,
          HeuristicInit xdlops ratio_gt fuel other ctx = some r := by
    intro KPackL KPackH count hK
    obtain ⟨r, hr, hmb, hnb, hkb, hmw, hnw, hkp, f1, f2, f3, f4, f5⟩ :=
      HeuristicInit_result_lattice hK xdlops ratio_gt fuel hfuel self
    obtain ⟨-, -, -, kpf⟩ := heuristicRange_facts hK
    have hkp8 : IsTwoPower 1 8 r.GemmKPack = true := (kpf _ hkp).2.2.2.2
    obtain ⟨hv, h1, h2⟩ := IsTwoPower_values hkp
    obtain ⟨-, -, h8⟩ := IsTwoPower_values hkp8
    refine ⟨r, hr, (IsValidValue_iff r).mpr ⟨hmb, hnb, hkb, hmw, hnw, hkp8⟩, f1, f2, f3, f4,
      f5, ⟨by omega, h1, h2⟩, fun other => ?_⟩
    rw [← hr]
    rfl
  rcases hd with hd | hd | hd
  · obtain ⟨r, hr, hv, f1, f2, f3, f4, f5, ⟨hk, hl, hh⟩, hind⟩ :=
      key 1 4 3 (Or.inl ⟨hd, rfl, rfl, rfl⟩)
    refine ⟨r, hr, hv, f1, f2, f3, f4, f5, fun _ => by omega, fun h => ?_, fun h => ?_, hind⟩
    · rw [hd] at h
      exact absurd h (by decide)
    · rw [hd] at h
      exact absurd h (by decide)
  · obtain ⟨r, hr, hv, f1, f2, f3, f4, f5, ⟨hk, hl, hh⟩, hind⟩ :=
      key 4 8 2 (Or.inr (Or.inl ⟨hd, rfl, rfl, rfl⟩))
    refine ⟨r, hr, hv, f1, f2, f3, f4, f5, fun h => ?_, fun _ => by omega, fun h => ?_, hind⟩
    · rw [hd] at h
      exact absurd h (by decide)
    · rw [hd] at h
      exact absurd h (by decide)
  · obtain ⟨r, hr, hv, f1, f2, f3, f4, f5, ⟨hk, hl, hh⟩, hind⟩ :=
      key 2 8 3 (Or.inr (Or.inr ⟨hd, rfl, rfl, rfl⟩))
    refine ⟨r, hr, hv, f1, f2, f3, f4, f5, fun h => ?_, fun h => ?_, fun _ => by omega, hind⟩
    · rw [hd] at h
      exact absurd h (by decide)
    · rw [hd] at h
      exact absurd h (by decide)

/-- Witness of C32: Scenario A (fp32) with a matrix-core predicate that accepts every
tile, from the default configuration as prior state. -/
theorem HeuristicInit_result_in_descent_range_witness :
    (scenarioA.dataType = DataType.fp32 ∧ 21168 ≤ 21168) ∧
      ∃ r, HeuristicInit xdlopsAcceptAll exactRatioTest 21168 defaultConfig scenarioA =
          some r ∧
        r.IsValidValue = true ∧
        r.GemmMFactor = 16 ∧ r.GemmNFactor = 64 ∧ r.GemmKTotalFactor = 16 ∧
        r.GemmAThreadCopyMoreGemmK = false ∧ r.GemmBThreadCopyMoreGemmK = true ∧
        (scenarioA.dataType = DataType.fp32 →
          r.GemmKPack = 1 ∨ r.GemmKPack = 2 ∨ r.GemmKPack = 4) ∧
        (scenarioA.dataType = DataType.fp16 → r.GemmKPack = 4 ∨ r.GemmKPack = 8) ∧
        (scenarioA.dataType = DataType.bfp16 →
          r.GemmKPack = 2 ∨ r.GemmKPack = 4 ∨ r.GemmKPack = 8) ∧
        ∀ other : PerformanceImplicitGemmWrwV4R4Xdlops_Padded_Gemm,
          HeuristicInit xdlopsAcceptAll exactRatioTest 21168 other scenarioA = some r :=
  ⟨⟨rfl, le_refl _⟩,
    HeuristicInit_result_in_descent_range xdlopsAcceptAll exactRatioTest 21168 defaultConfig
      scenarioA (Or.inl rfl) (le_refl _)⟩

/-! ## The claim on the exact tiling of a block by the block copy -/

theorem lcm_tdiv_mul_cancel (d s : Int) : (lcm d s).tdiv s * s = lcm d s := by
  unfold lcm
  exact Int.tdiv_mul_cancel (Int.dvd_lcm_right)

theorem gcd_mul_tdiv_cancel (X tmp : Int) : gcd X tmp * tmp.tdiv (gcd X tmp) = tmp := by
  rw [mul_comm]
  exact Int.tdiv_mul_cancel (gcd_dvd_snd X tmp)

theorem cluster_tiling_identity {K MN KPack gk gmn src tmp copy : Int}
    (hk : K.tmod gk = 0) (hmn : MN.tmod gmn = 0) (hp : KPack.tmod src = 0)
    (hsplit : gk * gmn = tmp) (hcopy : tmp * src = copy) :
    K.tdiv gk * MN.tdiv gmn * KPack.tdiv src * copy = K * MN * KPack := by
  have e1 : K.tdiv gk * gk = K := Int.tdiv_mul_cancel (Int.dvd_of_tmod_eq_zero hk)
  have e2 : MN.tdiv gmn * gmn = MN := Int.tdiv_mul_cancel (Int.dvd_of_tmod_eq_zero hmn)
  have e3 : KPack.tdiv src * src = KPack := Int.tdiv_mul_cancel (Int.dvd_of_tmod_eq_zero hp)
  rw [← hcopy, ← hsplit]
  calc K.tdiv gk * MN.tdiv gmn * KPack.tdiv src * (gk * gmn * src)
      = (K.tdiv gk * gk) * (MN.tdiv gmn * gmn) * (KPack.tdiv src * src) := by ring
    _ = K * MN * KPack := by rw [e1, e2, e3]

theorem GemmA_split (t : PerformanceImplicitGemmWrwV4R4Xdlops_Padded_Gemm)
    (ctx : ConvolutionContext) :
    t.GemmA_data_per_thread_copy_gemmk ctx * t.GemmA_data_per_thread_copy_gemmm ctx =
      t.GemmA_tmp ctx := by
  unfold GemmA_data_per_thread_copy_gemmk GemmA_data_per_thread_copy_gemmm
  split_ifs
  · exact gcd_mul_tdiv_cancel _ _
  · rw [mul_comm]
    exact gcd_mul_tdiv_cancel _ _

theorem GemmB_split (t : PerformanceImplicitGemmWrwV4R4Xdlops_Padded_Gemm)
    (ctx : ConvolutionContext) :
    t.GemmB_data_per_thread_copy_gemmk ctx * t.GemmB_data_per_thread_copy_gemmn ctx =
      t.GemmB_tmp ctx := by
  unfold GemmB_data_per_thread_copy_gemmk GemmB_data_per_thread_copy_gemmn
  split_ifs
  · exact gcd_mul_tdiv_cancel _ _
  · rw [mul_comm]
    exact gcd_mul_tdiv_cancel _ _

/-- C33: whenever a block-copy parameter function succeeds, the thread clusters and the
per-thread copy count tile the block exactly, and the vector lengths nest. For operand A,
`ClusterLengths_GemmK * ClusterLengths_GemmM * ClusterLengths_GemmKPack * perThreadCopy =
GemmKPerBlock * GemmMPerBlock * GemmKPack`, where `perThreadCopy =
lcm(max(1, GemmKPerBlock * GemmMPerBlock * GemmKPack / block_size),
SrcDataPerRead_GemmKPack)`, and `perThreadCopy` is the product of the three per-thread
counts; `DstDataPerWrite_GemmKPack` divides `SrcDataPerRead_GemmKPack`, which divides
`GemmKPack`. For operand B the same holds with `GemmNPerBlock` and
`ClusterLengths_GemmN`. -/
theorem block_copy_tiles_block_exactly
    (t : PerformanceImplicitGemmWrwV4R4Xdlops_Padded_Gemm) (ctx : ConvolutionContext) :
    ((t.CalculateGemmABlockCopyPerformanceParameters ctx).valid = true →
        (t.CalculateGemmABlockCopyPerformanceParameters ctx).ClusterLengths_GemmK *
              (t.CalculateGemmABlockCopyPerformanceParameters ctx).ClusterLengths_GemmMN *
              (t.CalculateGemmABlockCopyPerformanceParameters ctx).ClusterLengths_GemmKPack *
              lcm
                (max 1 ((t.GemmKPerBlock * t.GemmMPerBlock * t.GemmKPack).tdiv
                  t.CalculateBlockSize.1))
                (t.CalculateGemmABlockCopyPerformanceParameters ctx).SrcDataPerRead_GemmKPack =
            t.GemmKPerBlock * t.GemmMPerBlock * t.GemmKPack ∧
          lcm
              (max 1 ((t.GemmKPerBlock * t.GemmMPerBlock * t.GemmKPack).tdiv
                t.CalculateBlockSize.1))
              (t.CalculateGemmABlockCopyPerformanceParameters ctx).SrcDataPerRead_GemmKPack =
            t.GemmA_data_per_thread_copy_gemmk ctx * t.GemmA_data_per_thread_copy_gemmm ctx *
              (t.CalculateGemmABlockCopyPerformanceParameters ctx).SrcDataPerRead_GemmKPack ∧
          (t.CalculateGemmABlockCopyPerformanceParameters ctx).DstDataPerWrite_GemmKPack ∣
            (t.CalculateGemmABlockCopyPerformanceParameters ctx).SrcDataPerRead_GemmKPack ∧
          (t.CalculateGemmABlockCopyPerformanceParameters ctx).SrcDataPerRead_GemmKPack ∣
            t.GemmKPack) ∧
      ((t.CalculateGemmBBlockCopyPerformanceParameters ctx).valid = true →
        (t.CalculateGemmBBlockCopyPerformanceParameters ctx).ClusterLengths_GemmK *
              (t.CalculateGemmBBlockCopyPerformanceParameters ctx).ClusterLengths_GemmMN *
              (t.CalculateGemmBBlockCopyPerformanceParameters ctx).ClusterLengths_GemmKPack *
              lcm
                (max 1 ((t.GemmKPerBlock * t.GemmNPerBlock * t.GemmKPack).tdiv
                  t.CalculateBlockSize.1))
                (t.CalculateGemmBBlockCopyPerformanceParameters ctx).SrcDataPerRead_GemmKPack =
            t.GemmKPerBlock * t.GemmNPerBlock * t.GemmKPack ∧
          lcm
              (max 1 ((t.GemmKPerBlock * t.GemmNPerBlock * t.GemmKPack).tdiv
                t.CalculateBlockSize.1))
              (t.CalculateGemmBBlockCopyPerformanceParameters ctx).SrcDataPerRead_GemmKPack =
            t.GemmB_data_per_thread_copy_gemmk ctx * t.GemmB_data_per_thread_copy_gemmn ctx *
              (t.CalculateGemmBBlockCopyPerformanceParameters ctx).SrcDataPerRead_GemmKPack ∧
          (t.CalculateGemmBBlockCopyPerformanceParameters ctx).DstDataPerWrite_GemmKPack ∣
            (t.CalculateGemmBBlockCopyPerformanceParameters ctx).SrcDataPerRead_GemmKPack ∧
          (t.CalculateGemmBBlockCopyPerformanceParameters ctx).SrcDataPerRead_GemmKPack ∣
            t.GemmKPack) := by
  constructor
  · intro h
    obtain ⟨-, -, -, ⟨hk, hm, hp⟩, -, -⟩ := (blockCopyA_valid_iff t ctx).mp h
    rw [blockCopyA_of_valid t ctx h]
    simp only []
    have hcopy : t.GemmA_tmp ctx * t.GemmA_SrcDataPerRead_GemmKPack ctx =
        lcm (max 1 ((t.GemmKPerBlock * t.GemmMPerBlock * t.GemmKPack).tdiv
          t.CalculateBlockSize.1)) (t.GemmA_SrcDataPerRead_GemmKPack ctx) :=
      lcm_tdiv_mul_cancel _ _
    refine ⟨cluster_tiling_identity hk hm hp (GemmA_split t ctx) hcopy, ?_, gcd_dvd_snd _ _,
      Int.dvd_of_tmod_eq_zero hp⟩
    rw [GemmA_split, hcopy]
  · intro h
    obtain ⟨-, -, ⟨hk, hn, hp⟩, -, -⟩ := (blockCopyB_valid_iff t ctx).mp h
    rw [blockCopyB_of_valid t ctx h]
    simp only []
    have hcopy : t.GemmB_tmp ctx * t.GemmB_SrcDataPerRead_GemmKPack ctx =
        lcm (max 1 ((t.GemmKPerBlock * t.GemmNPerBlock * t.GemmKPack).tdiv
          t.CalculateBlockSize.1)) (t.GemmB_SrcDataPerRead_GemmKPack ctx) :=
      lcm_tdiv_mul_cancel _ _
    refine ⟨cluster_tiling_identity hk hn hp (GemmB_split t ctx) hcopy, ?_, gcd_dvd_snd _ _,
      Int.dvd_of_tmod_eq_zero hp⟩
    rw [GemmB_split, hcopy]

/-- Witness of C33: Scenario A with `tileA_fast` (block size 128, 2048 elements per tile
and operand): operand A succeeds with the cluster lengths 8, 16, 1 and the source vector
length 4, operand B with 1, 64, 2 and the source vector length 2; in both cases the
per-thread copy count is 16 and `128 * 16 = 2048`. -/
theorem block_copy_tiles_block_exactly_witness :
    (tileA_fast.CalculateGemmABlockCopyPerformanceParameters scenarioA =
          ⟨8, 16, 1, 4, 4, true⟩ ∧
        tileA_fast.CalculateGemmBBlockCopyPerformanceParameters scenarioA =
          ⟨1, 64, 2, 2, 2, true⟩) ∧
      (tileA_fast.CalculateGemmABlockCopyPerformanceParameters scenarioA).ClusterLengths_GemmK *
            (tileA_fast.CalculateGemmABlockCopyPerformanceParameters
              scenarioA).ClusterLengths_GemmMN *
            (tileA_fast.CalculateGemmABlockCopyPerformanceParameters
              scenarioA).ClusterLengths_GemmKPack *
            lcm
              (max 1 ((tileA_fast.GemmKPerBlock * tileA_fast.GemmMPerBlock *
                tileA_fast.GemmKPack).tdiv tileA_fast.CalculateBlockSize.1))
              (tileA_fast.CalculateGemmABlockCopyPerformanceParameters
                scenarioA).SrcDataPerRead_GemmKPack =
          tileA_fast.GemmKPerBlock * tileA_fast.GemmMPerBlock * tileA_fast.GemmKPack ∧
      (tileA_fast.CalculateGemmBBlockCopyPerformanceParameters scenarioA).ClusterLengths_GemmK *
            (tileA_fast.CalculateGemmBBlockCopyPerformanceParameters
              scenarioA).ClusterLengths_GemmMN *
            (tileA_fast.CalculateGemmBBlockCopyPerformanceParameters
              scenarioA).ClusterLengths_GemmKPack *
            lcm
              (max 1 ((tileA_fast.GemmKPerBlock * tileA_fast.GemmNPerBlock *
                tileA_fast.GemmKPack).tdiv tileA_fast.CalculateBlockSize.1))
              (tileA_fast.CalculateGemmBBlockCopyPerformanceParameters
                scenarioA).SrcDataPerRead_GemmKPack =
          tileA_fast.GemmKPerBlock * tileA_fast.GemmNPerBlock * tileA_fast.GemmKPack :=
  ⟨⟨by decide, by decide⟩,
    ((block_copy_tiles_block_exactly tileA_fast scenarioA).1 (by decide)).1,
    ((block_copy_tiles_block_exactly tileA_fast scenarioA).2 (by decide)).1⟩

/-! ## Shared lemmas on the divisors of the performance filter -/

theorem option_ite_eq_some {c : Prop} [Decidable c] {x y : Option Bool} {a b : Bool}
    (hx : c → x = some a) (hy : ¬c → y = some b) :
    (if c then x else y) = some (if c then a else b) := by
  by_cases hc : c
  · rw [if_pos hc, if_pos hc]
    exact hx hc
  · rw [if_neg hc, if_neg hc]
    exact hy hc

theorem option_guard_eq_some {c : Prop} [Decidable c] {x : Option Bool} {a : Bool}
    (hc : ¬c) (hx : x = some a) : (if c then none else x) = some a := by
  rw [if_neg hc]
  exact hx

theorem IsFastToBeUsedForTuning_checked_eq (ratio_gt : FloatRatioTest)
    (t : PerformanceImplicitGemmWrwV4R4Xdlops_Padded_Gemm) (ctx : ConvolutionContext)
    (hMB : 0 < t.GemmMPerBlock) (hNB : 0 < t.GemmNPerBlock) (hMW : 0 < t.GemmMPerWave)
    (hNW : 0 < t.GemmNPerWave)
    (hP : to_size_t
      (max
        (gcd 256 (t.CalculateGemmSizeAndGemmKBlock ctx).gemm_m *
          gcd 128 (t.CalculateGemmSizeAndGemmKBlock ctx).gemm_n)
        (gcd 128 (t.CalculateGemmSizeAndGemmKBlock ctx).gemm_m *
          gcd 256 (t.CalculateGemmSizeAndGemmKBlock ctx).gemm_n)) ≠ 0)
    (hG : ((to_size_t (t.CalculateGemmSizeAndGemmKBlock ctx).gemm_m *
          to_size_t (t.CalculateGemmSizeAndGemmKBlock ctx).gemm_n) % 2 ^ 64) /
        to_size_t (max
          (gcd 256 (t.CalculateGemmSizeAndGemmKBlock ctx).gemm_m *
            gcd 128 (t.CalculateGemmSizeAndGemmKBlock ctx).gemm_n)
          (gcd 128 (t.CalculateGemmSizeAndGemmKBlock ctx).gemm_m *
            gcd 256 (t.CalculateGemmSizeAndGemmKBlock ctx).gemm_n)) ≠ 0) :
    t.IsFastToBeUsedForTuning_checked ratio_gt ctx =
      some (t.IsFastToBeUsedForTuning ratio_gt ctx) := by
  unfold IsFastToBeUsedForTuning_checked IsFastToBeUsedForTuning
  refine option_ite_eq_some (fun _ => rfl) (fun _ => ?_)
  simp only []
  refine option_guard_eq_some (ne_of_gt (mul_pos hMB hNB)) ?_
  refine option_guard_eq_some hP ?_
  refine option_guard_eq_some hG ?_
  refine option_ite_eq_some (fun _ => rfl) (fun _ => ?_)
  refine option_guard_eq_some (by omega) ?_
  refine option_ite_eq_some (fun _ => rfl) (fun hwave => ?_)
  refine option_guard_eq_some (by omega) ?_
  refine option_ite_eq_some (fun _ => rfl) (fun _ => ?_)
  refine option_guard_eq_some (by omega) ?_
  refine option_ite_eq_some (fun _ => rfl) (fun _ => ?_)
  refine option_guard_eq_some (by omega) ?_
  refine option_ite_eq_some (fun _ => rfl) (fun _ => ?_)
  refine option_guard_eq_some (by omega) ?_
  refine option_ite_eq_some (fun _ => rfl) (fun _ => ?_)
  have hblock : t.IsFastToBeUsedForTuning_block_size ≠ 0 := by
    unfold IsFastToBeUsedForTuning_block_size
    simp only [not_not] at hwave
    omega
  refine option_guard_eq_some hblock ?_
  refine option_ite_eq_some (fun _ => rfl) (fun _ => ?_)
  refine option_ite_eq_some (fun _ => ?_) (fun _ => ?_)
  · refine option_ite_eq_some (fun _ => rfl) (fun _ => ?_)
    exact option_ite_eq_some (fun _ => rfl) (fun _ => rfl)
  · refine option_ite_eq_some (fun _ => ?_) (fun _ => rfl)
    exact option_ite_eq_some (fun _ => rfl) (fun _ => rfl)

theorem size_t_product_cast (m n : Int) :
    (((to_size_t m * to_size_t n) % 2 ^ 64 : Nat) : Int) = (m * n) % 2 ^ 64 := by
  have hN : ((2 ^ 64 : Nat) : Int) = 2 ^ 64 := by norm_num
  rw [Int.natCast_mod, Nat.cast_mul, hN, to_size_t_cast, to_size_t_cast, ← Int.mul_emod]

theorem int_product_range {m n : Int} (hm1 : -2 ^ 31 ≤ m) (hm2 : m < 2 ^ 31)
    (hn1 : -2 ^ 31 ≤ n) (hn2 : n < 2 ^ 31) : -2 ^ 62 ≤ m * n ∧ m * n ≤ 2 ^ 62 := by
  constructor <;> nlinarith

theorem size_t_product_ge {m n P : Int} (hm1 : -2 ^ 31 ≤ m) (hm2 : m < 2 ^ 31)
    (hn1 : -2 ^ 31 ≤ n) (hn2 : n < 2 ^ 31) (hm : m ≠ 0) (hn : n ≠ 0) (hP : 0 < P)
    (hPle : P ≤ 32768) (hPd : P ∣ m * n) :
    P ≤ (m * n) % 2 ^ 64 ∧ (0 < m → 0 < n → (m * n) % 2 ^ 64 = m * n ∧ P ≤ m * n) := by
  obtain ⟨h1, h2⟩ := int_product_range hm1 hm2 hn1 hn2
  have hne : m * n ≠ 0 := mul_ne_zero hm hn
  have hpos : 0 < m * n → P ≤ m * n := fun h => Int.le_of_dvd h hPd
  constructor
  · rcases lt_or_gt_of_ne hne with h | h
    · norm_num at h1 h2 ⊢
      omega
    · have := hpos h
      norm_num at h1 h2 ⊢
      omega
  · intro h0m h0n
    have h := mul_pos h0m h0n
    refine ⟨Int.emod_eq_of_lt (le_of_lt h) ?_, hpos h⟩
    norm_num at h2 ⊢
    omega

theorem pad_up_nonneg {x F : Int} (hx : 0 ≤ x) (hF : 0 < F) :
    0 ≤ ((x - 1).tdiv F + 1) * F := by
  have h : -1 ≤ (x - 1).tdiv F := by
    rcases eq_or_lt_of_le hx with h0 | h0
    · rw [← h0]
      have : (1 : Int).tdiv F = 0 ∨ (1 : Int).tdiv F = 1 := by
        have a := Int.tdiv_nonneg (by norm_num : (0 : Int) ≤ 1) (le_of_lt hF)
        have b := tdiv_le_self_of_nonneg (by norm_num : (0 : Int) ≤ 1) (le_of_lt hF)
        omega
      have e : (0 - 1 : Int).tdiv F = -((1 : Int).tdiv F) := by
        rw [show (0 - 1 : Int) = -1 by norm_num, Int.neg_tdiv]
      omega
    · have := Int.tdiv_nonneg (by omega : (0 : Int) ≤ x - 1) (le_of_lt hF)
      omega
  exact mul_nonneg (by omega) (le_of_lt hF)

/-! ## The claim on the divisors of the performance filter -/

/-- C34: `IsFastToBeUsedForTuning` never divides by zero for a configuration with positive
tile fields (block and wave tiles) and a workload whose shape derivation succeeds, that
is, reports success with a non-zero divisor `grid_size_without_split_gemmk` in its own
division (source line 861), the derived `gemm_m` and `gemm_n` being `int` values. The
function with every divisor of its body tested returns the value of
`IsFastToBeUsedForTuning`, never `none`. The per-thread copy check is reached only after
the waves-per-block check `1 < wave_per_block <= 4` passed, and then its divisor
`block_size` is `wave_per_block * 64`, at least 128. The largest blockwise tile
`max_blockwise_gemm_size` is positive and at most the product `std::size_t(gemm_m) *
gemm_n` that the source divides by it, so `grid_size_max_blockwise_gemm`, the denominator
of the ratio, is at least 1; that product is `gemm_m * gemm_n` whenever `gemm_m` and
`gemm_n` are positive, and they are positive whenever the padding factors are positive
and the unpadded sizes `k / g` and `c / g * y * x` are not negative. -/
theorem IsFastToBeUsedForTuning_never_divides_by_zero (ratio_gt : FloatRatioTest)
    (t : PerformanceImplicitGemmWrwV4R4Xdlops_Padded_Gemm) (ctx : ConvolutionContext)
    (hMB : 0 < t.GemmMPerBlock) (hNB : 0 < t.GemmNPerBlock) (hMW : 0 < t.GemmMPerWave)
    (hNW : 0 < t.GemmNPerWave)
    (hv : (t.CalculateGemmSizeAndGemmKBlock ctx).valid = true)
    (hdef : t.grid_size_without_split_gemmk ctx ≠ 0)
    (hm : -2 ^ 31 ≤ (t.CalculateGemmSizeAndGemmKBlock ctx).gemm_m ∧
      (t.CalculateGemmSizeAndGemmKBlock ctx).gemm_m < 2 ^ 31)
    (hn : -2 ^ 31 ≤ (t.CalculateGemmSizeAndGemmKBlock ctx).gemm_n ∧
      (t.CalculateGemmSizeAndGemmKBlock ctx).gemm_n < 2 ^ 31) :
    t.IsFastToBeUsedForTuning_checked ratio_gt ctx =
        some (t.IsFastToBeUsedForTuning ratio_gt ctx) ∧
      (1 < (t.GemmMPerBlock.tdiv t.GemmMPerWave) * (t.GemmNPerBlock.tdiv t.GemmNPerWave) ∧
          (t.GemmMPerBlock.tdiv t.GemmMPerWave) * (t.GemmNPerBlock.tdiv t.GemmNPerWave) ≤ 4 →
        t.IsFastToBeUsedForTuning_block_size =
            (t.GemmMPerBlock.tdiv t.GemmMPerWave) * (t.GemmNPerBlock.tdiv t.GemmNPerWave) *
              64 ∧
          128 ≤ t.IsFastToBeUsedForTuning_block_size) ∧
      0 < max
          (gcd 256 (t.CalculateGemmSizeAndGemmKBlock ctx).gemm_m *
            gcd 128 (t.CalculateGemmSizeAndGemmKBlock ctx).gemm_n)
          (gcd 128 (t.CalculateGemmSizeAndGemmKBlock ctx).gemm_m *
            gcd 256 (t.CalculateGemmSizeAndGemmKBlock ctx).gemm_n) ∧
      0 < to_size_t (max
          (gcd 256 (t.CalculateGemmSizeAndGemmKBlock ctx).gemm_m *
            gcd 128 (t.CalculateGemmSizeAndGemmKBlock ctx).gemm_n)
          (gcd 128 (t.CalculateGemmSizeAndGemmKBlock ctx).gemm_m *
            gcd 256 (t.CalculateGemmSizeAndGemmKBlock ctx).gemm_n)) ∧
      to_size_t (max
          (gcd 256 (t.CalculateGemmSizeAndGemmKBlock ctx).gemm_m *
            gcd 128 (t.CalculateGemmSizeAndGemmKBlock ctx).gemm_n)
          (gcd 128 (t.CalculateGemmSizeAndGemmKBlock ctx).gemm_m *
            gcd 256 (t.CalculateGemmSizeAndGemmKBlock ctx).gemm_n)) ≤
        (to_size_t (t.CalculateGemmSizeAndGemmKBlock ctx).gemm_m *
          to_size_t (t.CalculateGemmSizeAndGemmKBlock ctx).gemm_n) % 2 ^ 64 ∧
      1 ≤ ((to_size_t (t.CalculateGemmSizeAndGemmKBlock ctx).gemm_m *
            to_size_t (t.CalculateGemmSizeAndGemmKBlock ctx).gemm_n) % 2 ^ 64) /
          to_size_t (max
            (gcd 256 (t.CalculateGemmSizeAndGemmKBlock ctx).gemm_m *
              gcd 128 (t.CalculateGemmSizeAndGemmKBlock ctx).gemm_n)
            (gcd 128 (t.CalculateGemmSizeAndGemmKBlock ctx).gemm_m *
              gcd 256 (t.CalculateGemmSizeAndGemmKBlock ctx).gemm_n)) ∧
      (0 < (t.CalculateGemmSizeAndGemmKBlock ctx).gemm_m →
        0 < (t.CalculateGemmSizeAndGemmKBlock ctx).gemm_n →
        ((((to_size_t (t.CalculateGemmSizeAndGemmKBlock ctx).gemm_m *
              to_size_t (t.CalculateGemmSizeAndGemmKBlock ctx).gemm_n) % 2 ^ 64 : Nat) : Int) =
            (t.CalculateGemmSizeAndGemmKBlock ctx).gemm_m *
              (t.CalculateGemmSizeAndGemmKBlock ctx).gemm_n ∧
          max
              (gcd 256 (t.CalculateGemmSizeAndGemmKBlock ctx).gemm_m *
                gcd 128 (t.CalculateGemmSizeAndGemmKBlock ctx).gemm_n)
              (gcd 128 (t.CalculateGemmSizeAndGemmKBlock ctx).gemm_m *
                gcd 256 (t.CalculateGemmSizeAndGemmKBlock ctx).gemm_n) ≤
            (t.CalculateGemmSizeAndGemmKBlock ctx).gemm_m *
              (t.CalculateGemmSizeAndGemmKBlock ctx).gemm_n)) ∧
      (0 < t.GemmMFactor → 0 ≤ ctx.GetOutputChannelK.tdiv ctx.GetGroupCountG →
        0 < (t.CalculateGemmSizeAndGemmKBlock ctx).gemm_m) ∧
      (0 < t.GemmNFactor →
        0 ≤ ctx.GetInputChannelC.tdiv ctx.GetGroupCountG * ctx.GetFilterHeightY *
          ctx.GetFilterWidthX →
        0 < (t.CalculateGemmSizeAndGemmKBlock ctx).gemm_n) := by
  obtain ⟨hgm, hgn⟩ := gemmSize_m_n_of_valid t ctx hv
  have hdef' : ctx.GetGroupCountG *
      ((t.CalculateGemmSizeAndGemmKBlock ctx).gemm_m.tdiv t.GemmMPerBlock) *
      ((t.CalculateGemmSizeAndGemmKBlock ctx).gemm_n.tdiv t.GemmNPerBlock) ≠ 0 := by
    rw [hgm, hgn]
    exact hdef
  have hm0 : (t.CalculateGemmSizeAndGemmKBlock ctx).gemm_m ≠ 0 := by
    intro h0
    rw [h0, Int.zero_tdiv, mul_zero, zero_mul] at hdef'
    exact hdef' rfl
  have hn0 : (t.CalculateGemmSizeAndGemmKBlock ctx).gemm_n ≠ 0 := by
    intro h0
    rw [h0, Int.zero_tdiv, mul_zero] at hdef'
    exact hdef' rfl
  have hmpos : 0 < t.GemmMFactor → 0 ≤ ctx.GetOutputChannelK.tdiv ctx.GetGroupCountG →
      0 < (t.CalculateGemmSizeAndGemmKBlock ctx).gemm_m := by
    intro hF hx
    have := pad_up_nonneg hx hF
    rw [← hgm] at this
    omega
  have hnpos : 0 < t.GemmNFactor →
      0 ≤ ctx.GetInputChannelC.tdiv ctx.GetGroupCountG * ctx.GetFilterHeightY *
        ctx.GetFilterWidthX →
      0 < (t.CalculateGemmSizeAndGemmKBlock ctx).gemm_n := by
    intro hF hx
    have := pad_up_nonneg hx hF
    rw [← hgn] at this
    omega
  generalize hmdef : (t.CalculateGemmSizeAndGemmKBlock ctx).gemm_m = m at *
  generalize hndef : (t.CalculateGemmSizeAndGemmKBlock ctx).gemm_n = n at *
  obtain ⟨hP0, hPle, hPd⟩ := max_blockwise_gemm_size_facts m n
  generalize hPdef : max (gcd 256 m * gcd 128 n) (gcd 128 m * gcd 256 n) = P at *
  obtain ⟨hge, hposcase⟩ := size_t_product_ge hm.1 hm.2 hn.1 hn.2 hm0 hn0 hP0 hPle hPd
  have hPcast : (to_size_t P : Int) = P := by
    rw [to_size_t_cast, Int.emod_eq_of_lt (le_of_lt hP0) (by omega)]
  have hNcast := size_t_product_cast m n
  have hPnat : 0 < to_size_t P := by
    have : (0 : Int) < (to_size_t P : Int) := by rw [hPcast]; exact hP0
    exact_mod_cast this
  have hle : to_size_t P ≤ (to_size_t m * to_size_t n) % 2 ^ 64 := by
    have : (to_size_t P : Int) ≤ (((to_size_t m * to_size_t n) % 2 ^ 64 : Nat) : Int) := by
      rw [hPcast, hNcast]
      exact hge
    exact_mod_cast this
  have hG : 1 ≤ ((to_size_t m * to_size_t n) % 2 ^ 64) / to_size_t P :=
    (Nat.one_le_div_iff hPnat).mpr hle
  refine ⟨?_, ?_, hP0, hPnat, hle, hG, ?_, hmpos, hnpos⟩
  · subst hPdef hmdef hndef
    exact IsFastToBeUsedForTuning_checked_eq ratio_gt t ctx hMB hNB hMW hNW
      (Nat.pos_iff_ne_zero.mp hPnat) (Nat.one_le_iff_ne_zero.mp hG)
  · intro hw
    unfold IsFastToBeUsedForTuning_block_size
    exact ⟨rfl, by omega⟩
  · intro h0m h0n
    obtain ⟨e, hle'⟩ := hposcase h0m h0n
    exact ⟨by rw [hNcast, e], hle'⟩

/-- Witness of C34: Scenario A with `tileA_fast`, where `gemm_m = 64`, `gemm_n = 576`,
the largest blockwise tile is 4096, `grid_size_max_blockwise_gemm = 9`, the block has two
waves and `block_size = 128`; the tested function returns `some true`. For comparison,
`tileA_noWave` has positive tile fields and `block_size = 0`: the waves-per-block check
returns false before the per-thread copy check divides; with `GemmMPerWave = 0` the
tested function reports the division by zero; and with `GemmMFactor = 1` and no output
channel, where `gemm_m = 0` and the shape derivation divides by
`grid_size_without_split_gemmk = 0` itself, the denominator of the ratio is zero as
well. -/
theorem IsFastToBeUsedForTuning_never_divides_by_zero_witness :
    ((0 < tileA_fast.GemmMPerBlock ∧ 0 < tileA_fast.GemmNPerBlock ∧
          0 < tileA_fast.GemmMPerWave ∧ 0 < tileA_fast.GemmNPerWave) ∧
        (tileA_fast.CalculateGemmSizeAndGemmKBlock scenarioA).valid = true ∧
        tileA_fast.grid_size_without_split_gemmk scenarioA = 9 ∧
        (tileA_fast.CalculateGemmSizeAndGemmKBlock scenarioA).gemm_m = 64 ∧
        (tileA_fast.CalculateGemmSizeAndGemmKBlock scenarioA).gemm_n = 576) ∧
      tileA_fast.IsFastToBeUsedForTuning_checked exactRatioTest scenarioA = some true ∧
      tileA_fast.IsFastToBeUsedForTuning_block_size = 128 ∧
      max
          (gcd 256 (tileA_fast.CalculateGemmSizeAndGemmKBlock scenarioA).gemm_m *
            gcd 128 (tileA_fast.CalculateGemmSizeAndGemmKBlock scenarioA).gemm_n)
          (gcd 128 (tileA_fast.CalculateGemmSizeAndGemmKBlock scenarioA).gemm_m *
            gcd 256 (tileA_fast.CalculateGemmSizeAndGemmKBlock scenarioA).gemm_n) = 4096 ∧
      ((to_size_t (tileA_fast.CalculateGemmSizeAndGemmKBlock scenarioA).gemm_m *
            to_size_t (tileA_fast.CalculateGemmSizeAndGemmKBlock scenarioA).gemm_n) % 2 ^ 64) /
          to_size_t (max
            (gcd 256 (tileA_fast.CalculateGemmSizeAndGemmKBlock scenarioA).gemm_m *
              gcd 128 (tileA_fast.CalculateGemmSizeAndGemmKBlock scenarioA).gemm_n)
            (gcd 128 (tileA_fast.CalculateGemmSizeAndGemmKBlock scenarioA).gemm_m *
              gcd 256 (tileA_fast.CalculateGemmSizeAndGemmKBlock scenarioA).gemm_n)) = 9 ∧
      (tileA_noWave.IsFastToBeUsedForTuning_block_size = 0 ∧
        tileA_noWave.IsFastToBeUsedForTuning_checked exactRatioTest scenarioA = some false) ∧
      ({ tileA_fast with GemmMPerWave := 0 } :
        PerformanceImplicitGemmWrwV4R4Xdlops_Padded_Gemm).IsFastToBeUsedForTuning_checked
          exactRatioTest scenarioA = none ∧
      ((({ tileA_fast with GemmMFactor := 1 } :
            PerformanceImplicitGemmWrwV4R4Xdlops_Padded_Gemm).CalculateGemmSizeAndGemmKBlock
              { scenarioA with GetOutputChannelK := 0 }).gemm_m = 0 ∧
        ({ tileA_fast with GemmMFactor := 1 } :
            PerformanceImplicitGemmWrwV4R4Xdlops_Padded_Gemm).grid_size_without_split_gemmk
              { scenarioA with GetOutputChannelK := 0 } = 0 ∧
        ({ tileA_fast with GemmMFactor := 1 } :
            PerformanceImplicitGemmWrwV4R4Xdlops_Padded_Gemm).IsFastToBeUsedForTuning_checked
              exactRatioTest { scenarioA with GetOutputChannelK := 0 } = none) :=
  ⟨⟨⟨by decide, by decide, by decide, by decide⟩, by decide, by decide, by decide, by decide⟩,
    (IsFastToBeUsedForTuning_never_divides_by_zero exactRatioTest tileA_fast scenarioA
      (by decide) (by decide) (by decide) (by decide) (by decide) (by decide)
      (by decide) (by decide)).1.trans (congrArg some (by decide)),
    by decide, by decide, by decide, ⟨by decide, by decide⟩, by decide,
    ⟨by decide, by decide, by decide⟩⟩

/-! ## Shared lemmas on the divisors of the shape derivation -/

theorem gemmKBlockLoop_checked_eq (t : PerformanceImplicitGemmWrwV4R4Xdlops_Padded_Gemm)
    (n ho wo : Int) (hKF : t.GemmKTotalFactor ≠ 0)
    (hKK : t.GemmKPerBlock * t.GemmKPack ≠ 0) (j : Nat) :
    gemmKBlockLoop_checked t n ho wo j = some (gemmKBlockLoop t n ho wo j) := by
  induction j with
  | zero => rfl
  | succ j ih =>
    rw [gemmKBlockLoop_checked, gemmKBlockLoop]
    simp only []
    split_ifs <;> first | rfl | exact ih

theorem CalculateGemmSizeAndGemmKBlock_checked_spec
    (t : PerformanceImplicitGemmWrwV4R4Xdlops_Padded_Gemm) (ctx : ConvolutionContext)
    (hg : ctx.GetGroupCountG ≠ 0) (hMF : t.GemmMFactor ≠ 0) (hNF : t.GemmNFactor ≠ 0)
    (hMB : t.GemmMPerBlock ≠ 0) (hNB : t.GemmNPerBlock ≠ 0) (hKF : t.GemmKTotalFactor ≠ 0)
    (hKK : t.GemmKPerBlock * t.GemmKPack ≠ 0) :
    (¬((((ctx.GetOutputChannelK.tdiv ctx.GetGroupCountG - 1).tdiv t.GemmMFactor + 1) *
            t.GemmMFactor).tmod t.GemmMPerBlock = 0 ∧
          (((ctx.GetInputChannelC.tdiv ctx.GetGroupCountG * ctx.GetFilterHeightY *
            ctx.GetFilterWidthX - 1).tdiv t.GemmNFactor + 1) *
            t.GemmNFactor).tmod t.GemmNPerBlock = 0) →
        t.CalculateGemmSizeAndGemmKBlock_checked ctx = some gemmSizeFailure) ∧
      (((((ctx.GetOutputChannelK.tdiv ctx.GetGroupCountG - 1).tdiv t.GemmMFactor + 1) *
            t.GemmMFactor).tmod t.GemmMPerBlock = 0 ∧
          (((ctx.GetInputChannelC.tdiv ctx.GetGroupCountG * ctx.GetFilterHeightY *
            ctx.GetFilterWidthX - 1).tdiv t.GemmNFactor + 1) *
            t.GemmNFactor).tmod t.GemmNPerBlock = 0) →
        (t.grid_size_without_split_gemmk ctx = 0 →
          t.CalculateGemmSizeAndGemmKBlock_checked ctx = none) ∧
        (t.grid_size_without_split_gemmk ctx ≠ 0 →
          t.CalculateGemmSizeAndGemmKBlock_checked ctx =
            some (t.CalculateGemmSizeAndGemmKBlock ctx))) := by
  constructor
  · intro hdiv
    unfold CalculateGemmSizeAndGemmKBlock_checked
    simp only []
    rw [if_neg hg, if_neg hMF, if_neg hNF, if_neg hMB, if_neg (fun h => hNB h.2), if_pos hdiv]
  · intro hdiv
    constructor
    · intro h0
      unfold grid_size_without_split_gemmk at h0
      unfold CalculateGemmSizeAndGemmKBlock_checked
      simp only [] at h0 ⊢
      rw [if_neg hg, if_neg hMF, if_neg hNF, if_neg hMB, if_neg (fun h => hNB h.2),
        if_neg (not_not.mpr hdiv), if_pos h0]
    · intro h0
      unfold grid_size_without_split_gemmk at h0
      unfold CalculateGemmSizeAndGemmKBlock_checked CalculateGemmSizeAndGemmKBlock
      simp only [] at h0 ⊢
      rw [if_neg hg, if_neg hMF, if_neg hNF, if_neg hMB, if_neg (fun h => hNB h.2),
        if_neg (not_not.mpr hdiv), if_neg h0, if_neg (not_not.mpr hdiv),
        gemmKBlockLoop_checked_eq t _ _ _ hKF hKK]
      split_ifs <;> rfl

theorem pad_up_eq_zero_iff {x F : Int} (hx : 0 ≤ x) (hF : 0 < F) :
    ((x - 1).tdiv F + 1) * F = 0 ↔ (x = 0 ∧ F = 1) := by
  constructor
  · intro h
    have h1 : (x - 1).tdiv F + 1 = 0 := by
      rcases mul_eq_zero.mp h with h | h
      · exact h
      · omega
    by_cases hx0 : x = 0
    · refine ⟨hx0, ?_⟩
      by_contra hF1
      rw [hx0, show (0 - 1 : Int) = -1 by norm_num, Int.neg_tdiv,
        Int.tdiv_eq_zero_of_lt (by norm_num) (by omega : (1 : Int) < F)] at h1
      omega
    · have := Int.tdiv_nonneg (by omega : (0 : Int) ≤ x - 1) (le_of_lt hF)
      omega
  · rintro ⟨rfl, rfl⟩
    decide

theorem tdiv_eq_zero_iff_of_dvd {a b : Int} (h : a.tmod b = 0) : a.tdiv b = 0 ↔ a = 0 := by
  have e := Int.tdiv_mul_cancel (Int.dvd_of_tmod_eq_zero h)
  constructor
  · intro h0
    rw [h0, zero_mul] at e
    exact e.symm
  · intro h0
    rw [h0, Int.zero_tdiv]

/-! ## The claim on the failure of the shape derivation -/

/-- C7 fails as stated: for `scenarioA_twoGroups_oneOutputChannel` (two groups, one output
channel, every extent positive) and `tileA_unitMFactor` (every field positive, accepted by
`IsValidValue`, `GemmMFactor = 1`) the padded `gemm_m = ((1/2 - 1)/1 + 1)*1` is 0, a
multiple of `GemmMPerBlock`, and the padded `gemm_n = 320` is a multiple of
`GemmNPerBlock = 64`, so the function does not fail; but
`grid_size_without_split_gemmk = 2 * (0/64) * (320/64)` is 0 and the division of source
line 861 divides by zero: the function returns neither the failure tuple nor ok. -/
theorem CalculateGemmSizeAndGemmKBlock_divides_by_zero_without_output_channel :
    (0 < scenarioA_twoGroups_oneOutputChannel.GetGroupCountG ∧
        0 < scenarioA_twoGroups_oneOutputChannel.GetBatchN ∧
        0 < scenarioA_twoGroups_oneOutputChannel.GetOutputChannelK ∧
        0 < scenarioA_twoGroups_oneOutputChannel.GetInputChannelC ∧
        0 < scenarioA_twoGroups_oneOutputChannel.GetOutputHeightHo ∧
        0 < scenarioA_twoGroups_oneOutputChannel.GetOutputWidthWo ∧
        0 < scenarioA_twoGroups_oneOutputChannel.GetFilterHeightY ∧
        0 < scenarioA_twoGroups_oneOutputChannel.GetFilterWidthX) ∧
      (0 < tileA_unitMFactor.GemmMPerBlock ∧ 0 < tileA_unitMFactor.GemmNPerBlock ∧
        0 < tileA_unitMFactor.GemmKPerBlock ∧ 0 < tileA_unitMFactor.GemmMPerWave ∧
        0 < tileA_unitMFactor.GemmNPerWave ∧ 0 < tileA_unitMFactor.GemmKPack ∧
        0 < tileA_unitMFactor.GemmMFactor ∧ 0 < tileA_unitMFactor.GemmNFactor ∧
        0 < tileA_unitMFactor.GemmKTotalFactor ∧ tileA_unitMFactor.IsValidValue = true) ∧
      ((scenarioA_twoGroups_oneOutputChannel.GetOutputChannelK.tdiv
            scenarioA_twoGroups_oneOutputChannel.GetGroupCountG - 1).tdiv
          tileA_unitMFactor.GemmMFactor + 1) * tileA_unitMFactor.GemmMFactor = 0 ∧
      ((scenarioA_twoGroups_oneOutputChannel.GetInputChannelC.tdiv
              scenarioA_twoGroups_oneOutputChannel.GetGroupCountG *
            scenarioA_twoGroups_oneOutputChannel.GetFilterHeightY *
            scenarioA_twoGroups_oneOutputChannel.GetFilterWidthX - 1).tdiv
          tileA_unitMFactor.GemmNFactor + 1) * tileA_unitMFactor.GemmNFactor = 320 ∧
      (0 : Int).tmod tileA_unitMFactor.GemmMPerBlock = 0 ∧
      (320 : Int).tmod tileA_unitMFactor.GemmNPerBlock = 0 ∧
      tileA_unitMFactor.grid_size_without_split_gemmk
        scenarioA_twoGroups_oneOutputChannel = 0 ∧
      tileA_unitMFactor.CalculateGemmSizeAndGemmKBlock_checked
        scenarioA_twoGroups_oneOutputChannel = none ∧
      ¬(∃ r, tileA_unitMFactor.CalculateGemmSizeAndGemmKBlock_checked
        scenarioA_twoGroups_oneOutputChannel = some r) := by
  refine ⟨by decide, by decide, by decide, by decide, by decide, by decide, by decide,
    by decide, ?_⟩
  rintro ⟨r, hr⟩
  have h : tileA_unitMFactor.CalculateGemmSizeAndGemmKBlock_checked
      scenarioA_twoGroups_oneOutputChannel = none := by decide
  rw [h] at hr
  exact absurd hr (by simp)

/-- C7, amended: for every workload with positive group count, batch, channels and extents
and every configuration with positive fields, the products and padded sizes that source
lines 844 to 895 form and the budget `20 * computeUnits` being `int` values (below
`2 ^ 31`), `CalculateGemmSizeAndGemmKBlock` fails, with the tuple of eight `-1` and
`false`, if and only if the padded `gemm_m` is not a multiple
of `GemmMPerBlock` or the padded `gemm_n` is not a multiple of `GemmNPerBlock`. When both
are multiples it returns ok, whatever the K-total is, and the tuple is the one of the
plain function, unless a padded size is 0: then the division of source line 861 divides
by zero and the function does not return. The padded `gemm_m` is 0 exactly when
`outChannels / groups = 0` and `GemmMFactor = 1`, the padded `gemm_n` exactly when
`inChannels / groups * filterH * filterW = 0` and `GemmNFactor = 1`. -/
theorem CalculateGemmSizeAndGemmKBlock_fails_iff
    (t : PerformanceImplicitGemmWrwV4R4Xdlops_Padded_Gemm) (ctx : ConvolutionContext)
    (hg : 0 < ctx.GetGroupCountG) (_hn : 0 < ctx.GetBatchN)
    (hk : 0 < ctx.GetOutputChannelK) (hc : 0 < ctx.GetInputChannelC)
    (_hho : 0 < ctx.GetOutputHeightHo) (_hwo : 0 < ctx.GetOutputWidthWo)
    (hy : 0 < ctx.GetFilterHeightY) (hx : 0 < ctx.GetFilterWidthX)
    (hMB : 0 < t.GemmMPerBlock) (hNB : 0 < t.GemmNPerBlock) (hKB : 0 < t.GemmKPerBlock)
    (_hMW : 0 < t.GemmMPerWave) (_hNW : 0 < t.GemmNPerWave) (hKP : 0 < t.GemmKPack)
    (hMF : 0 < t.GemmMFactor) (hNF : 0 < t.GemmNFactor) (hKF : 0 < t.GemmKTotalFactor)
    (_hr1 : ctx.GetInputChannelC.tdiv ctx.GetGroupCountG * ctx.GetFilterHeightY *
      ctx.GetFilterWidthX < 2 ^ 31)
    (_hr2 : ((ctx.GetOutputChannelK.tdiv ctx.GetGroupCountG - 1).tdiv t.GemmMFactor + 1) *
      t.GemmMFactor < 2 ^ 31)
    (_hr3 : ((ctx.GetInputChannelC.tdiv ctx.GetGroupCountG * ctx.GetFilterHeightY *
      ctx.GetFilterWidthX - 1).tdiv t.GemmNFactor + 1) * t.GemmNFactor < 2 ^ 31)
    (_hr4 : t.grid_size_without_split_gemmk ctx < 2 ^ 31)
    (_hr5 : 20 * (ctx.GetMaxComputeUnits : Int) < 2 ^ 31)
    (_hr6 : ctx.GetBatchN * ctx.GetOutputHeightHo * ctx.GetOutputWidthWo +
      t.GemmKTotalFactor ≤ 2 ^ 31)
    (_hr7 : t.GemmKPerBlock * t.GemmKPack < 2 ^ 31)
    (_hr8 : ctx.GetGroupCountG * ctx.GetBatchN < 2 ^ 31) :
    (t.CalculateGemmSizeAndGemmKBlock_checked ctx = some gemmSizeFailure ↔
        ((((ctx.GetOutputChannelK.tdiv ctx.GetGroupCountG - 1).tdiv t.GemmMFactor + 1) *
              t.GemmMFactor).tmod t.GemmMPerBlock ≠ 0 ∨
          (((ctx.GetInputChannelC.tdiv ctx.GetGroupCountG * ctx.GetFilterHeightY *
              ctx.GetFilterWidthX - 1).tdiv t.GemmNFactor + 1) *
              t.GemmNFactor).tmod t.GemmNPerBlock ≠ 0)) ∧
      gemmSizeFailure =
        { gemm_g := -1, gemm_m := -1, gemm_n := -1, gemm_k_total := -1, gemm_k_block := -1,
          gemm_m_pad := -1, gemm_n_pad := -1, gemm_k_total_pad := -1, valid := false } ∧
      (t.CalculateGemmSizeAndGemmKBlock_checked ctx = none ↔
        ((((ctx.GetOutputChannelK.tdiv ctx.GetGroupCountG - 1).tdiv t.GemmMFactor + 1) *
              t.GemmMFactor).tmod t.GemmMPerBlock = 0 ∧
          (((ctx.GetInputChannelC.tdiv ctx.GetGroupCountG * ctx.GetFilterHeightY *
              ctx.GetFilterWidthX - 1).tdiv t.GemmNFactor + 1) *
              t.GemmNFactor).tmod t.GemmNPerBlock = 0) ∧
        (((ctx.GetOutputChannelK.tdiv ctx.GetGroupCountG - 1).tdiv t.GemmMFactor + 1) *
              t.GemmMFactor = 0 ∨
          ((ctx.GetInputChannelC.tdiv ctx.GetGroupCountG * ctx.GetFilterHeightY *
              ctx.GetFilterWidthX - 1).tdiv t.GemmNFactor + 1) * t.GemmNFactor = 0)) ∧
      ((∃ r, t.CalculateGemmSizeAndGemmKBlock_checked ctx = some r ∧ r.valid = true) ↔
        ((((ctx.GetOutputChannelK.tdiv ctx.GetGroupCountG - 1).tdiv t.GemmMFactor + 1) *
              t.GemmMFactor).tmod t.GemmMPerBlock = 0 ∧
          (((ctx.GetInputChannelC.tdiv ctx.GetGroupCountG * ctx.GetFilterHeightY *
              ctx.GetFilterWidthX - 1).tdiv t.GemmNFactor + 1) *
              t.GemmNFactor).tmod t.GemmNPerBlock = 0) ∧
        ((ctx.GetOutputChannelK.tdiv ctx.GetGroupCountG - 1).tdiv t.GemmMFactor + 1) *
              t.GemmMFactor ≠ 0 ∧
          ((ctx.GetInputChannelC.tdiv ctx.GetGroupCountG * ctx.GetFilterHeightY *
              ctx.GetFilterWidthX - 1).tdiv t.GemmNFactor + 1) * t.GemmNFactor ≠ 0) ∧
      (∀ r, t.CalculateGemmSizeAndGemmKBlock_checked ctx = some r →
        r = t.CalculateGemmSizeAndGemmKBlock ctx) ∧
      (((ctx.GetOutputChannelK.tdiv ctx.GetGroupCountG - 1).tdiv t.GemmMFactor + 1) *
            t.GemmMFactor = 0 ↔
        (ctx.GetOutputChannelK.tdiv ctx.GetGroupCountG = 0 ∧ t.GemmMFactor = 1)) ∧
      (((ctx.GetInputChannelC.tdiv ctx.GetGroupCountG * ctx.GetFilterHeightY *
            ctx.GetFilterWidthX - 1).tdiv t.GemmNFactor + 1) * t.GemmNFactor = 0 ↔
        (ctx.GetInputChannelC.tdiv ctx.GetGroupCountG * ctx.GetFilterHeightY *
            ctx.GetFilterWidthX = 0 ∧ t.GemmNFactor = 1)) := by
  have hspec := CalculateGemmSizeAndGemmKBlock_checked_spec t ctx (ne_of_gt hg)
    (ne_of_gt hMF) (ne_of_gt hNF) (ne_of_gt hMB) (ne_of_gt hNB) (ne_of_gt hKF)
    (ne_of_gt (mul_pos hKB hKP))
  have hkg : 0 ≤ ctx.GetOutputChannelK.tdiv ctx.GetGroupCountG :=
    Int.tdiv_nonneg (le_of_lt hk) (le_of_lt hg)
  have hcg : 0 ≤ ctx.GetInputChannelC.tdiv ctx.GetGroupCountG * ctx.GetFilterHeightY *
      ctx.GetFilterWidthX :=
    mul_nonneg (mul_nonneg (Int.tdiv_nonneg (le_of_lt hc) (le_of_lt hg)) (le_of_lt hy))
      (le_of_lt hx)
  have hfail : gemmSizeFailure.valid = false := rfl
  have hplain := gemmSize_valid_iff t ctx
  have hnosplit : t.grid_size_without_split_gemmk ctx =
      ctx.GetGroupCountG *
        (((ctx.GetOutputChannelK.tdiv ctx.GetGroupCountG - 1).tdiv t.GemmMFactor + 1) *
          t.GemmMFactor).tdiv t.GemmMPerBlock *
        (((ctx.GetInputChannelC.tdiv ctx.GetGroupCountG * ctx.GetFilterHeightY *
          ctx.GetFilterWidthX - 1).tdiv t.GemmNFactor + 1) *
          t.GemmNFactor).tdiv t.GemmNPerBlock := rfl
  generalize hgm : ((ctx.GetOutputChannelK.tdiv ctx.GetGroupCountG - 1).tdiv t.GemmMFactor +
    1) * t.GemmMFactor = gm at *
  generalize hgn : ((ctx.GetInputChannelC.tdiv ctx.GetGroupCountG * ctx.GetFilterHeightY *
    ctx.GetFilterWidthX - 1).tdiv t.GemmNFactor + 1) * t.GemmNFactor = gn at *
  have hzero : ∀ hdiv : gm.tmod t.GemmMPerBlock = 0 ∧ gn.tmod t.GemmNPerBlock = 0,
      (t.grid_size_without_split_gemmk ctx = 0 ↔ (gm = 0 ∨ gn = 0)) := by
    intro hdiv
    rw [hnosplit, mul_eq_zero, mul_eq_zero, tdiv_eq_zero_iff_of_dvd hdiv.1,
      tdiv_eq_zero_iff_of_dvd hdiv.2]
    constructor
    · rintro ((h | h) | h)
      · omega
      · exact Or.inl h
      · exact Or.inr h
    · rintro (h | h)
      · exact Or.inl (Or.inr h)
      · exact Or.inr h
  refine ⟨?_, rfl, ?_, ?_, ?_, ?_, ?_⟩
  · constructor
    · intro h
      by_contra hcon
      push_neg at hcon
      by_cases h0 : t.grid_size_without_split_gemmk ctx = 0
      · rw [(hspec.2 hcon).1 h0] at h
        exact absurd h (by simp)
      · rw [(hspec.2 hcon).2 h0] at h
        have hv := hplain.mpr hcon
        rw [Option.some.inj h] at hv
        exact absurd hv (by decide)
    · intro h
      refine hspec.1 ?_
      rintro ⟨h1, h2⟩
      rcases h with h | h
      · exact h h1
      · exact h h2
  · constructor
    · intro h
      by_cases hdiv : gm.tmod t.GemmMPerBlock = 0 ∧ gn.tmod t.GemmNPerBlock = 0
      · refine ⟨hdiv, (hzero hdiv).mp ?_⟩
        by_contra h0
        rw [(hspec.2 hdiv).2 h0] at h
        exact absurd h (by simp)
      · rw [hspec.1 hdiv] at h
        exact absurd h (by simp)
    · rintro ⟨hdiv, h0⟩
      exact (hspec.2 hdiv).1 ((hzero hdiv).mpr h0)
  · constructor
    · rintro ⟨r, hr, hrv⟩
      by_cases hdiv : gm.tmod t.GemmMPerBlock = 0 ∧ gn.tmod t.GemmNPerBlock = 0
      · refine ⟨hdiv, ?_⟩
        by_contra h0
        have h0' : gm = 0 ∨ gn = 0 := by
          by_contra hcon
          push_neg at hcon
          exact h0 hcon
        rw [(hspec.2 hdiv).1 ((hzero hdiv).mpr h0')] at hr
        exact absurd hr (by simp)
      · rw [hspec.1 hdiv] at hr
        rw [← Option.some.inj hr] at hrv
        exact absurd hrv (by decide)
    · rintro ⟨hdiv, h1, h2⟩
      have h0 : t.grid_size_without_split_gemmk ctx ≠ 0 := by
        intro h
        rcases (hzero hdiv).mp h with h | h
        · exact h1 h
        · exact h2 h
      exact ⟨_, (hspec.2 hdiv).2 h0, hplain.mpr hdiv⟩
  · intro r hr
    by_cases hdiv : gm.tmod t.GemmMPerBlock = 0 ∧ gn.tmod t.GemmNPerBlock = 0
    · by_cases h0 : t.grid_size_without_split_gemmk ctx = 0
      · rw [(hspec.2 hdiv).1 h0] at hr
        exact absurd hr (by simp)
      · rw [(hspec.2 hdiv).2 h0] at hr
        exact (Option.some.inj hr).symm
    · rw [hspec.1 hdiv] at hr
      rw [← Option.some.inj hr]
      exact (gemmSize_failure_of_not t ctx (by rw [hgm, hgn]; exact hdiv)).symm
  · rw [← hgm]
    exact pad_up_eq_zero_iff hkg hMF
  · rw [← hgn]
    exact pad_up_eq_zero_iff hcg hNF

/-- Witness of the amended C7: Scenario A satisfies the positivity hypotheses and, with
`tileA` and with `tileA_M128`, the range hypotheses; the shape
derivation returns ok for `tileA` and fails, with the tuple of `-1`, for the 128-row block
tile. -/
theorem CalculateGemmSizeAndGemmKBlock_fails_iff_witness :
    (0 < scenarioA.GetGroupCountG ∧ 0 < scenarioA.GetBatchN ∧
        0 < scenarioA.GetOutputChannelK ∧ 0 < scenarioA.GetInputChannelC ∧
        0 < scenarioA.GetOutputHeightHo ∧ 0 < scenarioA.GetOutputWidthWo ∧
        0 < scenarioA.GetFilterHeightY ∧ 0 < scenarioA.GetFilterWidthX) ∧
      (∃ r, tileA.CalculateGemmSizeAndGemmKBlock_checked scenarioA = some r ∧
        r.valid = true) ∧
      tileA.CalculateGemmSizeAndGemmKBlock_checked scenarioA =
        some
          { gemm_g := 32, gemm_m := 64, gemm_n := 576, gemm_k_total := 208,
            gemm_k_block := 32, gemm_m_pad := 0, gemm_n_pad := 0, gemm_k_total_pad := 12,
            valid := true } ∧
      tileA_M128.CalculateGemmSizeAndGemmKBlock_checked scenarioA =
        some
          { gemm_g := -1, gemm_m := -1, gemm_n := -1, gemm_k_total := -1,
            gemm_k_block := -1, gemm_m_pad := -1, gemm_n_pad := -1, gemm_k_total_pad := -1,
            valid := false } :=
  ⟨by decide,
    (CalculateGemmSizeAndGemmKBlock_fails_iff tileA scenarioA (by decide) (by decide)
      (by decide) (by decide) (by decide) (by decide) (by decide) (by decide) (by decide)
      (by decide) (by decide) (by decide) (by decide) (by decide) (by decide) (by decide)
      (by decide) (by decide) (by decide) (by decide) (by decide) (by decide) (by decide)
      (by decide) (by decide)).2.2.2.1.mpr (by decide),
    by decide,
    (CalculateGemmSizeAndGemmKBlock_fails_iff tileA_M128 scenarioA (by decide) (by decide)
      (by decide) (by decide) (by decide) (by decide) (by decide) (by decide) (by decide)
      (by decide) (by decide) (by decide) (by decide) (by decide) (by decide) (by decide)
      (by decide) (by decide) (by decide) (by decide) (by decide) (by decide) (by decide)
      (by decide) (by decide)).1.mpr (by decide)⟩

/-! ## Shared lemmas on the descent order -/

theorem twoPower_lt_iff_digit {L a b : Int} {da db : Nat} (hL : 0 < L)
    (ha : a = L * 2 ^ da) (hb : b = L * 2 ^ db) :
    (a < b ↔ da < db) ∧ (a = b ↔ da = db) := by
  have hpow : (2 : Int) ^ da < 2 ^ db ↔ da < db :=
    pow_lt_pow_iff_right₀ (by norm_num : (1 : Int) < 2)
  have hinj : (2 : Int) ^ da = 2 ^ db ↔ da = db :=
    ⟨fun h => Nat.pow_right_injective (le_refl 2) (by exact_mod_cast h), fun h => by rw [h]⟩
  constructor
  · rw [ha, hb, ← hpow]
    exact mul_lt_mul_left hL
  · rw [ha, hb, ← hinj]
    exact ⟨fun h => mul_left_cancel₀ (ne_of_gt hL) h, fun h => by rw [h]⟩

theorem descentIndex_lt_iff {ctx : ConvolutionContext} {KPackL KPackH : Int} {count : Nat}
    (hK : IsHeuristicKPackRange ctx KPackL KPackH count)
    (u v : PerformanceImplicitGemmWrwV4R4Xdlops_Padded_Gemm)
    (hu : InDescentLattice KPackL KPackH u) (hv : InDescentLattice KPackL KPackH v) :
    descentIndex KPackL count v < descentIndex KPackL count u ↔ descentDigitsGreater u v := by
  obtain ⟨hcount, -, -, kpf⟩ := heuristicRange_facts hK
  have hL : 0 < KPackL := by
    rcases hK with ⟨_, rfl, -, -⟩ | ⟨_, rfl, -, -⟩ | ⟨_, rfl, -, -⟩ <;> norm_num
  obtain ⟨umb, unb, ukb, umw, unw, ukp, -⟩ := hu
  obtain ⟨vmb, vnb, vkb, vmw, vnw, vkp, -⟩ := hv
  obtain ⟨a1, -, -, -, -, f1⟩ := twoPower_4_256 _ umb
  obtain ⟨a2, -, -, -, -, f2⟩ := twoPower_4_256 _ unb
  obtain ⟨a3, -, -, -, -, f3⟩ := twoPower_1_8 _ ukb
  obtain ⟨a4, -, -, -, -, f4⟩ := twoPower_4_128 _ umw
  obtain ⟨a5, -, -, -, -, f5⟩ := twoPower_4_128 _ unw
  obtain ⟨a6, -, -, f6, -⟩ := kpf _ ukp
  obtain ⟨b1, -, -, -, -, g1⟩ := twoPower_4_256 _ vmb
  obtain ⟨b2, -, -, -, -, g2⟩ := twoPower_4_256 _ vnb
  obtain ⟨b3, -, -, -, -, g3⟩ := twoPower_1_8 _ vkb
  obtain ⟨b4, -, -, -, -, g4⟩ := twoPower_4_128 _ vmw
  obtain ⟨b5, -, -, -, -, g5⟩ := twoPower_4_128 _ vnw
  obtain ⟨b6, -, -, g6, -⟩ := kpf _ vkp
  obtain ⟨l1, e1⟩ := twoPower_lt_iff_digit (by norm_num : (0 : Int) < 4) g1 f1
  obtain ⟨l2, e2⟩ := twoPower_lt_iff_digit (by norm_num : (0 : Int) < 4) g2 f2
  obtain ⟨l3, e3⟩ := twoPower_lt_iff_digit (by norm_num : (0 : Int) < 1) g3 f3
  obtain ⟨l4, e4⟩ := twoPower_lt_iff_digit (by norm_num : (0 : Int) < 4) g4 f4
  obtain ⟨l5, e5⟩ := twoPower_lt_iff_digit (by norm_num : (0 : Int) < 4) g5 f5
  obtain ⟨l6, e6⟩ := twoPower_lt_iff_digit hL g6 f6
  unfold descentDigitsGreater descentIndex
  rw [l1, e1, l2, e2, l3, l4, e4, l5, e5, l6, e6]
  rcases hcount with rfl | rfl <;> omega

theorem heuristicCandidate_order {ctx : ConvolutionContext} {KPackL KPackH : Int}
    {count : Nat} (hK : IsHeuristicKPackRange ctx KPackL KPackH count) (j1 j2 : Nat)
    (h12 : j1 < j2) (h2 : j2 < 7056 * count) :
    descentOrderBefore (heuristicSeed KPackH)
      (heuristicCandidate KPackL KPackH j1 (heuristicSeed KPackH))
      (heuristicCandidate KPackL KPackH j2 (heuristicSeed KPackH)) := by
  obtain ⟨hlat, hidx, hlast, -⟩ := heuristicCandidate_enumerates hK
  have i1 := hidx j1 (by omega)
  constructor
  · intro h
    have h' : heuristicCandidate KPackL KPackH j1 (heuristicSeed KPackH) =
        heuristicCandidate KPackL KPackH (7056 * count - 1) (heuristicSeed KPackH) := by
      rw [hlast, h]
    have := heuristicCandidate_injective hK j1 (7056 * count - 1) (by omega) (by omega) h'
    omega
  · by_cases hl : j2 + 1 < 7056 * count
    · right
      have i2 := hidx j2 hl
      exact (descentIndex_lt_iff hK _ _ (hlat j1 (by omega)) (hlat j2 h2)).mp (by omega)
    · left
      have : j2 = 7056 * count - 1 := by omega
      rw [this, hlast]

/-! ## The claim on the first valid and fast configuration of the descent -/

/-- C20: for every fp32, fp16 or bfp16 workload, if some configuration of the descent
lattice satisfies both `IsReallyValid` and `IsFastToBeUsedForTuning`, then `HeuristicInit`
returns (for every iteration budget of at least 21168) a configuration `res` of the
lattice satisfying both, and it is the first such configuration in descent order: every
other configuration of the lattice that satisfies both comes after `res` in the order
`descentOrderBefore`, in which the seed is last and otherwise the configuration that is
larger at the most significant differing digit comes first, `GemmKPerBlock` being the
least significant digit, then `GemmKPack`, `GemmNPerWave`, `GemmMPerWave`,
`GemmNPerBlock` and `GemmMPerBlock`. The candidates that the descent evaluates, one
reverse step from the seed before each evaluation, follow that order: candidate number 0
is the seed with `GemmKPerBlock` halved, an earlier candidate precedes a later one, the
candidates are exactly the points of the lattice, and the seed itself is the last one;
`res` is the candidate number `k` and no earlier candidate satisfies both. -/
theorem HeuristicInit_first_valid_and_fast (xdlops : BlockwiseGemmXdlopsCheck)
    (ratio_gt : FloatRatioTest) (fuel : Nat)
    (self : PerformanceImplicitGemmWrwV4R4Xdlops_Padded_Gemm) (ctx : ConvolutionContext)
    (KPackL KPackH : Int) (count : Nat)
    (hK : IsHeuristicKPackRange ctx KPackL KPackH count) (hfuel : 21168 ≤ fuel)
    (hex : ∃ u, InDescentLattice KPackL KPackH u ∧ u.IsReallyValid xdlops ctx = true ∧
      u.IsFastToBeUsedForTuning ratio_gt ctx = true) :
    (∃ res k, HeuristicInit xdlops ratio_gt fuel self ctx = some res ∧
        InDescentLattice KPackL KPackH res ∧
        res.IsReallyValid xdlops ctx = true ∧
        res.IsFastToBeUsedForTuning ratio_gt ctx = true ∧
        (∀ u, InDescentLattice KPackL KPackH u → u.IsReallyValid xdlops ctx = true →
          u.IsFastToBeUsedForTuning ratio_gt ctx = true → u ≠ res →
          descentOrderBefore (heuristicSeed KPackH) res u) ∧
        k < 7056 * count ∧
        res = heuristicCandidate KPackL KPackH k (heuristicSeed KPackH) ∧
        ∀ j : Nat, j < k →
          ¬((heuristicCandidate KPackL KPackH j (heuristicSeed KPackH)).IsReallyValid
                xdlops ctx = true ∧
            (heuristicCandidate KPackL KPackH j
                (heuristicSeed KPackH)).IsFastToBeUsedForTuning ratio_gt ctx = true)) ∧
      heuristicCandidate KPackL KPackH 0 (heuristicSeed KPackH) =
        { heuristicSeed KPackH with GemmKPerBlock := 4 } ∧
      (∀ j1 j2 : Nat, j1 < j2 → j2 < 7056 * count →
        descentOrderBefore (heuristicSeed KPackH)
          (heuristicCandidate KPackL KPackH j1 (heuristicSeed KPackH))
          (heuristicCandidate KPackL KPackH j2 (heuristicSeed KPackH))) ∧
      (∀ j : Nat, j < 7056 * count →
        InDescentLattice KPackL KPackH
          (heuristicCandidate KPackL KPackH j (heuristicSeed KPackH))) ∧
      (∀ u, InDescentLattice KPackL KPackH u →
        ∃ j : Nat, j < 7056 * count ∧
          heuristicCandidate KPackL KPackH j (heuristicSeed KPackH) = u) ∧
      heuristicCandidate KPackL KPackH (7056 * count - 1) (heuristicSeed KPackH) =
        heuristicSeed KPackH := by
  have hcount : 7056 * count ≤ fuel := by
    rcases (heuristicRange_facts hK).1 with rfl | rfl <;> omega
  obtain ⟨hlat, -, hlastc, hcover⟩ := heuristicCandidate_enumerates hK
  refine ⟨?_, ?_, fun j1 j2 h12 h2 => heuristicCandidate_order hK j1 j2 h12 h2, hlat,
    hcover, hlastc⟩
  swap
  · rw [heuristicCandidate,
      heuristicDescentStep_of_KPerBlock KPackL KPackH (heuristicSeed KPackH)
        (by show (8 : Int) ≠ 1; decide)]
    rfl
  obtain ⟨r1, k1, e1, hk1, hr1, hbefore, hlast⟩ := get_euristic_config_result hK
    (fun config => config.IsReallyValid xdlops ctx &&
      config.IsFastToBeUsedForTuning ratio_gt ctx) fuel hcount defaultConfig
  have hboth : (r1.IsReallyValid xdlops ctx &&
      r1.IsFastToBeUsedForTuning ratio_gt ctx) = true := by
    rcases hlast with h | h
    · exact h
    · obtain ⟨u, hu, huv, huf⟩ := hex
      obtain ⟨j, hj, rfl⟩ := hcover u hu
      by_cases hjk : j < k1
      · have := hbefore j hjk
        simp only [] at this
        rw [huv, huf] at this
        exact absurd this (by decide)
      · have : j = k1 := by omega
        rw [hr1, ← this, huv, huf]
        rfl
  simp only [Bool.and_eq_true] at hboth
  have hnone : ∀ j : Nat, j < k1 →
      ¬((heuristicCandidate KPackL KPackH j (heuristicSeed KPackH)).IsReallyValid
            xdlops ctx = true ∧
        (heuristicCandidate KPackL KPackH j
            (heuristicSeed KPackH)).IsFastToBeUsedForTuning ratio_gt ctx = true) := by
    intro j hj hc
    have := hbefore j hj
    simp only [] at this
    rw [hc.1, hc.2] at this
    exact absurd this (by decide)
  refine ⟨r1, k1, ?_, ?_, hboth.1, hboth.2, ?_, hk1, hr1, hnone⟩
  · rw [HeuristicInit_eq xdlops ratio_gt fuel self r1 e1, if_neg (not_not.mpr hboth.1)]
  · rw [hr1]
    exact hlat k1 hk1
  · intro u hu huv huf hne
    obtain ⟨j, hj, rfl⟩ := hcover u hu
    have hjk : k1 < j := by
      rcases Nat.lt_trichotomy j k1 with h | h | h
      · exact absurd ⟨huv, huf⟩ (hnone j h)
      · rw [h, ← hr1] at hne
        exact absurd rfl hne
      · exact h
    rw [hr1]
    exact heuristicCandidate_order hK k1 j hjk hj

theorem HeuristicInit_scenarioA_256_1x1 :
    HeuristicInit xdlopsAcceptAll exactRatioTest 21168 defaultConfig scenarioA_256_1x1 =
      some ⟨256, 128, 4, 128, 64, 4, 16, 64, 16, false, true⟩ := by
  set_option maxRecDepth 100000 in decide

/-- Witness of C20: `scenarioA_256_1x1` with a matrix-core predicate that accepts every
tile and the exact rational test, where `tile_256_1x1_fast` is really valid and fast:
`HeuristicInit` returns `{256, 128, 4, 128, 64, 4, 16, 64, 16, false, true}`, which is
really valid and fast, and every other configuration of the fp32 lattice that is really
valid and fast comes after it in the descent order. -/
theorem HeuristicInit_first_valid_and_fast_witness :
    (IsHeuristicKPackRange scenarioA_256_1x1 1 4 3 ∧
        InDescentLattice 1 4 tile_256_1x1_fast ∧
        tile_256_1x1_fast.IsReallyValid xdlopsAcceptAll scenarioA_256_1x1 = true ∧
        tile_256_1x1_fast.IsFastToBeUsedForTuning exactRatioTest scenarioA_256_1x1 = true) ∧
      HeuristicInit xdlopsAcceptAll exactRatioTest 21168 defaultConfig scenarioA_256_1x1 =
        some ⟨256, 128, 4, 128, 64, 4, 16, 64, 16, false, true⟩ ∧
      (⟨256, 128, 4, 128, 64, 4, 16, 64, 16, false, true⟩ :
        PerformanceImplicitGemmWrwV4R4Xdlops_Padded_Gemm).IsReallyValid xdlopsAcceptAll
          scenarioA_256_1x1 = true ∧
      (⟨256, 128, 4, 128, 64, 4, 16, 64, 16, false, true⟩ :
        PerformanceImplicitGemmWrwV4R4Xdlops_Padded_Gemm).IsFastToBeUsedForTuning
          exactRatioTest scenarioA_256_1x1 = true ∧
      (∀ u, InDescentLattice 1 4 u → u.IsReallyValid xdlopsAcceptAll scenarioA_256_1x1 = true →
        u.IsFastToBeUsedForTuning exactRatioTest scenarioA_256_1x1 = true →
        u ≠ ⟨256, 128, 4, 128, 64, 4, 16, 64, 16, false, true⟩ →
        descentOrderBefore (heuristicSeed 4)
          ⟨256, 128, 4, 128, 64, 4, 16, 64, 16, false, true⟩ u) ∧
      descentOrderBefore (heuristicSeed 4)
        ⟨256, 128, 4, 128, 64, 4, 16, 64, 16, false, true⟩ tile_256_1x1_fast := by
  have hK : IsHeuristicKPackRange scenarioA_256_1x1 1 4 3 := Or.inl ⟨rfl, rfl, rfl, rfl⟩
  have hl : InDescentLattice 1 4 tile_256_1x1_fast := by unfold InDescentLattice; decide
  have hv : tile_256_1x1_fast.IsReallyValid xdlopsAcceptAll scenarioA_256_1x1 = true := by
    decide
  have hf : tile_256_1x1_fast.IsFastToBeUsedForTuning exactRatioTest scenarioA_256_1x1 =
      true := by decide
  obtain ⟨res, k, hres, -, hrv, hrf, hfirst, -⟩ :=
    (HeuristicInit_first_valid_and_fast xdlopsAcceptAll exactRatioTest 21168 defaultConfig
      scenarioA_256_1x1 1 4 3 hK (le_refl _) ⟨tile_256_1x1_fast, hl, hv, hf⟩).1
  have hX : res = ⟨256, 128, 4, 128, 64, 4, 16, 64, 16, false, true⟩ := by
    rw [HeuristicInit_scenarioA_256_1x1] at hres
    exact (Option.some.inj hres).symm
  subst hX
  exact ⟨⟨hK, hl, hv, hf⟩, hres, hrv, hrf, hfirst, hfirst _ hl hv hf (by decide)⟩

/-! ## The claim on the grid budget of the K split -/

/-- C30: K-splitting never pushes the grid past the budget. For every workload and
configuration for which `CalculateGridSize` succeeds, that is, reports success with a
non-zero divisor `grid_size_without_split_gemmk` in the division of source line 861, the
derived `gemm_m` and `gemm_n`, the grid size without the K split and the budget
`20 * computeUnits` being `int` values: with `gridSizeNoSplit = groups *
(gemm_m / GemmMPerBlock) * (gemm_n / GemmNPerBlock)`, which is the divisor of line 861,
`GridSize = gemm_k_block * gridSizeNoSplit <= max(20 * computeUnits, gridSizeNoSplit)`,
`gemm_k_block = 1` whenever `gridSizeNoSplit > 20 * computeUnits`, and
`1 <= gemm_k_block`; and `gridSizeNoSplit >= 1` whenever `groups >= 1`, the block tiles
`GemmMPerBlock`, `GemmNPerBlock` and the factors `GemmMFactor`, `GemmNFactor` are
positive, as for every configuration the source passes to the function, and the unpadded
sizes `outChannels / groups` and `inChannels / groups * filterH * filterW` are not
negative. -/
theorem GridSize_within_budget (t : PerformanceImplicitGemmWrwV4R4Xdlops_Padded_Gemm)
    (ctx : ConvolutionContext) (hv : (t.CalculateGridSize ctx).2 = true)
    (hdef : t.grid_size_without_split_gemmk ctx ≠ 0)
    (_hm : -2 ^ 31 ≤ (t.CalculateGemmSizeAndGemmKBlock ctx).gemm_m ∧
      (t.CalculateGemmSizeAndGemmKBlock ctx).gemm_m < 2 ^ 31)
    (_hn : -2 ^ 31 ≤ (t.CalculateGemmSizeAndGemmKBlock ctx).gemm_n ∧
      (t.CalculateGemmSizeAndGemmKBlock ctx).gemm_n < 2 ^ 31)
    (_hS : -2 ^ 31 ≤ t.grid_size_without_split_gemmk ctx ∧
      t.grid_size_without_split_gemmk ctx < 2 ^ 31)
    (_hcu : 20 * (ctx.GetMaxComputeUnits : Int) < 2 ^ 31) :
    ctx.GetGroupCountG *
          ((t.CalculateGemmSizeAndGemmKBlock ctx).gemm_m.tdiv t.GemmMPerBlock) *
          ((t.CalculateGemmSizeAndGemmKBlock ctx).gemm_n.tdiv t.GemmNPerBlock) =
        t.grid_size_without_split_gemmk ctx ∧
      (t.CalculateGridSize ctx).1 =
        (t.CalculateGemmSizeAndGemmKBlock ctx).gemm_k_block *
          (ctx.GetGroupCountG *
            ((t.CalculateGemmSizeAndGemmKBlock ctx).gemm_m.tdiv t.GemmMPerBlock) *
            ((t.CalculateGemmSizeAndGemmKBlock ctx).gemm_n.tdiv t.GemmNPerBlock)) ∧
      (t.CalculateGridSize ctx).1 ≤
        max (20 * (ctx.GetMaxComputeUnits : Int))
          (ctx.GetGroupCountG *
            ((t.CalculateGemmSizeAndGemmKBlock ctx).gemm_m.tdiv t.GemmMPerBlock) *
            ((t.CalculateGemmSizeAndGemmKBlock ctx).gemm_n.tdiv t.GemmNPerBlock)) ∧
      (ctx.GetGroupCountG *
            ((t.CalculateGemmSizeAndGemmKBlock ctx).gemm_m.tdiv t.GemmMPerBlock) *
            ((t.CalculateGemmSizeAndGemmKBlock ctx).gemm_n.tdiv t.GemmNPerBlock) >
          20 * (ctx.GetMaxComputeUnits : Int) →
        (t.CalculateGemmSizeAndGemmKBlock ctx).gemm_k_block = 1) ∧
      1 ≤ (t.CalculateGemmSizeAndGemmKBlock ctx).gemm_k_block ∧
      (1 ≤ ctx.GetGroupCountG → 0 < t.GemmMPerBlock → 0 < t.GemmNPerBlock →
        0 < t.GemmMFactor → 0 < t.GemmNFactor →
        0 ≤ ctx.GetOutputChannelK.tdiv ctx.GetGroupCountG →
        0 ≤ ctx.GetInputChannelC.tdiv ctx.GetGroupCountG * ctx.GetFilterHeightY *
          ctx.GetFilterWidthX →
        1 ≤ ctx.GetGroupCountG *
          ((t.CalculateGemmSizeAndGemmKBlock ctx).gemm_m.tdiv t.GemmMPerBlock) *
          ((t.CalculateGemmSizeAndGemmKBlock ctx).gemm_n.tdiv t.GemmNPerBlock)) := by
  have hval := CalculateGridSize_valid t ctx hv
  have hgrid := CalculateGridSize_of_valid t ctx hval
  have hg := (gemmSize_fields_of_valid t ctx hval).1
  have hcu : (0 : Int) ≤ 20 * (ctx.GetMaxComputeUnits : Int) := by positivity
  obtain ⟨hgm, hgn⟩ := gemmSize_m_n_of_valid t ctx hval
  have hSdef : ctx.GetGroupCountG *
      ((t.CalculateGemmSizeAndGemmKBlock ctx).gemm_m.tdiv t.GemmMPerBlock) *
      ((t.CalculateGemmSizeAndGemmKBlock ctx).gemm_n.tdiv t.GemmNPerBlock) =
      t.grid_size_without_split_gemmk ctx := by
    rw [hgm, hgn]
    rfl
  have hlast : 1 ≤ ctx.GetGroupCountG → 0 < t.GemmMPerBlock → 0 < t.GemmNPerBlock →
      0 < t.GemmMFactor → 0 < t.GemmNFactor →
      0 ≤ ctx.GetOutputChannelK.tdiv ctx.GetGroupCountG →
      0 ≤ ctx.GetInputChannelC.tdiv ctx.GetGroupCountG * ctx.GetFilterHeightY *
        ctx.GetFilterWidthX →
      1 ≤ ctx.GetGroupCountG *
        ((t.CalculateGemmSizeAndGemmKBlock ctx).gemm_m.tdiv t.GemmMPerBlock) *
        ((t.CalculateGemmSizeAndGemmKBlock ctx).gemm_n.tdiv t.GemmNPerBlock) := by
    intro hG hMB hNB hMF hNF hm hn
    have m0 := pad_up_nonneg hm hMF
    have n0 := pad_up_nonneg hn hNF
    rw [← hgm] at m0
    rw [← hgn] at n0
    have a1 := Int.tdiv_nonneg m0 (le_of_lt hMB)
    have a2 := Int.tdiv_nonneg n0 (le_of_lt hNB)
    have h0 := mul_nonneg (mul_nonneg (by omega : (0 : Int) ≤ ctx.GetGroupCountG) a1) a2
    have hne := hdef
    rw [← hSdef] at hne
    omega
  generalize hS : ctx.GetGroupCountG *
      ((t.CalculateGemmSizeAndGemmKBlock ctx).gemm_m.tdiv t.GemmMPerBlock) *
      ((t.CalculateGemmSizeAndGemmKBlock ctx).gemm_n.tdiv t.GemmNPerBlock) = S at *
  have hprod : (t.CalculateGridSize ctx).1 =
      (t.CalculateGemmSizeAndGemmKBlock ctx).gemm_k_block * S := by
    rw [hgrid, hg, ← hS]
    simp only []
    ring
  have key := gemm_k_block_spec t ctx hval _ (by rw [hS])
  generalize (t.CalculateGemmSizeAndGemmKBlock ctx).gemm_k_block = kb at *
  have hkb : kb = 1 ∨ (1 < kb ∧ kb ≤ (20 * (ctx.GetMaxComputeUnits : Int)).tdiv S) := by
    rcases key with ⟨e, -⟩ | ⟨h1, h2, -, -⟩
    · exact Or.inl e
    · right
      refine ⟨h1, ?_⟩
      have h3 := le_trans h2 (min_le_left _ _)
      rcases le_max_iff.mp h3 with h4 | h4
      · exact h4
      · omega
  refine ⟨hSdef, hprod, ?_, ?_, ?_, hlast⟩
  · rw [hprod]
    rcases hkb with e | ⟨h1, h2⟩
    · rw [e, one_mul]
      exact le_max_right _ _
    · obtain ⟨hSpos, hle⟩ := tdiv_large_of_nonneg (b := S) hcu (by omega)
      have : kb * S ≤ (20 * (ctx.GetMaxComputeUnits : Int)).tdiv S * S :=
        Int.mul_le_mul_of_nonneg_right h2 (le_of_lt hSpos)
      exact le_trans (le_trans this hle) (le_max_left _ _)
  · intro hgt
    rcases hkb with e | ⟨h1, h2⟩
    · exact e
    · rw [Int.tdiv_eq_zero_of_lt hcu hgt] at h2
      omega
  · rcases hkb with e | ⟨h1, h2⟩ <;> omega

/-- Witness of C30: Scenario A with `tileA`, where the grid size without the K split is
9, `gemm_k_block = 32` and `GridSize = 288 <= max(1200, 9)`. -/
theorem GridSize_within_budget_witness :
    tileA.CalculateGridSize scenarioA = (288, true) ∧
      tileA.grid_size_without_split_gemmk scenarioA = 9 ∧
      (tileA.CalculateGemmSizeAndGemmKBlock scenarioA).gemm_k_block = 32 ∧
      (tileA.CalculateGridSize scenarioA).1 ≤
        max (20 * (scenarioA.GetMaxComputeUnits : Int))
          (scenarioA.GetGroupCountG *
            ((tileA.CalculateGemmSizeAndGemmKBlock scenarioA).gemm_m.tdiv
              tileA.GemmMPerBlock) *
            ((tileA.CalculateGemmSizeAndGemmKBlock scenarioA).gemm_n.tdiv
              tileA.GemmNPerBlock)) ∧
      1 ≤ scenarioA.GetGroupCountG *
          ((tileA.CalculateGemmSizeAndGemmKBlock scenarioA).gemm_m.tdiv
            tileA.GemmMPerBlock) *
          ((tileA.CalculateGemmSizeAndGemmKBlock scenarioA).gemm_n.tdiv
            tileA.GemmNPerBlock) :=
  ⟨by decide, by decide, by decide,
    (GridSize_within_budget tileA scenarioA (by decide) (by decide) (by decide) (by decide)
      (by decide) (by decide)).2.2.1,
    (GridSize_within_budget tileA scenarioA (by decide) (by decide) (by decide) (by decide)
      (by decide) (by decide)).2.2.2.2.2 (by decide) (by decide) (by decide) (by decide)
      (by decide) (by decide) (by decide)⟩

end solver
end miopen
